import Mathlib

/-!
# rtw89 PHY control core (`phy.c`): embedding and verified properties

The C functions of `phy.c` are embedded as Lean functions with explicit state
passing.  Machine integers are natural numbers (or integers for `s8`) with the
truncation written out where the C code stores into a narrower type.

Declarations that live in headers which are not part of the sources
(`phy.h`, `core.h`: field-extraction macros, opcode and enum constants, chip
tables) are parameters of the model and are collected in structures.
-/

namespace Rtw89

/-! ## Machine integers -/

/-- Truncation of a value stored into a `u8`. -/
def u8 (x : Nat) : Nat := x % 256

/-- Truncation of a value stored into a `u32`. -/
def u32 (x : Nat) : Nat := x % 2 ^ 32

/-- Conversion of an `int` to `s8` (two's complement wrap). -/
def s8 (x : Int) : Int := (x + 128) % 256 - 128

/-- The errno value `EINVAL`. -/
def EINVAL : Int := 22

/-! ## Conditional register tables -/

/-- One record of a register table (`struct rtw89_reg2_def`). -/
structure rtw89_reg2_def where
  addr : Nat
  data : Nat
deriving DecidableEq, Repr

/-- A register table (`struct rtw89_phy_table`); `n_regs` is the length of `regs`. -/
structure rtw89_phy_table where
  regs : List rtw89_reg2_def
  rf_path : Nat
deriving DecidableEq, Repr

/-- Number of records of a table (`table->n_regs`). -/
def rtw89_phy_table.n_regs (table : rtw89_phy_table) : Nat := table.regs.length

/-- The macros and constants of `phy.h` used by the table loader.  The header is
not part of the sources, so the bit layout is a parameter of the model. -/
structure PhyCondDefs where
  get_phy_headline : Nat → Nat
  get_phy_target : Nat → Nat
  get_phy_compare : Nat → Nat → Nat
  get_phy_cond : Nat → Nat
  get_phy_cond_rfe : Nat → Nat
  get_phy_cond_cut : Nat → Nat
  PHY_HEADLINE_VALID : Nat
  PHY_COND_DONT_CARE : Nat
  PHY_COND_BRANCH_IF : Nat
  PHY_COND_BRANCH_ELIF : Nat
  PHY_COND_BRANCH_ELSE : Nat
  PHY_COND_BRANCH_END : Nat
  PHY_COND_CHECK : Nat

/-- A concrete instance of the `phy.h` parameters, used to evaluate the model on
concrete tables: headline/opcode in bits 31..28, target in bits 27..0, RFE in
bits 23..16, cut in bits 7..0. -/
def phyStd : PhyCondDefs where
  get_phy_headline := fun addr => (addr / 2 ^ 28) % 16
  get_phy_target := fun addr => addr % 2 ^ 28
  get_phy_compare := fun rfe cv => (rfe % 256) * 2 ^ 16 + cv % 256
  get_phy_cond := fun addr => (addr / 2 ^ 28) % 16
  get_phy_cond_rfe := fun addr => (addr / 2 ^ 16) % 256
  get_phy_cond_cut := fun addr => addr % 256
  PHY_HEADLINE_VALID := 0xf
  PHY_COND_DONT_CARE := 0xff
  PHY_COND_BRANCH_IF := 0x8
  PHY_COND_BRANCH_ELIF := 0x9
  PHY_COND_BRANCH_ELSE := 0xa
  PHY_COND_BRANCH_END := 0xb
  PHY_COND_CHECK := 0x4

/-- The `u32 target` read from a record: `get_phy_target(reg->addr)`. -/
def reg_target (m : PhyCondDefs) (reg : rtw89_reg2_def) : Nat :=
  u32 (m.get_phy_target reg.addr)

/-- The `u8 rfe_para` read from a record: `get_phy_cond_rfe(reg->addr)`. -/
def reg_rfe (m : PhyCondDefs) (reg : rtw89_reg2_def) : Nat :=
  u8 (m.get_phy_cond_rfe reg.addr)

/-- The `u8 cut_para` read from a record: `get_phy_cond_cut(reg->addr)`. -/
def reg_cut (m : PhyCondDefs) (reg : rtw89_reg2_def) : Nat :=
  u8 (m.get_phy_cond_cut reg.addr)

/-- First loop of `rtw89_phy_sel_headline`: count the leading records whose
headline field is `PHY_HEADLINE_VALID`, starting at index `i`. -/
def headline_scan (m : PhyCondDefs) : List rtw89_reg2_def → Nat → Nat
  | [], i => i
  | reg :: rest, i =>
    if u32 (m.get_phy_headline reg.addr) ≠ m.PHY_HEADLINE_VALID then i
    else headline_scan m rest (i + 1)

/-- The value stored in `*headline_size` by `rtw89_phy_sel_headline`. -/
def phy_headline_size (m : PhyCondDefs) (table : rtw89_phy_table) : Nat :=
  headline_scan m table.regs 0

/-- The headline block of a table: its first `headline_size` records. -/
def phy_headline (m : PhyCondDefs) (table : rtw89_phy_table) : List rtw89_reg2_def :=
  table.regs.take (phy_headline_size m table)

/-- Loops of case 1 and case 2 of `rtw89_phy_sel_headline`: the first index
whose target equals `compare`, scanning from index `i`. -/
def target_scan (m : PhyCondDefs) (compare : Nat) : List rtw89_reg2_def → Nat → Option Nat
  | [], _ => none
  | reg :: rest, i =>
    if reg_target m reg = compare then some i
    else target_scan m compare rest (i + 1)

/-- Local variables carried through the loops of case 3 and case 4. -/
structure CutScan where
  cut_max : Nat
  headline_idx : Nat
  case_matched : Bool
deriving DecidableEq, Repr

/-- Loops of case 3 and case 4 of `rtw89_phy_sel_headline`: among the records
whose RFE field equals `rfe`, remember the last one whose cut is `>= cut_max`. -/
def cut_scan (m : PhyCondDefs) (rfe : Nat) : List rtw89_reg2_def → Nat → CutScan → CutScan
  | [], _, st => st
  | reg :: rest, i, st =>
    if reg_rfe m reg = rfe then
      if reg_cut m reg ≥ st.cut_max then
        cut_scan m rfe rest (i + 1) ⟨reg_cut m reg, i, true⟩
      else cut_scan m rfe rest (i + 1) st
    else cut_scan m rfe rest (i + 1) st

/-- Result of `rtw89_phy_sel_headline`: the return value and the two
out-parameters. -/
structure SelHeadline where
  ret : Int
  headline_size : Nat
  headline_idx : Nat
deriving DecidableEq, Repr

/-- The function `rtw89_phy_sel_headline`.  `headline_idx0` is the value
`*headline_idx` holds on entry; it is kept when the function does not store. -/
def rtw89_phy_sel_headline (m : PhyCondDefs) (table : rtw89_phy_table)
    (headline_idx0 : Nat) (rfe cut : Nat) : SelHeadline :=
  let headline_size := phy_headline_size m table
  if headline_size = 0 then ⟨0, headline_size, headline_idx0⟩
  else
    let hl := table.regs.take headline_size
    -- case 1: RFE match, CUT match
    match target_scan m (u32 (m.get_phy_compare rfe cut)) hl 0 with
    | some i => ⟨0, headline_size, i⟩
    | none =>
      -- case 2: RFE match, CUT don't care
      match target_scan m (u32 (m.get_phy_compare rfe m.PHY_COND_DONT_CARE)) hl 0 with
      | some i => ⟨0, headline_size, i⟩
      | none =>
        -- case 3: RFE match, CUT max in table
        let st3 := cut_scan m rfe hl 0 ⟨0, headline_idx0, false⟩
        if st3.case_matched then ⟨0, headline_size, st3.headline_idx⟩
        else
          -- case 4: RFE don't care, CUT max in table
          let st4 := cut_scan m m.PHY_COND_DONT_CARE hl 0 st3
          if st4.case_matched then ⟨0, headline_size, st4.headline_idx⟩
          else ⟨-EINVAL, headline_size, st4.headline_idx⟩

/-! ## Replay of the conditional program: `rtw89_phy_init_reg` -/

/-- The arms of `switch (cond)` in `rtw89_phy_init_reg`. -/
inductive CondCase where
  | branch
  | branch_else
  | branch_end
  | check
  | other
deriving DecidableEq, Repr

/-- Dispatch of `switch (cond)` with `cond = get_phy_cond(reg->addr)` stored in a
`u8`.  The case labels are tried in source order (`IF`, `ELIF`, `ELSE`, `END`,
`CHECK`, `default`); C requires them to be pairwise distinct. -/
def phy_cond_case (m : PhyCondDefs) (reg : rtw89_reg2_def) : CondCase :=
  let cond := u8 (m.get_phy_cond reg.addr)
  if cond = m.PHY_COND_BRANCH_IF ∨ cond = m.PHY_COND_BRANCH_ELIF then CondCase.branch
  else if cond = m.PHY_COND_BRANCH_ELSE then CondCase.branch_else
  else if cond = m.PHY_COND_BRANCH_END then CondCase.branch_end
  else if cond = m.PHY_COND_CHECK then CondCase.check
  else CondCase.other

/-- Local variables of `rtw89_phy_init_reg` together with the device state
`dev` threaded through the writer `config`.  `calls` is a ghost log of the
indices `i` at which `config(rtwdev, &table->regs[i], ...)` was invoked, in
order; `returned` records that the function left the loop by `return`. -/
structure InitRegState (σ : Type) where
  target : Nat
  is_matched : Bool
  target_found : Bool
  returned : Bool
  calls : List Nat
  dev : σ

/-- The `for` loop of `rtw89_phy_init_reg` over the records still to be replayed;
`i` is the index of the first of them. -/
def init_reg_loop {σ : Type} (m : PhyCondDefs)
    (config : rtw89_reg2_def → Nat → σ → σ) (rf_path cfg_target : Nat) :
    List rtw89_reg2_def → Nat → InitRegState σ → InitRegState σ
  | [], _, st => st
  | reg :: rest, i, st =>
    match phy_cond_case m reg with
    | CondCase.branch =>
      init_reg_loop m config rf_path cfg_target rest (i + 1)
        { st with target := reg_target m reg }
    | CondCase.branch_else =>
      if !st.target_found then { st with is_matched := false, returned := true }
      else init_reg_loop m config rf_path cfg_target rest (i + 1)
        { st with is_matched := false }
    | CondCase.branch_end =>
      init_reg_loop m config rf_path cfg_target rest (i + 1)
        { st with is_matched := true, target_found := false }
    | CondCase.check =>
      if st.target_found then
        init_reg_loop m config rf_path cfg_target rest (i + 1)
          { st with is_matched := false }
      else if st.target = cfg_target then
        init_reg_loop m config rf_path cfg_target rest (i + 1)
          { st with is_matched := true, target_found := true }
      else
        init_reg_loop m config rf_path cfg_target rest (i + 1)
          { st with is_matched := false, target_found := false }
    | CondCase.other =>
      if st.is_matched then
        init_reg_loop m config rf_path cfg_target rest (i + 1)
          { st with calls := st.calls ++ [i], dev := config reg rf_path st.dev }
      else init_reg_loop m config rf_path cfg_target rest (i + 1) st

/-- The values of the locals of `rtw89_phy_init_reg` when the loop is entered. -/
def init_reg_start {σ : Type} (dev : σ) : InitRegState σ :=
  ⟨0, true, false, false, [], dev⟩

/-- The value `cfg_target = get_phy_target(table->regs[headline_idx].addr)`.
For a table without records the C code reads past the array; the value is then
never used because the loop body does not run. -/
def phy_cfg_target (m : PhyCondDefs) (table : rtw89_phy_table) (headline_idx : Nat) : Nat :=
  match table.regs.get? headline_idx with
  | some reg => reg_target m reg
  | none => 0

/-- The function `rtw89_phy_init_reg`: select the headline for `rfe = 1`,
`cut = 1` and replay the program part of the table through `config`. -/
def rtw89_phy_init_reg {σ : Type} (m : PhyCondDefs) (table : rtw89_phy_table)
    (config : rtw89_reg2_def → Nat → σ → σ) (dev : σ) : InitRegState σ :=
  let rfe := 1
  let cut := 1
  let sel := rtw89_phy_sel_headline m table 0 rfe cut
  if sel.ret ≠ 0 then { init_reg_start dev with returned := true }
  else
    let cfg_target := phy_cfg_target m table sel.headline_idx
    init_reg_loop m config table.rf_path cfg_target
      (table.regs.drop sel.headline_size) sel.headline_size (init_reg_start dev)

/-! ## Writers -/

/-- Externally visible actions of the writers. -/
inductive HwEvent where
  | mdelay (ms : Nat)
  | udelay (us : Nat)
  | phy_write32 (addr data : Nat)
  | write_rf (rf_path addr mask data : Nat)
deriving DecidableEq, Repr

/-- The staging buffer `struct rtw89_fw_h2c_rf_reg_info` (declared in `fw.h`,
which is not part of the sources; `curr_idx` is taken to be a `u16`). -/
structure rtw89_fw_h2c_rf_reg_info where
  rtw89_phy_config_rf_h2c : Nat → Nat → Nat
  curr_idx : Nat

/-- Device state seen by the writers: the log of hardware actions and the
staging buffer passed as `extra_data` (unused by the baseband writer). -/
structure PhyDev where
  log : List HwEvent
  info : rtw89_fw_h2c_rf_reg_info

/-- The function `rtw89_phy_config_bb_reg`. -/
def rtw89_phy_config_bb_reg (reg : rtw89_reg2_def) (_rf_path : Nat) (dev : PhyDev) : PhyDev :=
  if reg.addr = 0xfe then { dev with log := dev.log ++ [HwEvent.mdelay 50] }
  else if reg.addr = 0xfd then { dev with log := dev.log ++ [HwEvent.mdelay 5] }
  else if reg.addr = 0xfc then { dev with log := dev.log ++ [HwEvent.mdelay 1] }
  else if reg.addr = 0xfb then { dev with log := dev.log ++ [HwEvent.udelay 50] }
  else if reg.addr = 0xfa then { dev with log := dev.log ++ [HwEvent.udelay 5] }
  else if reg.addr = 0xf9 then { dev with log := dev.log ++ [HwEvent.udelay 1] }
  else { dev with log := dev.log ++ [HwEvent.phy_write32 reg.addr reg.data] }

/-- The function `rtw89_phy_cofig_rf_reg_store`; `page_size` is
`RTW89_H2C_RF_PAGE_SIZE`. -/
def rtw89_phy_cofig_rf_reg_store (page_size : Nat) (reg : rtw89_reg2_def)
    (info : rtw89_fw_h2c_rf_reg_info) : rtw89_fw_h2c_rf_reg_info :=
  let idx := (info.curr_idx % page_size) % 2 ^ 16
  let page := u8 (info.curr_idx / page_size)
  { rtw89_phy_config_rf_h2c :=
      Function.update info.rtw89_phy_config_rf_h2c page
        (Function.update (info.rtw89_phy_config_rf_h2c page) idx
          (u32 (reg.addr <<< 20) ||| reg.data)),
    curr_idx := (info.curr_idx + 1) % 2 ^ 16 }

/-- The function `rtw89_phy_config_rf_reg`. -/
def rtw89_phy_config_rf_reg (page_size : Nat) (reg : rtw89_reg2_def) (rf_path : Nat)
    (dev : PhyDev) : PhyDev :=
  if reg.addr = 0xfe then { dev with log := dev.log ++ [HwEvent.mdelay 50] }
  else if reg.addr = 0xfd then { dev with log := dev.log ++ [HwEvent.mdelay 5] }
  else if reg.addr = 0xfc then { dev with log := dev.log ++ [HwEvent.mdelay 1] }
  else if reg.addr = 0xfb then { dev with log := dev.log ++ [HwEvent.udelay 50] }
  else if reg.addr = 0xfa then { dev with log := dev.log ++ [HwEvent.udelay 5] }
  else if reg.addr = 0xf9 then { dev with log := dev.log ++ [HwEvent.udelay 1] }
  else
    { log := dev.log ++ [HwEvent.write_rf rf_path reg.addr 0xfffff reg.data],
      info := rtw89_phy_cofig_rf_reg_store page_size reg dev.info }

/-- The delay a sentinel address stands for (`0xf9 .. 0xfe`), as written in the
two writers; `none` for every other address. -/
def delay_of_addr (addr : Nat) : Option HwEvent :=
  if addr = 0xfe then some (HwEvent.mdelay 50)
  else if addr = 0xfd then some (HwEvent.mdelay 5)
  else if addr = 0xfc then some (HwEvent.mdelay 1)
  else if addr = 0xfb then some (HwEvent.udelay 50)
  else if addr = 0xfa then some (HwEvent.udelay 5)
  else if addr = 0xf9 then some (HwEvent.udelay 1)
  else none

/-- An event is a register write. -/
def HwEvent.isWrite : HwEvent → Bool
  | HwEvent.phy_write32 _ _ => true
  | HwEvent.write_rf _ _ _ _ => true
  | _ => false

/-- The empty staging buffer (`kzalloc`). -/
def rf_reg_info_zero : rtw89_fw_h2c_rf_reg_info := ⟨fun _ _ => 0, 0⟩

/-! ## Vocabulary for statements about the program part of a table -/

/-- The record is an `IF` or `ELIF` opcode. -/
def isBranch (m : PhyCondDefs) (reg : rtw89_reg2_def) : Prop :=
  phy_cond_case m reg = CondCase.branch

/-- The record is an `ELSE` opcode. -/
def isElse (m : PhyCondDefs) (reg : rtw89_reg2_def) : Prop :=
  phy_cond_case m reg = CondCase.branch_else

/-- The record is an `END` opcode. -/
def isEnd (m : PhyCondDefs) (reg : rtw89_reg2_def) : Prop :=
  phy_cond_case m reg = CondCase.branch_end

/-- The record is a `CHECK` opcode. -/
def isCheck (m : PhyCondDefs) (reg : rtw89_reg2_def) : Prop :=
  phy_cond_case m reg = CondCase.check

/-- The record is not an opcode (the `default` arm: a write or delay record). -/
def isPlain (m : PhyCondDefs) (reg : rtw89_reg2_def) : Prop :=
  phy_cond_case m reg = CondCase.other

instance (m : PhyCondDefs) (reg : rtw89_reg2_def) : Decidable (isBranch m reg) := by
  unfold isBranch; infer_instance

instance (m : PhyCondDefs) (reg : rtw89_reg2_def) : Decidable (isElse m reg) := by
  unfold isElse; infer_instance

instance (m : PhyCondDefs) (reg : rtw89_reg2_def) : Decidable (isEnd m reg) := by
  unfold isEnd; infer_instance

instance (m : PhyCondDefs) (reg : rtw89_reg2_def) : Decidable (isCheck m reg) := by
  unfold isCheck; infer_instance

instance (m : PhyCondDefs) (reg : rtw89_reg2_def) : Decidable (isPlain m reg) := by
  unfold isPlain; infer_instance

/-- The target named by the most recent `IF`/`ELIF` among the records `l`
(in replay order), or `t0` when `l` holds none. -/
def recentTarget (m : PhyCondDefs) (t0 : Nat) : List rtw89_reg2_def → Nat
  | [] => t0
  | reg :: rest =>
    if phy_cond_case m reg = CondCase.branch then recentTarget m (reg_target m reg) rest
    else recentTarget m t0 rest

/-- The program part of a table: the records after the headline block. -/
def phy_program (m : PhyCondDefs) (table : rtw89_phy_table) : List rtw89_reg2_def :=
  table.regs.drop (phy_headline_size m table)

/-- Some `CHECK` of the current block (after the last `END` of `l`) was met with
the most recent `IF`/`ELIF` target equal to `cfg`: the records `l` split as
`a ++ chk :: b` with `chk` a `CHECK`, no `END` in `b`, and the target recorded
over `a` (starting from `t0`, the value of `target` before `l`) equal to `cfg`. -/
def blockMatched (m : PhyCondDefs) (cfg t0 : Nat) (l : List rtw89_reg2_def) : Prop :=
  ∃ a chk b, l = a ++ chk :: b ∧ isCheck m chk ∧ (∀ r ∈ b, ¬ isEnd m r) ∧
    recentTarget m t0 a = cfg

/-- One iteration of the loop of `rtw89_phy_init_reg` on the record `reg` at
index `i` (the body of `init_reg_loop`, used to state lemmas). -/
def init_reg_step {σ : Type} (m : PhyCondDefs)
    (config : rtw89_reg2_def → Nat → σ → σ) (rf_path cfg_target : Nat)
    (reg : rtw89_reg2_def) (i : Nat) (st : InitRegState σ) : InitRegState σ :=
  match phy_cond_case m reg with
  | CondCase.branch => { st with target := reg_target m reg }
  | CondCase.branch_else =>
    if !st.target_found then { st with is_matched := false, returned := true }
    else { st with is_matched := false }
  | CondCase.branch_end => { st with is_matched := true, target_found := false }
  | CondCase.check =>
    if st.target_found then { st with is_matched := false }
    else if st.target = cfg_target then { st with is_matched := true, target_found := true }
    else { st with is_matched := false, target_found := false }
  | CondCase.other =>
    if st.is_matched then
      { st with calls := st.calls ++ [i], dev := config reg rf_path st.dev }
    else st

/-! ## TX power-limit tables -/

/-- Enumeration constants of `core.h` used by the power-limit code (the header
is not part of the sources). -/
structure TxpwrEnums where
  RTW89_BAND_2G : Nat
  RTW89_BAND_5G : Nat
  RTW89_CHANNEL_WIDTH_20 : Nat
  RTW89_CHANNEL_WIDTH_40 : Nat
  RTW89_CHANNEL_WIDTH_80 : Nat
  RTW89_RS_CCK : Nat
  RTW89_RS_OFDM : Nat
  RTW89_RS_MCS : Nat
  RTW89_BF_NUM : Nat

/-- A concrete instance of the enumeration constants, used to evaluate the
model. -/
def enumsStd : TxpwrEnums where
  RTW89_BAND_2G := 0
  RTW89_BAND_5G := 1
  RTW89_CHANNEL_WIDTH_20 := 0
  RTW89_CHANNEL_WIDTH_40 := 1
  RTW89_CHANNEL_WIDTH_80 := 2
  RTW89_RS_CCK := 0
  RTW89_RS_OFDM := 1
  RTW89_RS_MCS := 2
  RTW89_BF_NUM := 2

/-- The parts of `struct rtw89_dev` read by the power-limit lookups: the `hal`
fields, the chip's unit factors and limit tables (arrays of `s8`, indexed as in
the C code), and `rtw89_regd_get(rtwdev, band)`. -/
structure TxpwrDev where
  current_band_type : Nat
  current_channel : Nat
  current_band_width : Nat
  txpwr_factor_rf : Nat
  txpwr_factor_mac : Nat
  txpwr_lmt_2g : Nat → Nat → Nat → Nat → Nat → Nat → Int
  txpwr_lmt_5g : Nat → Nat → Nat → Nat → Nat → Nat → Int
  txpwr_lmt_ru_2g : Nat → Nat → Nat → Nat → Int
  txpwr_lmt_ru_5g : Nat → Nat → Nat → Nat → Int
  rtw89_regd_get : Nat → Nat

/-- Conversion of an `int` expression to a `u8` argument. -/
def u8_of_int (x : Int) : Nat := (x % 256).toNat

/-- The macro `_phy_txpwr_rf_to_mac`: arithmetic right shift of the `int`-promoted
value by `txpwr_factor_rf - txpwr_factor_mac` (a shift by a negative amount is
undefined in C; the model needs `txpwr_factor_mac <= txpwr_factor_rf`). -/
def _phy_txpwr_rf_to_mac (d : TxpwrDev) (txpwr_rf : Int) : Int :=
  txpwr_rf >>> (d.txpwr_factor_rf - d.txpwr_factor_mac)

/-- The function `rtw89_channel_to_idx` (`channel` is a `u8`). -/
def rtw89_channel_to_idx (channel : Nat) : Nat :=
  if 1 ≤ channel ∧ channel ≤ 14 then u8 (channel - 1)
  else if 36 ≤ channel ∧ channel ≤ 64 then u8 ((channel - 36) / 2)
  else if 100 ≤ channel ∧ channel ≤ 144 then u8 ((channel - 100) / 2 + 15)
  else if 149 ≤ channel ∧ channel ≤ 177 then u8 ((channel - 149) / 2 + 38)
  else 0

/-- The function `rtw89_phy_read_txpwr_limit`. -/
def rtw89_phy_read_txpwr_limit (c : TxpwrEnums) (d : TxpwrDev)
    (bw ntx rs bf ch : Nat) : Int :=
  let ch_idx := rtw89_channel_to_idx ch
  let band := u8 d.current_band_type
  let regd := u8 (d.rtw89_regd_get band)
  if band = c.RTW89_BAND_2G then
    s8 (_phy_txpwr_rf_to_mac d (d.txpwr_lmt_2g bw ntx rs bf regd ch_idx))
  else if band = c.RTW89_BAND_5G then
    s8 (_phy_txpwr_rf_to_mac d (d.txpwr_lmt_5g bw ntx rs bf regd ch_idx))
  else 0

/-- The function `rtw89_phy_read_txpwr_limit_ru`. -/
def rtw89_phy_read_txpwr_limit_ru (c : TxpwrEnums) (d : TxpwrDev)
    (ru ntx ch : Nat) : Int :=
  let ch_idx := rtw89_channel_to_idx ch
  let band := u8 d.current_band_type
  let regd := u8 (d.rtw89_regd_get band)
  if band = c.RTW89_BAND_2G then
    s8 (_phy_txpwr_rf_to_mac d (d.txpwr_lmt_ru_2g ru ntx regd ch_idx))
  else if band = c.RTW89_BAND_5G then
    s8 (_phy_txpwr_rf_to_mac d (d.txpwr_lmt_ru_5g ru ntx regd ch_idx))
  else 0

/-- The fields of `struct rtw89_txpwr_limit` written by `phy.c`; each array is
a function of its indices. -/
structure rtw89_txpwr_limit where
  cck_20m : Nat → Int
  cck_40m : Nat → Int
  ofdm : Nat → Int
  mcs_20m : Nat → Nat → Int
  mcs_40m : Nat → Nat → Int
  mcs_80m : Nat → Nat → Int
  mcs_40m_0p5 : Nat → Int

/-- The result of `memset(lmt, 0, sizeof(*lmt))`. -/
def txpwr_limit_zero : rtw89_txpwr_limit :=
  ⟨fun _ => 0, fun _ => 0, fun _ => 0, fun _ _ => 0, fun _ _ => 0, fun _ _ => 0, fun _ => 0⟩

/-- The macro `__fill_txpwr_limit_nonbf_bf`: for `__i` from `0` to
`RTW89_BF_NUM - 1` store the limit read with beamforming index `__i` into
`ptr[__i]`. -/
def __fill_txpwr_limit_nonbf_bf (c : TxpwrEnums) (d : TxpwrDev) (ptr : Nat → Int)
    (bw ntx rs ch : Nat) : Nat → Int :=
  (List.range c.RTW89_BF_NUM).foldl
    (fun p __i => Function.update p __i (rtw89_phy_read_txpwr_limit c d bw ntx rs __i ch)) ptr

/-- The function `rtw89_phy_fill_txpwr_limit_20m`. -/
def rtw89_phy_fill_txpwr_limit_20m (c : TxpwrEnums) (d : TxpwrDev)
    (lmt : rtw89_txpwr_limit) (ntx ch : Nat) : rtw89_txpwr_limit :=
  let v := __fill_txpwr_limit_nonbf_bf c d lmt.cck_20m
    c.RTW89_CHANNEL_WIDTH_20 ntx c.RTW89_RS_CCK ch
  let lmt := { lmt with cck_20m := v }
  let v := __fill_txpwr_limit_nonbf_bf c d lmt.cck_40m
    c.RTW89_CHANNEL_WIDTH_40 ntx c.RTW89_RS_CCK ch
  let lmt := { lmt with cck_40m := v }
  let v := __fill_txpwr_limit_nonbf_bf c d lmt.ofdm
    c.RTW89_CHANNEL_WIDTH_20 ntx c.RTW89_RS_OFDM ch
  let lmt := { lmt with ofdm := v }
  let v := __fill_txpwr_limit_nonbf_bf c d (lmt.mcs_20m 0)
    c.RTW89_CHANNEL_WIDTH_20 ntx c.RTW89_RS_MCS ch
  { lmt with mcs_20m := Function.update lmt.mcs_20m 0 v }

/-- The function `rtw89_phy_fill_txpwr_limit_40m`. -/
def rtw89_phy_fill_txpwr_limit_40m (c : TxpwrEnums) (d : TxpwrDev)
    (lmt : rtw89_txpwr_limit) (ntx ch : Nat) : rtw89_txpwr_limit :=
  let v := __fill_txpwr_limit_nonbf_bf c d lmt.cck_20m
    c.RTW89_CHANNEL_WIDTH_20 ntx c.RTW89_RS_CCK (u8_of_int ((ch : Int) - 2))
  let lmt := { lmt with cck_20m := v }
  let v := __fill_txpwr_limit_nonbf_bf c d lmt.cck_40m
    c.RTW89_CHANNEL_WIDTH_40 ntx c.RTW89_RS_CCK ch
  let lmt := { lmt with cck_40m := v }
  let v := __fill_txpwr_limit_nonbf_bf c d lmt.ofdm
    c.RTW89_CHANNEL_WIDTH_20 ntx c.RTW89_RS_OFDM (u8_of_int ((ch : Int) - 2))
  let lmt := { lmt with ofdm := v }
  let v := __fill_txpwr_limit_nonbf_bf c d (lmt.mcs_20m 0)
    c.RTW89_CHANNEL_WIDTH_20 ntx c.RTW89_RS_MCS (u8_of_int ((ch : Int) - 2))
  let lmt := { lmt with mcs_20m := Function.update lmt.mcs_20m 0 v }
  let v := __fill_txpwr_limit_nonbf_bf c d (lmt.mcs_20m 1)
    c.RTW89_CHANNEL_WIDTH_20 ntx c.RTW89_RS_MCS (u8_of_int ((ch : Int) + 2))
  let lmt := { lmt with mcs_20m := Function.update lmt.mcs_20m 1 v }
  let v := __fill_txpwr_limit_nonbf_bf c d (lmt.mcs_40m 0)
    c.RTW89_CHANNEL_WIDTH_40 ntx c.RTW89_RS_MCS ch
  { lmt with mcs_40m := Function.update lmt.mcs_40m 0 v }

/-- The function `rtw89_phy_fill_txpwr_limit_80m`. -/
def rtw89_phy_fill_txpwr_limit_80m (c : TxpwrEnums) (d : TxpwrDev)
    (lmt : rtw89_txpwr_limit) (ntx ch : Nat) : rtw89_txpwr_limit :=
  let v := __fill_txpwr_limit_nonbf_bf c d lmt.ofdm
    c.RTW89_CHANNEL_WIDTH_20 ntx c.RTW89_RS_OFDM (u8_of_int ((ch : Int) - 6))
  let lmt := { lmt with ofdm := v }
  let v := __fill_txpwr_limit_nonbf_bf c d (lmt.mcs_20m 0)
    c.RTW89_CHANNEL_WIDTH_20 ntx c.RTW89_RS_MCS (u8_of_int ((ch : Int) - 6))
  let lmt := { lmt with mcs_20m := Function.update lmt.mcs_20m 0 v }
  let v := __fill_txpwr_limit_nonbf_bf c d (lmt.mcs_20m 1)
    c.RTW89_CHANNEL_WIDTH_20 ntx c.RTW89_RS_MCS (u8_of_int ((ch : Int) - 2))
  let lmt := { lmt with mcs_20m := Function.update lmt.mcs_20m 1 v }
  let v := __fill_txpwr_limit_nonbf_bf c d (lmt.mcs_20m 2)
    c.RTW89_CHANNEL_WIDTH_20 ntx c.RTW89_RS_MCS (u8_of_int ((ch : Int) + 2))
  let lmt := { lmt with mcs_20m := Function.update lmt.mcs_20m 2 v }
  let v := __fill_txpwr_limit_nonbf_bf c d (lmt.mcs_20m 3)
    c.RTW89_CHANNEL_WIDTH_20 ntx c.RTW89_RS_MCS (u8_of_int ((ch : Int) + 6))
  let lmt := { lmt with mcs_20m := Function.update lmt.mcs_20m 3 v }
  let v := __fill_txpwr_limit_nonbf_bf c d (lmt.mcs_40m 0)
    c.RTW89_CHANNEL_WIDTH_40 ntx c.RTW89_RS_MCS (u8_of_int ((ch : Int) - 4))
  let lmt := { lmt with mcs_40m := Function.update lmt.mcs_40m 0 v }
  let v := __fill_txpwr_limit_nonbf_bf c d (lmt.mcs_40m 1)
    c.RTW89_CHANNEL_WIDTH_40 ntx c.RTW89_RS_MCS (u8_of_int ((ch : Int) + 4))
  let lmt := { lmt with mcs_40m := Function.update lmt.mcs_40m 1 v }
  let v := __fill_txpwr_limit_nonbf_bf c d (lmt.mcs_80m 0)
    c.RTW89_CHANNEL_WIDTH_80 ntx c.RTW89_RS_MCS ch
  let lmt := { lmt with mcs_80m := Function.update lmt.mcs_80m 0 v }
  let val_0p5_n := __fill_txpwr_limit_nonbf_bf c d (fun _ => 0)
    c.RTW89_CHANNEL_WIDTH_40 ntx c.RTW89_RS_MCS (u8_of_int ((ch : Int) - 4))
  let val_0p5_p := __fill_txpwr_limit_nonbf_bf c d (fun _ => 0)
    c.RTW89_CHANNEL_WIDTH_40 ntx c.RTW89_RS_MCS (u8_of_int ((ch : Int) + 4))
  let v := (List.range c.RTW89_BF_NUM).foldl
    (fun p i => Function.update p i (min (s8 (val_0p5_n i)) (s8 (val_0p5_p i))))
    lmt.mcs_40m_0p5
  { lmt with mcs_40m_0p5 := v }

/-- The function `rtw89_phy_fill_txpwr_limit`; the case labels of `switch (bw)`
are tried in source order. -/
def rtw89_phy_fill_txpwr_limit (c : TxpwrEnums) (d : TxpwrDev) (ntx : Nat) :
    rtw89_txpwr_limit :=
  let ch := u8 d.current_channel
  let bw := u8 d.current_band_width
  let lmt := txpwr_limit_zero
  if bw = c.RTW89_CHANNEL_WIDTH_20 then rtw89_phy_fill_txpwr_limit_20m c d lmt ntx ch
  else if bw = c.RTW89_CHANNEL_WIDTH_40 then rtw89_phy_fill_txpwr_limit_40m c d lmt ntx ch
  else if bw = c.RTW89_CHANNEL_WIDTH_80 then rtw89_phy_fill_txpwr_limit_80m c d lmt ntx ch
  else lmt

/-! ## Sample inputs and auxiliary definitions -/

/-- A device used to evaluate the lookups: 5 GHz band, channel 40, 40 MHz,
factors 2 and 1, and tables whose entries depend on bandwidth, rate section and
channel index. -/
def devSample : TxpwrDev where
  current_band_type := 1
  current_channel := 40
  current_band_width := 1
  txpwr_factor_rf := 2
  txpwr_factor_mac := 1
  txpwr_lmt_2g := fun _ _ _ _ _ _ => -7
  txpwr_lmt_5g := fun bw _ rs _ _ ch_idx =>
    40 + 10 * ((bw % 3 : Nat) : Int) + 3 * ((rs % 3 : Nat) : Int) - ((ch_idx % 53 : Nat) : Int)
  txpwr_lmt_ru_2g := fun _ _ _ _ => -7
  txpwr_lmt_ru_5g := fun ru _ _ ch_idx => 20 + ((ru % 3 : Nat) : Int) - ((ch_idx % 53 : Nat) : Int)
  rtw89_regd_get := fun _ => 0

/-- The table of the C3 example: headline entries (RFE 2, cut 0) and
(RFE 2, cut 5), followed by one register write. -/
def tableTwoCuts : rtw89_phy_table :=
  ⟨[⟨0xF0020000, 0⟩, ⟨0xF0020005, 0⟩, ⟨0x704, 0x601e0100⟩], 0⟩

/-- A table without headline entries: a single register write. -/
def tableNoHeadline : rtw89_phy_table := ⟨[⟨0x704, 0x601e0100⟩], 0⟩

/-- A table with one headline entry (RFE 1, cut 1) and one block with two
branches: `IF` (target of the headline), `CHECK`, a write, `ELIF` (another
target), `CHECK`, a write, `END`, and a final unconditional write. -/
def tableTwoBranches : rtw89_phy_table :=
  ⟨[⟨0xF0010001, 0⟩, ⟨0x80010001, 0⟩, ⟨0x40000000, 0⟩, ⟨0x704, 1⟩, ⟨0x90020001, 0⟩,
    ⟨0x40000000, 0⟩, ⟨0x708, 2⟩, ⟨0xB0000000, 0⟩, ⟨0x70c, 3⟩], 0⟩

/-- A device with an empty action log and an empty staging buffer. -/
def devEmpty : PhyDev := ⟨[], rf_reg_info_zero⟩

/-- The table cut after its first `n` records. -/
def table_take (table : rtw89_phy_table) (n : Nat) : rtw89_phy_table :=
  ⟨table.regs.take n, table.rf_path⟩

/-- Executable form of `blockMatched`. -/
def blockMatchedB (m : PhyCondDefs) (cfg : Nat) : Nat → List rtw89_reg2_def → Bool
  | _, [] => false
  | t, r :: rest =>
    (decide (isCheck m r) && decide (t = cfg) && rest.all (fun x => !decide (isEnd m x))) ||
      blockMatchedB m cfg (if phy_cond_case m r = CondCase.branch then reg_target m r else t) rest

/-- A table whose block reaches `ELSE` without a matching `CHECK`: headline
(RFE 1, cut 1), a write, `IF` (another target), `CHECK`, a write, `ELSE`, a
write, `END`, a write. -/
def tableElseAbort : rtw89_phy_table :=
  ⟨[⟨0xF0010001, 0⟩, ⟨0x700, 9⟩, ⟨0x80020001, 0⟩, ⟨0x40000000, 0⟩, ⟨0x704, 1⟩,
    ⟨0xA0000000, 0⟩, ⟨0x708, 2⟩, ⟨0xB0000000, 0⟩, ⟨0x70c, 3⟩], 0⟩

/-- A table with a delay record (address `0xfe`, 50 ms) inside a branch that
does not match: headline (RFE 1, cut 1), `IF` (another target), `CHECK`, the
delay record, `END`, a write. -/
def tableDelaySkipped : rtw89_phy_table :=
  ⟨[⟨0xF0010001, 0⟩, ⟨0x80020001, 0⟩, ⟨0x40000000, 0⟩, ⟨0xfe, 0⟩, ⟨0xB0000000, 0⟩,
    ⟨0x704, 5⟩], 0⟩

/-- A table with a delay record (address `0xfe`, 50 ms) inside the matching
branch: headline (RFE 1, cut 1), `IF` (the headline target), `CHECK`, the delay
record, `END`, a write. -/
def tableDelayApplied : rtw89_phy_table :=
  ⟨[⟨0xF0010001, 0⟩, ⟨0x80010001, 0⟩, ⟨0x40000000, 0⟩, ⟨0xfe, 0⟩, ⟨0xB0000000, 0⟩,
    ⟨0x704, 5⟩], 0⟩

/-! ## Register access -/

/-- Truncation of a value stored into a `u16`. -/
def u16 (x : Nat) : Nat := x % 2 ^ 16

/-- Truncation of a value stored into a `u64`. -/
def u64 (x : Nat) : Nat := x % 2 ^ 64

/-- The register access primitives of the hardware abstraction layer
(`rtw89_read32_mask`, `rtw89_write32_mask`, `rtw89_write32_clr`,
`rtw89_phy_read32_mask`, `rtw89_phy_write32_mask`), which are declared in
headers outside the sources.  `H` is the state of the hardware; a read returns
the value read and the state after the access. -/
structure RegOps (H : Type) where
  read32_mask : H → Nat → Nat → Nat × H
  write32_mask : H → Nat → Nat → Nat → H
  write32_clr : H → Nat → Nat → H
  phy_read32_mask : H → Nat → Nat → Nat × H
  phy_write32_mask : H → Nat → Nat → Nat → H

/-- The enumeration `enum rtw89_phy_idx`. -/
inductive rtw89_phy_idx where
  | RTW89_PHY_0
  | RTW89_PHY_1
deriving DecidableEq, Repr

/-- The function `rtw89_phy0_phy1_offset`. -/
def rtw89_phy0_phy1_offset (addr : Nat) : Nat :=
  let phy_page := addr >>> 8
  let ofst :=
    if phy_page = 0x6 ∨ phy_page = 0x7 ∨ phy_page = 0x8 ∨ phy_page = 0x9 ∨ phy_page = 0xa ∨
        phy_page = 0xb ∨ phy_page = 0xc ∨ phy_page = 0xd ∨ phy_page = 0x19 ∨
        phy_page = 0x1a ∨ phy_page = 0x1b then 0x2000
    else 0
  if phy_page ≥ 0x40 ∧ phy_page ≤ 0x4f then 0x2000 else ofst

/-- The function `rtw89_phy_write32_idx`; `dbcc_en` is `rtwdev->dbcc_en`. -/
def rtw89_phy_write32_idx {H : Type} (ops : RegOps H) (dbcc_en : Bool) (hw : H)
    (addr mask data : Nat) (phy_idx : rtw89_phy_idx) : H :=
  let addr :=
    if dbcc_en ∧ phy_idx = rtw89_phy_idx.RTW89_PHY_1 then
      u32 (addr + rtw89_phy0_phy1_offset addr)
    else addr
  ops.phy_write32_mask hw addr mask data

/-- The function `rtw89_phy_set_phy_regs`. -/
def rtw89_phy_set_phy_regs {H : Type} (ops : RegOps H) (dbcc_en : Bool) (hw : H)
    (addr mask val : Nat) : H :=
  let hw := rtw89_phy_write32_idx ops dbcc_en hw addr mask val rtw89_phy_idx.RTW89_PHY_0
  if !dbcc_en then hw
  else rtw89_phy_write32_idx ops dbcc_en hw addr mask val rtw89_phy_idx.RTW89_PHY_1

/-! ## Environment monitor (CCX / IFS-CLM) -/

/-- Constants of `phy.h` and `core.h` used by the environment monitor (the
headers are not part of the sources). -/
structure CcxDefs where
  RTW89_RAC_RELEASE : Nat
  RTW89_RAC_LV_1 : Nat
  RTW89_RAC_MAX_NUM : Nat
  RTW89_IFS_CLM_INIT : Nat
  RTW89_IFS_CLM_BACKGROUND : Nat
  RTW89_IFS_CLM_ACS : Nat
  RTW89_IFS_CLM_DBG : Nat
  RTW89_IFS_CLM_DIG : Nat
  RTW89_IFS_CLM_TDMA_DIG : Nat
  RTW89_IFS_CLM_DBG_MANUAL : Nat
  IFS_CLM_TH0_UPPER : Nat
  IFS_CLM_TH_MUL : Nat
  IFS_CLM_TH_START_IDX : Nat
  RTW89_IFS_CLM_NUM : Nat
  CCX_MAX_PERIOD : Nat
  CCX_MAX_PERIOD_UNIT : Nat
  MS_TO_4US_RATIO : Nat
  RTW89_CCX_4_US : Nat
  RTW89_CCX_8_US : Nat
  RTW89_CCX_16_US : Nat
  RTW89_CCX_32_US : Nat
  CCX_US_BASE_RATIO : Nat
  PERCENT : Nat
  PERMIL : Nat
  ENV_MNTR_IFSCLM_HIS_MAX : Nat
  ENV_MNTR_FAIL_DWORD : Nat
  RTW89_PHY_ENV_MON_CCX_FAIL : Nat
  RTW89_PHY_ENV_MON_IFS_CLM : Nat

/-- Register addresses and field masks of `reg.h` used by the environment
monitor (the header is not part of the sources). -/
structure CcxRegs where
  R_CCX : Nat
  B_MEASUREMENT_TRIG_MSK : Nat
  R_IFS_COUNTER : Nat
  B_IFS_COUNTER_CLR_MSK : Nat
  B_IFS_CLM_PERIOD_MSK : Nat
  B_IFS_CLM_COUNTER_UNIT_MSK : Nat
  R_IFS_T1 : Nat
  R_IFS_T2 : Nat
  R_IFS_T3 : Nat
  R_IFS_T4 : Nat
  B_IFS_T1_TH_LOW_MSK : Nat
  B_IFS_T2_TH_LOW_MSK : Nat
  B_IFS_T3_TH_LOW_MSK : Nat
  B_IFS_T4_TH_LOW_MSK : Nat
  B_IFS_T1_TH_HIGH_MSK : Nat
  B_IFS_T2_TH_HIGH_MSK : Nat
  B_IFS_T3_TH_HIGH_MSK : Nat
  B_IFS_T4_TH_HIGH_MSK : Nat
  R_IFSCNT : Nat
  B_IFSCNT_DONE_MSK : Nat
  B_IFSCNT_TOTAL_CNT_MSK : Nat
  R_IFS_CLM_TX_CNT : Nat
  B_IFS_CLM_TX_CNT_MSK : Nat
  B_IFS_CLM_EDCCA_EXCLUDE_CCA_FA_MSK : Nat
  R_IFS_CLM_CCA : Nat
  B_IFS_CLM_CCKCCA_EXCLUDE_FA_MSK : Nat
  B_IFS_CLM_OFDMCCA_EXCLUDE_FA_MSK : Nat
  R_IFS_CLM_FA : Nat
  B_IFS_CLM_CCK_FA_MSK : Nat
  B_IFS_CLM_OFDM_FA_MSK : Nat
  R_IFS_HIS : Nat
  B_IFS_T1_HIS_MSK : Nat
  B_IFS_T2_HIS_MSK : Nat
  B_IFS_T3_HIS_MSK : Nat
  B_IFS_T4_HIS_MSK : Nat
  R_IFS_AVG_L : Nat
  R_IFS_AVG_H : Nat
  B_IFS_T1_AVG_MSK : Nat
  B_IFS_T2_AVG_MSK : Nat
  B_IFS_T3_AVG_MSK : Nat
  B_IFS_T4_AVG_MSK : Nat
  R_IFS_CCA_L : Nat
  R_IFS_CCA_H : Nat
  B_IFS_T1_CCA_MSK : Nat
  B_IFS_T2_CCA_MSK : Nat
  B_IFS_T3_CCA_MSK : Nat
  B_IFS_T4_CCA_MSK : Nat

/-- The fields of `struct rtw89_env_monitor_info` used by `phy.c` (declared in
`core.h`, which is not part of the sources: counters and thresholds are taken
to be `u16`, `ifs_clm_his` and the percent ratios `u8`, the averages `u32`).
Arrays are functions of the index. -/
structure rtw89_env_monitor_info where
  ccx_manual_ctrl : Bool
  ccx_ongoing : Bool
  ccx_rac_lv : Nat
  ccx_rpt_stamp : Nat
  ccx_period : Nat
  ccx_unit_idx : Nat
  ccx_trigger_time : Nat
  ccx_edcca_opt_bw_idx : Nat
  ccx_watchdog_result : Nat
  ifs_clm_app : Nat
  ifs_clm_mntr_time : Nat
  ifs_clm_th_l : Nat → Nat
  ifs_clm_th_h : Nat → Nat
  ifs_clm_tx : Nat
  ifs_clm_edcca_excl_cca : Nat
  ifs_clm_cckcca_excl_fa : Nat
  ifs_clm_ofdmcca_excl_fa : Nat
  ifs_clm_cckfa : Nat
  ifs_clm_ofdmfa : Nat
  ifs_clm_total_ifs : Nat
  ifs_clm_his : Nat → Nat
  ifs_clm_avg : Nat → Nat
  ifs_clm_cca : Nat → Nat
  ifs_clm_tx_ratio : Nat
  ifs_clm_edcca_excl_cca_ratio : Nat
  ifs_clm_cck_fa_ratio : Nat
  ifs_clm_ofdm_fa_ratio : Nat
  ifs_clm_cck_cca_excl_fa_ratio : Nat
  ifs_clm_ofdm_cca_excl_fa_ratio : Nat
  ifs_clm_cck_fa_permil : Nat
  ifs_clm_ofdm_fa_permil : Nat
  ifs_clm_ifs_avg : Nat → Nat
  ifs_clm_cca_avg : Nat → Nat

/-- The request `struct rtw89_ccx_para_info`. -/
structure rtw89_ccx_para_info where
  rac_lv : Nat
  mntr_time : Nat
  ifs_clm_manual_th_times : Nat
  ifs_clm_manual_th0 : Nat
  ifs_clm_app : Nat

/-- The parts of `struct rtw89_dev` seen by the environment monitor: its own
state, the hardware, and the dual-band flag `dbcc_en`. -/
structure MonDev (H : Type) where
  env : rtw89_env_monitor_info
  hw : H
  dbcc_en : Bool

/-- The function `rtw89_phy_ccx_us_to_idx`. -/
def rtw89_phy_ccx_us_to_idx (c : CcxDefs) (env : rtw89_env_monitor_info) (time_us : Nat) : Nat :=
  u16 (u32 time_us >>> (Nat.log2 c.CCX_US_BASE_RATIO + env.ccx_unit_idx))

/-- The function `rtw89_phy_ccx_idx_to_us`. -/
def rtw89_phy_ccx_idx_to_us (c : CcxDefs) (env : rtw89_env_monitor_info) (idx : Nat) : Nat :=
  u32 (u16 idx <<< (Nat.log2 c.CCX_US_BASE_RATIO + env.ccx_unit_idx))

/-- The function `rtw89_phy_ccx_get_report`: `report` and `score` are `u16`,
`numer` is a `u32`, the quotient is stored in the `u16` variable `ret` before
it is compared with `score`, and `score - 1` is an `int` converted to the `u16`
result (65535 for `score = 0`). -/
def rtw89_phy_ccx_get_report (env : rtw89_env_monitor_info) (report score : Nat) : Nat :=
  let report := u16 report
  let score := u16 score
  let numer := u32 (report * score + (env.ccx_period >>> 1))
  let ret := if env.ccx_period ≠ 0 then u16 (numer / env.ccx_period) else 0
  if ret ≥ score then Int.toNat (((score : Int) - 1) % 2 ^ 16) else ret

/-- The function `rtw89_phy_ccx_ms_to_period_unit`; the result is
`(*period, *unit_idx)`. -/
def rtw89_phy_ccx_ms_to_period_unit (c : CcxDefs) (time_ms : Nat) : Nat × Nat :=
  let time_ms := u16 time_ms
  let time_ms := if time_ms ≥ c.CCX_MAX_PERIOD then u16 c.CCX_MAX_PERIOD else time_ms
  let quotient := u8 (c.CCX_MAX_PERIOD_UNIT * time_ms / c.CCX_MAX_PERIOD)
  let idx :=
    if quotient < 4 then c.RTW89_CCX_4_US
    else if quotient < 8 then c.RTW89_CCX_8_US
    else if quotient < 16 then c.RTW89_CCX_16_US
    else c.RTW89_CCX_32_US
  (u32 (u32 (time_ms * c.MS_TO_4US_RATIO) >>> idx), u32 idx)

/-- The function `rtw89_phy_ccx_racing_release`. -/
def rtw89_phy_ccx_racing_release (c : CcxDefs) (env : rtw89_env_monitor_info) :
    rtw89_env_monitor_info :=
  { env with ccx_ongoing := false, ccx_rac_lv := c.RTW89_RAC_RELEASE,
             ifs_clm_app := c.RTW89_IFS_CLM_BACKGROUND }

/-- The function `rtw89_phy_ccx_racing_ctrl`: the return value and the state. -/
def rtw89_phy_ccx_racing_ctrl (c : CcxDefs) (env : rtw89_env_monitor_info) (level : Nat) :
    Int × rtw89_env_monitor_info :=
  if level ≥ c.RTW89_RAC_MAX_NUM then (-EINVAL, env)
  else
    let r : Int × rtw89_env_monitor_info :=
      if env.ccx_ongoing then
        if level ≤ env.ccx_rac_lv then (-EINVAL, env)
        else (0, { env with ccx_ongoing := false })
      else (0, env)
    if r.1 = 0 then (r.1, { r.2 with ccx_rac_lv := u8 level }) else r

/-- The loop of `rtw89_phy_ifs_clm_th_update_check` over `i = 1 ..
RTW89_IFS_CLM_NUM - 1`; the state is `(ifs_th_l, ifs_th_h, ifs_th_h_us)`. -/
def ifs_clm_th_loop (c : CcxDefs) (env : rtw89_env_monitor_info) (ifs_th_times : Nat)
    (st : (Nat → Nat) × (Nat → Nat) × (Nat → Nat)) : (Nat → Nat) × (Nat → Nat) × (Nat → Nat) :=
  ((List.range c.RTW89_IFS_CLM_NUM).drop 1).foldl
    (fun s i =>
      let l := Function.update s.1 i (u16 (s.2.1 (i - 1) + 1))
      let hus := Function.update s.2.2 i (u32 (s.2.2 (i - 1) * ifs_th_times))
      let h := Function.update s.2.1 i (rtw89_phy_ccx_us_to_idx c env (hus i))
      (l, h, hus))
    st

/-- The function `rtw89_phy_ifs_clm_th_update_check`: the return value and the
state. -/
def rtw89_phy_ifs_clm_th_update_check (c : CcxDefs) (env : rtw89_env_monitor_info)
    (para : rtw89_ccx_para_info) : Bool × rtw89_env_monitor_info :=
  let is_update := decide (env.ifs_clm_app ≠ para.ifs_clm_app)
  if !is_update then (is_update, env)
  else
    let app := para.ifs_clm_app
    let th : Nat × Nat :=
      if app = c.RTW89_IFS_CLM_INIT ∨ app = c.RTW89_IFS_CLM_BACKGROUND ∨
          app = c.RTW89_IFS_CLM_ACS ∨ app = c.RTW89_IFS_CLM_DBG ∨
          app = c.RTW89_IFS_CLM_DIG ∨ app = c.RTW89_IFS_CLM_TDMA_DIG then
        (u32 c.IFS_CLM_TH0_UPPER, u32 c.IFS_CLM_TH_MUL)
      else if app = c.RTW89_IFS_CLM_DBG_MANUAL then
        (u32 para.ifs_clm_manual_th0, u32 para.ifs_clm_manual_th_times)
      else (0, 0)
    let ifs_th0_us := th.1
    let ifs_th_times := th.2
    let l := Function.update env.ifs_clm_th_l c.IFS_CLM_TH_START_IDX 0
    let hus := Function.update (fun _ => 0) c.IFS_CLM_TH_START_IDX ifs_th0_us
    let h := Function.update env.ifs_clm_th_h c.IFS_CLM_TH_START_IDX
      (rtw89_phy_ccx_us_to_idx c env ifs_th0_us)
    let r := ifs_clm_th_loop c env ifs_th_times (l, h, hus)
    (is_update, { env with ifs_clm_th_l := r.1, ifs_clm_th_h := r.2.1 })

/-- The function `rtw89_phy_ifs_clm_set_th_reg`. -/
def rtw89_phy_ifs_clm_set_th_reg {H : Type} (ops : RegOps H) (g : CcxRegs) (d : MonDev H) :
    MonDev H :=
  let w := fun (hw : H) (addr mask val : Nat) =>
    rtw89_phy_set_phy_regs ops d.dbcc_en hw addr mask val
  let hw := w d.hw g.R_IFS_T1 g.B_IFS_T1_TH_LOW_MSK (d.env.ifs_clm_th_l 0)
  let hw := w hw g.R_IFS_T2 g.B_IFS_T2_TH_LOW_MSK (d.env.ifs_clm_th_l 1)
  let hw := w hw g.R_IFS_T3 g.B_IFS_T3_TH_LOW_MSK (d.env.ifs_clm_th_l 2)
  let hw := w hw g.R_IFS_T4 g.B_IFS_T4_TH_LOW_MSK (d.env.ifs_clm_th_l 3)
  let hw := w hw g.R_IFS_T1 g.B_IFS_T1_TH_HIGH_MSK (d.env.ifs_clm_th_h 0)
  let hw := w hw g.R_IFS_T2 g.B_IFS_T2_TH_HIGH_MSK (d.env.ifs_clm_th_h 1)
  let hw := w hw g.R_IFS_T3 g.B_IFS_T3_TH_HIGH_MSK (d.env.ifs_clm_th_h 2)
  let hw := w hw g.R_IFS_T4 g.B_IFS_T4_TH_HIGH_MSK (d.env.ifs_clm_th_h 3)
  { d with hw := hw }

/-- The function `rtw89_phy_ccx_trigger`; `ccx_rpt_stamp` is taken to be a
`u8`. -/
def rtw89_phy_ccx_trigger {H : Type} (ops : RegOps H) (g : CcxRegs) (d : MonDev H) : MonDev H :=
  let w := fun (hw : H) (addr mask val : Nat) =>
    rtw89_phy_set_phy_regs ops d.dbcc_en hw addr mask val
  let hw := w d.hw g.R_IFS_COUNTER g.B_IFS_COUNTER_CLR_MSK 0
  let hw := w hw g.R_CCX g.B_MEASUREMENT_TRIG_MSK 0
  let hw := w hw g.R_IFS_COUNTER g.B_IFS_COUNTER_CLR_MSK 1
  let hw := w hw g.R_CCX g.B_MEASUREMENT_TRIG_MSK 1
  { d with hw := hw,
           env := { d.env with ccx_rpt_stamp := u8 (d.env.ccx_rpt_stamp + 1),
                               ccx_ongoing := true } }

/-- The function `rtw89_phy_ifs_clm_get_utility`. -/
def rtw89_phy_ifs_clm_get_utility (c : CcxDefs) (env : rtw89_env_monitor_info) :
    rtw89_env_monitor_info :=
  let v := u8 (rtw89_phy_ccx_get_report env env.ifs_clm_tx c.PERCENT)
  let env := { env with ifs_clm_tx_ratio := v }
  let v := u8 (rtw89_phy_ccx_get_report env env.ifs_clm_edcca_excl_cca c.PERCENT)
  let env := { env with ifs_clm_edcca_excl_cca_ratio := v }
  let v := u8 (rtw89_phy_ccx_get_report env env.ifs_clm_cckfa c.PERCENT)
  let env := { env with ifs_clm_cck_fa_ratio := v }
  let v := u8 (rtw89_phy_ccx_get_report env env.ifs_clm_ofdmfa c.PERCENT)
  let env := { env with ifs_clm_ofdm_fa_ratio := v }
  let v := u8 (rtw89_phy_ccx_get_report env env.ifs_clm_cckcca_excl_fa c.PERCENT)
  let env := { env with ifs_clm_cck_cca_excl_fa_ratio := v }
  let v := u8 (rtw89_phy_ccx_get_report env env.ifs_clm_ofdmcca_excl_fa c.PERCENT)
  let env := { env with ifs_clm_ofdm_cca_excl_fa_ratio := v }
  let v := rtw89_phy_ccx_get_report env env.ifs_clm_cckfa c.PERMIL
  let env := { env with ifs_clm_cck_fa_permil := v }
  let v := rtw89_phy_ccx_get_report env env.ifs_clm_ofdmfa c.PERMIL
  let env := { env with ifs_clm_ofdm_fa_permil := v }
  (List.range c.RTW89_IFS_CLM_NUM).foldl
    (fun (e : rtw89_env_monitor_info) i =>
      let ifs_avg :=
        if e.ifs_clm_his i > c.ENV_MNTR_IFSCLM_HIS_MAX then u32 c.ENV_MNTR_FAIL_DWORD
        else rtw89_phy_ccx_idx_to_us c e (e.ifs_clm_avg i)
      let res := rtw89_phy_ccx_idx_to_us c e (e.ifs_clm_cca i)
      let res := u32 (res + (e.ifs_clm_his i >>> 1))
      let res := if e.ifs_clm_his i ≠ 0 then res / e.ifs_clm_his i else 0
      { e with ifs_clm_ifs_avg := Function.update e.ifs_clm_ifs_avg i ifs_avg,
               ifs_clm_cca_avg := Function.update e.ifs_clm_cca_avg i res })
    env

/-- One counter read of `rtw89_phy_ifs_clm_get_result`: read the field, store
the value with `put`, keep the hardware state after the access. -/
def ifs_clm_read {H : Type} (ops : RegOps H) (d : MonDev H) (addr mask : Nat)
    (put : rtw89_env_monitor_info → Nat → rtw89_env_monitor_info) : MonDev H :=
  let r := ops.phy_read32_mask d.hw addr mask
  { d with env := put d.env r.1, hw := r.2 }

/-- The function `rtw89_phy_ifs_clm_get_result`: the return value and the
device. -/
def rtw89_phy_ifs_clm_get_result {H : Type} (ops : RegOps H) (c : CcxDefs) (g : CcxRegs)
    (d : MonDev H) : Bool × MonDev H :=
  let done := ops.phy_read32_mask d.hw g.R_IFSCNT g.B_IFSCNT_DONE_MSK
  let d := { d with hw := done.2 }
  if done.1 = 0 then (false, d)
  else
    let d := ifs_clm_read ops d g.R_IFS_CLM_TX_CNT g.B_IFS_CLM_TX_CNT_MSK
      (fun e v => { e with ifs_clm_tx := u16 v })
    let d := ifs_clm_read ops d g.R_IFS_CLM_TX_CNT g.B_IFS_CLM_EDCCA_EXCLUDE_CCA_FA_MSK
      (fun e v => { e with ifs_clm_edcca_excl_cca := u16 v })
    let d := ifs_clm_read ops d g.R_IFS_CLM_CCA g.B_IFS_CLM_CCKCCA_EXCLUDE_FA_MSK
      (fun e v => { e with ifs_clm_cckcca_excl_fa := u16 v })
    let d := ifs_clm_read ops d g.R_IFS_CLM_CCA g.B_IFS_CLM_OFDMCCA_EXCLUDE_FA_MSK
      (fun e v => { e with ifs_clm_ofdmcca_excl_fa := u16 v })
    let d := ifs_clm_read ops d g.R_IFS_CLM_FA g.B_IFS_CLM_CCK_FA_MSK
      (fun e v => { e with ifs_clm_cckfa := u16 v })
    let d := ifs_clm_read ops d g.R_IFS_CLM_FA g.B_IFS_CLM_OFDM_FA_MSK
      (fun e v => { e with ifs_clm_ofdmfa := u16 v })
    let d := ifs_clm_read ops d g.R_IFS_HIS g.B_IFS_T1_HIS_MSK
      (fun e v => { e with ifs_clm_his := Function.update e.ifs_clm_his 0 (u8 v) })
    let d := ifs_clm_read ops d g.R_IFS_HIS g.B_IFS_T2_HIS_MSK
      (fun e v => { e with ifs_clm_his := Function.update e.ifs_clm_his 1 (u8 v) })
    let d := ifs_clm_read ops d g.R_IFS_HIS g.B_IFS_T3_HIS_MSK
      (fun e v => { e with ifs_clm_his := Function.update e.ifs_clm_his 2 (u8 v) })
    let d := ifs_clm_read ops d g.R_IFS_HIS g.B_IFS_T4_HIS_MSK
      (fun e v => { e with ifs_clm_his := Function.update e.ifs_clm_his 3 (u8 v) })
    let d := ifs_clm_read ops d g.R_IFS_AVG_L g.B_IFS_T1_AVG_MSK
      (fun e v => { e with ifs_clm_avg := Function.update e.ifs_clm_avg 0 (u16 v) })
    let d := ifs_clm_read ops d g.R_IFS_AVG_L g.B_IFS_T2_AVG_MSK
      (fun e v => { e with ifs_clm_avg := Function.update e.ifs_clm_avg 1 (u16 v) })
    let d := ifs_clm_read ops d g.R_IFS_AVG_H g.B_IFS_T3_AVG_MSK
      (fun e v => { e with ifs_clm_avg := Function.update e.ifs_clm_avg 2 (u16 v) })
    let d := ifs_clm_read ops d g.R_IFS_AVG_H g.B_IFS_T4_AVG_MSK
      (fun e v => { e with ifs_clm_avg := Function.update e.ifs_clm_avg 3 (u16 v) })
    let d := ifs_clm_read ops d g.R_IFS_CCA_L g.B_IFS_T1_CCA_MSK
      (fun e v => { e with ifs_clm_cca := Function.update e.ifs_clm_cca 0 (u16 v) })
    let d := ifs_clm_read ops d g.R_IFS_CCA_L g.B_IFS_T2_CCA_MSK
      (fun e v => { e with ifs_clm_cca := Function.update e.ifs_clm_cca 1 (u16 v) })
    let d := ifs_clm_read ops d g.R_IFS_CCA_H g.B_IFS_T3_CCA_MSK
      (fun e v => { e with ifs_clm_cca := Function.update e.ifs_clm_cca 2 (u16 v) })
    let d := ifs_clm_read ops d g.R_IFS_CCA_H g.B_IFS_T4_CCA_MSK
      (fun e v => { e with ifs_clm_cca := Function.update e.ifs_clm_cca 3 (u16 v) })
    let d := ifs_clm_read ops d g.R_IFSCNT g.B_IFSCNT_TOTAL_CNT_MSK
      (fun e v => { e with ifs_clm_total_ifs := u16 v })
    (true, { d with env := rtw89_phy_ifs_clm_get_utility c d.env })

/-- The function `rtw89_phy_ifs_clm_set`: the return value and the device. -/
def rtw89_phy_ifs_clm_set {H : Type} (ops : RegOps H) (c : CcxDefs) (g : CcxRegs)
    (d : MonDev H) (para : rtw89_ccx_para_info) : Int × MonDev H :=
  if para.mntr_time = 0 then (-EINVAL, d)
  else
    let rc := rtw89_phy_ccx_racing_ctrl c d.env para.rac_lv
    let d := { d with env := rc.2 }
    if rc.1 ≠ 0 then (-EINVAL, d)
    else
      let d :=
        if para.mntr_time ≠ d.env.ifs_clm_mntr_time then
          let pu := rtw89_phy_ccx_ms_to_period_unit c para.mntr_time
          let hw := rtw89_phy_set_phy_regs ops d.dbcc_en d.hw g.R_IFS_COUNTER
            g.B_IFS_CLM_PERIOD_MSK pu.1
          let hw := rtw89_phy_set_phy_regs ops d.dbcc_en hw g.R_IFS_COUNTER
            g.B_IFS_CLM_COUNTER_UNIT_MSK pu.2
          { d with hw := hw,
                   env := { d.env with ifs_clm_mntr_time := u16 para.mntr_time,
                                       ccx_period := u16 pu.1,
                                       ccx_unit_idx := u8 pu.2 } }
        else d
      let chk := rtw89_phy_ifs_clm_th_update_check c d.env para
      let d := { d with env := chk.2 }
      let d :=
        if chk.1 then
          rtw89_phy_ifs_clm_set_th_reg ops g
            { d with env := { d.env with ifs_clm_app := para.ifs_clm_app } }
        else d
      (0, d)

/-- The function `rtw89_phy_env_monitor_track`. -/
def rtw89_phy_env_monitor_track {H : Type} (ops : RegOps H) (c : CcxDefs) (g : CcxRegs)
    (d : MonDev H) : MonDev H :=
  let para : rtw89_ccx_para_info := ⟨0, 0, 0, 0, 0⟩
  let chk_result := u8 c.RTW89_PHY_ENV_MON_CCX_FAIL
  let d := { d with env := { d.env with ccx_watchdog_result := chk_result } }
  if d.env.ccx_manual_ctrl then d
  else
    let gr := rtw89_phy_ifs_clm_get_result ops c g d
    let d := gr.2
    let d :=
      if gr.1 then
        let v := u8 (d.env.ccx_watchdog_result ||| c.RTW89_PHY_ENV_MON_IFS_CLM)
        { d with env := { d.env with ccx_watchdog_result := v } }
      else d
    let d := { d with env := rtw89_phy_ccx_racing_release c d.env }
    let para := { para with mntr_time := 1900, rac_lv := c.RTW89_RAC_LV_1,
                            ifs_clm_app := c.RTW89_IFS_CLM_BACKGROUND }
    let sr := rtw89_phy_ifs_clm_set ops c g d para
    let d := sr.2
    let chk_result :=
      if sr.1 = 0 then u8 (chk_result ||| c.RTW89_PHY_ENV_MON_IFS_CLM) else chk_result
    if chk_result ≠ 0 then rtw89_phy_ccx_trigger ops g d else d

/-- A concrete instance of the environment-monitor constants, used to evaluate
the model. -/
def ccxStd : CcxDefs where
  RTW89_RAC_RELEASE := 0
  RTW89_RAC_LV_1 := 1
  RTW89_RAC_MAX_NUM := 5
  RTW89_IFS_CLM_INIT := 0
  RTW89_IFS_CLM_BACKGROUND := 1
  RTW89_IFS_CLM_ACS := 2
  RTW89_IFS_CLM_DIG := 3
  RTW89_IFS_CLM_TDMA_DIG := 4
  RTW89_IFS_CLM_DBG := 5
  RTW89_IFS_CLM_DBG_MANUAL := 6
  IFS_CLM_TH0_UPPER := 64
  IFS_CLM_TH_MUL := 4
  IFS_CLM_TH_START_IDX := 0
  RTW89_IFS_CLM_NUM := 4
  CCX_MAX_PERIOD := 2097
  CCX_MAX_PERIOD_UNIT := 32
  MS_TO_4US_RATIO := 250
  RTW89_CCX_4_US := 0
  RTW89_CCX_8_US := 1
  RTW89_CCX_16_US := 2
  RTW89_CCX_32_US := 3
  CCX_US_BASE_RATIO := 4
  PERCENT := 100
  PERMIL := 1000
  ENV_MNTR_IFSCLM_HIS_MAX := 127
  ENV_MNTR_FAIL_DWORD := 0xffffffff
  RTW89_PHY_ENV_MON_CCX_FAIL := 0
  RTW89_PHY_ENV_MON_IFS_CLM := 8

/-- A sample assignment of register addresses and field masks for the
environment monitor, used to evaluate the model (distinct fields get distinct
address/mask pairs). -/
def ccxRegsStd : CcxRegs where
  R_CCX := 0x0c00
  B_MEASUREMENT_TRIG_MSK := 0x4
  R_IFS_COUNTER := 0x0d28
  B_IFS_COUNTER_CLR_MSK := 0x8000
  B_IFS_CLM_PERIOD_MSK := 0xffff0000
  B_IFS_CLM_COUNTER_UNIT_MSK := 0x3000
  R_IFS_T1 := 0x0d2c
  R_IFS_T2 := 0x0d30
  R_IFS_T3 := 0x0d34
  R_IFS_T4 := 0x0d38
  B_IFS_T1_TH_LOW_MSK := 0x7fff
  B_IFS_T2_TH_LOW_MSK := 0x7fff
  B_IFS_T3_TH_LOW_MSK := 0x7fff
  B_IFS_T4_TH_LOW_MSK := 0x7fff
  B_IFS_T1_TH_HIGH_MSK := 0x7fff0000
  B_IFS_T2_TH_HIGH_MSK := 0x7fff0000
  B_IFS_T3_TH_HIGH_MSK := 0x7fff0000
  B_IFS_T4_TH_HIGH_MSK := 0x7fff0000
  R_IFSCNT := 0x1ab0
  B_IFSCNT_DONE_MSK := 0x10000
  B_IFSCNT_TOTAL_CNT_MSK := 0xffff
  R_IFS_CLM_TX_CNT := 0x1acc
  B_IFS_CLM_TX_CNT_MSK := 0xffff
  B_IFS_CLM_EDCCA_EXCLUDE_CCA_FA_MSK := 0xffff0000
  R_IFS_CLM_CCA := 0x1ad0
  B_IFS_CLM_CCKCCA_EXCLUDE_FA_MSK := 0xffff
  B_IFS_CLM_OFDMCCA_EXCLUDE_FA_MSK := 0xffff0000
  R_IFS_CLM_FA := 0x1ad4
  B_IFS_CLM_CCK_FA_MSK := 0xffff
  B_IFS_CLM_OFDM_FA_MSK := 0xffff0000
  R_IFS_HIS := 0x1ad8
  B_IFS_T1_HIS_MSK := 0xff
  B_IFS_T2_HIS_MSK := 0xff00
  B_IFS_T3_HIS_MSK := 0xff0000
  B_IFS_T4_HIS_MSK := 0xff000000
  R_IFS_AVG_L := 0x1adc
  R_IFS_AVG_H := 0x1ae0
  B_IFS_T1_AVG_MSK := 0xffff
  B_IFS_T2_AVG_MSK := 0xffff0000
  B_IFS_T3_AVG_MSK := 0xffff
  B_IFS_T4_AVG_MSK := 0xffff0000
  R_IFS_CCA_L := 0x1ae4
  R_IFS_CCA_H := 0x1ae8
  B_IFS_T1_CCA_MSK := 0xffff
  B_IFS_T2_CCA_MSK := 0xffff0000
  B_IFS_T3_CCA_MSK := 0xffff
  B_IFS_T4_CCA_MSK := 0xffff0000

/-- Register accesses recorded by the simulated hardware. -/
inductive RegAccess where
  | read (phy : Bool) (addr mask : Nat)
  | write (phy : Bool) (addr mask val : Nat)
  | clr (addr mask : Nat)
deriving DecidableEq, Repr

/-- A simulated register file for evaluating the model: the fields written so
far (most recent first, keyed by register space, address and mask) and the log
of all accesses. -/
structure HwSim where
  fields : List ((Bool × Nat × Nat) × Nat)
  log : List RegAccess
deriving DecidableEq, Repr

/-- Number of trailing zero bits of a mask (at most `fuel`). -/
def mask_shift : Nat → Nat → Nat
  | 0, _ => 0
  | fuel + 1, mask => if mask % 2 = 1 then 0 else 1 + mask_shift fuel (mask / 2)

/-- The value a field of the simulated register file holds: the last value
written to it, 0 if it was never written. -/
def HwSim.get (hw : HwSim) (phy : Bool) (addr mask : Nat) : Nat :=
  match hw.fields.lookup (phy, addr, mask) with
  | some v => v
  | none => 0

/-- Write to a field of the simulated register file: the value is cut to the
width of the field. -/
def HwSim.set (hw : HwSim) (phy : Bool) (addr mask val : Nat) : HwSim :=
  { fields := ((phy, addr, mask), val &&& (mask >>> mask_shift 32 mask)) :: hw.fields,
    log := hw.log ++ [RegAccess.write phy addr mask val] }

/-- The register access primitives of the simulated register file. -/
def simOps : RegOps HwSim where
  read32_mask := fun hw addr mask =>
    (hw.get false addr mask, { hw with log := hw.log ++ [RegAccess.read false addr mask] })
  write32_mask := fun hw addr mask val => hw.set false addr mask val
  write32_clr := fun hw addr mask =>
    { fields := ((false, addr, mask), 0) :: hw.fields,
      log := hw.log ++ [RegAccess.clr addr mask] }
  phy_read32_mask := fun hw addr mask =>
    (hw.get true addr mask, { hw with log := hw.log ++ [RegAccess.read true addr mask] })
  phy_write32_mask := fun hw addr mask val => hw.set true addr mask val

/-- The zero-initialised environment monitor state. -/
def envZero : rtw89_env_monitor_info where
  ccx_manual_ctrl := false
  ccx_ongoing := false
  ccx_rac_lv := 0
  ccx_rpt_stamp := 0
  ccx_period := 0
  ccx_unit_idx := 0
  ccx_trigger_time := 0
  ccx_edcca_opt_bw_idx := 0
  ccx_watchdog_result := 0
  ifs_clm_app := 0
  ifs_clm_mntr_time := 0
  ifs_clm_th_l := fun _ => 0
  ifs_clm_th_h := fun _ => 0
  ifs_clm_tx := 0
  ifs_clm_edcca_excl_cca := 0
  ifs_clm_cckcca_excl_fa := 0
  ifs_clm_ofdmcca_excl_fa := 0
  ifs_clm_cckfa := 0
  ifs_clm_ofdmfa := 0
  ifs_clm_total_ifs := 0
  ifs_clm_his := fun _ => 0
  ifs_clm_avg := fun _ => 0
  ifs_clm_cca := fun _ => 0
  ifs_clm_tx_ratio := 0
  ifs_clm_edcca_excl_cca_ratio := 0
  ifs_clm_cck_fa_ratio := 0
  ifs_clm_ofdm_fa_ratio := 0
  ifs_clm_cck_cca_excl_fa_ratio := 0
  ifs_clm_ofdm_cca_excl_fa_ratio := 0
  ifs_clm_cck_fa_permil := 0
  ifs_clm_ofdm_fa_permil := 0
  ifs_clm_ifs_avg := fun _ => 0
  ifs_clm_cca_avg := fun _ => 0

/-- A monitor device with a window in flight that is owned by racing level 3,
on an empty simulated register file. -/
def monDevBusy : MonDev HwSim :=
  { env := { envZero with ccx_ongoing := true, ccx_rac_lv := 3 },
    hw := ⟨[], []⟩, dbcc_en := false }

/-! ## Rate-adaptation mask -/

/-- The macro `GENMASK_ULL(h, l)` of the kernel (`linux/bits.h`): bits `l .. h`
of a 64-bit word, for `l <= h <= 63`. -/
def GENMASK_ULL (h l : Nat) : Nat :=
  u64 ((2 ^ 64 - 1) <<< l) &&& ((2 ^ 64 - 1) >>> (63 - h))

/-- The loop of `get_mcs_ra_mask` with `n` iterations left (`i = 4 - n`); the
loop variables are `mcs_map` (a `u16`), `nss` and `ra_mask`.  The differences
`highest_mcs - gap` and `highest_mcs - gap * 2` are computed as `int` in C and
must not be negative. -/
def get_mcs_ra_mask_loop (highest_mcs gap : Nat) : Nat → Nat → Nat → Nat → Nat
  | 0, _, _, ra_mask => ra_mask
  | n + 1, mcs_map, nss, ra_mask =>
    let mcs_cap := u8 (mcs_map &&& 0x3)
    let ra_mask :=
      if mcs_cap = 2 then ra_mask ||| u64 (GENMASK_ULL highest_mcs 0 <<< nss)
      else if mcs_cap = 1 then ra_mask ||| u64 (GENMASK_ULL (highest_mcs - gap) 0 <<< nss)
      else if mcs_cap = 0 then ra_mask ||| u64 (GENMASK_ULL (highest_mcs - gap * 2) 0 <<< nss)
      else ra_mask
    get_mcs_ra_mask_loop highest_mcs gap n (u16 (mcs_map >>> 2)) (nss + 12) ra_mask

/-- The function `get_mcs_ra_mask`. -/
def get_mcs_ra_mask (mcs_map highest_mcs gap : Nat) : Nat :=
  get_mcs_ra_mask_loop (u8 highest_mcs) (u8 gap) 4 (u16 mcs_map) 12 0

/-- The bits the claim assigns to one stream: `f(2)` is bits `0 .. highest_mcs`,
`f(1)` bits `0 .. highest_mcs - gap`, `f(0)` bits `0 .. highest_mcs - 2 * gap`,
and `f(3)` is empty. -/
def mcs_stream_bits_spec (highest_mcs gap code : Nat) : Nat :=
  if code = 2 then 2 ^ (highest_mcs + 1) - 1
  else if code = 1 then 2 ^ (highest_mcs - gap + 1) - 1
  else if code = 0 then 2 ^ (highest_mcs - 2 * gap + 1) - 1
  else 0

/-- The 2-bit support code of stream `i`: bits `2i+1 .. 2i` of `mcs_map`. -/
def mcs_code (mcs_map i : Nat) : Nat := (mcs_map >>> (2 * i)) % 4

/-- The mask the claim describes: the OR over the four streams of the stream's
bits moved to its 12-bit group. -/
def mcs_ra_mask_spec (mcs_map highest_mcs gap : Nat) : Nat :=
  (mcs_stream_bits_spec highest_mcs gap (mcs_code mcs_map 0) <<< 12) |||
  (mcs_stream_bits_spec highest_mcs gap (mcs_code mcs_map 1) <<< 24) |||
  (mcs_stream_bits_spec highest_mcs gap (mcs_code mcs_map 2) <<< 36) |||
  (mcs_stream_bits_spec highest_mcs gap (mcs_code mcs_map 3) <<< 48)

/-- The constant `RA_FLOOR_UP_GAP`. -/
def RA_FLOOR_UP_GAP : Nat := 3

/-- The loop of `rtw89_phy_ra_mask_rssi` over the remaining entries of
`rssi_lv_t`, `i` being the index of the first of them; the result is `rssi_lv`
(0 when no entry is above `rssi`). -/
def ra_mask_rssi_loop (rssi ratr_state : Nat) : List Nat → Nat → Nat
  | [], _ => 0
  | t :: rest, i =>
    let t := if i ≥ ratr_state then u8 (t + RA_FLOOR_UP_GAP) else t
    if rssi < t then i else ra_mask_rssi_loop rssi ratr_state rest (i + 1)

/-- The function `rtw89_phy_ra_mask_rssi`. -/
def rtw89_phy_ra_mask_rssi (rssi ratr_state : Nat) : Nat :=
  let rssi := u8 rssi >>> 1
  let rssi_lv := ra_mask_rssi_loop rssi (u8 ratr_state) [30, 44, 48, 52, 56, 60, 100] 0
  if rssi_lv = 0 then 0xffffffffffffffff
  else if rssi_lv = 1 then 0xfffffffffffffff0
  else if rssi_lv = 2 then 0xffffffffffffffe0
  else if rssi_lv = 3 then 0xffffffffffffffc0
  else if rssi_lv = 4 then 0xffffffffffffff80
  else if rssi_lv ≥ 5 then 0xffffffffffffff00
  else 0xffffffffffffffff

/-- Constants of `phy.h`, `core.h` and the 802.11 headers used by the
rate-adaptation code (none of them is part of the sources). -/
structure RaDefs where
  RTW89_RA_MODE_CCK : Nat
  RTW89_RA_MODE_OFDM : Nat
  RTW89_RA_MODE_HT : Nat
  RTW89_RA_MODE_VHT : Nat
  RTW89_RA_MODE_HE : Nat
  RA_MASK_CCK_RATES : Nat
  RA_MASK_OFDM_RATES : Nat
  RA_MASK_SUBCCK_RATES : Nat
  RA_MASK_SUBOFDM_RATES : Nat
  RA_MASK_HT_1SS_RATES : Nat
  RA_MASK_HT_2SS_RATES : Nat
  RA_MASK_HT_3SS_RATES : Nat
  RA_MASK_HT_4SS_RATES : Nat
  RA_MASK_VHT_1SS_RATES : Nat
  RA_MASK_VHT_2SS_RATES : Nat
  RA_MASK_VHT_3SS_RATES : Nat
  RA_MASK_VHT_4SS_RATES : Nat
  RA_MASK_HE_1SS_RATES : Nat
  RA_MASK_HE_2SS_RATES : Nat
  RA_MASK_HE_3SS_RATES : Nat
  RA_MASK_HE_4SS_RATES : Nat
  IEEE80211_STA_RX_BW_40 : Nat
  IEEE80211_STA_RX_BW_80 : Nat
  IEEE80211_STA_RX_BW_160 : Nat
  IEEE80211_HE_PHY_CAP0_CHANNEL_WIDTH_SET_80PLUS80_MHZ_IN_5G : Nat
  IEEE80211_HE_PHY_CAP1_LDPC_CODING_IN_PAYLOAD : Nat
  IEEE80211_HE_PHY_CAP2_STBC_RX_UNDER_80MHZ : Nat
  IEEE80211_HE_PHY_CAP3_DCM_MAX_CONST_RX_16_QAM : Nat
  IEEE80211_VHT_CAP_RXSTBC_MASK : Nat
  IEEE80211_VHT_CAP_RXLDPC : Nat
  IEEE80211_VHT_CAP_SHORT_GI_80 : Nat
  IEEE80211_HT_CAP_RX_STBC : Nat
  IEEE80211_HT_CAP_LDPC_CODING : Nat
  IEEE80211_HT_CAP_SGI_20 : Nat
  IEEE80211_HT_CAP_SGI_40 : Nat
  NL80211_BAND_2GHZ : Nat

/-- The table `rtw89_ra_mask_ht_rates`. -/
def rtw89_ra_mask_ht_rates (r : RaDefs) : List Nat :=
  [r.RA_MASK_HT_1SS_RATES, r.RA_MASK_HT_2SS_RATES, r.RA_MASK_HT_3SS_RATES,
    r.RA_MASK_HT_4SS_RATES]

/-- The table `rtw89_ra_mask_vht_rates`. -/
def rtw89_ra_mask_vht_rates (r : RaDefs) : List Nat :=
  [r.RA_MASK_VHT_1SS_RATES, r.RA_MASK_VHT_2SS_RATES, r.RA_MASK_VHT_3SS_RATES,
    r.RA_MASK_VHT_4SS_RATES]

/-- The table `rtw89_ra_mask_he_rates`. -/
def rtw89_ra_mask_he_rates (r : RaDefs) : List Nat :=
  [r.RA_MASK_HE_1SS_RATES, r.RA_MASK_HE_2SS_RATES, r.RA_MASK_HE_3SS_RATES,
    r.RA_MASK_HE_4SS_RATES]

/-- The fields of `struct ieee80211_sta` and of its driver part
`struct rtw89_sta` read by the rate-adaptation code.  Nested members are
flattened (`he_cap.has_he` is `has_he`, `he_cap.he_cap_elem.phy_cap_info` is
`he_phy_cap_info`, the `le16` MCS maps are given as CPU values, `ht_cap.cap` is
`ht_cap`, `vht_cap.cap` is `vht_cap`); `avg_rssi` is the value of
`ewma_rssi_read(&rtwsta->avg_rssi)`. -/
structure ieee80211_sta where
  has_he : Bool
  he_phy_cap_info : Nat → Nat
  he_rx_mcs_80 : Nat
  he_rx_mcs_160 : Nat
  he_rx_mcs_80p80 : Nat
  vht_supported : Bool
  vht_rx_mcs_map : Nat
  vht_cap : Nat
  ht_supported : Bool
  ht_rx_mask : Nat → Nat
  ht_cap : Nat
  supp_rates : Nat → Nat
  bandwidth : Nat
  rx_nss : Nat
  avg_rssi : Nat
  mac_id : Nat

/-- The fields of `struct rtw89_ra_info` written by `phy.c` (the struct is
declared in `core.h`, outside the sources; its bit-field widths are not
modelled). -/
structure rtw89_ra_info where
  mode_ctrl : Nat
  bw_cap : Nat
  macid : Nat
  dcm_cap : Nat
  stbc_cap : Nat
  ldpc_cap : Nat
  ss_num : Nat
  en_sgi : Bool
  ra_mask : Nat
  init_rate_lv : Nat
  upd_all : Nat
  upd_mask : Nat

/-- The result of `memset(ra, 0, sizeof(*ra))`. -/
def ra_info_zero : rtw89_ra_info := ⟨0, 0, 0, 0, 0, 0, 0, false, 0, 0, 0, 0⟩

/-- The parts of `struct rtw89_dev` read by the rate-adaptation code. -/
structure RaDev where
  current_band_type : Nat
  tx_nss : Nat

/-- Conversion of a 32-bit `int` (given by its two's complement bits) to `u64`:
sign extension. -/
def int_to_u64 (x : Nat) : Nat :=
  if u32 x ≥ 2 ^ 31 then u32 x + (2 ^ 64 - 2 ^ 32) else u32 x

/-- The function `get_he_ra_mask`. -/
def get_he_ra_mask (r : RaDefs) (sta : ieee80211_sta) : Nat :=
  let mcs_map :=
    if sta.bandwidth = r.IEEE80211_STA_RX_BW_160 then
      if sta.he_phy_cap_info 0 &&&
          r.IEEE80211_HE_PHY_CAP0_CHANNEL_WIDTH_SET_80PLUS80_MHZ_IN_5G ≠ 0 then
        u16 sta.he_rx_mcs_80p80
      else u16 sta.he_rx_mcs_160
    else u16 sta.he_rx_mcs_80
  get_mcs_ra_mask mcs_map 11 2

/-- The local variables `mode`, `ra_mask`, `high_rate_masks`, `stbc_en` and
`ldpc_en` of `rtw89_phy_ra_sta_update` after the capability branches. -/
structure RaCap where
  mode : Nat
  ra_mask : Nat
  high_rate_masks : List Nat
  stbc_en : Nat
  ldpc_en : Nat

/-- First part of `rtw89_phy_ra_sta_update`: "Set the ra mask from sta's
capability". -/
def ra_sta_cap (r : RaDefs) (sta : ieee80211_sta) : RaCap :=
  if sta.has_he then
    { mode := u8 (0 ||| r.RTW89_RA_MODE_HE),
      ra_mask := 0 ||| get_he_ra_mask r sta,
      high_rate_masks := rtw89_ra_mask_he_rates r,
      stbc_en :=
        if sta.he_phy_cap_info 2 &&& r.IEEE80211_HE_PHY_CAP2_STBC_RX_UNDER_80MHZ ≠ 0 then 1
        else 0,
      ldpc_en :=
        if sta.he_phy_cap_info 1 &&& r.IEEE80211_HE_PHY_CAP1_LDPC_CODING_IN_PAYLOAD ≠ 0 then 1
        else 0 }
  else if sta.vht_supported then
    { mode := u8 (0 ||| r.RTW89_RA_MODE_VHT),
      ra_mask := 0 ||| get_mcs_ra_mask (u16 sta.vht_rx_mcs_map) 9 1,
      high_rate_masks := rtw89_ra_mask_vht_rates r,
      stbc_en := if sta.vht_cap &&& r.IEEE80211_VHT_CAP_RXSTBC_MASK ≠ 0 then 1 else 0,
      ldpc_en := if sta.vht_cap &&& r.IEEE80211_VHT_CAP_RXLDPC ≠ 0 then 1 else 0 }
  else if sta.ht_supported then
    { mode := u8 (0 ||| r.RTW89_RA_MODE_HT),
      ra_mask := 0 ||| (u64 (u8 (sta.ht_rx_mask 3) <<< 48) |||
        u64 (u8 (sta.ht_rx_mask 2) <<< 36) |||
        int_to_u64 (u8 (sta.ht_rx_mask 1) <<< 24) |||
        int_to_u64 (u8 (sta.ht_rx_mask 0) <<< 12)),
      high_rate_masks := rtw89_ra_mask_ht_rates r,
      stbc_en := if sta.ht_cap &&& r.IEEE80211_HT_CAP_RX_STBC ≠ 0 then 1 else 0,
      ldpc_en := if sta.ht_cap &&& r.IEEE80211_HT_CAP_LDPC_CODING ≠ 0 then 1 else 0 }
  else
    { mode := 0, ra_mask := 0, high_rate_masks := rtw89_ra_mask_ht_rates r,
      stbc_en := 0, ldpc_en := 0 }

/-- The value of `mode` in `rtw89_phy_ra_sta_update` after the band branch
(lines "if (rtwdev->hal.current_band_type == RTW89_BAND_2G) ..."). -/
def ra_sta_mode (e : TxpwrEnums) (r : RaDefs) (d : RaDev) (sta : ieee80211_sta) : Nat :=
  let mode := (ra_sta_cap r sta).mode
  if d.current_band_type = e.RTW89_BAND_2G then
    if sta.supp_rates r.NL80211_BAND_2GHZ ≤ 0xf then u8 (mode ||| r.RTW89_RA_MODE_CCK)
    else u8 (mode ||| (r.RTW89_RA_MODE_CCK ||| r.RTW89_RA_MODE_OFDM))
  else u8 (mode ||| r.RTW89_RA_MODE_OFDM)

/-- The loop `for (i = 0; i < tx_nss; i++) high_rate_mask |= high_rate_masks[i]`
(reading past the four table entries is undefined in C; the model reads 0). -/
def ra_high_rate_mask (masks : List Nat) (tx_nss : Nat) : Nat :=
  (List.range (u8 tx_nss)).foldl (fun acc i => acc ||| masks.getD i 0) 0

/-- The value of `ra_mask` in `rtw89_phy_ra_sta_update` after the mode branches
and the RSSI mask. -/
def ra_sta_mask (e : TxpwrEnums) (r : RaDefs) (d : RaDev) (sta : ieee80211_sta) : Nat :=
  let cap := ra_sta_cap r sta
  let mode := ra_sta_mode e r d sta
  let rssi := u8 sta.avg_rssi
  let ra_mask := cap.ra_mask
  let ra_mask :=
    if mode ≥ r.RTW89_RA_MODE_HT then
      let ra_mask := ra_mask &&& ra_high_rate_mask cap.high_rate_masks d.tx_nss
      let ra_mask :=
        if mode &&& r.RTW89_RA_MODE_OFDM ≠ 0 then ra_mask ||| r.RA_MASK_SUBOFDM_RATES
        else ra_mask
      if mode &&& r.RTW89_RA_MODE_CCK ≠ 0 then ra_mask ||| r.RA_MASK_SUBCCK_RATES
      else ra_mask
    else if mode &&& r.RTW89_RA_MODE_OFDM ≠ 0 then
      let ra_mask :=
        if mode &&& r.RTW89_RA_MODE_CCK ≠ 0 then ra_mask ||| r.RA_MASK_SUBCCK_RATES
        else ra_mask
      ra_mask ||| r.RA_MASK_OFDM_RATES
    else r.RA_MASK_CCK_RATES
  if mode ≠ r.RTW89_RA_MODE_CCK then ra_mask &&& rtw89_phy_ra_mask_rssi rssi 0
  else ra_mask

/-- The function `rtw89_phy_ra_sta_update`: the contents of `rtwsta->ra` after
the call. -/
def rtw89_phy_ra_sta_update (e : TxpwrEnums) (r : RaDefs) (d : RaDev) (sta : ieee80211_sta) :
    rtw89_ra_info :=
  let cap := ra_sta_cap r sta
  let mode := ra_sta_mode e r d sta
  let ra_mask := ra_sta_mask e r d sta
  let bs : Nat × Bool :=
    if sta.bandwidth = r.IEEE80211_STA_RX_BW_80 then
      (e.RTW89_CHANNEL_WIDTH_80,
        sta.vht_supported && decide (sta.vht_cap &&& r.IEEE80211_VHT_CAP_SHORT_GI_80 ≠ 0))
    else if sta.bandwidth = r.IEEE80211_STA_RX_BW_40 then
      (e.RTW89_CHANNEL_WIDTH_40,
        sta.ht_supported && decide (sta.ht_cap &&& r.IEEE80211_HT_CAP_SGI_40 ≠ 0))
    else
      (e.RTW89_CHANNEL_WIDTH_20,
        sta.ht_supported && decide (sta.ht_cap &&& r.IEEE80211_HT_CAP_SGI_20 ≠ 0))
  let dcm :=
    if sta.he_phy_cap_info 3 &&& r.IEEE80211_HE_PHY_CAP3_DCM_MAX_CONST_RX_16_QAM ≠ 0 then 1
    else 0
  { ra_info_zero with
    dcm_cap := dcm
    bw_cap := u8 bs.1
    mode_ctrl := mode
    macid := sta.mac_id
    stbc_cap := cap.stbc_en
    ldpc_cap := cap.ldpc_en
    ss_num := u8_of_int ((min (u8 sta.rx_nss) (u8 d.tx_nss) : Int) - 1)
    en_sgi := bs.2
    ra_mask := ra_mask }

/-- The five mode constants `RTW89_RA_MODE_*` are non-zero, pairwise disjoint
bit masks of a `u8`. -/
def RaModeBits (r : RaDefs) : Prop :=
  List.Pairwise (fun a b => a &&& b = 0)
    [r.RTW89_RA_MODE_CCK, r.RTW89_RA_MODE_OFDM, r.RTW89_RA_MODE_HT, r.RTW89_RA_MODE_VHT,
      r.RTW89_RA_MODE_HE] ∧
  ∀ x ∈ [r.RTW89_RA_MODE_CCK, r.RTW89_RA_MODE_OFDM, r.RTW89_RA_MODE_HT, r.RTW89_RA_MODE_VHT,
      r.RTW89_RA_MODE_HE], x ≠ 0 ∧ x < 256

instance (r : RaDefs) : Decidable (RaModeBits r) := by
  unfold RaModeBits
  infer_instance

/-- A concrete instance of the rate-adaptation constants, used to evaluate the
model: mode bits 0..4, legacy rates in bits 0..11 (CCK 0..3, OFDM 4..11) and
one 12-bit group per spatial stream above them. -/
def raStd : RaDefs where
  RTW89_RA_MODE_CCK := 0x1
  RTW89_RA_MODE_OFDM := 0x2
  RTW89_RA_MODE_HT := 0x4
  RTW89_RA_MODE_VHT := 0x8
  RTW89_RA_MODE_HE := 0x10
  RA_MASK_CCK_RATES := 0xf
  RA_MASK_OFDM_RATES := 0xff0
  RA_MASK_SUBCCK_RATES := 0x5
  RA_MASK_SUBOFDM_RATES := 0x550
  RA_MASK_HT_1SS_RATES := 0xff000
  RA_MASK_HT_2SS_RATES := 0xff000000
  RA_MASK_HT_3SS_RATES := 0xff000000000
  RA_MASK_HT_4SS_RATES := 0xff000000000000
  RA_MASK_VHT_1SS_RATES := 0x3ff000
  RA_MASK_VHT_2SS_RATES := 0x3ff000000
  RA_MASK_VHT_3SS_RATES := 0x3ff000000000
  RA_MASK_VHT_4SS_RATES := 0x3ff000000000000
  RA_MASK_HE_1SS_RATES := 0xfff000
  RA_MASK_HE_2SS_RATES := 0xfff000000
  RA_MASK_HE_3SS_RATES := 0xfff000000000
  RA_MASK_HE_4SS_RATES := 0xfff000000000000
  IEEE80211_STA_RX_BW_40 := 1
  IEEE80211_STA_RX_BW_80 := 2
  IEEE80211_STA_RX_BW_160 := 3
  IEEE80211_HE_PHY_CAP0_CHANNEL_WIDTH_SET_80PLUS80_MHZ_IN_5G := 0x10
  IEEE80211_HE_PHY_CAP1_LDPC_CODING_IN_PAYLOAD := 0x20
  IEEE80211_HE_PHY_CAP2_STBC_RX_UNDER_80MHZ := 0x08
  IEEE80211_HE_PHY_CAP3_DCM_MAX_CONST_RX_16_QAM := 0x18
  IEEE80211_VHT_CAP_RXSTBC_MASK := 0x700
  IEEE80211_VHT_CAP_RXLDPC := 0x10
  IEEE80211_VHT_CAP_SHORT_GI_80 := 0x20
  IEEE80211_HT_CAP_RX_STBC := 0x300
  IEEE80211_HT_CAP_LDPC_CODING := 0x1
  IEEE80211_HT_CAP_SGI_20 := 0x20
  IEEE80211_HT_CAP_SGI_40 := 0x40
  NL80211_BAND_2GHZ := 0

/-- A station without HE, VHT or HT capability, with smoothed RSSI 100
(half-dBm units) and 20 MHz bandwidth. -/
def staLegacy : ieee80211_sta where
  has_he := false
  he_phy_cap_info := fun _ => 0
  he_rx_mcs_80 := 0
  he_rx_mcs_160 := 0
  he_rx_mcs_80p80 := 0
  vht_supported := false
  vht_rx_mcs_map := 0
  vht_cap := 0
  ht_supported := false
  ht_rx_mask := fun _ => 0
  ht_cap := 0
  supp_rates := fun _ => 0xfff
  bandwidth := 0
  rx_nss := 1
  avg_rssi := 100
  mac_id := 0

/-- A device on the 5 GHz band with two transmit streams. -/
def raDev5g : RaDev := ⟨1, 2⟩

/-! ## CFO tracking -/

/-- Conversion of an `int` to `s16` (two's complement wrap). -/
def s16 (x : Int) : Int := (x + 2 ^ 15) % 2 ^ 16 - 2 ^ 15

/-- Conversion to `s32`, also the result of `int` arithmetic that wraps. -/
def s32 (x : Int) : Int := (x + 2 ^ 31) % 2 ^ 32 - 2 ^ 31

/-- The 32 bits of an `int` as an unsigned value (conversion to `u32`). -/
def int_bits (x : Int) : Nat := (x % 2 ^ 32).toNat

/-- Constants of `phy.h` and `reg.h` used by the CFO tracking code (the headers
are not part of the sources).  `CFO_TRACK_MAX_USER` is the length of the
per-station arrays, at most 255 since the loops count in a `u8`.
`xtal_sc_msk_unsigned` tells whether the macro `B_AX_XTAL_SC_MSK` has an
unsigned type at least as wide as `int` (as a `GENMASK` has), so that a
comparison with it converts the other operand to that type. -/
structure CfoDefs where
  CFO_TRACK_MAX_USER : Nat
  xtal_sc_msk_unsigned : Bool
  CFO_TRK_ENABLE_TH : Int
  CFO_TRK_STOP_TH : Int
  CFO_TRK_STOP_TH_2 : Int
  CFO_TRK_STOP_TH_3 : Int
  CFO_TRK_STOP_TH_4 : Int
  MAX_CFO_TOLERANCE : Int
  CFO_COMP_WEIGHT : Nat
  R_AX_XTAL_ON_CTRL0 : Nat
  B_AX_XTAL_SC_XO_MSK : Nat
  B_AX_XTAL_SC_XI_MSK : Nat
  B_AX_XTAL_SC_MSK : Nat
  R_CFO_COMP_SEG0_L : Nat
  R_CFO_COMP_SEG1_L : Nat
  R_CFO_COMP_SEG0_H : Nat
  R_CFO_COMP_SEG1_H : Nat
  R_CFO_COMP_SEG0_CTRL : Nat
  R_CFO_COMP_SEG1_CTRL : Nat
  B_CFO_COMP_VAL_MSK : Nat
  B_CFO_COMP_WEIGHT_MSK : Nat
  B_CFO_COMP_VALID_BIT : Nat
  R_AX_PWR_UL_CTRL2 : Nat
  B_AX_PWR_UL_CTRL2_MSK : Nat

/-- The fields of `struct rtw89_cfo_tracking_info` used by `phy.c` (declared in
`core.h`, which is not part of the sources: the crystal-cap fields are taken
to be `u8`, `cfo_tail`, `cfo_avg_pre` and `residual_cfo_acc` `s32`, `cfo_cnt`
`u16` and the packet counters `u32`).  Arrays are functions of the index. -/
structure rtw89_cfo_tracking_info where
  is_adjust : Bool
  apply_compensation : Bool
  crystal_cap : Nat
  crystal_cap_default : Nat
  def_x_cap : Nat
  cfo_tail : Nat → Int
  cfo_cnt : Nat → Nat
  cfo_avg_pre : Int
  packet_count : Nat
  packet_count_pre : Nat
  residual_cfo_acc : Int

/-- The parts of `struct rtw89_dev` seen by the CFO tracking code. -/
structure CfoDev (H : Type) where
  cfo : rtw89_cfo_tracking_info
  hw : H
  total_sta_assoc : Nat

/-- The function `rtw89_phy_cfo_get_xcap_reg`: the value and the hardware state
after the read. -/
def rtw89_phy_cfo_get_xcap_reg {H : Type} (ops : RegOps H) (c : CfoDefs) (hw : H)
    (sc_xo : Bool) : Nat × H :=
  let reg_mask := if sc_xo then c.B_AX_XTAL_SC_XO_MSK else c.B_AX_XTAL_SC_XI_MSK
  let r := ops.read32_mask hw c.R_AX_XTAL_ON_CTRL0 reg_mask
  (u8 r.1, r.2)

/-- The function `rtw89_phy_cfo_set_xcap_reg`. -/
def rtw89_phy_cfo_set_xcap_reg {H : Type} (ops : RegOps H) (c : CfoDefs) (hw : H)
    (sc_xo : Bool) (val : Nat) : H :=
  let reg_mask := if sc_xo then c.B_AX_XTAL_SC_XO_MSK else c.B_AX_XTAL_SC_XI_MSK
  ops.write32_mask hw c.R_AX_XTAL_ON_CTRL0 reg_mask val

/-- The function `rtw89_phy_cfo_set_crystal_cap`. -/
def rtw89_phy_cfo_set_crystal_cap {H : Type} (ops : RegOps H) (c : CfoDefs) (d : CfoDev H)
    (crystal_cap : Nat) : CfoDev H :=
  let crystal_cap := u8 crystal_cap
  if d.cfo.crystal_cap = crystal_cap then d
  else
    let hw := rtw89_phy_cfo_set_xcap_reg ops c d.hw true crystal_cap
    let hw := rtw89_phy_cfo_set_xcap_reg ops c hw false crystal_cap
    let sc_xo := rtw89_phy_cfo_get_xcap_reg ops c hw true
    let sc_xi := rtw89_phy_cfo_get_xcap_reg ops c sc_xo.2 false
    { d with cfo := { d.cfo with crystal_cap := sc_xi.1 }, hw := sc_xi.2 }

/-- The function `rtw89_phy_cfo_reset`. -/
def rtw89_phy_cfo_reset {H : Type} (ops : RegOps H) (c : CfoDefs) (d : CfoDev H) : CfoDev H :=
  let def_x_cap := u8 (d.cfo.crystal_cap_default &&& c.B_AX_XTAL_SC_MSK)
  let d := { d with cfo := { d.cfo with def_x_cap := def_x_cap, is_adjust := true } }
  if d.cfo.crystal_cap = d.cfo.def_x_cap then d
  else
    let cap := d.cfo.crystal_cap
    let cap := u8_of_int ((cap : Int) + (if cap > d.cfo.def_x_cap then -1 else 1))
    rtw89_phy_cfo_set_crystal_cap ops c d cap

/-- The function `rtw89_phy_digital_cfo_compensation`. -/
def rtw89_phy_digital_cfo_compensation {H : Type} (ops : RegOps H) (c : CfoDefs)
    (d : CfoDev H) : CfoDev H :=
  let residual := s32 (d.cfo.residual_cfo_acc + d.cfo.cfo_avg_pre)
  let cfo_avg_312p5khz := s16 (Int.tdiv (-1 * s16 (s32 (residual * 2 ^ 10))) 625)
  let cfo_avg_312p5khz :=
    s16 (s32 ((int_bits cfo_avg_312p5khz &&& c.B_CFO_COMP_VAL_MSK : Nat) : Int))
  let data := int_bits cfo_avg_312p5khz
  let hw := ops.phy_write32_mask d.hw c.R_CFO_COMP_SEG0_L c.B_CFO_COMP_VAL_MSK data
  let hw := ops.phy_write32_mask hw c.R_CFO_COMP_SEG1_L c.B_CFO_COMP_VAL_MSK data
  let hw := ops.phy_write32_mask hw c.R_CFO_COMP_SEG0_H c.B_CFO_COMP_WEIGHT_MSK
    c.CFO_COMP_WEIGHT
  let hw := ops.phy_write32_mask hw c.R_CFO_COMP_SEG1_H c.B_CFO_COMP_WEIGHT_MSK
    c.CFO_COMP_WEIGHT
  let hw := ops.phy_write32_mask hw c.R_CFO_COMP_SEG0_CTRL c.B_CFO_COMP_VALID_BIT 1
  let hw := ops.phy_write32_mask hw c.R_CFO_COMP_SEG1_CTRL c.B_CFO_COMP_VALID_BIT 1
  let hw := ops.write32_clr hw c.R_AX_PWR_UL_CTRL2 c.B_AX_PWR_UL_CTRL2_MSK
  { d with cfo := { d.cfo with residual_cfo_acc := residual }, hw := hw }

/-- The head of `rtw89_phy_cfo_crystal_cap_adjust`: the latch `is_adjust` after
the test against `CFO_TRK_ENABLE_TH`. -/
def cfo_adjust_arm (c : CfoDefs) (cfo : rtw89_cfo_tracking_info) : Bool :=
  let cfo_previous : Int := s32 |cfo.cfo_avg_pre|
  if !cfo.is_adjust then
    if cfo_previous > c.CFO_TRK_ENABLE_TH then true else cfo.is_adjust
  else cfo.is_adjust

/-- The threshold chain of the armed branch of
`rtw89_phy_cfo_crystal_cap_adjust`: the local `s8 crystal_cap` and the latch
`is_adjust` after it. -/
def cfo_adjust_step (c : CfoDefs) (cfo : rtw89_cfo_tracking_info) (crystal_cap sign : Int) :
    Int × Bool :=
  let cfo_previous : Int := s32 |cfo.cfo_avg_pre|
  if cfo_previous > c.CFO_TRK_STOP_TH_4 then (s8 (crystal_cap + 7 * sign), cfo.is_adjust)
  else if cfo_previous > c.CFO_TRK_STOP_TH_3 then (s8 (crystal_cap + 5 * sign), cfo.is_adjust)
  else if cfo_previous > c.CFO_TRK_STOP_TH_2 then (s8 (crystal_cap + 3 * sign), cfo.is_adjust)
  else if cfo_previous > c.CFO_TRK_STOP_TH then (s8 (crystal_cap + 1 * sign), cfo.is_adjust)
  else if cfo_previous ≤ c.CFO_TRK_STOP_TH then (crystal_cap, false)
  else (crystal_cap, cfo.is_adjust)

/-- The range check of the armed branch of `rtw89_phy_cfo_crystal_cap_adjust`
on the local `s8 crystal_cap`. -/
def cfo_adjust_clamp (c : CfoDefs) (crystal_cap : Int) : Int :=
  let above : Bool :=
    if c.xtal_sc_msk_unsigned then decide ((crystal_cap % 2 ^ 64).toNat > c.B_AX_XTAL_SC_MSK)
    else decide (crystal_cap > (c.B_AX_XTAL_SC_MSK : Int))
  if above then s8 (c.B_AX_XTAL_SC_MSK : Int)
  else if crystal_cap < 0 then 0
  else crystal_cap

/-- The function `rtw89_phy_cfo_crystal_cap_adjust`; the local `crystal_cap` is
an `s8`. -/
def rtw89_phy_cfo_crystal_cap_adjust {H : Type} (ops : RegOps H) (c : CfoDefs)
    (d : CfoDev H) : CfoDev H :=
  let crystal_cap := s8 (d.cfo.crystal_cap : Int)
  let d := { d with cfo := { d.cfo with is_adjust := cfo_adjust_arm c d.cfo } }
  let sign : Int := if d.cfo.cfo_avg_pre > 0 then 1 else -1
  if d.cfo.is_adjust then
    let r := cfo_adjust_step c d.cfo crystal_cap sign
    let d := { d with cfo := { d.cfo with is_adjust := r.2 } }
    let crystal_cap := cfo_adjust_clamp c r.1
    rtw89_phy_cfo_set_crystal_cap ops c d (u8_of_int crystal_cap)
  else if d.cfo.apply_compensation then rtw89_phy_digital_cfo_compensation ops c d
  else d

/-- Loop of the single-station branch of `rtw89_phy_average_cfo_calc`; the
state is `(cfo_khz_all, cfo_cnt_all, cfo_avg_pre)`. -/
def average_cfo_one (c : CfoDefs) (cfo : rtw89_cfo_tracking_info) : Int × Int × Int :=
  (List.range c.CFO_TRACK_MAX_USER).foldl
    (fun (s : Int × Int × Int) i =>
      if cfo.cfo_cnt i = 0 then s
      else
        let cfo_khz_all := s32 (s.1 + cfo.cfo_tail i)
        let cfo_cnt_all := s32 (s.2.1 + (cfo.cfo_cnt i : Int))
        let avg := if cfo_cnt_all = 0 then 0 else Int.tdiv cfo_khz_all cfo_cnt_all
        (cfo_khz_all, cfo_cnt_all, avg))
    (0, 0, cfo.cfo_avg_pre)

/-- Local variables of the multi-station branch of
`rtw89_phy_average_cfo_calc`. -/
structure CfoMulti where
  cfo_khz_avg : Nat → Int
  cfo_max : Int
  cfo_min : Int
  cfo_khz_all : Int
  cnt_max : Int
  cnt_min : Int
  cfo_cnt_all : Int
  cnt_max_macid : Nat
  cnt_min_macid : Nat
  cfo_max_macid : Nat
  cfo_min_macid : Nat

/-- Loop of the multi-station branch of `rtw89_phy_average_cfo_calc`. -/
def average_cfo_multi (c : CfoDefs) (cfo : rtw89_cfo_tracking_info) : CfoMulti :=
  (List.range c.CFO_TRACK_MAX_USER).foldl
    (fun (s : CfoMulti) i =>
      if cfo.cfo_cnt i = 0 then s
      else
        let cnt : Int := (cfo.cfo_cnt i : Int)
        let avg := if cfo.cfo_cnt i = 0 then 0 else Int.tdiv (cfo.cfo_tail i) cnt
        let s := { s with cfo_khz_all := s32 (s.cfo_khz_all + cfo.cfo_tail i),
                          cfo_cnt_all := s32 (s.cfo_cnt_all + cnt),
                          cfo_khz_avg := Function.update s.cfo_khz_avg i avg }
        let s := if cnt > s.cnt_max then { s with cnt_max := cnt, cnt_max_macid := i } else s
        let s := if cnt < s.cnt_min then { s with cnt_min := cnt, cnt_min_macid := i } else s
        let s := if avg > s.cfo_max then { s with cfo_max := avg, cfo_max_macid := i } else s
        if avg < s.cfo_min then { s with cfo_min := avg, cfo_min_macid := i } else s)
    { cfo_khz_avg := fun _ => 0, cfo_max := 0, cfo_min := 65535, cfo_khz_all := 0,
      cnt_max := 0, cnt_min := 65535, cfo_cnt_all := 0, cnt_max_macid := 0,
      cnt_min_macid := 0, cfo_max_macid := 0, cfo_min_macid := 0 }

/-- The function `rtw89_phy_average_cfo_calc`. -/
def rtw89_phy_average_cfo_calc {H : Type} (c : CfoDefs) (d : CfoDev H) : CfoDev H :=
  if d.total_sta_assoc = 1 then
    { d with cfo := { d.cfo with cfo_avg_pre := (average_cfo_one c d.cfo).2.2 } }
  else
    let s := average_cfo_multi c d.cfo
    let val := s16 |s32 (s.cfo_max - s.cfo_min)|
    let avg :=
      if val < c.MAX_CFO_TOLERANCE ∨ val > s32 (c.MAX_CFO_TOLERANCE * 2) then
        s.cfo_khz_avg s.cnt_max_macid
      else if s.cfo_cnt_all = 0 then 0
      else Int.tdiv s.cfo_khz_all s.cfo_cnt_all
    { d with cfo := { d.cfo with cfo_avg_pre := avg } }

/-- The function `rtw89_phy_cfo_statistics_reset`. -/
def rtw89_phy_cfo_statistics_reset (cfo : rtw89_cfo_tracking_info) : rtw89_cfo_tracking_info :=
  { cfo with cfo_tail := fun _ => 0, cfo_cnt := fun _ => 0, packet_count := 0,
             packet_count_pre := 0, cfo_avg_pre := 0 }

/-- The function `rtw89_phy_cfo_track`. -/
def rtw89_phy_cfo_track {H : Type} (ops : RegOps H) (c : CfoDefs) (d : CfoDev H) : CfoDev H :=
  if d.total_sta_assoc ≠ 1 then rtw89_phy_cfo_reset ops c d
  else if d.cfo.packet_count = d.cfo.packet_count_pre then d
  else
    let d := { d with cfo := { d.cfo with packet_count_pre := d.cfo.packet_count } }
    let d := rtw89_phy_average_cfo_calc c d
    let d := rtw89_phy_cfo_crystal_cap_adjust ops c d
    { d with cfo := rtw89_phy_cfo_statistics_reset d.cfo }

/-- The function `rtw89_phy_cfo_parse`; `cfo_val` is an `s16` and `macid` the
`u8` field `phy_ppdu->mac_id`.  The arrays `cfo_tail` and `cfo_cnt` have
`CFO_TRACK_MAX_USER` entries and the code stores at index `macid` without
comparing it with that length: for `macid >= CFO_TRACK_MAX_USER` the two stores
are out of bounds (they land on whatever follows the arrays in
`struct rtw89_cfo_tracking_info`), which is the result `none`; otherwise the
result is the state after the three updates. -/
def rtw89_phy_cfo_parse (c : CfoDefs) (cfo : rtw89_cfo_tracking_info) (cfo_val : Int)
    (mac_id : Nat) : Option rtw89_cfo_tracking_info :=
  let macid := u8 mac_id
  if macid < c.CFO_TRACK_MAX_USER then
    some
      { cfo with
        cfo_tail := Function.update cfo.cfo_tail macid (s32 (cfo.cfo_tail macid + cfo_val)),
        cfo_cnt := Function.update cfo.cfo_cnt macid (u16 (cfo.cfo_cnt macid + 1)),
        packet_count := u32 (cfo.packet_count + 1) }
  else none

/-- The crystal-cap register reads back the value written: after the two
writes of `rtw89_phy_cfo_set_crystal_cap` with a value up to `bound`, the
second of its two reads returns that value. -/
def XcapReadback {H : Type} (ops : RegOps H) (c : CfoDefs) (bound : Nat) : Prop :=
  ∀ (hw : H) (v : Nat), v ≤ bound →
    (rtw89_phy_cfo_get_xcap_reg ops c
      (rtw89_phy_cfo_get_xcap_reg ops c
        (rtw89_phy_cfo_set_xcap_reg ops c (rtw89_phy_cfo_set_xcap_reg ops c hw true v) false v)
        true).2 false).1 = v

/-- Number of single steps between the crystal cap and the default value
`crystal_cap_default & B_AX_XTAL_SC_MSK`. -/
def cfo_distance (c : CfoDefs) (cfo : rtw89_cfo_tracking_info) : Nat :=
  let dflt := cfo.crystal_cap_default &&& c.B_AX_XTAL_SC_MSK
  if dflt ≤ cfo.crystal_cap then cfo.crystal_cap - dflt else dflt - cfo.crystal_cap

/-- Sample values of the CFO constants: a 7-bit crystal-cap field in each of
the three masks of `R_AX_XTAL_ON_CTRL0`. -/
def cfoStd : CfoDefs where
  CFO_TRACK_MAX_USER := 64
  xtal_sc_msk_unsigned := true
  CFO_TRK_ENABLE_TH := 8
  CFO_TRK_STOP_TH := 4
  CFO_TRK_STOP_TH_2 := 40
  CFO_TRK_STOP_TH_3 := 80
  CFO_TRK_STOP_TH_4 := 120
  MAX_CFO_TOLERANCE := 30
  CFO_COMP_WEIGHT := 8
  R_AX_XTAL_ON_CTRL0 := 0x280
  B_AX_XTAL_SC_XO_MSK := 0xfe0000
  B_AX_XTAL_SC_XI_MSK := 0x1fc00
  B_AX_XTAL_SC_MSK := 0x7f
  R_CFO_COMP_SEG0_L := 0x4384
  R_CFO_COMP_SEG1_L := 0x4388
  R_CFO_COMP_SEG0_H := 0x4380
  R_CFO_COMP_SEG1_H := 0x4394
  R_CFO_COMP_SEG0_CTRL := 0x4390
  R_CFO_COMP_SEG1_CTRL := 0x4398
  B_CFO_COMP_VAL_MSK := 0xfff
  B_CFO_COMP_WEIGHT_MSK := 0x1f000000
  B_CFO_COMP_VALID_BIT := 0x1000000
  R_AX_PWR_UL_CTRL2 := 0xd248
  B_AX_PWR_UL_CTRL2_MSK := 0x7

/-- A CFO state after `rtw89_phy_cfo_init` with default cap `0x2d`. -/
def cfoInit : rtw89_cfo_tracking_info where
  is_adjust := true
  apply_compensation := false
  crystal_cap := 0x2d
  crystal_cap_default := 0x2d
  def_x_cap := 0x2d
  cfo_tail := fun _ => 0
  cfo_cnt := fun _ => 0
  cfo_avg_pre := 0
  packet_count := 0
  packet_count_pre := 0
  residual_cfo_acc := 0

/-- A device with one station and two samples of station 0 not yet averaged. -/
def cfoDevOne : CfoDev HwSim where
  cfo := { cfoInit with cfo_tail := fun i => if i = 0 then 100 else 0,
                        cfo_cnt := fun i => if i = 0 then 2 else 0,
                        packet_count := 2 }
  hw := ⟨[], []⟩
  total_sta_assoc := 1

/-- A device with one station and no sample since the last tick. -/
def cfoDevIdle : CfoDev HwSim where
  cfo := { cfoInit with crystal_cap := 0x30 }
  hw := ⟨[], []⟩
  total_sta_assoc := 1

/-- A device with no station whose crystal cap is three steps above the
default. -/
def cfoDevAway : CfoDev HwSim where
  cfo := { cfoInit with crystal_cap := 0x30, is_adjust := false }
  hw := ⟨[], []⟩
  total_sta_assoc := 0

/-- The slot `cfo_tail[macid]`, `cfo_cnt[macid]` indexed by
`rtw89_phy_cfo_parse` lies inside the arrays of `CFO_TRACK_MAX_USER` entries. -/
def cfo_parse_in_range (c : CfoDefs) (mac_id : Nat) : Prop :=
  u8 mac_id < c.CFO_TRACK_MAX_USER

instance (c : CfoDefs) (mac_id : Nat) : Decidable (cfo_parse_in_range c mac_id) := by
  unfold cfo_parse_in_range; infer_instance

/-- The sample CFO constants with `B_AX_XTAL_SC_MSK` read as a plain `int`
constant. -/
def cfoStdSigned : CfoDefs := { cfoStd with xtal_sc_msk_unsigned := false }

/-- A device with one station, the latch armed, crystal cap 3 and an average
offset of -200 (beyond `CFO_TRK_STOP_TH_4`). -/
def cfoDevLow : CfoDev HwSim where
  cfo := { cfoInit with crystal_cap := 3, cfo_avg_pre := -200 }
  hw := ⟨[], []⟩
  total_sta_assoc := 1

/-- A device with one station, the latch armed, crystal cap 125 and an average
offset of +200 (beyond `CFO_TRK_STOP_TH_4`). -/
def cfoDevHigh : CfoDev HwSim where
  cfo := { cfoInit with crystal_cap := 125, cfo_avg_pre := 200 }
  hw := ⟨[], []⟩
  total_sta_assoc := 1

/-- A device with one station, the latch armed, crystal cap 60 and an average
offset of +50 (between `CFO_TRK_STOP_TH_2` and `CFO_TRK_STOP_TH_3`). -/
def cfoDevMid : CfoDev HwSim where
  cfo := { cfoInit with crystal_cap := 60, cfo_avg_pre := 50 }
  hw := ⟨[], []⟩
  total_sta_assoc := 1

/-- A table whose `ELSE` follows a branch that was not taken after an earlier
branch matched: headline (RFE 1, cut 1), `IF` (the headline target), `CHECK`, a
write, `ELIF` (another target), `CHECK`, a write, `ELSE`, a write, `END`, a
write. -/
def tableElseAfterElif : rtw89_phy_table :=
  ⟨[⟨0xF0010001, 0⟩, ⟨0x80010001, 0⟩, ⟨0x40000000, 0⟩, ⟨0x704, 1⟩, ⟨0x90020001, 0⟩,
    ⟨0x40000000, 0⟩, ⟨0x708, 2⟩, ⟨0xA0000000, 0⟩, ⟨0x70c, 3⟩, ⟨0xB0000000, 0⟩,
    ⟨0x710, 4⟩], 0⟩

/-- A table whose `ELSE` directly follows the records of the matched branch:
headline (RFE 1, cut 1), `IF` (the headline target), `CHECK`, a write, `ELSE`,
a write, `END`, a write. -/
def tableElseAfterMatch : rtw89_phy_table :=
  ⟨[⟨0xF0010001, 0⟩, ⟨0x80010001, 0⟩, ⟨0x40000000, 0⟩, ⟨0x704, 1⟩, ⟨0xA0000000, 0⟩,
    ⟨0x708, 2⟩, ⟨0xB0000000, 0⟩, ⟨0x70c, 3⟩], 0⟩

/-- The 5 GHz channel numbers: 36, 38, .., 64; 100, 102, .., 144; 149, 151, ..,
177. -/
def is_chan_5g (ch : Nat) : Prop :=
  (36 ≤ ch ∧ ch ≤ 64 ∧ ch % 2 = 0) ∨ (100 ≤ ch ∧ ch ≤ 144 ∧ ch % 2 = 0) ∨
    (149 ≤ ch ∧ ch ≤ 177 ∧ ch % 2 = 1)

/-- The 5 GHz channel with a given index below 53. -/
def chan_5g_of_idx (k : Nat) : Nat :=
  if k < 15 then 36 + 2 * k else if k < 38 then 100 + 2 * (k - 15) else 149 + 2 * (k - 38)

/-- An HT station (neither HE nor VHT) with two spatial streams: `rx_mask` is
`ff ff 00 00`. -/
def staHt2ss : ieee80211_sta :=
  { staLegacy with ht_supported := true,
                   ht_rx_mask := fun k => if k = 0 ∨ k = 1 then 0xff else 0 }

/-- An HT station (neither HE nor VHT) whose `rx_mask` is `00 80 00 00`. -/
def staHtBit15 : ieee80211_sta :=
  { staLegacy with ht_supported := true, ht_rx_mask := fun k => if k = 1 then 0x80 else 0 }

/-- An HT station (neither HE nor VHT) whose `rx_mask` is `ff 7f ff ff`. -/
def staHt4ss : ieee80211_sta :=
  { staLegacy with ht_supported := true, ht_rx_mask := fun k => if k = 1 then 0x7f else 0xff }

/-! ## Firmware events: `rtw89_phy_c2h_handle` -/

/-- Enumeration constants of `phy.h` used by the C2H dispatch (the header is
not part of the sources). -/
structure C2hDefs where
  RTW89_PHY_C2H_CLASS_RA : Nat
  RTW89_PHY_C2H_FUNC_STS_RPT : Nat
  RTW89_PHY_C2H_FUNC_MU_GPTBL_RPT : Nat
  RTW89_PHY_C2H_FUNC_TXSTS : Nat
  RTW89_PHY_C2H_FUNC_RA_MAX : Nat

/-- The functions that occur in the handler table. -/
inductive C2hHandler where
  | rtw89_phy_c2h_ra_rpt
deriving DecidableEq, Repr

/-- The array `rtw89_phy_c2h_ra_handler[]`: its length is the largest
designated index plus one, a later designator overrides an earlier one for the
same index, and entries without designator are `NULL`. -/
def rtw89_phy_c2h_ra_handler (c : C2hDefs) : List (Option C2hHandler) :=
  (List.range (max c.RTW89_PHY_C2H_FUNC_STS_RPT
      (max c.RTW89_PHY_C2H_FUNC_MU_GPTBL_RPT c.RTW89_PHY_C2H_FUNC_TXSTS) + 1)).map
    (fun i =>
      if i = c.RTW89_PHY_C2H_FUNC_TXSTS then none
      else if i = c.RTW89_PHY_C2H_FUNC_MU_GPTBL_RPT then none
      else if i = c.RTW89_PHY_C2H_FUNC_STS_RPT then some C2hHandler.rtw89_phy_c2h_ra_rpt
      else none)

/-- What a call of `rtw89_phy_c2h_handle` did. -/
inductive C2hOutcome where
  | class_not_support
  | func_not_support
  | handled (h : C2hHandler)
  | out_of_table
deriving DecidableEq, Repr

/-- The function `rtw89_phy_c2h_handle` on a device state `σ`; `run` is the
effect of calling a handler with `(rtwdev, skb, len)` and `cls` is the `u8`
parameter `class`.  Reading the table past its end is undefined in C and
reported as `out_of_table`. -/
def rtw89_phy_c2h_handle {σ : Type} (c : C2hDefs) (run : C2hHandler → σ → σ) (dev : σ)
    (cls func : Nat) : C2hOutcome × σ :=
  let cls := u8 cls
  let func := u8 func
  if cls = c.RTW89_PHY_C2H_CLASS_RA then
    if func < c.RTW89_PHY_C2H_FUNC_RA_MAX then
      match (rtw89_phy_c2h_ra_handler c).get? func with
      | none => (C2hOutcome.out_of_table, dev)
      | some none => (C2hOutcome.func_not_support, dev)
      | some (some h) => (C2hOutcome.handled h, run h dev)
    else (C2hOutcome.func_not_support, dev)
  else (C2hOutcome.class_not_support, dev)

/-- Sample values of the C2H constants: class RA is 0 and the functions are
numbered 0, 1, 2 with `RTW89_PHY_C2H_FUNC_RA_MAX = 3`. -/
def c2hStd : C2hDefs := ⟨0, 0, 1, 2, 3⟩

/-! ## Pushing the staged RF registers to firmware -/

/-- State seen by `rtw89_phy_config_rf_reg_fw`: the staging buffer, the state
`F` of the firmware interface, and a ghost log of the calls of
`rtw89_fw_h2c_rf_reg` as pairs `(len, page)`, in order. -/
structure RfFwDev (F : Type) where
  info : rtw89_fw_h2c_rf_reg_info
  fw : F
  pushes : List (Nat × Nat)

/-- Loop `for (i = 0; i < page; i++)` of `rtw89_phy_config_rf_reg_fw` with
`n` iterations left and counter `i`; `h2c` is `rtw89_fw_h2c_rf_reg` (defined in
`fw.c`, outside the sources), returning its `int` result.  The result is the
value of `ret`, the counter and the state.  The counter is a `u8`: the loop ends
after `page` iterations for every `page` up to 255. -/
def rf_reg_fw_loop {F : Type} (h2c : F → rtw89_fw_h2c_rf_reg_info → Nat → Nat → Int × F)
    (page_size : Nat) : Nat → Nat → RfFwDev F → Int × Nat × RfFwDev F
  | 0, i, d => (0, i, d)
  | n + 1, i, d =>
    let r := h2c d.fw d.info (page_size * 4) i
    let d := { d with fw := r.2, pushes := d.pushes ++ [(page_size * 4, i)] }
    if r.1 ≠ 0 then (r.1, i, d) else rf_reg_fw_loop h2c page_size n (u8 (i + 1)) d

/-- The function `rtw89_phy_config_rf_reg_fw`; `page_size` and `page_num` are
`RTW89_H2C_RF_PAGE_SIZE` (not 0) and `RTW89_H2C_RF_PAGE_NUM`. -/
def rtw89_phy_config_rf_reg_fw {F : Type}
    (h2c : F → rtw89_fw_h2c_rf_reg_info → Nat → Nat → Int × F)
    (page_size page_num : Nat) (d : RfFwDev F) : Int × RfFwDev F :=
  let page := u16 (d.info.curr_idx / page_size)
  let len := u16 ((d.info.curr_idx % page_size) * 4)
  if page > page_num then (-EINVAL, d)
  else
    let r := rf_reg_fw_loop h2c page_size page 0 d
    if r.1 ≠ 0 then (r.1, r.2.2)
    else
      let i := r.2.1
      let q := h2c r.2.2.fw r.2.2.info len i
      let d := { r.2.2 with fw := q.2, pushes := r.2.2.pushes ++ [(len, i)] }
      if q.1 ≠ 0 then (q.1, d)
      else (0, { d with info := { d.info with curr_idx := 0 } })

/-- A firmware interface that accepts every page. -/
def h2cAccept : Unit → rtw89_fw_h2c_rf_reg_info → Nat → Nat → Int × Unit :=
  fun fw _ _ _ => (0, fw)

/-- A staging state with `n` staged entries and nothing pushed yet. -/
def rfFwDevOf (n : Nat) : RfFwDev Unit := ⟨{ rf_reg_info_zero with curr_idx := n }, (), []⟩

/-! ## Dynamic initial gain (DIG) -/

/-- Constants of `phy.h`, `core.h` and `reg.h` used by the DIG code (the
headers are not part of the sources).  The constants of
`enum rtw89_dig_noisy_level` are `int` values. -/
structure DigDefs where
  RTW89_DIG_NOISY_LEVEL0 : Int
  RTW89_DIG_NOISY_LEVEL1 : Int
  RTW89_DIG_NOISY_LEVEL2 : Int
  RTW89_DIG_NOISY_LEVEL3 : Int
  RTW89_DIG_NOISY_LEVEL_MAX : Int
  LNA_IDX_MAX : Nat
  TIA_IDX_MAX : Nat
  RXB_IDX_MAX : Nat
  RXB_IDX_MIN : Nat
  RTW89_DIG_GAIN_LNA_IDX1 : Nat
  RTW89_DIG_GAIN_LNA_IDX2 : Nat
  RTW89_DIG_GAIN_LNA_IDX3 : Nat
  RTW89_DIG_GAIN_LNA_IDX4 : Nat
  RTW89_DIG_GAIN_LNA_IDX5 : Nat
  RTW89_DIG_GAIN_LNA_IDX6 : Nat
  RTW89_DIG_GAIN_TIA_IDX0 : Nat
  RTW89_DIG_GAIN_TIA_IDX1 : Nat
  PD_TH_SB_FLTR_CMP_VAL : Nat
  PD_TH_BW20_CMP_VAL : Nat
  PD_TH_BW40_CMP_VAL : Nat
  PD_TH_BW80_CMP_VAL : Nat
  PD_TH_MIN_RSSI : Nat
  PD_TH_MAX_RSSI : Nat
  R_PATH0_LNA_INIT : Nat
  B_PATH0_LNA_INIT_IDX_MSK : Nat
  R_PATH1_LNA_INIT : Nat
  B_PATH1_LNA_INIT_IDX_MSK : Nat
  R_PATH0_TIA_INIT : Nat
  B_PATH0_TIA_INIT_IDX_MSK : Nat
  R_PATH1_TIA_INIT : Nat
  B_PATH1_TIA_INIT_IDX_MSK : Nat
  R_PATH0_RXB_INIT : Nat
  B_PATH0_RXB_INIT_IDX_MSK : Nat
  R_PATH1_RXB_INIT : Nat
  B_PATH1_RXB_INIT_IDX_MSK : Nat
  R_PATH0_P20_FOLLOW_BY_PAGCUGC : Nat
  B_PATH0_P20_FOLLOW_BY_PAGCUGC_EN_MSK : Nat
  R_PATH0_S20_FOLLOW_BY_PAGCUGC : Nat
  B_PATH0_S20_FOLLOW_BY_PAGCUGC_EN_MSK : Nat
  R_PATH1_P20_FOLLOW_BY_PAGCUGC : Nat
  B_PATH1_P20_FOLLOW_BY_PAGCUGC_EN_MSK : Nat
  R_PATH1_S20_FOLLOW_BY_PAGCUGC : Nat
  B_PATH1_S20_FOLLOW_BY_PAGCUGC_EN_MSK : Nat
  R_SEG0R_PD : Nat
  B_SEG0R_PD_LOWER_BOUND_MSK : Nat
  B_SEG0R_PD_SPATIAL_REUSE_EN_MSK : Nat

/-- The type `struct rtw89_agc_gaincode_set` (three `u8` fields). -/
structure rtw89_agc_gaincode_set where
  lna_idx : Nat
  tia_idx : Nat
  rxb_idx : Nat
deriving DecidableEq, Repr

/-- The fields of `struct rtw89_dig_info` used by the DIG tick (declared in
`core.h`, which is not part of the sources: the scalar fields are taken to be
`u8`, `ib_pkpwr` and the gain tables `s8`).  `lna_gain` and `tia_gain` are the
tables the two pointers of that name refer to. -/
structure rtw89_dig_info where
  reset : Bool
  cur_noisy_lv : Int
  cur_gaincode : rtw89_agc_gaincode_set
  force_gaincode : rtw89_agc_gaincode_set
  force_gaincode_idx_en : Bool
  igi_rssi_th : Nat → Nat
  fa_th : Nat → Nat
  igi_rssi : Nat
  igi_fa_rssi : Nat
  fa_rssi_ofst : Nat
  dyn_igi_max : Nat
  dyn_igi_min : Nat
  dyn_pd_th_en : Bool
  dyn_pd_th_max : Nat
  pd_low_th_ofst : Nat
  ib_pbk : Nat
  ib_pkpwr : Int
  lna_gain : Nat → Int
  tia_gain : Nat → Int

/-- The parts of `struct rtw89_dev` seen by the DIG code: its own state, the
hardware, the environment monitor results, the station count, `ch_info.rssi_min`
(a `u8`) and the `hal` band and bandwidth. -/
structure DigDev (H : Type) where
  dig : rtw89_dig_info
  hw : H
  env : rtw89_env_monitor_info
  total_sta_assoc : Nat
  rssi_min : Nat
  current_band_type : Nat
  current_band_width : Nat

/-- The table `igi_rssi_th`. -/
def igi_rssi_th : List Nat := [68, 84, 90, 98, 104]

/-- The table `fa_th_2g`. -/
def fa_th_2g : List Nat := [22, 44, 66, 88]

/-- The table `fa_th_5g`. -/
def fa_th_5g : List Nat := [4, 8, 12, 16]

/-- The constant `pd_low_th_offset`. -/
def pd_low_th_offset : Nat := 6

/-- The constant `dynamic_igi_min`. -/
def dynamic_igi_min : Nat := 0x20

/-- The constant `igi_max_performance_mode`. -/
def igi_max_performance_mode : Nat := 0x5a

/-- The constant `dynamic_pd_threshold_max` (a `static const` without
initialiser). -/
def dynamic_pd_threshold_max : Nat := 0

/-- The macro `IB_PBK_BASE`. -/
def IB_PBK_BASE : Int := 110

/-- The macro `WB_RSSI_BASE`. -/
def WB_RSSI_BASE : Int := 10

/-- The macro `IGI_OFFSET_MAX`. -/
def IGI_OFFSET_MAX : Nat := 25

/-- The macro `IGI_OFFSET_MUL`. -/
def IGI_OFFSET_MUL : Nat := 2

/-- The macro `IGI_RSSI_MIN`. -/
def IGI_RSSI_MIN : Nat := 10

/-- The function `rtw89_phy_dig_para_reset`. -/
def rtw89_phy_dig_para_reset (e : TxpwrEnums) (g : DigDefs) (band : Nat)
    (dig : rtw89_dig_info) : rtw89_dig_info :=
  let top : rtw89_agc_gaincode_set := ⟨u8 g.LNA_IDX_MAX, u8 g.TIA_IDX_MAX, u8 g.RXB_IDX_MAX⟩
  let fa := if band = e.RTW89_BAND_2G then fa_th_2g else fa_th_5g
  { dig with cur_noisy_lv := g.RTW89_DIG_NOISY_LEVEL0,
             cur_gaincode := top,
             force_gaincode := top,
             igi_rssi_th := fun i => igi_rssi_th.getD i 0,
             fa_th := fun i => fa.getD i 0,
             dyn_igi_max := igi_max_performance_mode,
             dyn_igi_min := dynamic_igi_min,
             dyn_pd_th_max := dynamic_pd_threshold_max,
             pd_low_th_ofst := pd_low_th_offset }

/-- The function `rtw89_phy_dig_lna_idx_by_rssi`. -/
def rtw89_phy_dig_lna_idx_by_rssi (g : DigDefs) (dig : rtw89_dig_info) (rssi : Nat) : Nat :=
  if rssi < dig.igi_rssi_th 0 then u8 g.RTW89_DIG_GAIN_LNA_IDX6
  else if rssi < dig.igi_rssi_th 1 then u8 g.RTW89_DIG_GAIN_LNA_IDX5
  else if rssi < dig.igi_rssi_th 2 then u8 g.RTW89_DIG_GAIN_LNA_IDX4
  else if rssi < dig.igi_rssi_th 3 then u8 g.RTW89_DIG_GAIN_LNA_IDX3
  else if rssi < dig.igi_rssi_th 4 then u8 g.RTW89_DIG_GAIN_LNA_IDX2
  else u8 g.RTW89_DIG_GAIN_LNA_IDX1

/-- The function `rtw89_phy_dig_tia_idx_by_rssi`. -/
def rtw89_phy_dig_tia_idx_by_rssi (g : DigDefs) (dig : rtw89_dig_info) (rssi : Nat) : Nat :=
  if rssi < dig.igi_rssi_th 0 then u8 g.RTW89_DIG_GAIN_TIA_IDX1
  else u8 g.RTW89_DIG_GAIN_TIA_IDX0

/-- The function `rtw89_phy_dig_rxb_idx_by_rssi`. -/
def rtw89_phy_dig_rxb_idx_by_rssi (g : DigDefs) (dig : rtw89_dig_info) (rssi : Nat)
    (set : rtw89_agc_gaincode_set) : Nat :=
  let lna_gain := s8 (dig.lna_gain set.lna_idx)
  let tia_gain := s8 (dig.tia_gain set.tia_idx)
  let wb_rssi := s32 ((rssi : Int) + lna_gain + tia_gain)
  let rxb_idx_tmp := IB_PBK_BASE + WB_RSSI_BASE
  let rxb_idx_tmp := s32 (rxb_idx_tmp + (dig.ib_pkpwr - (dig.ib_pbk : Int) - wb_rssi))
  u8_of_int (min (max rxb_idx_tmp (s32 g.RXB_IDX_MIN)) (s32 g.RXB_IDX_MAX))

/-- The function `rtw89_phy_dig_gaincode_by_rssi`. -/
def rtw89_phy_dig_gaincode_by_rssi (g : DigDefs) (dig : rtw89_dig_info) (rssi : Nat)
    (set : rtw89_agc_gaincode_set) : rtw89_agc_gaincode_set :=
  let set := { set with lna_idx := rtw89_phy_dig_lna_idx_by_rssi g dig rssi }
  let set := { set with tia_idx := rtw89_phy_dig_tia_idx_by_rssi g dig rssi }
  { set with rxb_idx := rtw89_phy_dig_rxb_idx_by_rssi g dig rssi set }

/-- The function `rtw89_phy_dig_igi_offset_by_env`. -/
def rtw89_phy_dig_igi_offset_by_env (dig : rtw89_dig_info) : rtw89_dig_info :=
  let noisy_level := dig.cur_noisy_lv
  let igi_offset := u8 dig.fa_rssi_ofst
  let igi_offset :=
    if igi_offset < 2 then 0
    else u8_of_int ((igi_offset : Int) + noisy_level * (IGI_OFFSET_MUL : Int))
  let igi_offset := min (u8 igi_offset) (u8 IGI_OFFSET_MAX)
  { dig with fa_rssi_ofst := igi_offset }

/-- The function `rtw89_phy_dig_noisy_level_decision`. -/
def rtw89_phy_dig_noisy_level_decision (g : DigDefs) (env : rtw89_env_monitor_info)
    (dig : rtw89_dig_info) : rtw89_dig_info :=
  let fa_ratio := u16 (env.ifs_clm_cck_fa_permil + env.ifs_clm_ofdm_fa_permil)
  let noisy_lv :=
    if fa_ratio < dig.fa_th 0 then g.RTW89_DIG_NOISY_LEVEL0
    else if fa_ratio < dig.fa_th 1 then g.RTW89_DIG_NOISY_LEVEL1
    else if fa_ratio < dig.fa_th 2 then g.RTW89_DIG_NOISY_LEVEL2
    else if fa_ratio < dig.fa_th 3 then g.RTW89_DIG_NOISY_LEVEL3
    else g.RTW89_DIG_NOISY_LEVEL_MAX
  { dig with cur_noisy_lv := noisy_lv }

/-- The function `rtw89_phy_dig_set_lna_idx`. -/
def rtw89_phy_dig_set_lna_idx {H : Type} (ops : RegOps H) (g : DigDefs) (hw : H)
    (lna_idx : Nat) : H :=
  let hw := ops.phy_write32_mask hw g.R_PATH0_LNA_INIT g.B_PATH0_LNA_INIT_IDX_MSK lna_idx
  ops.phy_write32_mask hw g.R_PATH1_LNA_INIT g.B_PATH1_LNA_INIT_IDX_MSK lna_idx

/-- The function `rtw89_phy_dig_set_tia_idx`. -/
def rtw89_phy_dig_set_tia_idx {H : Type} (ops : RegOps H) (g : DigDefs) (hw : H)
    (tia_idx : Nat) : H :=
  let hw := ops.phy_write32_mask hw g.R_PATH0_TIA_INIT g.B_PATH0_TIA_INIT_IDX_MSK tia_idx
  ops.phy_write32_mask hw g.R_PATH1_TIA_INIT g.B_PATH1_TIA_INIT_IDX_MSK tia_idx

/-- The function `rtw89_phy_dig_set_rxb_idx`. -/
def rtw89_phy_dig_set_rxb_idx {H : Type} (ops : RegOps H) (g : DigDefs) (hw : H)
    (rxb_idx : Nat) : H :=
  let hw := ops.phy_write32_mask hw g.R_PATH0_RXB_INIT g.B_PATH0_RXB_INIT_IDX_MSK rxb_idx
  ops.phy_write32_mask hw g.R_PATH1_RXB_INIT g.B_PATH1_RXB_INIT_IDX_MSK rxb_idx

/-- The function `rtw89_phy_dig_set_igi_cr`. -/
def rtw89_phy_dig_set_igi_cr {H : Type} (ops : RegOps H) (g : DigDefs) (hw : H)
    (set : rtw89_agc_gaincode_set) : H :=
  let hw := rtw89_phy_dig_set_lna_idx ops g hw set.lna_idx
  let hw := rtw89_phy_dig_set_tia_idx ops g hw set.tia_idx
  rtw89_phy_dig_set_rxb_idx ops g hw set.rxb_idx

/-- The table `sdagc_config`. -/
def sdagc_config (g : DigDefs) : List (Nat × Nat) :=
  [(g.R_PATH0_P20_FOLLOW_BY_PAGCUGC, g.B_PATH0_P20_FOLLOW_BY_PAGCUGC_EN_MSK),
   (g.R_PATH0_S20_FOLLOW_BY_PAGCUGC, g.B_PATH0_S20_FOLLOW_BY_PAGCUGC_EN_MSK),
   (g.R_PATH1_P20_FOLLOW_BY_PAGCUGC, g.B_PATH1_P20_FOLLOW_BY_PAGCUGC_EN_MSK),
   (g.R_PATH1_S20_FOLLOW_BY_PAGCUGC, g.B_PATH1_S20_FOLLOW_BY_PAGCUGC_EN_MSK)]

/-- The function `rtw89_phy_dig_sdagc_follow_pagc_config`. -/
def rtw89_phy_dig_sdagc_follow_pagc_config {H : Type} (ops : RegOps H) (g : DigDefs) (hw : H)
    (enable : Bool) : H :=
  (sdagc_config g).foldl
    (fun hw r => ops.phy_write32_mask hw r.1 r.2 (if enable then 1 else 0)) hw

/-- The function `rtw89_phy_dig_dyn_pd_th`. -/
def rtw89_phy_dig_dyn_pd_th {H : Type} (ops : RegOps H) (e : TxpwrEnums) (g : DigDefs)
    (d : DigDev H) (rssi : Nat) (enable : Bool) : DigDev H :=
  let cbw := d.current_band_width
  let under_region := u8 d.dig.pd_low_th_ofst
  let under_region := u8 (under_region + g.PD_TH_SB_FLTR_CMP_VAL)
  let under_region :=
    if cbw = e.RTW89_CHANNEL_WIDTH_40 then u8 (under_region + g.PD_TH_BW40_CMP_VAL)
    else if cbw = e.RTW89_CHANNEL_WIDTH_80 then u8 (under_region + g.PD_TH_BW80_CMP_VAL)
    else u8 (under_region + g.PD_TH_BW20_CMP_VAL)
  let dig := { d.dig with dyn_pd_th_max := d.dig.igi_rssi }
  let final_rssi := min (u8 rssi) (u8 dig.igi_rssi)
  let final_rssi :=
    min (max (u8 final_rssi) (u8 (g.PD_TH_MIN_RSSI + under_region)))
      (u8 (g.PD_TH_MAX_RSSI + under_region))
  let val :=
    if enable then
      int_bits (((final_rssi : Int) - (under_region : Int) - (g.PD_TH_MIN_RSSI : Int)) >>> 1)
    else 0
  let hw := ops.phy_write32_mask d.hw g.R_SEG0R_PD g.B_SEG0R_PD_LOWER_BOUND_MSK val
  let hw := ops.phy_write32_mask hw g.R_SEG0R_PD g.B_SEG0R_PD_SPATIAL_REUSE_EN_MSK
    (if enable then 1 else 0)
  { d with dig := dig, hw := hw }

/-- The function `rtw89_phy_dig_reset`. -/
def rtw89_phy_dig_reset {H : Type} (ops : RegOps H) (e : TxpwrEnums) (g : DigDefs)
    (d : DigDev H) : DigDev H :=
  let rssi_min := u8 (u8 d.rssi_min >>> 1)
  let d := { d with dig := rtw89_phy_dig_para_reset e g d.current_band_type d.dig }
  let d := { d with hw := rtw89_phy_dig_set_igi_cr ops g d.hw d.dig.force_gaincode }
  let d := rtw89_phy_dig_dyn_pd_th ops e g d rssi_min false
  { d with hw := rtw89_phy_dig_sdagc_follow_pagc_config ops g d.hw false }

/-- The IGI bounds computed in `rtw89_phy_dig` from `igi_rssi` and
`fa_rssi_ofst` (the lines from `dig->dyn_igi_min = ...` to the `clamp`). -/
def dig_igi_bounds (dig : rtw89_dig_info) : rtw89_dig_info :=
  let dyn_igi_min := if dig.igi_rssi > IGI_RSSI_MIN then u8 (dig.igi_rssi - IGI_RSSI_MIN) else 0
  let dyn_igi_max := u8 (dyn_igi_min + IGI_OFFSET_MAX)
  let igi_fa_rssi := u8 (dyn_igi_min + dig.fa_rssi_ofst)
  let igi_fa_rssi := min (max igi_fa_rssi dyn_igi_min) dyn_igi_max
  { dig with dyn_igi_min := dyn_igi_min, dyn_igi_max := dyn_igi_max,
             igi_fa_rssi := igi_fa_rssi }

/-- The function `rtw89_phy_dig`. -/
def rtw89_phy_dig {H : Type} (ops : RegOps H) (e : TxpwrEnums) (g : DigDefs)
    (d : DigDev H) : DigDev H :=
  let total_sta := u8 d.total_sta_assoc
  let rssi_min := u8 (u8 d.rssi_min >>> 1)
  if total_sta = 0 then
    if !d.dig.reset then d
    else
      let d := rtw89_phy_dig_reset ops e g d
      { d with dig := { d.dig with reset := false } }
  else
    let dig := { d.dig with reset := true }
    let dig := rtw89_phy_dig_noisy_level_decision g d.env dig
    let dig := rtw89_phy_dig_igi_offset_by_env dig
    let dig := if rssi_min > 0 then { dig with igi_rssi := rssi_min } else dig
    let dig := dig_igi_bounds dig
    let d := { d with dig := dig }
    let d :=
      if d.dig.force_gaincode_idx_en then
        { d with hw := rtw89_phy_dig_set_igi_cr ops g d.hw d.dig.force_gaincode }
      else
        let set := rtw89_phy_dig_gaincode_by_rssi g d.dig d.dig.igi_fa_rssi d.dig.cur_gaincode
        let d := { d with dig := { d.dig with cur_gaincode := set } }
        { d with hw := rtw89_phy_dig_set_igi_cr ops g d.hw d.dig.cur_gaincode }
    let d := rtw89_phy_dig_dyn_pd_th ops e g d d.dig.igi_fa_rssi d.dig.dyn_pd_th_en
    if d.dig.dyn_pd_th_en ∧ d.dig.igi_fa_rssi > d.dig.dyn_pd_th_max then
      { d with hw := rtw89_phy_dig_sdagc_follow_pagc_config ops g d.hw true }
    else
      { d with hw := rtw89_phy_dig_sdagc_follow_pagc_config ops g d.hw false }

/-- Sample values of the DIG constants. -/
def digStd : DigDefs where
  RTW89_DIG_NOISY_LEVEL0 := -1
  RTW89_DIG_NOISY_LEVEL1 := 0
  RTW89_DIG_NOISY_LEVEL2 := 1
  RTW89_DIG_NOISY_LEVEL3 := 2
  RTW89_DIG_NOISY_LEVEL_MAX := 3
  LNA_IDX_MAX := 6
  TIA_IDX_MAX := 1
  RXB_IDX_MAX := 31
  RXB_IDX_MIN := 0
  RTW89_DIG_GAIN_LNA_IDX1 := 1
  RTW89_DIG_GAIN_LNA_IDX2 := 2
  RTW89_DIG_GAIN_LNA_IDX3 := 3
  RTW89_DIG_GAIN_LNA_IDX4 := 4
  RTW89_DIG_GAIN_LNA_IDX5 := 5
  RTW89_DIG_GAIN_LNA_IDX6 := 6
  RTW89_DIG_GAIN_TIA_IDX0 := 0
  RTW89_DIG_GAIN_TIA_IDX1 := 1
  PD_TH_SB_FLTR_CMP_VAL := 7
  PD_TH_BW20_CMP_VAL := 0
  PD_TH_BW40_CMP_VAL := 3
  PD_TH_BW80_CMP_VAL := 6
  PD_TH_MIN_RSSI := 8
  PD_TH_MAX_RSSI := 70
  R_PATH0_LNA_INIT := 0x4668
  B_PATH0_LNA_INIT_IDX_MSK := 0x7000000
  R_PATH1_LNA_INIT := 0x4734
  B_PATH1_LNA_INIT_IDX_MSK := 0x7000000
  R_PATH0_TIA_INIT := 0x4674
  B_PATH0_TIA_INIT_IDX_MSK := 0x20000
  R_PATH1_TIA_INIT := 0x4740
  B_PATH1_TIA_INIT_IDX_MSK := 0x20000
  R_PATH0_RXB_INIT := 0x4658
  B_PATH0_RXB_INIT_IDX_MSK := 0x7c00
  R_PATH1_RXB_INIT := 0x4724
  B_PATH1_RXB_INIT_IDX_MSK := 0x7c00
  R_PATH0_P20_FOLLOW_BY_PAGCUGC := 0x46a0
  B_PATH0_P20_FOLLOW_BY_PAGCUGC_EN_MSK := 0x20
  R_PATH0_S20_FOLLOW_BY_PAGCUGC := 0x46a4
  B_PATH0_S20_FOLLOW_BY_PAGCUGC_EN_MSK := 0x20
  R_PATH1_P20_FOLLOW_BY_PAGCUGC := 0x4774
  B_PATH1_P20_FOLLOW_BY_PAGCUGC_EN_MSK := 0x20
  R_PATH1_S20_FOLLOW_BY_PAGCUGC := 0x4778
  B_PATH1_S20_FOLLOW_BY_PAGCUGC_EN_MSK := 0x20
  R_SEG0R_PD := 0x481c
  B_SEG0R_PD_LOWER_BOUND_MSK := 0x3e0
  B_SEG0R_PD_SPATIAL_REUSE_EN_MSK := 0x20000000

/-- The zero-initialised DIG state with the flag `reset` set, as left by the
first line of `rtw89_phy_dig_init`. -/
def digInit : rtw89_dig_info where
  reset := true
  cur_noisy_lv := 0
  cur_gaincode := ⟨0, 0, 0⟩
  force_gaincode := ⟨0, 0, 0⟩
  force_gaincode_idx_en := false
  igi_rssi_th := fun _ => 0
  fa_th := fun _ => 0
  igi_rssi := 0
  igi_fa_rssi := 0
  fa_rssi_ofst := 0
  dyn_igi_max := 0
  dyn_igi_min := 0
  dyn_pd_th_en := false
  dyn_pd_th_max := 0
  pd_low_th_ofst := 0
  ib_pbk := 0
  ib_pkpwr := 0
  lna_gain := fun _ => 0
  tia_gain := fun _ => 0

/-- A device on the 5 GHz band with no station and the flag `reset` set. -/
def digDevArmed : DigDev HwSim where
  dig := digInit
  hw := ⟨[], []⟩
  env := envZero
  total_sta_assoc := 0
  rssi_min := 0
  current_band_type := 1
  current_band_width := 0

/-- A device with one station whose `ch_info.rssi_min` is 0, after an earlier
tick left `igi_rssi = 50`. -/
def digDevNoRssi : DigDev HwSim where
  dig := { rtw89_phy_dig_para_reset enumsStd digStd 1 digInit with
           igi_rssi := 50, dyn_pd_th_en := true, force_gaincode_idx_en := true }
  hw := ⟨[], []⟩
  env := envZero
  total_sta_assoc := 1
  rssi_min := 0
  current_band_type := 1
  current_band_width := 0

/-- A device with one station whose `ch_info.rssi_min` is 90 (`r = 45`). -/
def digDevRssi : DigDev HwSim where
  dig := { rtw89_phy_dig_para_reset enumsStd digStd 1 digInit with
           igi_rssi := 50, dyn_pd_th_en := true, force_gaincode_idx_en := true,
           fa_rssi_ofst := 4 }
  hw := ⟨[], []⟩
  env := envZero
  total_sta_assoc := 1
  rssi_min := 90
  current_band_type := 1
  current_band_width := 0

/-! ## TX sub-channel index: `rtw89_phy_get_txsc` -/

/-- The constants of `enum rtw89_bandwidth` beyond those of `TxpwrEnums`
(`core.h` is not part of the sources). -/
structure WideBwEnums where
  RTW89_CHANNEL_WIDTH_160 : Nat
  RTW89_CHANNEL_WIDTH_80_80 : Nat

/-- The fields of `struct rtw89_channel_params` read by `rtw89_phy_get_txsc`. -/
structure rtw89_channel_params where
  bandwidth : Nat
  primary_chan : Nat
  center_chan : Nat

/-- The function `rtw89_phy_get_txsc`.  The arms of `switch (cbw)` are tried in
source order (C requires the case labels to be pairwise distinct); the `u8`
operands are promoted to `int` before the subtractions. -/
def rtw89_phy_get_txsc (e : TxpwrEnums) (w : WideBwEnums) (param : rtw89_channel_params)
    (dbw : Nat) : Nat :=
  let cbw := param.bandwidth
  let pri_ch := u8 param.primary_chan
  let central_ch := u8 param.center_chan
  let txsc_idx := 0
  if cbw = dbw ∨ cbw = e.RTW89_CHANNEL_WIDTH_20 then txsc_idx
  else if cbw = e.RTW89_CHANNEL_WIDTH_40 then
    if pri_ch > central_ch then 1 else 2
  else if cbw = e.RTW89_CHANNEL_WIDTH_80 then
    if dbw = e.RTW89_CHANNEL_WIDTH_20 then
      if pri_ch > central_ch then u8_of_int (((pri_ch : Int) - (central_ch : Int)) >>> 1)
      else u8_of_int ((((central_ch : Int) - (pri_ch : Int)) >>> 1) + 1)
    else if pri_ch > central_ch then 9 else 10
  else if cbw = w.RTW89_CHANNEL_WIDTH_160 then
    let tmp :=
      if pri_ch > central_ch then u8_of_int (((pri_ch : Int) - (central_ch : Int)) >>> 1)
      else u8_of_int ((((central_ch : Int) - (pri_ch : Int)) >>> 1) + 1)
    if dbw = e.RTW89_CHANNEL_WIDTH_20 then tmp
    else if dbw = e.RTW89_CHANNEL_WIDTH_40 then
      if tmp = 1 ∨ tmp = 3 then 9
      else if tmp = 5 ∨ tmp = 7 then 11
      else if tmp = 2 ∨ tmp = 4 then 10
      else if tmp = 6 ∨ tmp = 8 then 12
      else 0xff
    else if pri_ch > central_ch then 13 else 14
  else if cbw = w.RTW89_CHANNEL_WIDTH_80_80 then
    if dbw = e.RTW89_CHANNEL_WIDTH_20 then
      if pri_ch > central_ch then
        u8_of_int ((10 - ((pri_ch : Int) - (central_ch : Int))) >>> 1)
      else u8_of_int ((((central_ch : Int) - (pri_ch : Int)) >>> 1) + 5)
    else if dbw = e.RTW89_CHANNEL_WIDTH_40 then
      if pri_ch > central_ch then 10 else 12
    else 14
  else txsc_idx

/-- Sample values of the wide bandwidth constants. -/
def wideStd : WideBwEnums := ⟨3, 4⟩

/-- The sum `under = pd_low_th_ofst + PD_TH_SB_FLTR_CMP_VAL + bandwidth
constant` of `rtw89_phy_dig_dyn_pd_th`, without the `u8` wrap. -/
def pd_th_under (e : TxpwrEnums) (g : DigDefs) (cbw pd_low_th_ofst : Nat) : Nat :=
  pd_low_th_ofst + g.PD_TH_SB_FLTR_CMP_VAL +
    (if cbw = e.RTW89_CHANNEL_WIDTH_40 then g.PD_TH_BW40_CMP_VAL
     else if cbw = e.RTW89_CHANNEL_WIDTH_80 then g.PD_TH_BW80_CMP_VAL
     else g.PD_TH_BW20_CMP_VAL)

/-- The value `clamp(x, lo, hi)` of the kernel macro: `min(max(x, lo), hi)`. -/
def clamp_nat (x lo hi : Nat) : Nat := min (max x lo) hi

/-- A device with one station on a 20 MHz channel whose `igi_rssi` is 30. -/
def digDevPd : DigDev HwSim where
  dig := { rtw89_phy_dig_para_reset enumsStd digStd 1 digInit with igi_rssi := 30 }
  hw := ⟨[], []⟩
  env := envZero
  total_sta_assoc := 1
  rssi_min := 60
  current_band_type := 1
  current_band_width := 0

/-- A device state `st` together with the hardware's actual RFE type
(`efuse.rfe_type`) and cut version (`hal.cv`). -/
structure HwVariant (σ : Type) where
  rfe_type : Nat
  cv : Nat
  st : σ

/-- A writer `config` run on a device with RFE type and cut version: like both
writers of `phy.c` it reads neither of them. -/
def config_variant {σ : Type} (config : rtw89_reg2_def → Nat → σ → σ) :
    rtw89_reg2_def → Nat → HwVariant σ → HwVariant σ :=
  fun reg rf_path d => { d with st := config reg rf_path d.st }

/-! ## Runs of the DIG loop -/

/-- The values that change between two ticks of the DIG loop: the
environment-monitor results (false-alarm readings), the station count and
`ch_info.rssi_min`. -/
structure DigTick where
  env : rtw89_env_monitor_info
  total_sta_assoc : Nat
  rssi_min : Nat

/-- A run of the DIG loop: one call of `rtw89_phy_dig` per element of the list,
each on the state left by the call before with the readings of that tick. -/
def dig_ticks {H : Type} (ops : RegOps H) (e : TxpwrEnums) (g : DigDefs) :
    DigDev H → List DigTick → DigDev H
  | d, [] => d
  | d, i :: rest =>
    dig_ticks ops e g
      (rtw89_phy_dig ops e g
        { d with env := i.env, total_sta_assoc := i.total_sta_assoc, rssi_min := i.rssi_min })
      rest

/-- The statement `if (dig->force_gaincode_idx_en) ... else ...` of
`rtw89_phy_dig`. -/
def dig_gaincode_step {H : Type} (ops : RegOps H) (g : DigDefs) (d : DigDev H) : DigDev H :=
  if d.dig.force_gaincode_idx_en then
    { d with hw := rtw89_phy_dig_set_igi_cr ops g d.hw d.dig.force_gaincode }
  else
    let set := rtw89_phy_dig_gaincode_by_rssi g d.dig d.dig.igi_fa_rssi d.dig.cur_gaincode
    let d := { d with dig := { d.dig with cur_gaincode := set } }
    { d with hw := rtw89_phy_dig_set_igi_cr ops g d.hw d.dig.cur_gaincode }

/-- The last statement of `rtw89_phy_dig`: the choice of the argument of
`rtw89_phy_dig_sdagc_follow_pagc_config`. -/
def dig_sdagc_step {H : Type} (ops : RegOps H) (g : DigDefs) (d : DigDev H) : DigDev H :=
  if d.dig.dyn_pd_th_en ∧ d.dig.igi_fa_rssi > d.dig.dyn_pd_th_max then
    { d with hw := rtw89_phy_dig_sdagc_follow_pagc_config ops g d.hw true }
  else
    { d with hw := rtw89_phy_dig_sdagc_follow_pagc_config ops g d.hw false }

/-- The device with the environment-monitor results and `cur_noisy_lv`
replaced. -/
def dig_with_noisy {H : Type} (d : DigDev H) (env : rtw89_env_monitor_info) (x : Int) :
    DigDev H :=
  { d with env := env, dig := { d.dig with cur_noisy_lv := x } }

/-- A device with no station, the flag `reset` clear and a stored offset of
1. -/
def digDevIdleOfs : DigDev HwSim where
  dig := { digInit with reset := false, fa_rssi_ofst := 1 }
  hw := ⟨[], []⟩
  env := envZero
  total_sta_assoc := 0
  rssi_min := 0
  current_band_type := 1
  current_band_width := 0

/-- A device with one station whose `ch_info.rssi_min` is 0 and a stored
`igi_rssi` of 250. -/
def digDevWrap : DigDev HwSim where
  dig := { digInit with igi_rssi := 250 }
  hw := ⟨[], []⟩
  env := envZero
  total_sta_assoc := 1
  rssi_min := 0
  current_band_type := 1
  current_band_width := 0

/-- A tick with no station. -/
def digTickIdle : DigTick := ⟨envZero, 0, 0⟩

/-- A tick with one station at `ch_info.rssi_min = 90` and no false alarm. -/
def digTickQuiet : DigTick := ⟨envZero, 1, 90⟩

/-- A tick with one station at `ch_info.rssi_min = 90` and 900 per mil of CCK
false alarms. -/
def digTickNoisy : DigTick := ⟨{ envZero with ifs_clm_cck_fa_permil := 900 }, 1, 90⟩

/-! ## Reachable CFO states -/

/-- The CFO states reachable from `rtw89_phy_cfo_statistics_reset` by calls of
`rtw89_phy_cfo_parse` with an in-range `mac_id` that overflow neither
`cfo_cnt[macid]` (a `u16`) nor `packet_count` (a `u32`), calls of
`rtw89_phy_cfo_track`, and changes of the station count between the calls. -/
inductive CfoReach {H : Type} (ops : RegOps H) (c : CfoDefs) : CfoDev H → Prop
  | start (d : CfoDev H) :
      CfoReach ops c { d with cfo := rtw89_phy_cfo_statistics_reset d.cfo }
  | parse (d : CfoDev H) (cfo_val : Int) (mac_id : Nat) (cfo2 : rtw89_cfo_tracking_info) :
      CfoReach ops c d → cfo_parse_in_range c mac_id →
      d.cfo.cfo_cnt (u8 mac_id) + 1 < 2 ^ 16 → d.cfo.packet_count + 1 < 2 ^ 32 →
      rtw89_phy_cfo_parse c d.cfo cfo_val mac_id = some cfo2 →
      CfoReach ops c { d with cfo := cfo2 }
  | track (d : CfoDev H) :
      CfoReach ops c d → CfoReach ops c (rtw89_phy_cfo_track ops c d)
  | stations (d : CfoDev H) (n : Nat) :
      CfoReach ops c d → CfoReach ops c { d with total_sta_assoc := n }

/-- The CFO state after `rtw89_phy_cfo_statistics_reset` and one parsed packet
of station 0 with CFO value 100. -/
def cfoParsedOnce : rtw89_cfo_tracking_info :=
  (rtw89_phy_cfo_parse cfoStd (rtw89_phy_cfo_statistics_reset cfoDevIdle.cfo) 100 0).getD
    cfoInit

/-- A device with one station after `rtw89_phy_cfo_statistics_reset` and two
parsed packets of station 0 with CFO values 100 and 51. -/
def cfoDevParsed : CfoDev HwSim where
  cfo := (rtw89_phy_cfo_parse cfoStd cfoParsedOnce 51 0).getD cfoInit
  hw := cfoDevIdle.hw
  total_sta_assoc := cfoDevIdle.total_sta_assoc

/-! ## Lemmas on the power-limit code -/

theorem foldl_update_range {α : Type} (f : Nat → α) (n : Nat) (ptr : Nat → α) (j : Nat) :
    (List.range n).foldl (fun p i => Function.update p i (f i)) ptr j
      = if j < n then f j else ptr j := by
  induction n with
  | zero => simp
  | succ k ih =>
    rw [List.range_succ, List.foldl_append]
    simp only [List.foldl_cons, List.foldl_nil]
    by_cases hjk : j = k
    · subst hjk
      simp
    · rw [Function.update_noteq hjk, ih]
      by_cases hlt : j < k
      · have h2 : j < k + 1 := by omega
        simp [hlt, h2]
      · have h2 : ¬ j < k + 1 := by omega
        simp [hlt, h2]

theorem fill_nonbf_bf_apply (c : TxpwrEnums) (d : TxpwrDev) (ptr : Nat → Int)
    (bw ntx rs ch bf : Nat) (hbf : bf < c.RTW89_BF_NUM) :
    __fill_txpwr_limit_nonbf_bf c d ptr bw ntx rs ch bf
      = rtw89_phy_read_txpwr_limit c d bw ntx rs bf ch := by
  unfold __fill_txpwr_limit_nonbf_bf
  rw [foldl_update_range (fun i => rtw89_phy_read_txpwr_limit c d bw ntx rs i ch)]
  simp [hbf]

theorem s8_of_range (x : Int) (h1 : -128 ≤ x) (h2 : x ≤ 127) : s8 x = x := by
  unfold s8
  omega

theorem shiftRight_range (x : Int) (k : Nat) (h1 : -128 ≤ x) (h2 : x ≤ 127) :
    -128 ≤ x >>> k ∧ x >>> k ≤ 127 := by
  rw [Int.shiftRight_eq_div_pow]
  have hpos : (0 : Int) < ((2 ^ k : Nat) : Int) := by positivity
  have hone : (1 : Int) ≤ ((2 ^ k : Nat) : Int) := by omega
  constructor
  · rw [Int.le_ediv_iff_mul_le hpos]
    nlinarith
  · have := Int.ediv_le_self (b := ((2 ^ k : Nat) : Int)) (a := x)
    by_cases hx : 0 ≤ x
    · exact le_trans (Int.ediv_le_self _ hx) h2
    · have hneg : x / ((2 ^ k : Nat) : Int) < 0 := Int.ediv_neg' (by omega) hpos
      omega

theorem read_range (c : TxpwrEnums) (d : TxpwrDev) (bw ntx rs bf ch : Nat) :
    -128 ≤ rtw89_phy_read_txpwr_limit c d bw ntx rs bf ch ∧
      rtw89_phy_read_txpwr_limit c d bw ntx rs bf ch ≤ 127 := by
  have hs : ∀ x : Int, -128 ≤ s8 x ∧ s8 x ≤ 127 := by
    intro x
    unfold s8
    omega
  unfold rtw89_phy_read_txpwr_limit
  simp only
  split_ifs
  · exact hs _
  · exact hs _
  · omega

/-! ## Claims on the power-limit code -/

/-- C9: `rtw89_channel_to_idx` returns `ch - 1` for channels 1..14, `(ch - 36)/2`
for 36..64, `(ch - 100)/2 + 15` for 100..144, `(ch - 149)/2 + 38` for 149..177
and 0 for every other channel number; channel 1 gives 0, channel 100 gives 15
and channel 149 gives 38. -/
theorem channel_to_idx_formula (ch : Nat) :
    rtw89_channel_to_idx ch =
      (if 1 ≤ ch ∧ ch ≤ 14 then ch - 1
       else if 36 ≤ ch ∧ ch ≤ 64 then (ch - 36) / 2
       else if 100 ≤ ch ∧ ch ≤ 144 then (ch - 100) / 2 + 15
       else if 149 ≤ ch ∧ ch ≤ 177 then (ch - 149) / 2 + 38
       else 0) ∧
    rtw89_channel_to_idx 1 = 0 ∧ rtw89_channel_to_idx 100 = 15 ∧
    rtw89_channel_to_idx 149 = 38 := by
  refine ⟨?_, by decide, by decide, by decide⟩
  unfold rtw89_channel_to_idx u8
  split_ifs <;> omega

/-- C10: with `txpwr_factor_mac <= txpwr_factor_rf` and table entries in the
`s8` range, `rtw89_phy_read_txpwr_limit` returns the entry at
`[bw][ntx][rs][bf][regd][rtw89_channel_to_idx(ch)]` of the current band's table
(2G or 5G) shifted right arithmetically by `txpwr_factor_rf - txpwr_factor_mac`,
and 0 for any other band; `rtw89_phy_read_txpwr_limit_ru` does the same over
`[ru][ntx][regd][channel index]`. -/
theorem read_txpwr_limit_shift (c : TxpwrEnums) (d : TxpwrDev)
    (bw ntx rs bf ch ru : Nat)
    (hfac : d.txpwr_factor_mac ≤ d.txpwr_factor_rf)
    (h2g : ∀ a b e f g h, -128 ≤ d.txpwr_lmt_2g a b e f g h ∧ d.txpwr_lmt_2g a b e f g h ≤ 127)
    (h5g : ∀ a b e f g h, -128 ≤ d.txpwr_lmt_5g a b e f g h ∧ d.txpwr_lmt_5g a b e f g h ≤ 127)
    (hru2g : ∀ a b e f, -128 ≤ d.txpwr_lmt_ru_2g a b e f ∧ d.txpwr_lmt_ru_2g a b e f ≤ 127)
    (hru5g : ∀ a b e f, -128 ≤ d.txpwr_lmt_ru_5g a b e f ∧ d.txpwr_lmt_ru_5g a b e f ≤ 127) :
    rtw89_phy_read_txpwr_limit c d bw ntx rs bf ch =
      (if u8 d.current_band_type = c.RTW89_BAND_2G then
        d.txpwr_lmt_2g bw ntx rs bf (u8 (d.rtw89_regd_get (u8 d.current_band_type)))
          (rtw89_channel_to_idx ch) >>> (d.txpwr_factor_rf - d.txpwr_factor_mac)
      else if u8 d.current_band_type = c.RTW89_BAND_5G then
        d.txpwr_lmt_5g bw ntx rs bf (u8 (d.rtw89_regd_get (u8 d.current_band_type)))
          (rtw89_channel_to_idx ch) >>> (d.txpwr_factor_rf - d.txpwr_factor_mac)
      else 0) ∧
    rtw89_phy_read_txpwr_limit_ru c d ru ntx ch =
      (if u8 d.current_band_type = c.RTW89_BAND_2G then
        d.txpwr_lmt_ru_2g ru ntx (u8 (d.rtw89_regd_get (u8 d.current_band_type)))
          (rtw89_channel_to_idx ch) >>> (d.txpwr_factor_rf - d.txpwr_factor_mac)
      else if u8 d.current_band_type = c.RTW89_BAND_5G then
        d.txpwr_lmt_ru_5g ru ntx (u8 (d.rtw89_regd_get (u8 d.current_band_type)))
          (rtw89_channel_to_idx ch) >>> (d.txpwr_factor_rf - d.txpwr_factor_mac)
      else 0) := by
  have _ := hfac
  have key : ∀ x : Int, -128 ≤ x ∧ x ≤ 127 →
      s8 (_phy_txpwr_rf_to_mac d x) = x >>> (d.txpwr_factor_rf - d.txpwr_factor_mac) := by
    intro x hx
    unfold _phy_txpwr_rf_to_mac
    have hr := shiftRight_range x (d.txpwr_factor_rf - d.txpwr_factor_mac) hx.1 hx.2
    exact s8_of_range _ hr.1 hr.2
  unfold rtw89_phy_read_txpwr_limit rtw89_phy_read_txpwr_limit_ru
  simp only
  constructor
  · split_ifs
    · exact key _ (h2g _ _ _ _ _ _)
    · exact key _ (h5g _ _ _ _ _ _)
    · rfl
  · split_ifs
    · exact key _ (hru2g _ _ _ _)
    · exact key _ (hru5g _ _ _ _)
    · rfl

/-- Witness for C10 on the sample device: the factors are ordered, and the
40 MHz MCS limit read at channel 40 (entry 54) and the RU limit (entry 19) are
halved. -/
theorem read_txpwr_limit_shift_witness :
    devSample.txpwr_factor_mac ≤ devSample.txpwr_factor_rf ∧
    rtw89_phy_read_txpwr_limit enumsStd devSample 1 0 2 0 40 = 27 ∧
    rtw89_phy_read_txpwr_limit_ru enumsStd devSample 1 0 40 = 9 := by
  have h := read_txpwr_limit_shift enumsStd devSample 1 0 2 0 40 1
    (by decide)
    (by intro a b e f g h; simp [devSample])
    (by intro a b e f g h; simp only [devSample]; omega)
    (by intro a b e f; simp [devSample])
    (by intro a b e f; simp only [devSample]; omega)
  refine ⟨by decide, ?_, ?_⟩
  · rw [h.1]
    decide
  · rw [h.2]
    decide

theorem u8_of_int_sub (ch k : Nat) (h1 : k ≤ ch) (h2 : ch < 256) :
    u8_of_int ((ch : Int) - k) = ch - k := by
  unfold u8_of_int
  omega

theorem u8_of_int_add (ch k : Nat) (h : ch + k < 256) :
    u8_of_int ((ch : Int) + k) = ch + k := by
  unfold u8_of_int
  omega

/-- C7: when the current bandwidth is 40 MHz, `rtw89_phy_fill_txpwr_limit` sets,
for every valid beamforming index `bf`, `cck_40m[bf]` to the 40 MHz CCK limit
read at the current channel `ch`, `cck_20m[bf]`, `ofdm[bf]` and `mcs_20m[0][bf]`
to the 20 MHz limits read at `ch - 2`, `mcs_20m[1][bf]` to the 20 MHz MCS limit
read at `ch + 2` and `mcs_40m[0][bf]` to the 40 MHz MCS limit read at `ch`
(channel arguments are `u8`, so `ch - 2` and `ch + 2` are taken modulo 256). -/
theorem fill_txpwr_limit_40m_lookups (c : TxpwrEnums) (d : TxpwrDev) (ntx bf : Nat)
    (hbw : u8 d.current_band_width = c.RTW89_CHANNEL_WIDTH_40)
    (hne : c.RTW89_CHANNEL_WIDTH_40 ≠ c.RTW89_CHANNEL_WIDTH_20)
    (hbf : bf < c.RTW89_BF_NUM) :
    (rtw89_phy_fill_txpwr_limit c d ntx).cck_40m bf =
      rtw89_phy_read_txpwr_limit c d c.RTW89_CHANNEL_WIDTH_40 ntx c.RTW89_RS_CCK bf
        (u8 d.current_channel) ∧
    (rtw89_phy_fill_txpwr_limit c d ntx).cck_20m bf =
      rtw89_phy_read_txpwr_limit c d c.RTW89_CHANNEL_WIDTH_20 ntx c.RTW89_RS_CCK bf
        (u8_of_int ((u8 d.current_channel : Int) - 2)) ∧
    (rtw89_phy_fill_txpwr_limit c d ntx).ofdm bf =
      rtw89_phy_read_txpwr_limit c d c.RTW89_CHANNEL_WIDTH_20 ntx c.RTW89_RS_OFDM bf
        (u8_of_int ((u8 d.current_channel : Int) - 2)) ∧
    (rtw89_phy_fill_txpwr_limit c d ntx).mcs_20m 0 bf =
      rtw89_phy_read_txpwr_limit c d c.RTW89_CHANNEL_WIDTH_20 ntx c.RTW89_RS_MCS bf
        (u8_of_int ((u8 d.current_channel : Int) - 2)) ∧
    (rtw89_phy_fill_txpwr_limit c d ntx).mcs_20m 1 bf =
      rtw89_phy_read_txpwr_limit c d c.RTW89_CHANNEL_WIDTH_20 ntx c.RTW89_RS_MCS bf
        (u8_of_int ((u8 d.current_channel : Int) + 2)) ∧
    (rtw89_phy_fill_txpwr_limit c d ntx).mcs_40m 0 bf =
      rtw89_phy_read_txpwr_limit c d c.RTW89_CHANNEL_WIDTH_40 ntx c.RTW89_RS_MCS bf
        (u8 d.current_channel) ∧
    (2 ≤ u8 d.current_channel →
      u8_of_int ((u8 d.current_channel : Int) - 2) = u8 d.current_channel - 2) ∧
    (u8 d.current_channel + 2 < 256 →
      u8_of_int ((u8 d.current_channel : Int) + 2) = u8 d.current_channel + 2) := by
  have hlt : u8 d.current_channel < 256 := by unfold u8; omega
  have hfill : rtw89_phy_fill_txpwr_limit c d ntx =
      rtw89_phy_fill_txpwr_limit_40m c d txpwr_limit_zero ntx (u8 d.current_channel) := by
    unfold rtw89_phy_fill_txpwr_limit
    simp only [hbw]
    rw [if_neg hne]
    simp
  rw [hfill]
  unfold rtw89_phy_fill_txpwr_limit_40m
  refine ⟨?_, ?_, ?_, ?_, ?_, ?_, ?_, ?_⟩
  · simp [fill_nonbf_bf_apply, hbf]
  · simp [fill_nonbf_bf_apply, hbf]
  · simp [fill_nonbf_bf_apply, hbf]
  · simp [fill_nonbf_bf_apply, hbf]
  · simp [fill_nonbf_bf_apply, hbf]
  · simp [fill_nonbf_bf_apply, hbf]
  · intro h
    exact u8_of_int_sub _ 2 h hlt
  · intro h
    exact u8_of_int_add _ 2 h

/-- Witness for C7 on the sample device (channel 40, 40 MHz): `cck_40m` comes
from the 40 MHz lookup at channel 40 and `cck_20m` from the 20 MHz lookup at
channel 38. -/
theorem fill_txpwr_limit_40m_lookups_witness :
    u8 devSample.current_band_width = enumsStd.RTW89_CHANNEL_WIDTH_40 ∧
    (rtw89_phy_fill_txpwr_limit enumsStd devSample 0).cck_40m 0 =
      rtw89_phy_read_txpwr_limit enumsStd devSample 1 0 0 0 40 ∧
    (rtw89_phy_fill_txpwr_limit enumsStd devSample 0).cck_20m 0 =
      rtw89_phy_read_txpwr_limit enumsStd devSample 0 0 0 0 38 :=
  ⟨by decide,
   (fill_txpwr_limit_40m_lookups enumsStd devSample 0 0 (by decide) (by decide) (by decide)).1,
   (fill_txpwr_limit_40m_lookups enumsStd devSample 0 0 (by decide) (by decide) (by decide)).2.1⟩

theorem s8_read (c : TxpwrEnums) (d : TxpwrDev) (bw ntx rs bf ch : Nat) :
    s8 (rtw89_phy_read_txpwr_limit c d bw ntx rs bf ch)
      = rtw89_phy_read_txpwr_limit c d bw ntx rs bf ch :=
  s8_of_range _ (read_range c d bw ntx rs bf ch).1 (read_range c d bw ntx rs bf ch).2

/-- C8: when the current bandwidth is 80 MHz, `rtw89_phy_fill_txpwr_limit` fills,
for every valid beamforming index `bf`, `mcs_20m[0..3][bf]` from the 20 MHz MCS
limits at `ch-6`, `ch-2`, `ch+2`, `ch+6`, `mcs_40m[0..1][bf]` from the 40 MHz
MCS limits at `ch-4` and `ch+4`, `mcs_80m[0][bf]` from the 80 MHz MCS limit at
`ch`, and `mcs_40m_0p5[bf]` with the minimum of the limits at `ch-4` and `ch+4`;
so `mcs_40m_0p5[bf] = min(mcs_40m[0][bf], mcs_40m[1][bf])`, no greater than
either (channel arguments are `u8`, taken modulo 256). -/
theorem fill_txpwr_limit_80m_lookups (c : TxpwrEnums) (d : TxpwrDev) (ntx bf : Nat)
    (hbw : u8 d.current_band_width = c.RTW89_CHANNEL_WIDTH_80)
    (hne20 : c.RTW89_CHANNEL_WIDTH_80 ≠ c.RTW89_CHANNEL_WIDTH_20)
    (hne40 : c.RTW89_CHANNEL_WIDTH_80 ≠ c.RTW89_CHANNEL_WIDTH_40)
    (hbf : bf < c.RTW89_BF_NUM) :
    (rtw89_phy_fill_txpwr_limit c d ntx).mcs_20m 0 bf =
      rtw89_phy_read_txpwr_limit c d c.RTW89_CHANNEL_WIDTH_20 ntx c.RTW89_RS_MCS bf
        (u8_of_int ((u8 d.current_channel : Int) - 6)) ∧
    (rtw89_phy_fill_txpwr_limit c d ntx).mcs_20m 1 bf =
      rtw89_phy_read_txpwr_limit c d c.RTW89_CHANNEL_WIDTH_20 ntx c.RTW89_RS_MCS bf
        (u8_of_int ((u8 d.current_channel : Int) - 2)) ∧
    (rtw89_phy_fill_txpwr_limit c d ntx).mcs_20m 2 bf =
      rtw89_phy_read_txpwr_limit c d c.RTW89_CHANNEL_WIDTH_20 ntx c.RTW89_RS_MCS bf
        (u8_of_int ((u8 d.current_channel : Int) + 2)) ∧
    (rtw89_phy_fill_txpwr_limit c d ntx).mcs_20m 3 bf =
      rtw89_phy_read_txpwr_limit c d c.RTW89_CHANNEL_WIDTH_20 ntx c.RTW89_RS_MCS bf
        (u8_of_int ((u8 d.current_channel : Int) + 6)) ∧
    (rtw89_phy_fill_txpwr_limit c d ntx).mcs_40m 0 bf =
      rtw89_phy_read_txpwr_limit c d c.RTW89_CHANNEL_WIDTH_40 ntx c.RTW89_RS_MCS bf
        (u8_of_int ((u8 d.current_channel : Int) - 4)) ∧
    (rtw89_phy_fill_txpwr_limit c d ntx).mcs_40m 1 bf =
      rtw89_phy_read_txpwr_limit c d c.RTW89_CHANNEL_WIDTH_40 ntx c.RTW89_RS_MCS bf
        (u8_of_int ((u8 d.current_channel : Int) + 4)) ∧
    (rtw89_phy_fill_txpwr_limit c d ntx).mcs_80m 0 bf =
      rtw89_phy_read_txpwr_limit c d c.RTW89_CHANNEL_WIDTH_80 ntx c.RTW89_RS_MCS bf
        (u8 d.current_channel) ∧
    (rtw89_phy_fill_txpwr_limit c d ntx).mcs_40m_0p5 bf =
      min (rtw89_phy_read_txpwr_limit c d c.RTW89_CHANNEL_WIDTH_40 ntx c.RTW89_RS_MCS bf
            (u8_of_int ((u8 d.current_channel : Int) - 4)))
          (rtw89_phy_read_txpwr_limit c d c.RTW89_CHANNEL_WIDTH_40 ntx c.RTW89_RS_MCS bf
            (u8_of_int ((u8 d.current_channel : Int) + 4))) ∧
    (rtw89_phy_fill_txpwr_limit c d ntx).mcs_40m_0p5 bf =
      min ((rtw89_phy_fill_txpwr_limit c d ntx).mcs_40m 0 bf)
          ((rtw89_phy_fill_txpwr_limit c d ntx).mcs_40m 1 bf) ∧
    (rtw89_phy_fill_txpwr_limit c d ntx).mcs_40m_0p5 bf ≤
      (rtw89_phy_fill_txpwr_limit c d ntx).mcs_40m 0 bf ∧
    (rtw89_phy_fill_txpwr_limit c d ntx).mcs_40m_0p5 bf ≤
      (rtw89_phy_fill_txpwr_limit c d ntx).mcs_40m 1 bf ∧
    (6 ≤ u8 d.current_channel ∧ u8 d.current_channel + 6 < 256 →
      ∀ k : Nat, k ≤ 6 →
        u8_of_int ((u8 d.current_channel : Int) - k) = u8 d.current_channel - k ∧
        u8_of_int ((u8 d.current_channel : Int) + k) = u8 d.current_channel + k) := by
  have hlt : u8 d.current_channel < 256 := by unfold u8; omega
  have hfill : rtw89_phy_fill_txpwr_limit c d ntx =
      rtw89_phy_fill_txpwr_limit_80m c d txpwr_limit_zero ntx (u8 d.current_channel) := by
    unfold rtw89_phy_fill_txpwr_limit
    simp only [hbw]
    rw [if_neg hne20, if_neg hne40]
    simp
  have h0 : (rtw89_phy_fill_txpwr_limit c d ntx).mcs_40m 0 bf =
      rtw89_phy_read_txpwr_limit c d c.RTW89_CHANNEL_WIDTH_40 ntx c.RTW89_RS_MCS bf
        (u8_of_int ((u8 d.current_channel : Int) - 4)) := by
    rw [hfill]
    unfold rtw89_phy_fill_txpwr_limit_80m
    simp [fill_nonbf_bf_apply, hbf]
  have h1 : (rtw89_phy_fill_txpwr_limit c d ntx).mcs_40m 1 bf =
      rtw89_phy_read_txpwr_limit c d c.RTW89_CHANNEL_WIDTH_40 ntx c.RTW89_RS_MCS bf
        (u8_of_int ((u8 d.current_channel : Int) + 4)) := by
    rw [hfill]
    unfold rtw89_phy_fill_txpwr_limit_80m
    simp [fill_nonbf_bf_apply, hbf]
  have hmin : (rtw89_phy_fill_txpwr_limit c d ntx).mcs_40m_0p5 bf =
      min (rtw89_phy_read_txpwr_limit c d c.RTW89_CHANNEL_WIDTH_40 ntx c.RTW89_RS_MCS bf
            (u8_of_int ((u8 d.current_channel : Int) - 4)))
          (rtw89_phy_read_txpwr_limit c d c.RTW89_CHANNEL_WIDTH_40 ntx c.RTW89_RS_MCS bf
            (u8_of_int ((u8 d.current_channel : Int) + 4))) := by
    rw [hfill]
    unfold rtw89_phy_fill_txpwr_limit_80m
    simp only
    rw [foldl_update_range (fun i =>
      min (s8 (__fill_txpwr_limit_nonbf_bf c d (fun _ => 0) c.RTW89_CHANNEL_WIDTH_40 ntx
              c.RTW89_RS_MCS (u8_of_int ((u8 d.current_channel : Int) - 4)) i))
          (s8 (__fill_txpwr_limit_nonbf_bf c d (fun _ => 0) c.RTW89_CHANNEL_WIDTH_40 ntx
              c.RTW89_RS_MCS (u8_of_int ((u8 d.current_channel : Int) + 4)) i)))]
    rw [if_pos hbf, fill_nonbf_bf_apply _ _ _ _ _ _ _ _ hbf,
      fill_nonbf_bf_apply _ _ _ _ _ _ _ _ hbf, s8_read, s8_read]
  refine ⟨?_, ?_, ?_, ?_, h0, h1, ?_, hmin, ?_, ?_, ?_, ?_⟩
  · rw [hfill]
    unfold rtw89_phy_fill_txpwr_limit_80m
    simp [fill_nonbf_bf_apply, hbf]
  · rw [hfill]
    unfold rtw89_phy_fill_txpwr_limit_80m
    simp [fill_nonbf_bf_apply, hbf]
  · rw [hfill]
    unfold rtw89_phy_fill_txpwr_limit_80m
    simp [fill_nonbf_bf_apply, hbf]
  · rw [hfill]
    unfold rtw89_phy_fill_txpwr_limit_80m
    simp [fill_nonbf_bf_apply, hbf]
  · rw [hfill]
    unfold rtw89_phy_fill_txpwr_limit_80m
    simp [fill_nonbf_bf_apply, hbf]
  · rw [hmin, h0, h1]
  · rw [hmin, h0]
    exact min_le_left _ _
  · rw [hmin, h1]
    exact min_le_right _ _
  · intro hch k hk
    exact ⟨u8_of_int_sub _ k (by omega) hlt, u8_of_int_add _ k (by omega)⟩

/-- Witness for C8 on the sample device switched to 80 MHz at channel 42. -/
theorem fill_txpwr_limit_80m_lookups_witness :
    u8 ({ devSample with current_band_width := 2, current_channel := 42 } :
      TxpwrDev).current_band_width = enumsStd.RTW89_CHANNEL_WIDTH_80 ∧
    (rtw89_phy_fill_txpwr_limit enumsStd
      { devSample with current_band_width := 2, current_channel := 42 } 0).mcs_40m_0p5 1 =
      min ((rtw89_phy_fill_txpwr_limit enumsStd
            { devSample with current_band_width := 2, current_channel := 42 } 0).mcs_40m 0 1)
          ((rtw89_phy_fill_txpwr_limit enumsStd
            { devSample with current_band_width := 2, current_channel := 42 } 0).mcs_40m 1 1) :=
  ⟨by decide,
   (fill_txpwr_limit_80m_lookups enumsStd
      { devSample with current_band_width := 2, current_channel := 42 } 0 1
      (by decide) (by decide) (by decide) (by decide)).2.2.2.2.2.2.2.2.1⟩

/-! ## Lemmas on headline selection -/

theorem headline_scan_le (m : PhyCondDefs) (l : List rtw89_reg2_def) (i : Nat) :
    i ≤ headline_scan m l i ∧ headline_scan m l i ≤ i + l.length := by
  induction l generalizing i with
  | nil => simp [headline_scan]
  | cons r rest ih =>
    unfold headline_scan
    split_ifs
    · simp
    · have := ih (i + 1)
      simp only [List.length_cons]
      omega

theorem phy_headline_size_le (m : PhyCondDefs) (table : rtw89_phy_table) :
    phy_headline_size m table ≤ table.regs.length := by
  have := (headline_scan_le m table.regs 0).2
  unfold phy_headline_size
  omega

theorem phy_headline_length (m : PhyCondDefs) (table : rtw89_phy_table) :
    (phy_headline m table).length = phy_headline_size m table := by
  unfold phy_headline
  rw [List.length_take]
  exact Nat.min_eq_left (phy_headline_size_le m table)

theorem target_scan_none (m : PhyCondDefs) (cmp : Nat) (l : List rtw89_reg2_def) (i : Nat) :
    target_scan m cmp l i = none ↔ ∀ r ∈ l, reg_target m r ≠ cmp := by
  induction l generalizing i with
  | nil => simp [target_scan]
  | cons r rest ih =>
    unfold target_scan
    split_ifs with h
    · simp [h]
    · rw [ih (i + 1)]
      simp [h]

theorem target_scan_some (m : PhyCondDefs) (cmp : Nat) (l : List rtw89_reg2_def) (i k : Nat)
    (h : target_scan m cmp l i = some k) :
    ∃ j r, k = i + j ∧ l[j]? = some r ∧ reg_target m r = cmp ∧
      ∀ j2 r2, j2 < j → l[j2]? = some r2 → reg_target m r2 ≠ cmp := by
  induction l generalizing i with
  | nil => simp [target_scan] at h
  | cons r rest ih =>
    unfold target_scan at h
    split_ifs at h with hc
    · refine ⟨0, r, ?_, by simp, hc, ?_⟩
      · simp only [Option.some.injEq] at h
        omega
      · intro j2 r2 hj
        omega
    · obtain ⟨j, r1, hk, hr1, ht, hfirst⟩ := ih (i + 1) h
      refine ⟨j + 1, r1, by omega, by simpa using hr1, ht, ?_⟩
      intro j2 r2 hj hr2
      cases j2 with
      | zero =>
        simp only [List.getElem?_cons_zero, Option.some.injEq] at hr2
        subst hr2
        exact hc
      | succ j3 =>
        simp only [List.getElem?_cons_succ] at hr2
        exact hfirst j3 r2 (by omega) hr2

theorem target_scan_first (m : PhyCondDefs) (cmp : Nat) (l : List rtw89_reg2_def) (i j : Nat)
    (r : rtw89_reg2_def) (hr : l[j]? = some r) (ht : reg_target m r = cmp)
    (hfirst : ∀ j2 r2, j2 < j → l[j2]? = some r2 → reg_target m r2 ≠ cmp) :
    target_scan m cmp l i = some (i + j) := by
  cases hres : target_scan m cmp l i with
  | none =>
    exact absurd ht ((target_scan_none m cmp l i).1 hres r (List.getElem?_mem hr))
  | some k =>
    obtain ⟨j1, r1, hk, hr1, ht1, hfirst1⟩ := target_scan_some m cmp l i k hres
    have hjj : j1 = j := by
      rcases Nat.lt_trichotomy j1 j with hlt | heq | hgt
      · exact absurd ht1 (hfirst j1 r1 hlt hr1)
      · exact heq
      · exact absurd ht (hfirst1 j r hgt hr)
    subst hjj
    rw [hk]

/-- What the state of a case 3 / case 4 loop looks like after the records `l`. -/
theorem cut_scan_spec (m : PhyCondDefs) (rfe : Nat) (l : List rtw89_reg2_def) (i : Nat)
    (st : CutScan) :
    (∀ r ∈ l, reg_rfe m r = rfe → reg_cut m r ≤ (cut_scan m rfe l i st).cut_max) ∧
    st.cut_max ≤ (cut_scan m rfe l i st).cut_max ∧
    ((cut_scan m rfe l i st = st ∧ ∀ r ∈ l, reg_rfe m r = rfe → reg_cut m r < st.cut_max) ∨
     ((cut_scan m rfe l i st).case_matched = true ∧
        ∃ j r, (cut_scan m rfe l i st).headline_idx = i + j ∧ l[j]? = some r ∧
          reg_rfe m r = rfe ∧ reg_cut m r = (cut_scan m rfe l i st).cut_max)) := by
  induction l generalizing i st with
  | nil => simp [cut_scan]
  | cons r rest ih =>
    unfold cut_scan
    split_ifs with hrfe hcut
    · obtain ⟨h1, h2, h3⟩ := ih (i + 1) ⟨reg_cut m r, i, true⟩
      simp only at h2
      refine ⟨?_, by omega, Or.inr ?_⟩
      · intro r2 hr2 hp
        rcases List.mem_cons.1 hr2 with heq | hmem
        · subst heq
          exact h2
        · exact h1 r2 hmem hp
      · rcases h3 with ⟨heq, _⟩ | ⟨hm, j, r2, hidx, hr2, hp, hc⟩
        · rw [heq]
          exact ⟨rfl, 0, r, by simp, by simp, hrfe, rfl⟩
        · exact ⟨hm, j + 1, r2, by omega, by simpa using hr2, hp, hc⟩
    · obtain ⟨h1, h2, h3⟩ := ih (i + 1) st
      refine ⟨?_, h2, ?_⟩
      · intro r2 hr2 hp
        rcases List.mem_cons.1 hr2 with heq | hmem
        · subst heq
          omega
        · exact h1 r2 hmem hp
      · rcases h3 with ⟨heq, hlt⟩ | ⟨hm, j, r2, hidx, hr2, hp, hc⟩
        · refine Or.inl ⟨heq, ?_⟩
          intro r2 hr2 hp
          rcases List.mem_cons.1 hr2 with heq2 | hmem
          · subst heq2
            omega
          · exact hlt r2 hmem hp
        · exact Or.inr ⟨hm, j + 1, r2, by omega, by simpa using hr2, hp, hc⟩
    · obtain ⟨h1, h2, h3⟩ := ih (i + 1) st
      refine ⟨?_, h2, ?_⟩
      · intro r2 hr2 hp
        rcases List.mem_cons.1 hr2 with heq | hmem
        · subst heq
          exact absurd hp hrfe
        · exact h1 r2 hmem hp
      · rcases h3 with ⟨heq, hlt⟩ | ⟨hm, j, r2, hidx, hr2, hp, hc⟩
        · refine Or.inl ⟨heq, ?_⟩
          intro r2 hr2 hp
          rcases List.mem_cons.1 hr2 with heq2 | hmem
          · subst heq2
            exact absurd hp hrfe
          · exact hlt r2 hmem hp
        · exact Or.inr ⟨hm, j + 1, r2, by omega, by simpa using hr2, hp, hc⟩

/-- Starting from `cut_max = 0` and `case_matched = false`, the loop matches
exactly when some record has the requested RFE field. -/
theorem cut_scan_zero (m : PhyCondDefs) (rfe : Nat) (l : List rtw89_reg2_def) (idx0 : Nat) :
    ((∀ r ∈ l, reg_rfe m r ≠ rfe) ∧ cut_scan m rfe l 0 ⟨0, idx0, false⟩ = ⟨0, idx0, false⟩) ∨
    ((∃ r ∈ l, reg_rfe m r = rfe) ∧
      (cut_scan m rfe l 0 ⟨0, idx0, false⟩).case_matched = true ∧
      ∃ r, l[(cut_scan m rfe l 0 ⟨0, idx0, false⟩).headline_idx]? = some r ∧
        reg_rfe m r = rfe ∧ ∀ r2 ∈ l, reg_rfe m r2 = rfe → reg_cut m r2 ≤ reg_cut m r) := by
  obtain ⟨h1, _, h3⟩ := cut_scan_spec m rfe l 0 ⟨0, idx0, false⟩
  rcases h3 with ⟨heq, hlt⟩ | ⟨hm, j, r, hidx, hr, hp, hc⟩
  · left
    refine ⟨?_, heq⟩
    intro r hr hp
    have := hlt r hr hp
    simp at this
  · right
    refine ⟨⟨r, List.getElem?_mem hr, hp⟩, hm, r, ?_, hp, ?_⟩
    · rw [hidx]
      simpa using hr
    · intro r2 hr2 hp2
      rw [hc]
      exact h1 r2 hr2 hp2

theorem headline_getElem (m : PhyCondDefs) (table : rtw89_phy_table) (i : Nat)
    (r : rtw89_reg2_def) (hr : (phy_headline m table)[i]? = some r) :
    table.regs[i]? = some r ∧ i < phy_headline_size m table := by
  have hlt : i < (phy_headline m table).length := (List.getElem?_eq_some.1 hr).1
  rw [phy_headline_length] at hlt
  unfold phy_headline at hr
  rw [List.getElem?_take_of_lt hlt] at hr
  exact ⟨hr, hlt⟩

theorem headline_size_pos_of_mem (m : PhyCondDefs) (table : rtw89_phy_table)
    (r : rtw89_reg2_def) (hr : r ∈ phy_headline m table) :
    phy_headline_size m table ≠ 0 := by
  intro h0
  unfold phy_headline at hr
  rw [h0] at hr
  simp at hr

/-! ## Claims on headline selection -/

/-- C2: if the headline block holds an entry whose target equals the compare
value of `(rfe, cut)`, `rtw89_phy_sel_headline` returns 0 and stores in
`headline_idx` the index of the first such entry, whatever the other headline
entries are. -/
theorem sel_headline_exact_first (m : PhyCondDefs) (table : rtw89_phy_table)
    (idx0 rfe cut i : Nat) (r : rtw89_reg2_def)
    (hr : (phy_headline m table)[i]? = some r)
    (ht : reg_target m r = u32 (m.get_phy_compare rfe cut))
    (hfirst : ∀ k r2, k < i → (phy_headline m table)[k]? = some r2 →
      reg_target m r2 ≠ u32 (m.get_phy_compare rfe cut)) :
    (rtw89_phy_sel_headline m table idx0 rfe cut).ret = 0 ∧
    (rtw89_phy_sel_headline m table idx0 rfe cut).headline_idx = i ∧
    table.regs[i]? = some r := by
  have hscan := target_scan_first m (u32 (m.get_phy_compare rfe cut)) (phy_headline m table)
    0 i r hr ht hfirst
  have hpos := headline_size_pos_of_mem m table r (List.getElem?_mem hr)
  unfold phy_headline at hscan
  unfold rtw89_phy_sel_headline
  simp only [if_neg hpos, hscan, Nat.zero_add, true_and]
  exact (headline_getElem m table i r hr).1

/-- Witness for C2: with request (RFE 2, cut 5) the second headline entry of
`tableTwoCuts` is the first exact match and is selected. -/
theorem sel_headline_exact_first_witness :
    (phy_headline phyStd tableTwoCuts)[1]? = some ⟨0xF0020005, 0⟩ ∧
    (rtw89_phy_sel_headline phyStd tableTwoCuts 0 2 5).ret = 0 ∧
    (rtw89_phy_sel_headline phyStd tableTwoCuts 0 2 5).headline_idx = 1 ∧
    tableTwoCuts.regs[1]? = some ⟨0xF0020005, 0⟩ :=
  ⟨by decide,
   sel_headline_exact_first phyStd tableTwoCuts 0 2 5 1 ⟨0xF0020005, 0⟩ (by decide) (by decide)
    (by
      intro k r2 hk hr2
      have hk0 : k = 0 := by omega
      subst hk0
      have hr0 : r2 = ⟨0xF0020000, 0⟩ := by
        have h0 : (phy_headline phyStd tableTwoCuts)[0]? = some ⟨0xF0020000, 0⟩ := by decide
        rw [h0] at hr2
        exact (Option.some.inj hr2).symm
      subst hr0
      decide)⟩

/-- C3: when no headline entry matches `(rfe, cut)` exactly and none matches
`(rfe, don't-care)`: if some headline entry has RFE field `rfe`,
`rtw89_phy_sel_headline` returns 0 and selects an entry whose RFE field is `rfe`
and whose cut is the maximum among the entries with that RFE; if no entry has
RFE field `rfe`, it succeeds exactly when some entry has the wildcard RFE and
then selects such an entry of maximal cut, so a wildcard-RFE entry is chosen
only when no entry has RFE `rfe`. -/
theorem sel_headline_max_cut (m : PhyCondDefs) (table : rtw89_phy_table)
    (idx0 rfe cut : Nat)
    (h1 : ∀ r ∈ phy_headline m table, reg_target m r ≠ u32 (m.get_phy_compare rfe cut))
    (h2 : ∀ r ∈ phy_headline m table,
      reg_target m r ≠ u32 (m.get_phy_compare rfe m.PHY_COND_DONT_CARE)) :
    ((∃ r ∈ phy_headline m table, reg_rfe m r = rfe) →
      (rtw89_phy_sel_headline m table idx0 rfe cut).ret = 0 ∧
      ∃ r, (phy_headline m table)[(rtw89_phy_sel_headline m table idx0 rfe cut).headline_idx]?
            = some r ∧
        table.regs[(rtw89_phy_sel_headline m table idx0 rfe cut).headline_idx]? = some r ∧
        reg_rfe m r = rfe ∧
        ∀ r2 ∈ phy_headline m table, reg_rfe m r2 = rfe → reg_cut m r2 ≤ reg_cut m r) ∧
    ((∀ r ∈ phy_headline m table, reg_rfe m r ≠ rfe) →
      (∃ r ∈ phy_headline m table, reg_rfe m r = m.PHY_COND_DONT_CARE) →
      (rtw89_phy_sel_headline m table idx0 rfe cut).ret = 0 ∧
      ∃ r, (phy_headline m table)[(rtw89_phy_sel_headline m table idx0 rfe cut).headline_idx]?
            = some r ∧
        reg_rfe m r = m.PHY_COND_DONT_CARE ∧
        ∀ r2 ∈ phy_headline m table, reg_rfe m r2 = m.PHY_COND_DONT_CARE →
          reg_cut m r2 ≤ reg_cut m r) := by
  have hs1 := (target_scan_none m (u32 (m.get_phy_compare rfe cut)) (phy_headline m table) 0).2 h1
  have hs2 := (target_scan_none m (u32 (m.get_phy_compare rfe m.PHY_COND_DONT_CARE))
    (phy_headline m table) 0).2 h2
  unfold phy_headline at hs1 hs2
  constructor
  · intro h3
    obtain ⟨r0, hr0, _⟩ := h3
    have hpos := headline_size_pos_of_mem m table r0 hr0
    rcases cut_scan_zero m rfe (phy_headline m table) idx0 with ⟨hno, _⟩ | ⟨_, hm, r, hr, hp, hmax⟩
    · exact absurd (by assumption) (hno r0 hr0)
    · unfold phy_headline at hm hr
      unfold rtw89_phy_sel_headline
      simp only [if_neg hpos, hs1, hs2, hm, if_true, true_and]
      exact ⟨r, hr, (headline_getElem m table _ r hr).1, hp, hmax⟩
  · intro hno hw
    obtain ⟨r0, hr0, _⟩ := hw
    have hpos := headline_size_pos_of_mem m table r0 hr0
    rcases cut_scan_zero m rfe (phy_headline m table) idx0 with ⟨_, h3eq⟩ | ⟨⟨r, hr, hp⟩, _⟩
    · rcases cut_scan_zero m m.PHY_COND_DONT_CARE (phy_headline m table) idx0 with
        ⟨hno4, _⟩ | ⟨_, hm, r, hr, hp, hmax⟩
      · exact absurd (by assumption) (hno4 r0 hr0)
      · unfold phy_headline at h3eq hm hr
        unfold rtw89_phy_sel_headline
        simp only [if_neg hpos, hs1, hs2, h3eq, hm, if_true, true_and]
        exact ⟨by simp, r, hr, hp, hmax⟩
    · exact absurd hp (hno r hr)

/-- Witness for C3: in `tableTwoCuts` the request (RFE 2, cut 3) has no exact
and no wildcard-cut match, and the entry with cut 5 (index 1) is selected. -/
theorem sel_headline_max_cut_witness :
    (∃ r ∈ phy_headline phyStd tableTwoCuts, reg_rfe phyStd r = 2) ∧
    (rtw89_phy_sel_headline phyStd tableTwoCuts 0 2 3).headline_idx = 1 ∧
    (rtw89_phy_sel_headline phyStd tableTwoCuts 0 2 3).ret = 0 ∧
    ∃ r, (phy_headline phyStd tableTwoCuts)[
          (rtw89_phy_sel_headline phyStd tableTwoCuts 0 2 3).headline_idx]? = some r ∧
      tableTwoCuts.regs[(rtw89_phy_sel_headline phyStd tableTwoCuts 0 2 3).headline_idx]?
        = some r ∧
      reg_rfe phyStd r = 2 ∧
      ∀ r2 ∈ phy_headline phyStd tableTwoCuts, reg_rfe phyStd r2 = 2 →
        reg_cut phyStd r2 ≤ reg_cut phyStd r :=
  ⟨by decide, by decide,
   (sel_headline_max_cut phyStd tableTwoCuts 0 2 3 (by decide) (by decide)).1 (by decide)⟩

/-- C4 (as stated) fails: on a table without headline entries none of the four
cases applies, yet `rtw89_phy_sel_headline` returns 0. -/
theorem sel_headline_empty_succeeds :
    (rtw89_phy_sel_headline phyStd tableNoHeadline 0 1 1).ret = 0 ∧
    ¬ ∃ r ∈ phy_headline phyStd tableNoHeadline,
        reg_target phyStd r = u32 (phyStd.get_phy_compare 1 1) ∨
        reg_target phyStd r = u32 (phyStd.get_phy_compare 1 phyStd.PHY_COND_DONT_CARE) ∨
        reg_rfe phyStd r = 1 ∨ reg_rfe phyStd r = phyStd.PHY_COND_DONT_CARE := by
  decide

/-- C4 (amended): `rtw89_phy_sel_headline` returns 0 exactly when the table has
no headline entry or some headline entry matches by one of the four cases
(exact target, wildcard-cut target, RFE field, wildcard RFE field); otherwise
it returns `-EINVAL`. -/
theorem sel_headline_success_iff (m : PhyCondDefs) (table : rtw89_phy_table)
    (idx0 rfe cut : Nat) :
    ((rtw89_phy_sel_headline m table idx0 rfe cut).ret = 0 ↔
      (phy_headline_size m table = 0 ∨
       ∃ r ∈ phy_headline m table,
        reg_target m r = u32 (m.get_phy_compare rfe cut) ∨
        reg_target m r = u32 (m.get_phy_compare rfe m.PHY_COND_DONT_CARE) ∨
        reg_rfe m r = rfe ∨ reg_rfe m r = m.PHY_COND_DONT_CARE)) ∧
    ((rtw89_phy_sel_headline m table idx0 rfe cut).ret = 0 ∨
      (rtw89_phy_sel_headline m table idx0 rfe cut).ret = -EINVAL) := by
  by_cases hpos : phy_headline_size m table = 0
  · unfold rtw89_phy_sel_headline
    simp [hpos]
  · have hfold : table.regs.take (phy_headline_size m table) = phy_headline m table := rfl
    cases hs1 : target_scan m (u32 (m.get_phy_compare rfe cut)) (phy_headline m table) 0 with
    | some k =>
      obtain ⟨j, r, _, hr, ht, _⟩ := target_scan_some m _ _ 0 k hs1
      unfold rtw89_phy_sel_headline
      simp only [if_neg hpos, hfold, hs1, true_or, and_true, true_iff]
      exact Or.inr ⟨r, List.getElem?_mem hr, Or.inl ht⟩
    | none =>
      have h1 := (target_scan_none m _ _ 0).1 hs1
      cases hs2 : target_scan m (u32 (m.get_phy_compare rfe m.PHY_COND_DONT_CARE))
          (phy_headline m table) 0 with
      | some k =>
        obtain ⟨j, r, _, hr, ht, _⟩ := target_scan_some m _ _ 0 k hs2
        unfold rtw89_phy_sel_headline
        simp only [if_neg hpos, hfold, hs1, hs2, true_or, and_true, true_iff]
        exact Or.inr ⟨r, List.getElem?_mem hr, Or.inr (Or.inl ht)⟩
      | none =>
        have h2 := (target_scan_none m _ _ 0).1 hs2
        rcases cut_scan_zero m rfe (phy_headline m table) idx0 with
          ⟨hno3, h3eq⟩ | ⟨⟨r, hr, hp⟩, hm, _⟩
        · rcases cut_scan_zero m m.PHY_COND_DONT_CARE (phy_headline m table) idx0 with
            ⟨hno4, h4eq⟩ | ⟨⟨r, hr, hp⟩, hm, _⟩
          · unfold rtw89_phy_sel_headline
            simp only [if_neg hpos, hfold, hs1, hs2, h3eq, h4eq]
            simp only [Bool.false_eq_true, if_false, or_true, and_true, hpos, false_or]
            constructor
            · intro h
              simp [EINVAL] at h
            · rintro ⟨r, hr, hc | hc | hc | hc⟩
              · exact absurd hc (h1 r hr)
              · exact absurd hc (h2 r hr)
              · exact absurd hc (hno3 r hr)
              · exact absurd hc (hno4 r hr)
          · unfold rtw89_phy_sel_headline
            simp only [if_neg hpos, hfold, hs1, hs2, h3eq, hm]
            simp only [Bool.false_eq_true, if_false, if_true, true_or, and_true, true_iff]
            exact Or.inr ⟨r, hr, Or.inr (Or.inr (Or.inr hp))⟩
        · unfold rtw89_phy_sel_headline
          simp only [if_neg hpos, hfold, hs1, hs2, hm, if_true, true_or, and_true, true_iff]
          exact Or.inr ⟨r, hr, Or.inr (Or.inr (Or.inl hp))⟩

/-! ## Lemmas on the replay loop -/

section Replay

variable {σ : Type} (m : PhyCondDefs) (config : rtw89_reg2_def → Nat → σ → σ)
  (rf_path cfg : Nat)

theorem init_reg_loop_cons (reg : rtw89_reg2_def) (rest : List rtw89_reg2_def) (i : Nat)
    (st : InitRegState σ) (hst : st.returned = false) :
    init_reg_loop m config rf_path cfg (reg :: rest) i st =
      if (init_reg_step m config rf_path cfg reg i st).returned then
        init_reg_step m config rf_path cfg reg i st
      else init_reg_loop m config rf_path cfg rest (i + 1)
        (init_reg_step m config rf_path cfg reg i st) := by
  rw [init_reg_loop]
  unfold init_reg_step
  cases phy_cond_case m reg <;> simp only [] <;> split_ifs <;> simp_all

theorem init_reg_loop_append (pre post : List rtw89_reg2_def) (i : Nat)
    (st : InitRegState σ) (hst : st.returned = false) :
    init_reg_loop m config rf_path cfg (pre ++ post) i st =
      if (init_reg_loop m config rf_path cfg pre i st).returned then
        init_reg_loop m config rf_path cfg pre i st
      else init_reg_loop m config rf_path cfg post (i + pre.length)
        (init_reg_loop m config rf_path cfg pre i st) := by
  induction pre generalizing i st with
  | nil => simp [init_reg_loop, hst]
  | cons r rest ih =>
    rw [List.cons_append, init_reg_loop_cons m config rf_path cfg r (rest ++ post) i st hst,
      init_reg_loop_cons m config rf_path cfg r rest i st hst]
    by_cases hret : (init_reg_step m config rf_path cfg r i st).returned = true
    · simp [hret]
    · have hret2 : (init_reg_step m config rf_path cfg r i st).returned = false := by
        simpa using hret
      rw [if_neg hret, if_neg hret, ih (i + 1) _ hret2]
      have hlen : i + 1 + rest.length = i + (r :: rest).length := by
        simp only [List.length_cons]
        omega
      rw [hlen]

theorem init_reg_step_calls (reg : rtw89_reg2_def) (i : Nat) (st : InitRegState σ) :
    (∀ j ∈ st.calls, j ∈ (init_reg_step m config rf_path cfg reg i st).calls) ∧
    (∀ j ∈ (init_reg_step m config rf_path cfg reg i st).calls, j ∈ st.calls ∨ j = i) := by
  unfold init_reg_step
  cases phy_cond_case m reg <;> simp only [] <;> (try split_ifs) <;> simp_all

theorem init_reg_loop_calls (l : List rtw89_reg2_def) (i : Nat) (st : InitRegState σ)
    (hst : st.returned = false) :
    (∀ j ∈ st.calls, j ∈ (init_reg_loop m config rf_path cfg l i st).calls) ∧
    (∀ j ∈ (init_reg_loop m config rf_path cfg l i st).calls,
      j ∈ st.calls ∨ (i ≤ j ∧ j < i + l.length)) := by
  induction l generalizing i st with
  | nil =>
    simp only [init_reg_loop]
    exact ⟨fun j hj => hj, fun j hj => Or.inl hj⟩
  | cons r rest ih =>
    rw [init_reg_loop_cons m config rf_path cfg r rest i st hst]
    obtain ⟨hs1, hs2⟩ := init_reg_step_calls m config rf_path cfg r i st
    by_cases hret : (init_reg_step m config rf_path cfg r i st).returned = true
    · rw [if_pos hret]
      refine ⟨hs1, ?_⟩
      intro j hj
      rcases hs2 j hj with h | h
      · exact Or.inl h
      · right
        simp only [List.length_cons]
        omega
    · have hret2 : (init_reg_step m config rf_path cfg r i st).returned = false := by
        simpa using hret
      rw [if_neg hret]
      obtain ⟨h1, h2⟩ := ih (i + 1) _ hret2
      refine ⟨fun j hj => h1 j (hs1 j hj), ?_⟩
      intro j hj
      rcases h2 j hj with h | h
      · rcases hs2 j h with h3 | h3
        · exact Or.inl h3
        · right
          simp only [List.length_cons]
          omega
      · right
        simp only [List.length_cons]
        omega

theorem blockMatched_cons (t : Nat) (r : rtw89_reg2_def) (rest : List rtw89_reg2_def) :
    blockMatched m cfg t (r :: rest) ↔
      (isCheck m r ∧ t = cfg ∧ ∀ x ∈ rest, ¬ isEnd m x) ∨
      blockMatched m cfg
        (if phy_cond_case m r = CondCase.branch then reg_target m r else t) rest := by
  constructor
  · rintro ⟨a, chk, b, hl, hchk, hend, htgt⟩
    cases a with
    | nil =>
      simp only [List.nil_append, List.cons.injEq] at hl
      obtain ⟨h1, h2⟩ := hl
      subst h1 h2
      left
      exact ⟨hchk, by simpa [recentTarget] using htgt, hend⟩
    | cons a0 a1 =>
      simp only [List.cons_append, List.cons.injEq] at hl
      obtain ⟨h1, h2⟩ := hl
      subst h1
      right
      refine ⟨a1, chk, b, h2, hchk, hend, ?_⟩
      rw [recentTarget] at htgt
      split_ifs at htgt with hb
      · simpa [hb] using htgt
      · simpa [hb] using htgt
  · rintro (⟨hchk, ht, hend⟩ | ⟨a, chk, b, hl, hchk, hend, htgt⟩)
    · exact ⟨[], r, rest, by simp, hchk, hend, by simpa [recentTarget] using ht⟩
    · refine ⟨r :: a, chk, b, by simp [hl], hchk, hend, ?_⟩
      rw [recentTarget]
      split_ifs with hb
      · simpa [hb] using htgt
      · simpa [hb] using htgt

/-- Control state after one iteration that did not return. -/
theorem init_reg_step_ctrl (reg : rtw89_reg2_def) (i : Nat) (st : InitRegState σ)
    (hst : st.returned = false)
    (hret : (init_reg_step m config rf_path cfg reg i st).returned = false) :
    (init_reg_step m config rf_path cfg reg i st).target =
      (if phy_cond_case m reg = CondCase.branch then reg_target m reg else st.target) ∧
    ((init_reg_step m config rf_path cfg reg i st).target_found = true ↔
      (st.target_found = true ∧ ¬ isEnd m reg) ∨ (isCheck m reg ∧ st.target = cfg)) := by
  unfold isEnd isCheck
  unfold init_reg_step at hret ⊢
  cases hc : phy_cond_case m reg <;> simp only [hc] at hret ⊢ <;>
    (try split_ifs at hret ⊢) <;> simp_all

theorem init_reg_loop_ctrl (l : List rtw89_reg2_def) (i : Nat) (st : InitRegState σ)
    (hst : st.returned = false)
    (hret : (init_reg_loop m config rf_path cfg l i st).returned = false) :
    (init_reg_loop m config rf_path cfg l i st).target = recentTarget m st.target l ∧
    ((init_reg_loop m config rf_path cfg l i st).target_found = true ↔
      (st.target_found = true ∧ ∀ r ∈ l, ¬ isEnd m r) ∨ blockMatched m cfg st.target l) := by
  induction l generalizing i st with
  | nil =>
    simp only [init_reg_loop, recentTarget, List.not_mem_nil, false_implies, implies_true,
      and_true, true_and]
    constructor
    · intro h
      exact Or.inl h
    · rintro (h | ⟨a, chk, b, hl, _⟩)
      · exact h
      · simp at hl
  | cons r rest ih =>
    rw [init_reg_loop_cons m config rf_path cfg r rest i st hst] at hret ⊢
    by_cases hr : (init_reg_step m config rf_path cfg r i st).returned = true
    · rw [if_pos hr] at hret
      rw [hr] at hret
      exact absurd hret (by simp)
    · have hr2 : (init_reg_step m config rf_path cfg r i st).returned = false := by
        simpa using hr
      rw [if_neg hr] at hret ⊢
      obtain ⟨ht, hf⟩ := ih (i + 1) _ hr2 hret
      obtain ⟨hst1, hsf⟩ := init_reg_step_ctrl m config rf_path cfg r i st hst hr2
      constructor
      · rw [ht, hst1, recentTarget]
        split_ifs <;> rfl
      · rw [hf, hsf, hst1, blockMatched_cons]
        simp only [List.mem_cons, forall_eq_or_imp]
        constructor
        · rintro (⟨(⟨h1, h2⟩ | ⟨h1, h2⟩), h3⟩ | h)
          · exact Or.inl ⟨h1, h2, h3⟩
          · exact Or.inr (Or.inl ⟨h1, h2, h3⟩)
          · exact Or.inr (Or.inr h)
        · rintro (⟨h1, h2, h3⟩ | ⟨h1, h2, h3⟩ | h)
          · exact Or.inl ⟨Or.inl ⟨h1, h2⟩, h3⟩
          · exact Or.inl ⟨Or.inr ⟨h1, h2⟩, h3⟩
          · exact Or.inr h

/-- A run of plain records leaves the control variables unchanged. -/
theorem init_reg_loop_plain (l : List rtw89_reg2_def) (i : Nat) (st : InitRegState σ)
    (hst : st.returned = false) (hl : ∀ r ∈ l, isPlain m r) :
    (init_reg_loop m config rf_path cfg l i st).target = st.target ∧
    (init_reg_loop m config rf_path cfg l i st).is_matched = st.is_matched ∧
    (init_reg_loop m config rf_path cfg l i st).target_found = st.target_found ∧
    (init_reg_loop m config rf_path cfg l i st).returned = false := by
  induction l generalizing i st with
  | nil => simp [init_reg_loop, hst]
  | cons r rest ih =>
    have hp : phy_cond_case m r = CondCase.other := hl r (List.mem_cons_self _ _)
    have hstep : (init_reg_step m config rf_path cfg r i st).target = st.target ∧
        (init_reg_step m config rf_path cfg r i st).is_matched = st.is_matched ∧
        (init_reg_step m config rf_path cfg r i st).target_found = st.target_found ∧
        (init_reg_step m config rf_path cfg r i st).returned = false := by
      unfold init_reg_step
      simp only [hp]
      split_ifs <;> simp [hst]
    rw [init_reg_loop_cons m config rf_path cfg r rest i st hst]
    rw [if_neg (by simp [hstep.2.2.2])]
    obtain ⟨h1, h2, h3, h4⟩ := ih (i + 1) _ hstep.2.2.2
      (fun x hx => hl x (List.mem_cons_of_mem _ hx))
    exact ⟨h1.trans hstep.1, h2.trans hstep.2.1, h3.trans hstep.2.2.1, h4⟩

theorem sel_headline_size (table : rtw89_phy_table) (idx0 rfe cut : Nat) :
    (rtw89_phy_sel_headline m table idx0 rfe cut).headline_size = phy_headline_size m table := by
  unfold rtw89_phy_sel_headline
  simp only
  split_ifs <;> (try rfl)
  all_goals
    split
    · rfl
    · split
      · rfl
      · rfl

theorem init_reg_eq_loop (table : rtw89_phy_table) (dev : σ)
    (hsel : (rtw89_phy_sel_headline m table 0 1 1).ret = 0) :
    rtw89_phy_init_reg m table config dev =
      init_reg_loop m config table.rf_path
        (phy_cfg_target m table (rtw89_phy_sel_headline m table 0 1 1).headline_idx)
        (phy_program m table) (phy_headline_size m table) (init_reg_start dev) := by
  unfold rtw89_phy_init_reg
  simp only [hsel, ne_eq, not_true_eq_false, if_false, sel_headline_size]
  rfl

theorem init_reg_fail (table : rtw89_phy_table) (dev : σ)
    (hsel : (rtw89_phy_sel_headline m table 0 1 1).ret ≠ 0) :
    rtw89_phy_init_reg m table config dev = { init_reg_start dev with returned := true } := by
  unfold rtw89_phy_init_reg
  simp only [ne_eq, hsel, not_false_eq_true, if_true]

/-- The record right after a prefix `p` is passed to the writer only when the
loop reaches it (no `return` in `p`) with `is_matched` set. -/
theorem loop_call_at (p : List rtw89_reg2_def) (r : rtw89_reg2_def)
    (post : List rtw89_reg2_def) (i : Nat) (st : InitRegState σ)
    (hst : st.returned = false) (hcalls : ∀ j ∈ st.calls, j < i)
    (hj : i + p.length ∈ (init_reg_loop m config rf_path cfg (p ++ r :: post) i st).calls) :
    (init_reg_loop m config rf_path cfg p i st).returned = false ∧
    (init_reg_loop m config rf_path cfg p i st).is_matched = true ∧ isPlain m r := by
  have hpc := (init_reg_loop_calls m config rf_path cfg p i st hst).2
  have hpb : ∀ j ∈ (init_reg_loop m config rf_path cfg p i st).calls, j < i + p.length := by
    intro j hj2
    rcases hpc j hj2 with h | h
    · have := hcalls j h
      omega
    · exact h.2
  rw [init_reg_loop_append m config rf_path cfg p (r :: post) i st hst] at hj
  by_cases hret : (init_reg_loop m config rf_path cfg p i st).returned = true
  · rw [if_pos hret] at hj
    exact absurd (hpb _ hj) (by omega)
  · have hret2 : (init_reg_loop m config rf_path cfg p i st).returned = false := by
      simpa using hret
    rw [if_neg hret, init_reg_loop_cons m config rf_path cfg r post _ _ hret2] at hj
    have hstep := (init_reg_step_calls m config rf_path cfg r (i + p.length)
      (init_reg_loop m config rf_path cfg p i st)).2
    by_cases hgo : (init_reg_step m config rf_path cfg r (i + p.length)
        (init_reg_loop m config rf_path cfg p i st)).calls =
          (init_reg_loop m config rf_path cfg p i st).calls
    · exfalso
      have hnot : ∀ j ∈ (init_reg_step m config rf_path cfg r (i + p.length)
          (init_reg_loop m config rf_path cfg p i st)).calls, j < i + p.length := by
        intro j hj2
        rw [hgo] at hj2
        exact hpb j hj2
      split_ifs at hj with hr2
      · exact absurd (hnot _ hj) (by omega)
      · have hr3 : (init_reg_step m config rf_path cfg r (i + p.length)
            (init_reg_loop m config rf_path cfg p i st)).returned = false := by
          simpa using hr2
        rcases (init_reg_loop_calls m config rf_path cfg post (i + p.length + 1) _ hr3).2 _ hj
          with h | h
        · exact absurd (hnot _ h) (by omega)
        · omega
    · refine ⟨hret2, ?_⟩
      unfold isPlain
      unfold init_reg_step at hgo
      cases hc : phy_cond_case m r <;> simp only [hc] at hgo <;> (try split_ifs at hgo) <;>
        simp_all

theorem isPlain_not_end (r : rtw89_reg2_def) (h : isPlain m r) : ¬ isEnd m r := by
  unfold isPlain at h
  unfold isEnd
  rw [h]
  decide

/-- A plain record governed by a `CHECK` is applied only if that `CHECK` found
the recorded target equal to `cfg` and no earlier `CHECK` of the block did. -/
theorem applied_after_check (pre mid post : List rtw89_reg2_def) (chk r : rtw89_reg2_def)
    (i : Nat) (dev : σ)
    (hchk : isCheck m chk) (hmid : ∀ x ∈ mid, isPlain m x)
    (hj : i + pre.length + 1 + mid.length ∈
      (init_reg_loop m config rf_path cfg (pre ++ chk :: (mid ++ r :: post)) i
        (init_reg_start dev)).calls) :
    recentTarget m 0 pre = cfg ∧ ¬ blockMatched m cfg 0 pre := by
  have hst : (init_reg_start dev).returned = false := rfl
  have hsplit : pre ++ chk :: (mid ++ r :: post) = (pre ++ chk :: mid) ++ r :: post := by
    simp
  have hlen : i + pre.length + 1 + mid.length = i + (pre ++ chk :: mid).length := by
    simp only [List.length_append, List.length_cons]
    omega
  rw [hsplit, hlen] at hj
  obtain ⟨hret, hmatch, _⟩ := loop_call_at m config rf_path cfg (pre ++ chk :: mid) r post i
    (init_reg_start dev) hst (by intro j hj2; simp [init_reg_start] at hj2) hj
  rw [init_reg_loop_append m config rf_path cfg pre (chk :: mid) i _ hst] at hret hmatch
  by_cases hpre : (init_reg_loop m config rf_path cfg pre i (init_reg_start dev)).returned = true
  · rw [if_pos hpre] at hret
    rw [hpre] at hret
    exact absurd hret (by simp)
  · have hpre2 : (init_reg_loop m config rf_path cfg pre i (init_reg_start dev)).returned
        = false := by simpa using hpre
    rw [if_neg hpre] at hret hmatch
    rw [init_reg_loop_cons m config rf_path cfg chk mid _ _ hpre2] at hret hmatch
    by_cases hs : (init_reg_step m config rf_path cfg chk (i + pre.length)
        (init_reg_loop m config rf_path cfg pre i (init_reg_start dev))).returned = true
    · rw [if_pos hs] at hret
      rw [hs] at hret
      exact absurd hret (by simp)
    · have hs2 : (init_reg_step m config rf_path cfg chk (i + pre.length)
          (init_reg_loop m config rf_path cfg pre i (init_reg_start dev))).returned = false := by
        simpa using hs
      rw [if_neg hs] at hmatch
      rw [(init_reg_loop_plain m config rf_path cfg mid _ _ hs2 hmid).2.1] at hmatch
      obtain ⟨htgt, hfound⟩ := init_reg_loop_ctrl m config rf_path cfg pre i
        (init_reg_start dev) hst hpre2
      have hc : phy_cond_case m chk = CondCase.check := hchk
      unfold init_reg_step at hmatch
      simp only [hc] at hmatch
      by_cases hf : (init_reg_loop m config rf_path cfg pre i
          (init_reg_start dev)).target_found = true
      · simp [hf] at hmatch
      · by_cases ht : (init_reg_loop m config rf_path cfg pre i
            (init_reg_start dev)).target = cfg
        · have hstart : (init_reg_start dev).target = 0 := rfl
          rw [hstart] at htgt hfound
          refine ⟨by rw [← htgt]; exact ht, ?_⟩
          intro hbm
          exact hf (hfound.2 (Or.inr hbm))
        · simp [hf, ht] at hmatch

end Replay

/-! ## Claims on the replay loop -/

/-- C1: in the replay of `rtw89_phy_init_reg`, a plain (non-opcode) record `r`
governed by a `CHECK` (`chk`, followed by plain records `mid` only) is passed to
the writer only if the target of the most recent `IF`/`ELIF` before the `CHECK`
(0, the initial value of `target`, when there is none) equals the target of the
selected headline and no earlier `CHECK` since the last `END` has matched; and
then no plain record governed by a later `CHECK` of the same block (no `END`
in between) is passed to the writer. -/
theorem init_reg_first_match_only {σ : Type} (m : PhyCondDefs) (table : rtw89_phy_table)
    (config : rtw89_reg2_def → Nat → σ → σ) (dev : σ)
    (pre mid post : List rtw89_reg2_def) (chk r : rtw89_reg2_def)
    (hprog : phy_program m table = pre ++ chk :: (mid ++ r :: post))
    (hchk : isCheck m chk) (hmid : ∀ x ∈ mid, isPlain m x) (hr : isPlain m r)
    (happlied : phy_headline_size m table + pre.length + 1 + mid.length ∈
      (rtw89_phy_init_reg m table config dev).calls) :
    recentTarget m 0 pre =
      phy_cfg_target m table (rtw89_phy_sel_headline m table 0 1 1).headline_idx ∧
    ¬ blockMatched m
      (phy_cfg_target m table (rtw89_phy_sel_headline m table 0 1 1).headline_idx) 0 pre ∧
    ∀ (btw mid2 post2 : List rtw89_reg2_def) (chk2 r2 : rtw89_reg2_def),
      post = btw ++ chk2 :: (mid2 ++ r2 :: post2) → isCheck m chk2 →
      (∀ x ∈ btw, ¬ isEnd m x) → (∀ x ∈ mid2, isPlain m x) → isPlain m r2 →
      phy_headline_size m table + pre.length + 1 + mid.length + 1 + btw.length + 1 + mid2.length
        ∉ (rtw89_phy_init_reg m table config dev).calls := by
  by_cases hsel : (rtw89_phy_sel_headline m table 0 1 1).ret = 0
  · rw [init_reg_eq_loop m config table dev hsel] at happlied ⊢
    have hA := applied_after_check m config table.rf_path _ pre mid post chk r _ dev hchk hmid
      (by rw [← hprog]; exact happlied)
    refine ⟨hA.1, hA.2, ?_⟩
    intro btw mid2 post2 chk2 r2 hpost hchk2 hbtw hmid2 _ hj2
    have hprog2 : phy_program m table =
        (pre ++ chk :: (mid ++ r :: btw)) ++ chk2 :: (mid2 ++ r2 :: post2) := by
      rw [hprog, hpost]
      simp
    have hlen : phy_headline_size m table + pre.length + 1 + mid.length + 1 + btw.length + 1
        + mid2.length =
        phy_headline_size m table + (pre ++ chk :: (mid ++ r :: btw)).length + 1
          + mid2.length := by
      simp only [List.length_append, List.length_cons]
      omega
    rw [hlen, hprog2] at hj2
    have hB := applied_after_check m config table.rf_path _ (pre ++ chk :: (mid ++ r :: btw))
      mid2 post2 chk2 r2 _ dev hchk2 hmid2 hj2
    apply hB.2
    refine ⟨pre, chk, mid ++ r :: btw, rfl, hchk, ?_, hA.1⟩
    intro x hx
    rcases List.mem_append.1 hx with h | h
    · exact isPlain_not_end m x (hmid x h)
    · rcases List.mem_cons.1 h with h2 | h2
      · rw [h2]
        exact isPlain_not_end m r hr
      · exact hbtw x h2
  · rw [init_reg_fail m config table dev hsel] at happlied
    simp [init_reg_start] at happlied

/-- Witness for C1 on `tableTwoBranches`: the write of the first branch
(index 3) is applied, its `IF` target is the headline target, and the write of
the second branch (index 6) is not applied. -/
theorem init_reg_first_match_only_witness :
    (rtw89_phy_init_reg phyStd tableTwoBranches rtw89_phy_config_bb_reg devEmpty).calls = [3, 8] ∧
    recentTarget phyStd 0 [⟨0x80010001, 0⟩] =
      phy_cfg_target phyStd tableTwoBranches
        (rtw89_phy_sel_headline phyStd tableTwoBranches 0 1 1).headline_idx ∧
    6 ∉ (rtw89_phy_init_reg phyStd tableTwoBranches rtw89_phy_config_bb_reg devEmpty).calls := by
  have h := init_reg_first_match_only phyStd tableTwoBranches rtw89_phy_config_bb_reg devEmpty
    [⟨0x80010001, 0⟩] [] [⟨0x90020001, 0⟩, ⟨0x40000000, 0⟩, ⟨0x708, 2⟩, ⟨0xB0000000, 0⟩,
      ⟨0x70c, 3⟩] ⟨0x40000000, 0⟩ ⟨0x704, 1⟩
    (by decide) (by decide) (by decide) (by decide) (by decide)
  refine ⟨by decide, h.1, ?_⟩
  exact h.2.2 [⟨0x90020001, 0⟩] [] [⟨0xB0000000, 0⟩, ⟨0x70c, 3⟩] ⟨0x40000000, 0⟩ ⟨0x708, 2⟩
    (by decide) (by decide) (by decide) (by decide) (by decide)

/-! ### Cutting a table after its headline block -/

theorem headline_scan_take (m : PhyCondDefs) (l : List rtw89_reg2_def) (i n : Nat)
    (h : headline_scan m l i ≤ i + n) :
    headline_scan m (l.take n) i = headline_scan m l i := by
  induction l generalizing i n with
  | nil => simp
  | cons r rest ih =>
    cases n with
    | zero =>
      have hle := (headline_scan_le m (r :: rest) i).1
      have h0 : headline_scan m [] i = i := rfl
      rw [List.take_zero, h0]
      omega
    | succ k =>
      rw [List.take_succ_cons]
      unfold headline_scan at h ⊢
      split_ifs at h ⊢ with hv
      · rfl
      · exact ih (i + 1) k (by omega)

theorem headline_size_take (m : PhyCondDefs) (table : rtw89_phy_table) (k : Nat) :
    phy_headline_size m (table_take table (phy_headline_size m table + k)) =
      phy_headline_size m table := by
  unfold phy_headline_size table_take
  simp only
  apply headline_scan_take
  omega

theorem sel_headline_take (m : PhyCondDefs) (table : rtw89_phy_table) (k idx0 rfe cut : Nat) :
    rtw89_phy_sel_headline m (table_take table (phy_headline_size m table + k)) idx0 rfe cut =
      rtw89_phy_sel_headline m table idx0 rfe cut := by
  have hsz := headline_size_take m table k
  have htk : (table_take table (phy_headline_size m table + k)).regs.take
      (phy_headline_size m table) = table.regs.take (phy_headline_size m table) := by
    unfold table_take
    simp only [List.take_take]
    congr 1
    omega
  unfold rtw89_phy_sel_headline
  simp only [hsz, htk]

theorem program_take (m : PhyCondDefs) (table : rtw89_phy_table) (k : Nat) :
    phy_program m (table_take table (phy_headline_size m table + k)) =
      (phy_program m table).take k := by
  unfold phy_program
  rw [headline_size_take]
  unfold table_take
  simp only [List.drop_take]
  congr 1
  omega

theorem sel_headline_idx_lt (m : PhyCondDefs) (table : rtw89_phy_table) (idx0 rfe cut : Nat)
    (hret : (rtw89_phy_sel_headline m table idx0 rfe cut).ret = 0)
    (hpos : phy_headline_size m table ≠ 0) :
    (rtw89_phy_sel_headline m table idx0 rfe cut).headline_idx < phy_headline_size m table := by
  have hfold : table.regs.take (phy_headline_size m table) = phy_headline m table := rfl
  have hbound : ∀ j r, (phy_headline m table)[j]? = some r → j < phy_headline_size m table :=
    fun j r h => (headline_getElem m table j r h).2
  cases hs1 : target_scan m (u32 (m.get_phy_compare rfe cut)) (phy_headline m table) 0 with
  | some k =>
    obtain ⟨j, r, hk, hr, _, _⟩ := target_scan_some m _ _ 0 k hs1
    unfold rtw89_phy_sel_headline
    simp only [if_neg hpos, hfold, hs1]
    have := hbound j r hr
    omega
  | none =>
    cases hs2 : target_scan m (u32 (m.get_phy_compare rfe m.PHY_COND_DONT_CARE))
        (phy_headline m table) 0 with
    | some k =>
      obtain ⟨j, r, hk, hr, _, _⟩ := target_scan_some m _ _ 0 k hs2
      unfold rtw89_phy_sel_headline
      simp only [if_neg hpos, hfold, hs1, hs2]
      have := hbound j r hr
      omega
    | none =>
      rcases cut_scan_zero m rfe (phy_headline m table) idx0 with
        ⟨_, h3eq⟩ | ⟨_, hm, r, hr, _⟩
      · rcases cut_scan_zero m m.PHY_COND_DONT_CARE (phy_headline m table) idx0 with
          ⟨_, h4eq⟩ | ⟨_, hm, r, hr, _⟩
        · unfold rtw89_phy_sel_headline at hret
          simp only [if_neg hpos, hfold, hs1, hs2, h3eq, h4eq] at hret
          simp [EINVAL] at hret
        · unfold rtw89_phy_sel_headline
          simp only [if_neg hpos, hfold, hs1, hs2, h3eq, hm]
          simp only [Bool.false_eq_true, if_false, if_true]
          exact hbound _ r hr
      · unfold rtw89_phy_sel_headline
        simp only [if_neg hpos, hfold, hs1, hs2, hm, if_true]
        exact hbound _ r hr

theorem sel_headline_idx_zero (m : PhyCondDefs) (table : rtw89_phy_table) (idx0 rfe cut : Nat)
    (hpos : phy_headline_size m table = 0) :
    (rtw89_phy_sel_headline m table idx0 rfe cut).headline_idx = idx0 := by
  unfold rtw89_phy_sel_headline
  simp [hpos]

theorem cfg_target_take (m : PhyCondDefs) (table : rtw89_phy_table) (k : Nat)
    (hk : 0 < k) (hret : (rtw89_phy_sel_headline m table 0 1 1).ret = 0) :
    phy_cfg_target m (table_take table (phy_headline_size m table + k))
        (rtw89_phy_sel_headline m table 0 1 1).headline_idx =
      phy_cfg_target m table (rtw89_phy_sel_headline m table 0 1 1).headline_idx := by
  have hidx : (rtw89_phy_sel_headline m table 0 1 1).headline_idx
      < phy_headline_size m table + k := by
    by_cases hpos : phy_headline_size m table = 0
    · rw [sel_headline_idx_zero m table 0 1 1 hpos]
      omega
    · have := sel_headline_idx_lt m table 0 1 1 hret hpos
      omega
  unfold phy_cfg_target table_take
  simp only [List.get?_eq_getElem?]
  rw [List.getElem?_take_of_lt hidx]

theorem blockMatched_iff (m : PhyCondDefs) (cfg t : Nat) (l : List rtw89_reg2_def) :
    blockMatched m cfg t l ↔ blockMatchedB m cfg t l = true := by
  induction l generalizing t with
  | nil =>
    simp only [blockMatchedB, Bool.false_eq_true, iff_false]
    rintro ⟨a, chk, b, hl, _⟩
    simp at hl
  | cons r rest ih =>
    rw [blockMatched_cons, blockMatchedB, ih]
    simp [and_assoc]

/-- C5: if the program reaches an `ELSE` (`els`, after the records `pre`) while
no `CHECK` since the last `END` has matched, `rtw89_phy_init_reg` returns there:
every record passed to the writer lies before the `ELSE`, and the calls made
and the resulting device state are those of the table cut just before the
`ELSE`. -/
theorem init_reg_else_aborts {σ : Type} (m : PhyCondDefs) (table : rtw89_phy_table)
    (config : rtw89_reg2_def → Nat → σ → σ) (dev : σ)
    (pre post : List rtw89_reg2_def) (els : rtw89_reg2_def)
    (hprog : phy_program m table = pre ++ els :: post)
    (hels : isElse m els)
    (hno : ¬ blockMatched m
      (phy_cfg_target m table (rtw89_phy_sel_headline m table 0 1 1).headline_idx) 0 pre) :
    (rtw89_phy_init_reg m table config dev).returned = true ∧
    (∀ j ∈ (rtw89_phy_init_reg m table config dev).calls,
      j < phy_headline_size m table + pre.length) ∧
    (rtw89_phy_init_reg m table config dev).calls =
      (rtw89_phy_init_reg m (table_take table (phy_headline_size m table + pre.length))
        config dev).calls ∧
    (rtw89_phy_init_reg m table config dev).dev =
      (rtw89_phy_init_reg m (table_take table (phy_headline_size m table + pre.length))
        config dev).dev := by
  have hselT := sel_headline_take m table pre.length 0 1 1
  by_cases hsel : (rtw89_phy_sel_headline m table 0 1 1).ret = 0
  · have hsel2 : (rtw89_phy_sel_headline m
        (table_take table (phy_headline_size m table + pre.length)) 0 1 1).ret = 0 := by
      rw [hselT]
      exact hsel
    have hst : (init_reg_start dev).returned = false := rfl
    -- the cut table replays exactly `pre`
    have hcut : rtw89_phy_init_reg m (table_take table (phy_headline_size m table + pre.length))
        config dev =
        init_reg_loop m config table.rf_path
          (phy_cfg_target m table (rtw89_phy_sel_headline m table 0 1 1).headline_idx)
          pre (phy_headline_size m table) (init_reg_start dev) := by
      rw [init_reg_eq_loop m config _ dev hsel2, program_take, headline_size_take, hselT, hprog,
        List.take_left]
      cases hpre : pre with
      | nil => simp [init_reg_loop]
      | cons p0 prest =>
        have hk : 0 < pre.length := by
          rw [hpre]
          simp
        have hc := cfg_target_take m table pre.length hk hsel
        rw [hpre] at hc
        rw [hc]
        rfl
    rw [hcut, init_reg_eq_loop m config table dev hsel, hprog,
      init_reg_loop_append m config _ _ pre (els :: post) _ _ hst]
    have hcalls := (init_reg_loop_calls m config table.rf_path
      (phy_cfg_target m table (rtw89_phy_sel_headline m table 0 1 1).headline_idx)
      pre (phy_headline_size m table) (init_reg_start dev) hst).2
    have hbound : ∀ j ∈ (init_reg_loop m config table.rf_path
        (phy_cfg_target m table (rtw89_phy_sel_headline m table 0 1 1).headline_idx)
        pre (phy_headline_size m table) (init_reg_start dev)).calls,
        j < phy_headline_size m table + pre.length := by
      intro j hj
      rcases hcalls j hj with h | h
      · simp [init_reg_start] at h
      · exact h.2
    by_cases hret : (init_reg_loop m config table.rf_path
        (phy_cfg_target m table (rtw89_phy_sel_headline m table 0 1 1).headline_idx)
        pre (phy_headline_size m table) (init_reg_start dev)).returned = true
    · rw [if_pos hret]
      exact ⟨hret, hbound, rfl, rfl⟩
    · have hret2 : (init_reg_loop m config table.rf_path
          (phy_cfg_target m table (rtw89_phy_sel_headline m table 0 1 1).headline_idx)
          pre (phy_headline_size m table) (init_reg_start dev)).returned = false := by
        simpa using hret
      have hfound := (init_reg_loop_ctrl m config table.rf_path _ pre _ _ hst hret2).2
      have hnf : (init_reg_loop m config table.rf_path
          (phy_cfg_target m table (rtw89_phy_sel_headline m table 0 1 1).headline_idx)
          pre (phy_headline_size m table) (init_reg_start dev)).target_found = false := by
        by_contra hf
        have hf2 := hfound.1 (by simpa using hf)
        rcases hf2 with ⟨h, _⟩ | h
        · simp [init_reg_start] at h
        · exact hno h
      have he : phy_cond_case m els = CondCase.branch_else := hels
      rw [if_neg hret, init_reg_loop_cons m config _ _ els post _ _ hret2]
      unfold init_reg_step
      simp only [he, hnf, Bool.not_false, if_true, and_self, and_true, true_and]
      exact hbound
  · have hsel2 : (rtw89_phy_sel_headline m
        (table_take table (phy_headline_size m table + pre.length)) 0 1 1).ret ≠ 0 := by
      rw [hselT]
      exact hsel
    rw [init_reg_fail m config table dev hsel, init_reg_fail m config _ dev hsel2]
    simp [init_reg_start]

/-- Witness for C5 on `tableElseAbort`: the `ELSE` at index 5 is reached without
a match, only the write at index 1 has been applied, and nothing after the
`ELSE` is applied (not even the write after `END`). -/
theorem init_reg_else_aborts_witness :
    (rtw89_phy_init_reg phyStd tableElseAbort rtw89_phy_config_bb_reg devEmpty).calls = [1] ∧
    (rtw89_phy_init_reg phyStd tableElseAbort rtw89_phy_config_bb_reg devEmpty).dev.log =
      [HwEvent.phy_write32 0x700 9] ∧
    (rtw89_phy_init_reg phyStd tableElseAbort rtw89_phy_config_bb_reg devEmpty).returned = true ∧
    ∀ j ∈ (rtw89_phy_init_reg phyStd tableElseAbort rtw89_phy_config_bb_reg devEmpty).calls,
      j < phy_headline_size phyStd tableElseAbort + 4 := by
  have h := init_reg_else_aborts phyStd tableElseAbort rtw89_phy_config_bb_reg devEmpty
    [⟨0x700, 9⟩, ⟨0x80020001, 0⟩, ⟨0x40000000, 0⟩, ⟨0x704, 1⟩]
    [⟨0x708, 2⟩, ⟨0xB0000000, 0⟩, ⟨0x70c, 3⟩] ⟨0xA0000000, 0⟩
    (by decide) (by decide)
    (by
      rw [blockMatched_iff]
      decide)
  exact ⟨by decide, by decide, h.1, h.2.1⟩

/-- Replaying the table cut after the program prefix `pre` is the loop over
`pre` with the headline target of the whole table. -/
theorem init_reg_take_pre {σ : Type} (m : PhyCondDefs) (table : rtw89_phy_table)
    (config : rtw89_reg2_def → Nat → σ → σ) (dev : σ) (pre rest : List rtw89_reg2_def)
    (hprog : phy_program m table = pre ++ rest)
    (hsel : (rtw89_phy_sel_headline m table 0 1 1).ret = 0) :
    rtw89_phy_init_reg m (table_take table (phy_headline_size m table + pre.length)) config dev =
      init_reg_loop m config table.rf_path
        (phy_cfg_target m table (rtw89_phy_sel_headline m table 0 1 1).headline_idx)
        pre (phy_headline_size m table) (init_reg_start dev) := by
  have hselT := sel_headline_take m table pre.length 0 1 1
  have hsel2 : (rtw89_phy_sel_headline m
      (table_take table (phy_headline_size m table + pre.length)) 0 1 1).ret = 0 := by
    rw [hselT]
    exact hsel
  rw [init_reg_eq_loop m config _ dev hsel2, program_take, headline_size_take, hselT, hprog,
    List.take_left]
  cases hpre : pre with
  | nil => simp [init_reg_loop]
  | cons p0 prest =>
    have hk : 0 < pre.length := by
      rw [hpre]
      simp
    have hc := cfg_target_take m table pre.length hk hsel
    rw [hpre] at hc
    rw [hc]
    rfl

/-- Replaying one more record: the table cut after `pre ++ [r]` gives the state
of the table cut after `pre`, advanced by one loop iteration on `r` unless the
function had already returned. -/
theorem init_reg_take_succ {σ : Type} (m : PhyCondDefs) (table : rtw89_phy_table)
    (config : rtw89_reg2_def → Nat → σ → σ) (dev : σ) (pre post : List rtw89_reg2_def)
    (r : rtw89_reg2_def) (hprog : phy_program m table = pre ++ r :: post) :
    rtw89_phy_init_reg m (table_take table (phy_headline_size m table + pre.length + 1))
        config dev =
      if (rtw89_phy_init_reg m (table_take table (phy_headline_size m table + pre.length))
          config dev).returned then
        rtw89_phy_init_reg m (table_take table (phy_headline_size m table + pre.length))
          config dev
      else
        init_reg_step m config table.rf_path
          (phy_cfg_target m table (rtw89_phy_sel_headline m table 0 1 1).headline_idx)
          r (phy_headline_size m table + pre.length)
          (rtw89_phy_init_reg m (table_take table (phy_headline_size m table + pre.length))
            config dev) := by
  by_cases hsel : (rtw89_phy_sel_headline m table 0 1 1).ret = 0
  · have hst : (init_reg_start dev).returned = false := rfl
    have h1 := init_reg_take_pre m table config dev pre (r :: post) hprog hsel
    have hprog2 : phy_program m table = (pre ++ [r]) ++ post := by
      rw [hprog]
      simp
    have h2 := init_reg_take_pre m table config dev (pre ++ [r]) post hprog2 hsel
    have hlen : phy_headline_size m table + (pre ++ [r]).length =
        phy_headline_size m table + pre.length + 1 := by
      simp only [List.length_append, List.length_cons, List.length_nil]
      omega
    rw [hlen] at h2
    rw [h1, h2, init_reg_loop_append m config _ _ pre [r] _ _ hst]
    by_cases hret : (init_reg_loop m config table.rf_path
        (phy_cfg_target m table (rtw89_phy_sel_headline m table 0 1 1).headline_idx)
        pre (phy_headline_size m table) (init_reg_start dev)).returned = true
    · rw [if_pos hret, if_pos hret]
    · have hret2 : (init_reg_loop m config table.rf_path
          (phy_cfg_target m table (rtw89_phy_sel_headline m table 0 1 1).headline_idx)
          pre (phy_headline_size m table) (init_reg_start dev)).returned = false := by
        simpa using hret
      rw [if_neg hret, if_neg hret, init_reg_loop_cons m config _ _ r [] _ _ hret2]
      split_ifs <;> rfl
  · have hf : ∀ k, rtw89_phy_init_reg m (table_take table (phy_headline_size m table + k))
        config dev = { init_reg_start dev with returned := true } := by
      intro k
      apply init_reg_fail
      rw [sel_headline_take]
      exact hsel
    have h1 := hf pre.length
    have h2 := hf (pre.length + 1)
    rw [← Nat.add_assoc] at h2
    rw [h1, h2]
    simp

/-- C6 (as stated) fails: in `tableDelaySkipped` the replay runs over the delay
record at index 3 (it does not return early), but the branch is unmatched and
no delay happens, with either writer. -/
theorem delay_skipped_when_unmatched :
    tableDelaySkipped.regs[3]? = some ⟨0xfe, 0⟩ ∧
    delay_of_addr 0xfe = some (HwEvent.mdelay 50) ∧
    (rtw89_phy_init_reg phyStd tableDelaySkipped rtw89_phy_config_bb_reg devEmpty).returned
      = false ∧
    (rtw89_phy_init_reg phyStd tableDelaySkipped rtw89_phy_config_bb_reg devEmpty).dev.log
      = [HwEvent.phy_write32 0x704 5] ∧
    (rtw89_phy_init_reg phyStd tableDelaySkipped (rtw89_phy_config_rf_reg 500) devEmpty).dev.log
      = [HwEvent.write_rf 0 0x704 0xfffff 5] := by
  decide

/-- C6 (amended): a delay-sentinel record `r` (address `0xf9 .. 0xfe`) of the
program part takes effect exactly when the replay reaches it with the matched
flag set: compared with the table cut just before `r`, the table cut just after
`r` has, with either writer, exactly the delay of `r` appended to the action
log (no register write, staging buffer unchanged) and the index of `r` logged
as a writer call; when the function has returned earlier or the branch is
unmatched, `r` changes nothing. -/
theorem init_reg_delay_when_matched (m : PhyCondDefs) (table : rtw89_phy_table)
    (dev : PhyDev) (page_size : Nat) (pre post : List rtw89_reg2_def) (r : rtw89_reg2_def)
    (e : HwEvent)
    (hprog : phy_program m table = pre ++ r :: post)
    (hplain : isPlain m r) (hdelay : delay_of_addr r.addr = some e) :
    e.isWrite = false ∧
    (∀ config, (config = rtw89_phy_config_bb_reg ∨ config = rtw89_phy_config_rf_reg page_size) →
      rtw89_phy_init_reg m (table_take table (phy_headline_size m table + pre.length + 1))
          config dev =
        if (rtw89_phy_init_reg m (table_take table (phy_headline_size m table + pre.length))
              config dev).returned = false ∧
           (rtw89_phy_init_reg m (table_take table (phy_headline_size m table + pre.length))
              config dev).is_matched = true then
          { rtw89_phy_init_reg m (table_take table (phy_headline_size m table + pre.length))
              config dev with
            calls := (rtw89_phy_init_reg m
              (table_take table (phy_headline_size m table + pre.length)) config dev).calls
                ++ [phy_headline_size m table + pre.length]
            dev := { (rtw89_phy_init_reg m
              (table_take table (phy_headline_size m table + pre.length)) config dev).dev with
                log := (rtw89_phy_init_reg m
                  (table_take table (phy_headline_size m table + pre.length))
                    config dev).dev.log ++ [e] } }
        else
          rtw89_phy_init_reg m (table_take table (phy_headline_size m table + pre.length))
            config dev) := by
  have hp : phy_cond_case m r = CondCase.other := hplain
  have hbb : ∀ path d, rtw89_phy_config_bb_reg r path d = { d with log := d.log ++ [e] } := by
    intro path d
    unfold delay_of_addr at hdelay
    unfold rtw89_phy_config_bb_reg
    split_ifs at hdelay ⊢ <;> simp_all
  have hrf : ∀ path d, rtw89_phy_config_rf_reg page_size r path d
      = { d with log := d.log ++ [e] } := by
    intro path d
    unfold delay_of_addr at hdelay
    unfold rtw89_phy_config_rf_reg
    split_ifs at hdelay ⊢ <;> simp_all
  constructor
  · unfold delay_of_addr at hdelay
    split_ifs at hdelay <;> cases hdelay <;> rfl
  · intro config hconfig
    have hcfg : ∀ path d, config r path d = { d with log := d.log ++ [e] } := by
      rcases hconfig with h | h
      · rw [h]
        exact hbb
      · rw [h]
        exact hrf
    rw [init_reg_take_succ m table config dev pre post r hprog]
    unfold init_reg_step
    simp only [hp, hcfg]
    by_cases hret : (rtw89_phy_init_reg m
        (table_take table (phy_headline_size m table + pre.length)) config dev).returned = true
    · simp [hret]
    · have hret2 : (rtw89_phy_init_reg m
          (table_take table (phy_headline_size m table + pre.length)) config dev).returned
            = false := by simpa using hret
      simp only [hret2, Bool.false_eq_true, if_false, true_and]

/-- Witness for C6 (amended) on `tableDelayApplied`: the delay record at index 3
is reached in the matching branch and contributes exactly `mdelay 50`. -/
theorem init_reg_delay_when_matched_witness :
    phy_program phyStd tableDelayApplied =
      [⟨0x80010001, 0⟩, ⟨0x40000000, 0⟩] ++ ⟨0xfe, 0⟩ :: [⟨0xB0000000, 0⟩, ⟨0x704, 5⟩] ∧
    isPlain phyStd ⟨0xfe, 0⟩ ∧
    delay_of_addr 0xfe = some (HwEvent.mdelay 50) ∧
    (HwEvent.mdelay 50).isWrite = false ∧
    (rtw89_phy_init_reg phyStd (table_take tableDelayApplied 4) rtw89_phy_config_bb_reg
      devEmpty).dev.log = [HwEvent.mdelay 50] ∧
    (rtw89_phy_init_reg phyStd tableDelayApplied rtw89_phy_config_bb_reg devEmpty).dev.log
      = [HwEvent.mdelay 50, HwEvent.phy_write32 0x704 5] :=
  ⟨by decide, by decide, by decide,
   (init_reg_delay_when_matched phyStd tableDelayApplied devEmpty 500
      [⟨0x80010001, 0⟩, ⟨0x40000000, 0⟩] [⟨0xB0000000, 0⟩, ⟨0x704, 5⟩] ⟨0xfe, 0⟩
      (HwEvent.mdelay 50) (by decide) (by decide) (by decide)).1,
   by decide, by decide⟩

/-! ## Claims on the environment monitor -/

/-- Evaluations of `rtw89_phy_ccx_get_report`.  The quotient is stored in a
`u16` before it is saturated: for report 16384, score 1000 and a period of 250
(not a period the code configures) the quotient is 65536 and the result is 0,
where `min((report*score + period/2)/period, score - 1)` is 999.  For report
500, score 100, period 1000 the result is 50, and 0 for period 0. -/
theorem ccx_get_report_truncates :
    rtw89_phy_ccx_get_report { envZero with ccx_period := 250 } 16384 1000 = 0 ∧
    (16384 * 1000 + 250 / 2) / 250 = 65536 ∧
    min ((16384 * 1000 + 250 / 2) / 250) (1000 - 1) = 999 ∧
    rtw89_phy_ccx_get_report { envZero with ccx_period := 1000 } 500 100 = 50 ∧
    rtw89_phy_ccx_get_report { envZero with ccx_period := 0 } 0 1000 = 0 := by
  decide

theorem th_update_check_racing (c : CcxDefs) (env : rtw89_env_monitor_info)
    (para : rtw89_ccx_para_info) :
    (rtw89_phy_ifs_clm_th_update_check c env para).2.ccx_ongoing = env.ccx_ongoing ∧
    (rtw89_phy_ifs_clm_th_update_check c env para).2.ccx_rac_lv = env.ccx_rac_lv := by
  unfold rtw89_phy_ifs_clm_th_update_check
  simp only
  split_ifs <;> exact ⟨rfl, rfl⟩

theorem set_th_reg_env {H : Type} (ops : RegOps H) (g : CcxRegs) (d : MonDev H) :
    (rtw89_phy_ifs_clm_set_th_reg ops g d).env = d.env := rfl

theorem racing_ctrl_fail (c : CcxDefs) (env : rtw89_env_monitor_info) (level : Nat)
    (hlv : level < c.RTW89_RAC_MAX_NUM)
    (hbusy : env.ccx_ongoing = true ∧ level ≤ env.ccx_rac_lv) :
    rtw89_phy_ccx_racing_ctrl c env level = (-EINVAL, env) := by
  unfold rtw89_phy_ccx_racing_ctrl
  have h1 : ¬ level ≥ c.RTW89_RAC_MAX_NUM := by omega
  simp [h1, hbusy.1, hbusy.2, EINVAL]

theorem racing_ctrl_ok (c : CcxDefs) (env : rtw89_env_monitor_info) (level : Nat)
    (hlv : level < c.RTW89_RAC_MAX_NUM)
    (hfree : ¬ (env.ccx_ongoing = true ∧ level ≤ env.ccx_rac_lv)) :
    rtw89_phy_ccx_racing_ctrl c env level =
      (0, { env with ccx_ongoing := false, ccx_rac_lv := u8 level }) := by
  unfold rtw89_phy_ccx_racing_ctrl
  have h1 : ¬ level ≥ c.RTW89_RAC_MAX_NUM := by omega
  by_cases hon : env.ccx_ongoing = true
  · have h2 : ¬ level ≤ env.ccx_rac_lv := fun h => hfree ⟨hon, h⟩
    simp [h1, hon, h2]
  · have hoff : env.ccx_ongoing = false := by simpa using hon
    simp only [h1, hoff, if_false, Bool.false_eq_true]
    cases env
    simp_all

theorem ifs_clm_set_fail {H : Type} (ops : RegOps H) (c : CcxDefs) (g : CcxRegs)
    (d : MonDev H) (para : rtw89_ccx_para_info)
    (hbusy : d.env.ccx_ongoing = true ∧ para.rac_lv ≤ d.env.ccx_rac_lv) :
    rtw89_phy_ifs_clm_set ops c g d para = (-EINVAL, d) := by
  unfold rtw89_phy_ifs_clm_set
  by_cases ht : para.mntr_time = 0
  · simp [ht]
  · by_cases hlv : para.rac_lv < c.RTW89_RAC_MAX_NUM
    · simp [ht, racing_ctrl_fail c d.env para.rac_lv hlv hbusy, EINVAL]
    · have hrc : rtw89_phy_ccx_racing_ctrl c d.env para.rac_lv = (-EINVAL, d.env) := by
        unfold rtw89_phy_ccx_racing_ctrl
        simp [Nat.le_of_not_lt hlv]
      simp [ht, hrc, EINVAL]

theorem ifs_clm_set_ok {H : Type} (ops : RegOps H) (c : CcxDefs) (g : CcxRegs)
    (d : MonDev H) (para : rtw89_ccx_para_info)
    (ht : para.mntr_time ≠ 0) (hlv : para.rac_lv < c.RTW89_RAC_MAX_NUM)
    (hfree : ¬ (d.env.ccx_ongoing = true ∧ para.rac_lv ≤ d.env.ccx_rac_lv)) :
    (rtw89_phy_ifs_clm_set ops c g d para).1 = 0 ∧
    (rtw89_phy_ifs_clm_set ops c g d para).2.env.ccx_rac_lv = u8 para.rac_lv ∧
    (rtw89_phy_ifs_clm_set ops c g d para).2.env.ccx_ongoing = false := by
  unfold rtw89_phy_ifs_clm_set
  simp only [if_neg ht, racing_ctrl_ok c d.env para.rac_lv hlv hfree, ne_eq, not_true_eq_false,
    if_false]
  refine ⟨trivial, ?_, ?_⟩
  · split_ifs <;>
      simp only [set_th_reg_env, (th_update_check_racing c _ para).2]
  · split_ifs <;>
      simp only [set_th_reg_env, (th_update_check_racing c _ para).1]

/-- C12: for a request with non-zero monitor time and a racing level below
`RTW89_RAC_MAX_NUM` (an 8-bit value), `rtw89_phy_ifs_clm_set` fails exactly when
a window is in flight and the requested level is at most the current
`ccx_rac_lv`; a failed request returns `-EINVAL` and leaves the whole device
(monitor state and registers) unchanged; a successful one sets `ccx_rac_lv` to
the requested level and leaves `ccx_ongoing` cleared. -/
theorem ifs_clm_set_racing {H : Type} (ops : RegOps H) (c : CcxDefs) (g : CcxRegs)
    (d : MonDev H) (para : rtw89_ccx_para_info)
    (ht : para.mntr_time ≠ 0) (hlv : para.rac_lv < c.RTW89_RAC_MAX_NUM)
    (hmax : c.RTW89_RAC_MAX_NUM ≤ 256) :
    ((rtw89_phy_ifs_clm_set ops c g d para).1 ≠ 0 ↔
      (d.env.ccx_ongoing = true ∧ para.rac_lv ≤ d.env.ccx_rac_lv)) ∧
    ((rtw89_phy_ifs_clm_set ops c g d para).1 ≠ 0 →
      rtw89_phy_ifs_clm_set ops c g d para = (-EINVAL, d)) ∧
    ((rtw89_phy_ifs_clm_set ops c g d para).1 = 0 →
      (rtw89_phy_ifs_clm_set ops c g d para).2.env.ccx_rac_lv = para.rac_lv ∧
      (rtw89_phy_ifs_clm_set ops c g d para).2.env.ccx_ongoing = false) := by
  have hu8 : u8 para.rac_lv = para.rac_lv := by
    unfold u8
    omega
  by_cases hbusy : d.env.ccx_ongoing = true ∧ para.rac_lv ≤ d.env.ccx_rac_lv
  · have hf := ifs_clm_set_fail ops c g d para hbusy
    rw [hf]
    simp [hbusy, EINVAL]
  · obtain ⟨h1, h2, h3⟩ := ifs_clm_set_ok ops c g d para ht hlv hbusy
    refine ⟨?_, ?_, ?_⟩
    · simp [h1, hbusy]
    · intro h
      exact absurd h1 h
    · intro _
      exact ⟨by rw [h2, hu8], h3⟩

/-- Witness for C12: on the busy sample device (window in flight at level 3) a
request at level 2 fails and changes nothing, a request at level 4 succeeds. -/
theorem ifs_clm_set_racing_witness :
    (rtw89_phy_ifs_clm_set simOps ccxStd ccxRegsStd monDevBusy ⟨2, 1900, 0, 0, 1⟩).1 ≠ 0 ∧
    monDevBusy.env.ccx_ongoing = true ∧ 2 ≤ monDevBusy.env.ccx_rac_lv ∧
    (rtw89_phy_ifs_clm_set simOps ccxStd ccxRegsStd monDevBusy ⟨4, 1900, 0, 0, 1⟩).1 = 0 ∧
    (rtw89_phy_ifs_clm_set simOps ccxStd ccxRegsStd monDevBusy ⟨4, 1900, 0, 0, 1⟩).2.env.ccx_rac_lv
      = 4 ∧
    (rtw89_phy_ifs_clm_set simOps ccxStd ccxRegsStd monDevBusy ⟨4, 1900, 0, 0, 1⟩).2.env.ccx_ongoing
      = false := by
  have h2 := ifs_clm_set_racing simOps ccxStd ccxRegsStd monDevBusy ⟨2, 1900, 0, 0, 1⟩
    (by decide) (by decide) (by decide)
  have h4 := ifs_clm_set_racing simOps ccxStd ccxRegsStd monDevBusy ⟨4, 1900, 0, 0, 1⟩
    (by decide) (by decide) (by decide)
  have hok : (rtw89_phy_ifs_clm_set simOps ccxStd ccxRegsStd monDevBusy ⟨4, 1900, 0, 0, 1⟩).1
      = 0 := by
    by_contra hne
    have := h4.1.1 hne
    exact absurd this.2 (by decide)
  exact ⟨h2.1.2 ⟨by decide, by decide⟩, by decide, by decide, hok, (h4.2.2 hok).1,
    (h4.2.2 hok).2⟩

/-- C14: when the done bit (`B_IFSCNT_DONE_MSK` of `R_IFSCNT`) reads 0,
`rtw89_phy_ifs_clm_get_result` returns false; the monitor state is unchanged
and the hardware state is the one right after that single read, so no counter
register is read. -/
theorem ifs_clm_get_result_not_ready {H : Type} (ops : RegOps H) (c : CcxDefs) (g : CcxRegs)
    (d : MonDev H)
    (hdone : (ops.phy_read32_mask d.hw g.R_IFSCNT g.B_IFSCNT_DONE_MSK).1 = 0) :
    rtw89_phy_ifs_clm_get_result ops c g d =
      (false, { d with hw := (ops.phy_read32_mask d.hw g.R_IFSCNT g.B_IFSCNT_DONE_MSK).2 }) ∧
    (rtw89_phy_ifs_clm_get_result ops c g d).2.env = d.env := by
  unfold rtw89_phy_ifs_clm_get_result
  simp only [hdone, if_true, and_self]

/-- Witness for C14 on the busy sample device, whose simulated done bit reads
0: the only register access is the read of the done bit. -/
theorem ifs_clm_get_result_not_ready_witness :
    (simOps.phy_read32_mask monDevBusy.hw ccxRegsStd.R_IFSCNT ccxRegsStd.B_IFSCNT_DONE_MSK).1
      = 0 ∧
    (rtw89_phy_ifs_clm_get_result simOps ccxStd ccxRegsStd monDevBusy).1 = false ∧
    (rtw89_phy_ifs_clm_get_result simOps ccxStd ccxRegsStd monDevBusy).2.hw.log =
      [RegAccess.read true ccxRegsStd.R_IFSCNT ccxRegsStd.B_IFSCNT_DONE_MSK] ∧
    (rtw89_phy_ifs_clm_get_result simOps ccxStd ccxRegsStd monDevBusy).2.env
      = monDevBusy.env := by
  have h := ifs_clm_get_result_not_ready simOps ccxStd ccxRegsStd monDevBusy (by decide)
  refine ⟨by decide, ?_, ?_, h.2⟩
  · rw [h.1]
  · rw [h.1]
    decide

theorem ccx_trigger_env {H : Type} (ops : RegOps H) (g : CcxRegs) (d : MonDev H) :
    (rtw89_phy_ccx_trigger ops g d).env =
      { d.env with ccx_rpt_stamp := u8 (d.env.ccx_rpt_stamp + 1), ccx_ongoing := true } := rfl

/-- The periodic track with manual control off: whatever window was in flight
is released and a new one is requested at `RTW89_RAC_LV_1` and triggered. -/
theorem env_monitor_track_auto {H : Type} (ops : RegOps H) (c : CcxDefs) (g : CcxRegs)
    (d : MonDev H) (hman : d.env.ccx_manual_ctrl = false)
    (hlv : c.RTW89_RAC_LV_1 < c.RTW89_RAC_MAX_NUM) (hmax : c.RTW89_RAC_MAX_NUM ≤ 256)
    (hchk : u8 (u8 c.RTW89_PHY_ENV_MON_CCX_FAIL ||| c.RTW89_PHY_ENV_MON_IFS_CLM) ≠ 0) :
    (rtw89_phy_env_monitor_track ops c g d).env.ccx_ongoing = true ∧
    (rtw89_phy_env_monitor_track ops c g d).env.ccx_rac_lv = c.RTW89_RAC_LV_1 := by
  have hu8 : u8 c.RTW89_RAC_LV_1 = c.RTW89_RAC_LV_1 := by
    unfold u8
    omega
  have hset : ∀ d2 : MonDev H, d2.env.ccx_ongoing = false →
      (rtw89_phy_ifs_clm_set ops c g d2
        ⟨c.RTW89_RAC_LV_1, 1900, 0, 0, c.RTW89_IFS_CLM_BACKGROUND⟩).1 = 0 ∧
      (rtw89_phy_ifs_clm_set ops c g d2
        ⟨c.RTW89_RAC_LV_1, 1900, 0, 0, c.RTW89_IFS_CLM_BACKGROUND⟩).2.env.ccx_rac_lv
          = c.RTW89_RAC_LV_1 := by
    intro d2 hoff
    obtain ⟨h1, h2, _⟩ := ifs_clm_set_ok ops c g d2
      ⟨c.RTW89_RAC_LV_1, 1900, 0, 0, c.RTW89_IFS_CLM_BACKGROUND⟩
      (by simp) hlv (by simp [hoff])
    exact ⟨h1, by rw [h2, hu8]⟩
  unfold rtw89_phy_env_monitor_track
  simp only [hman, Bool.false_eq_true, if_false]
  split_ifs with hgr hsr hc hsr hc
  all_goals first
    | exact ⟨rfl, (hset _ rfl).2⟩
    | exact absurd (hset _ rfl).1 hsr

theorem env_monitor_track_manual {H : Type} (ops : RegOps H) (c : CcxDefs) (g : CcxRegs)
    (d : MonDev H) (hman : d.env.ccx_manual_ctrl = true) :
    rtw89_phy_env_monitor_track ops c g d =
      { d with env := { d.env with
          ccx_watchdog_result := u8 c.RTW89_PHY_ENV_MON_CCX_FAIL } } := by
  unfold rtw89_phy_env_monitor_track
  simp only [hman, if_true]

/-- C13 (as stated) fails: on the busy sample device the window in flight is
owned by racing level 3, manual control is off, and after the periodic
`rtw89_phy_env_monitor_track` (which requests `RTW89_RAC_LV_1 = 1 < 3`) the
window is owned by level 1. -/
theorem track_displaces_higher_level :
    monDevBusy.env.ccx_ongoing = true ∧ monDevBusy.env.ccx_rac_lv = 3 ∧
    ccxStd.RTW89_RAC_LV_1 < monDevBusy.env.ccx_rac_lv ∧
    (rtw89_phy_env_monitor_track simOps ccxStd ccxRegsStd monDevBusy).env.ccx_ongoing = true ∧
    (rtw89_phy_env_monitor_track simOps ccxStd ccxRegsStd monDevBusy).env.ccx_rac_lv = 1 := by
  have h := env_monitor_track_auto simOps ccxStd ccxRegsStd monDevBusy rfl (by decide)
    (by decide) (by decide)
  exact ⟨rfl, rfl, by decide, h.1, h.2⟩

/-- C13 (amended): in a monitor state with a window in flight at racing level
`L`, `rtw89_phy_ifs_clm_set` run for a level `L' < L` fails and leaves the whole
device unchanged, and `rtw89_phy_env_monitor_track` run while `ccx_manual_ctrl`
is set changes only `ccx_watchdog_result`; in both cases the window is still in
flight and owned by `L`.  With `ccx_manual_ctrl` clear the periodic track
releases the window whatever its level and ends with a window in flight that is
owned by `RTW89_RAC_LV_1`. -/
theorem monitor_window_ownership {H : Type} (ops : RegOps H) (c : CcxDefs) (g : CcxRegs)
    (d : MonDev H) (hon : d.env.ccx_ongoing = true) :
    (∀ para : rtw89_ccx_para_info, para.rac_lv < d.env.ccx_rac_lv →
      (rtw89_phy_ifs_clm_set ops c g d para).1 = -EINVAL ∧
      (rtw89_phy_ifs_clm_set ops c g d para).2 = d) ∧
    (d.env.ccx_manual_ctrl = true →
      (rtw89_phy_env_monitor_track ops c g d).env.ccx_ongoing = true ∧
      (rtw89_phy_env_monitor_track ops c g d).env.ccx_rac_lv = d.env.ccx_rac_lv ∧
      rtw89_phy_env_monitor_track ops c g d =
        { d with env := { d.env with
            ccx_watchdog_result := u8 c.RTW89_PHY_ENV_MON_CCX_FAIL } }) ∧
    (d.env.ccx_manual_ctrl = false →
      c.RTW89_RAC_LV_1 < c.RTW89_RAC_MAX_NUM → c.RTW89_RAC_MAX_NUM ≤ 256 →
      u8 (u8 c.RTW89_PHY_ENV_MON_CCX_FAIL ||| c.RTW89_PHY_ENV_MON_IFS_CLM) ≠ 0 →
      (rtw89_phy_env_monitor_track ops c g d).env.ccx_ongoing = true ∧
      (rtw89_phy_env_monitor_track ops c g d).env.ccx_rac_lv = c.RTW89_RAC_LV_1) := by
  refine ⟨?_, ?_, ?_⟩
  · intro para hlt
    have hf := ifs_clm_set_fail ops c g d para ⟨hon, Nat.le_of_lt hlt⟩
    rw [hf]
    exact ⟨rfl, rfl⟩
  · intro hman
    have hm := env_monitor_track_manual ops c g d hman
    rw [hm]
    exact ⟨hon, rfl, rfl⟩
  · intro hman hlv hmax hchk
    exact env_monitor_track_auto ops c g d hman hlv hmax hchk

/-- Witness for C13 (amended) on the busy sample device: a request at level 2
leaves the device unchanged, and the periodic track (manual control off) ends
with a window owned by level 1. -/
theorem monitor_window_ownership_witness :
    monDevBusy.env.ccx_ongoing = true ∧
    (rtw89_phy_ifs_clm_set simOps ccxStd ccxRegsStd monDevBusy ⟨2, 1900, 0, 0, 1⟩).2
      = monDevBusy ∧
    (rtw89_phy_env_monitor_track simOps ccxStd ccxRegsStd monDevBusy).env.ccx_rac_lv
      = ccxStd.RTW89_RAC_LV_1 :=
  ⟨rfl,
   ((monitor_window_ownership simOps ccxStd ccxRegsStd monDevBusy rfl).1 ⟨2, 1900, 0, 0, 1⟩
      (by decide)).2,
   ((monitor_window_ownership simOps ccxStd ccxRegsStd monDevBusy rfl).2.2 rfl (by decide)
      (by decide) (by decide)).2⟩

/-! ## Claims on the rate-adaptation mask -/

/-- The level `rssi_lv` found by the loop for `ratr_state = 0`. -/
theorem ra_mask_rssi_lv (h : Nat) :
    ra_mask_rssi_loop h 0 [30, 44, 48, 52, 56, 60, 100] 0 =
      (if h < 33 then 0 else if h < 47 then 1 else if h < 51 then 2 else if h < 55 then 3
       else if h < 59 then 4 else if h < 63 then 5 else if h < 103 then 6 else 0) := by
  simp [ra_mask_rssi_loop, u8, RA_FLOOR_UP_GAP]

/-- The RSSI mask for `ratr_state = 0` as a function of `h = rssi >> 1`. -/
theorem ra_mask_rssi_bands (rssi : Nat) :
    rtw89_phy_ra_mask_rssi rssi 0 =
      (if rssi % 256 / 2 < 33 then 0xffffffffffffffff
       else if rssi % 256 / 2 < 47 then 0xfffffffffffffff0
       else if rssi % 256 / 2 < 51 then 0xffffffffffffffe0
       else if rssi % 256 / 2 < 55 then 0xffffffffffffffc0
       else if rssi % 256 / 2 < 59 then 0xffffffffffffff80
       else if rssi % 256 / 2 < 103 then 0xffffffffffffff00
       else 0xffffffffffffffff) := by
  have hu : u8 0 = 0 := rfl
  have hs : u8 rssi >>> 1 = rssi % 256 / 2 := by
    rw [Nat.shiftRight_eq_div_pow]
    rfl
  unfold rtw89_phy_ra_mask_rssi
  simp only [hu, hs, ra_mask_rssi_lv]
  generalize rssi % 256 / 2 = h
  by_cases h1 : h < 33
  · simp [h1]
  by_cases h2 : h < 47
  · simp [h1, h2]
  by_cases h3 : h < 51
  · simp [h1, h2, h3]
  by_cases h4 : h < 55
  · simp [h1, h2, h3, h4]
  by_cases h5 : h < 59
  · simp [h1, h2, h3, h4, h5]
  by_cases h6 : h < 63
  · have h7 : h < 103 := by omega
    simp [h1, h2, h3, h4, h5, h6, h7]
  by_cases h7 : h < 103
  · simp [h1, h2, h3, h4, h5, h6, h7]
  · simp [h1, h2, h3, h4, h5, h6, h7]

/-- C15 (as stated) fails: for the RSSI inputs 0 <= 100 the mask for 0 is
all-ones, although 0 is not in the top band, and it is not a subset of the mask
for 100, which has the five lowest rate bits cleared. -/
theorem ra_mask_rssi_not_increasing :
    (0 : Nat) ≤ 100 ∧
    rtw89_phy_ra_mask_rssi 0 0 = 0xffffffffffffffff ∧
    rtw89_phy_ra_mask_rssi 100 0 = 0xffffffffffffffe0 ∧
    rtw89_phy_ra_mask_rssi 0 0 &&& rtw89_phy_ra_mask_rssi 100 0 ≠ rtw89_phy_ra_mask_rssi 0 0 := by
  decide

/-- C15 (amended): for RSSI inputs `r1 <= r2` below the top band
(`r2 >> 1 < 103`) with `ratr_state = 0`, the mask for `r2` permits no more rate
bits than the mask for `r1` (mask(r2) is a subset of mask(r1)), and below the
top band the all-ones mask is returned exactly for the lowest band
(`rssi >> 1 < 33`). -/
theorem ra_mask_rssi_antitone (r1 r2 : Nat) (hle : r1 ≤ r2) (htop : r2 < 206) :
    rtw89_phy_ra_mask_rssi r2 0 &&& rtw89_phy_ra_mask_rssi r1 0 = rtw89_phy_ra_mask_rssi r2 0 ∧
    (rtw89_phy_ra_mask_rssi r2 0 = 0xffffffffffffffff ↔ r2 / 2 < 33) := by
  rw [ra_mask_rssi_bands r1, ra_mask_rssi_bands r2]
  have h1 : r1 % 256 = r1 := by omega
  have h2 : r2 % 256 = r2 := by omega
  rw [h1, h2]
  constructor
  · split_ifs <;> first | omega | decide
  · split_ifs <;> omega

/-- Witness for C15 (amended): the RSSI inputs 40 <= 100 are below the top
band, and the mask for 100 is a subset of the mask for 40 (which is all-ones,
40 >> 1 being in the lowest band). -/
theorem ra_mask_rssi_antitone_witness :
    (40 : Nat) ≤ 100 ∧ (100 : Nat) < 206 ∧
    rtw89_phy_ra_mask_rssi 100 0 &&& rtw89_phy_ra_mask_rssi 40 0 = rtw89_phy_ra_mask_rssi 100 0 ∧
    (rtw89_phy_ra_mask_rssi 100 0 = 0xffffffffffffffff ↔ 100 / 2 < 33) :=
  ⟨by decide, by decide, ra_mask_rssi_antitone 40 100 (by decide) (by decide)⟩

theorem genmask_low (k : Nat) (hk : k ≤ 11) : GENMASK_ULL k 0 = 2 ^ (k + 1) - 1 := by
  interval_cases k <;> decide

theorem mcs_stream_bits_lt (h g code : Nat) (hh : h ≤ 11) :
    mcs_stream_bits_spec h g code < 2 ^ 12 := by
  have hp : ∀ k, k ≤ 11 → 2 ^ (k + 1) - 1 < 2 ^ 12 := by
    intro k hk
    interval_cases k <;> decide
  unfold mcs_stream_bits_spec
  split_ifs
  · exact hp _ hh
  · exact hp _ (by omega)
  · exact hp _ (by omega)
  · decide

theorem shift_group_lt (x nss : Nat) (hx : x < 2 ^ 12) (hn : nss ≤ 48) : x <<< nss < 2 ^ 64 := by
  rw [Nat.shiftLeft_eq]
  calc x * 2 ^ nss < 2 ^ 12 * 2 ^ nss := Nat.mul_lt_mul_of_pos_right hx (by positivity)
    _ = 2 ^ (12 + nss) := (Nat.pow_add 2 12 nss).symm
    _ ≤ 2 ^ 64 := Nat.pow_le_pow_right (by decide) (by omega)

/-- One iteration of the loop of `get_mcs_ra_mask` ORs the bits of the stream,
moved to `nss`, into `ra_mask`. -/
theorem get_mcs_ra_mask_loop_succ (h g n mcs_map nss ra_mask : Nat)
    (hh : h ≤ 11) (hg : 2 * g ≤ h) (hn : nss ≤ 48) :
    get_mcs_ra_mask_loop h g (n + 1) mcs_map nss ra_mask =
      get_mcs_ra_mask_loop h g n (u16 (mcs_map >>> 2)) (nss + 12)
        (ra_mask ||| (mcs_stream_bits_spec h g (mcs_map % 4) <<< nss)) := by
  have hcap : u8 (mcs_map &&& 0x3) = mcs_map % 4 := by
    have h3 : mcs_map &&& 0x3 = mcs_map % 4 := Nat.and_pow_two_sub_one_eq_mod mcs_map 2
    rw [h3]
    unfold u8
    omega
  have hu : ∀ k, k ≤ 11 → u64 (GENMASK_ULL k 0 <<< nss) = (2 ^ (k + 1) - 1) <<< nss := by
    intro k hk
    rw [genmask_low k hk]
    unfold u64
    apply Nat.mod_eq_of_lt
    apply shift_group_lt _ _ _ hn
    interval_cases k <;> decide
  rw [get_mcs_ra_mask_loop]
  simp only [hcap]
  congr 1
  unfold mcs_stream_bits_spec
  have hg2 : g * 2 = 2 * g := Nat.mul_comm g 2
  split_ifs
  · rw [hu h hh]
  · rw [hu (h - g) (by omega)]
  · rw [hu (h - g * 2) (by omega), hg2]
  · simp

theorem get_mcs_ra_mask_eq_spec (mcs_map highest_mcs gap : Nat)
    (hmap : mcs_map < 2 ^ 16) (hh : highest_mcs ≤ 11) (hg : 2 * gap ≤ highest_mcs) :
    get_mcs_ra_mask mcs_map highest_mcs gap = mcs_ra_mask_spec mcs_map highest_mcs gap := by
  have hu8h : u8 highest_mcs = highest_mcs := by unfold u8; omega
  have hu8g : u8 gap = gap := by unfold u8; omega
  have hu16 : u16 mcs_map = mcs_map := by unfold u16; omega
  have hmap2 : mcs_map < 65536 := by omega
  have c0 : mcs_map % 4 = mcs_code mcs_map 0 := by
    simp [mcs_code]
  have c1 : u16 (mcs_map >>> 2) % 4 = mcs_code mcs_map 1 := by
    simp only [mcs_code, u16, Nat.shiftRight_eq_div_pow]
    norm_num
  have c2 : u16 (u16 (mcs_map >>> 2) >>> 2) % 4 = mcs_code mcs_map 2 := by
    simp only [mcs_code, u16, Nat.shiftRight_eq_div_pow]
    norm_num
    omega
  have c3 : u16 (u16 (u16 (mcs_map >>> 2) >>> 2) >>> 2) % 4 = mcs_code mcs_map 3 := by
    simp only [mcs_code, u16, Nat.shiftRight_eq_div_pow]
    norm_num
    omega
  unfold get_mcs_ra_mask
  rw [hu8h, hu8g, hu16,
    get_mcs_ra_mask_loop_succ _ _ _ _ _ _ hh hg (by decide),
    get_mcs_ra_mask_loop_succ _ _ _ _ _ _ hh hg (by decide),
    get_mcs_ra_mask_loop_succ _ _ _ _ _ _ hh hg (by decide),
    get_mcs_ra_mask_loop_succ _ _ _ _ _ _ hh hg (by decide),
    get_mcs_ra_mask_loop, c0, c1, c2, c3]
  unfold mcs_ra_mask_spec
  simp only [Nat.zero_or]

theorem mcs_ra_mask_spec_low (mcs_map highest_mcs gap : Nat) :
    mcs_ra_mask_spec mcs_map highest_mcs gap % 2 ^ 12 = 0 := by
  unfold mcs_ra_mask_spec
  apply Nat.eq_of_testBit_eq
  intro i
  simp only [Nat.testBit_mod_two_pow, Nat.testBit_or, Nat.testBit_shiftLeft, Nat.zero_testBit]
  by_cases hi : i < 12
  · have h1 : ¬ i ≥ 12 := by omega
    have h2 : ¬ i ≥ 24 := by omega
    have h3 : ¬ i ≥ 36 := by omega
    have h4 : ¬ i ≥ 48 := by omega
    simp [h1, h2, h3, h4]
  · simp [hi]

/-- C16: for a 16-bit `mcs_map` and `(highest_mcs, gap)` with
`2 * gap <= highest_mcs <= 11`, `get_mcs_ra_mask` returns the OR over the
streams `i = 0..3` of `f(code_i) << 12 * (i + 1)`, with `code_i` the bits
`2i+1 .. 2i` of `mcs_map` and `f` as in `mcs_stream_bits_spec`; the low 12 bits
of the result are zero, every `f(code)` fits in 12 bits, and `mcs_map = 0xffff`
gives 0. -/
theorem get_mcs_ra_mask_streams (mcs_map highest_mcs gap : Nat)
    (hmap : mcs_map < 2 ^ 16) (hh : highest_mcs ≤ 11) (hg : 2 * gap ≤ highest_mcs) :
    get_mcs_ra_mask mcs_map highest_mcs gap =
      ((mcs_stream_bits_spec highest_mcs gap ((mcs_map >>> (2 * 0)) % 4) <<< 12) |||
       (mcs_stream_bits_spec highest_mcs gap ((mcs_map >>> (2 * 1)) % 4) <<< 24) |||
       (mcs_stream_bits_spec highest_mcs gap ((mcs_map >>> (2 * 2)) % 4) <<< 36) |||
       (mcs_stream_bits_spec highest_mcs gap ((mcs_map >>> (2 * 3)) % 4) <<< 48)) ∧
    get_mcs_ra_mask mcs_map highest_mcs gap % 2 ^ 12 = 0 ∧
    (∀ code, mcs_stream_bits_spec highest_mcs gap code < 2 ^ 12) ∧
    get_mcs_ra_mask 0xffff highest_mcs gap = 0 := by
  refine ⟨?_, ?_, ?_, ?_⟩
  · rw [get_mcs_ra_mask_eq_spec mcs_map highest_mcs gap hmap hh hg]
    rfl
  · rw [get_mcs_ra_mask_eq_spec mcs_map highest_mcs gap hmap hh hg]
    exact mcs_ra_mask_spec_low mcs_map highest_mcs gap
  · intro code
    exact mcs_stream_bits_lt highest_mcs gap code hh
  · rw [get_mcs_ra_mask_eq_spec 0xffff highest_mcs gap (by decide) hh hg]
    have hc : ∀ i, i < 4 → mcs_code 0xffff i = 3 := by decide
    unfold mcs_ra_mask_spec
    rw [hc 0 (by decide), hc 1 (by decide), hc 2 (by decide), hc 3 (by decide)]
    simp [mcs_stream_bits_spec]

/-- Witness for C16 with the HE parameters (11, 2): the map `0xfffa` (stream 0
supports up to MCS 11, stream 1 up to MCS 11, the others nothing) gives the
bits 12..23 and 24..35. -/
theorem get_mcs_ra_mask_streams_witness :
    (0xfffa : Nat) < 2 ^ 16 ∧ 2 * 2 ≤ 11 ∧
    get_mcs_ra_mask 0xfffa 11 2 = 0xffffff000 ∧
    get_mcs_ra_mask 0xfffa 11 2 % 2 ^ 12 = 0 :=
  ⟨by decide, by decide, by decide,
   (get_mcs_ra_mask_streams 0xfffa 11 2 (by decide) (by decide) (by decide)).2.1⟩

theorem u8_of_lt (v : Nat) (h : v < 256) : u8 v = v := by
  unfold u8
  omega

theorem or_lt_256 (a b : Nat) (ha : a < 256) (hb : b < 256) : a ||| b < 256 :=
  Nat.or_lt_two_pow (n := 8) ha hb

theorem and_or_right (a b x : Nat) : (a ||| b) &&& x = (a &&& x) ||| (b &&& x) := by
  rw [Nat.and_comm, Nat.and_or_distrib_left, Nat.and_comm x a, Nat.and_comm x b]

theorem left_le_or (a b : Nat) : a ≤ a ||| b := by
  apply Nat.le_of_testBit
  intro i hi
  simp [hi]

theorem right_le_or (a b : Nat) : b ≤ a ||| b := by
  apply Nat.le_of_testBit
  intro i hi
  simp [hi]

/-- The value of `mode` after the capability and band branches, when the mode
constants are disjoint masks of a `u8`: the truncations to `u8` do nothing. -/
theorem ra_sta_mode_eq (e : TxpwrEnums) (r : RaDefs) (d : RaDev) (sta : ieee80211_sta)
    (hbits : RaModeBits r) :
    ra_sta_mode e r d sta =
      (if sta.has_he then r.RTW89_RA_MODE_HE
       else if sta.vht_supported then r.RTW89_RA_MODE_VHT
       else if sta.ht_supported then r.RTW89_RA_MODE_HT else 0) |||
      (if d.current_band_type = e.RTW89_BAND_2G then
        if sta.supp_rates r.NL80211_BAND_2GHZ ≤ 0xf then r.RTW89_RA_MODE_CCK
        else r.RTW89_RA_MODE_CCK ||| r.RTW89_RA_MODE_OFDM
       else r.RTW89_RA_MODE_OFDM) := by
  obtain ⟨_, hb⟩ := hbits
  simp only [List.mem_cons, List.mem_singleton, List.not_mem_nil, or_false,
    forall_eq_or_imp, forall_eq] at hb
  obtain ⟨⟨_, c1⟩, ⟨_, c2⟩, ⟨_, c3⟩, ⟨_, c4⟩, ⟨_, c5⟩⟩ := hb
  unfold ra_sta_mode ra_sta_cap
  split_ifs <;>
    simp only [Nat.zero_or] <;>
    (first
      | (rw [u8_of_lt _ c5, u8_of_lt])
      | (rw [u8_of_lt _ c4, u8_of_lt])
      | (rw [u8_of_lt _ c3, u8_of_lt])
      | (rw [u8_of_lt])) <;>
    (first
      | exact or_lt_256 _ _ (by assumption) (or_lt_256 _ _ c1 c2)
      | exact or_lt_256 _ _ (by assumption) (by assumption)
      | exact or_lt_256 _ _ c1 c2
      | assumption)

/-- Disjointness facts contained in `RaModeBits`, in both orders. -/
theorem ra_mode_bits_disjoint (r : RaDefs) (hbits : RaModeBits r) :
    (r.RTW89_RA_MODE_CCK &&& r.RTW89_RA_MODE_OFDM = 0 ∧
     r.RTW89_RA_MODE_CCK &&& r.RTW89_RA_MODE_HT = 0 ∧
     r.RTW89_RA_MODE_CCK &&& r.RTW89_RA_MODE_VHT = 0 ∧
     r.RTW89_RA_MODE_CCK &&& r.RTW89_RA_MODE_HE = 0 ∧
     r.RTW89_RA_MODE_OFDM &&& r.RTW89_RA_MODE_HT = 0 ∧
     r.RTW89_RA_MODE_OFDM &&& r.RTW89_RA_MODE_VHT = 0 ∧
     r.RTW89_RA_MODE_OFDM &&& r.RTW89_RA_MODE_HE = 0 ∧
     r.RTW89_RA_MODE_HT &&& r.RTW89_RA_MODE_VHT = 0 ∧
     r.RTW89_RA_MODE_HT &&& r.RTW89_RA_MODE_HE = 0 ∧
     r.RTW89_RA_MODE_VHT &&& r.RTW89_RA_MODE_HE = 0) ∧
    (r.RTW89_RA_MODE_OFDM &&& r.RTW89_RA_MODE_CCK = 0 ∧
     r.RTW89_RA_MODE_HT &&& r.RTW89_RA_MODE_CCK = 0 ∧
     r.RTW89_RA_MODE_VHT &&& r.RTW89_RA_MODE_CCK = 0 ∧
     r.RTW89_RA_MODE_HE &&& r.RTW89_RA_MODE_CCK = 0 ∧
     r.RTW89_RA_MODE_HT &&& r.RTW89_RA_MODE_OFDM = 0 ∧
     r.RTW89_RA_MODE_VHT &&& r.RTW89_RA_MODE_OFDM = 0 ∧
     r.RTW89_RA_MODE_HE &&& r.RTW89_RA_MODE_OFDM = 0 ∧
     r.RTW89_RA_MODE_VHT &&& r.RTW89_RA_MODE_HT = 0 ∧
     r.RTW89_RA_MODE_HE &&& r.RTW89_RA_MODE_HT = 0 ∧
     r.RTW89_RA_MODE_HE &&& r.RTW89_RA_MODE_VHT = 0) := by
  obtain ⟨hp, _⟩ := hbits
  simp only [List.pairwise_cons, List.mem_cons, List.mem_singleton, List.not_mem_nil,
    or_false, forall_eq_or_imp, forall_eq, List.Pairwise.nil, and_true, false_implies,
    implies_true] at hp
  obtain ⟨⟨a1, a2, a3, a4⟩, ⟨a5, a6, a7⟩, ⟨a8, a9⟩, a10⟩ := hp
  refine ⟨⟨a1, a2, a3, a4, a5, a6, a7, a8, a9, a10⟩, ?_⟩
  simp only [Nat.and_comm] at a1 a2 a3 a4 a5 a6 a7 a8 a9 a10 ⊢
  refine ⟨?_, ?_, ?_, ?_, ?_, ?_, ?_, ?_, ?_, ?_⟩ <;> assumption

/-- C17: when the mode constants are non-zero disjoint bit masks, the
`mode_ctrl` written by `rtw89_phy_ra_sta_update` contains the HE bit iff the
station has HE, the VHT bit iff it has VHT but not HE, the HT bit iff it has HT
but neither HE nor VHT (so at most one of the three); on the 2 GHz band it
contains CCK, and OFDM iff `supp_rates[2GHz] > 0xf`; on any other band it
contains OFDM and not CCK. -/
theorem ra_sta_update_mode (e : TxpwrEnums) (r : RaDefs) (d : RaDev) (sta : ieee80211_sta)
    (hbits : RaModeBits r) :
    (rtw89_phy_ra_sta_update e r d sta).mode_ctrl &&& r.RTW89_RA_MODE_HE =
      (if sta.has_he then r.RTW89_RA_MODE_HE else 0) ∧
    (rtw89_phy_ra_sta_update e r d sta).mode_ctrl &&& r.RTW89_RA_MODE_VHT =
      (if sta.vht_supported ∧ ¬ sta.has_he then r.RTW89_RA_MODE_VHT else 0) ∧
    (rtw89_phy_ra_sta_update e r d sta).mode_ctrl &&& r.RTW89_RA_MODE_HT =
      (if sta.ht_supported ∧ ¬ sta.has_he ∧ ¬ sta.vht_supported then r.RTW89_RA_MODE_HT
       else 0) ∧
    (rtw89_phy_ra_sta_update e r d sta).mode_ctrl &&& r.RTW89_RA_MODE_CCK =
      (if d.current_band_type = e.RTW89_BAND_2G then r.RTW89_RA_MODE_CCK else 0) ∧
    (rtw89_phy_ra_sta_update e r d sta).mode_ctrl &&& r.RTW89_RA_MODE_OFDM =
      (if d.current_band_type = e.RTW89_BAND_2G ∧ sta.supp_rates r.NL80211_BAND_2GHZ ≤ 0xf
       then 0 else r.RTW89_RA_MODE_OFDM) ∧
    r.RTW89_RA_MODE_HE ≠ 0 ∧ r.RTW89_RA_MODE_VHT ≠ 0 ∧ r.RTW89_RA_MODE_HT ≠ 0 ∧
    r.RTW89_RA_MODE_CCK ≠ 0 ∧ r.RTW89_RA_MODE_OFDM ≠ 0 := by
  have hm : (rtw89_phy_ra_sta_update e r d sta).mode_ctrl = ra_sta_mode e r d sta := rfl
  obtain ⟨⟨a1, a2, a3, a4, a5, a6, a7, a8, a9, a10⟩,
    ⟨b1, b2, b3, b4, b5, b6, b7, b8, b9, b10⟩⟩ := ra_mode_bits_disjoint r hbits
  have hnz := hbits.2
  simp only [List.mem_cons, List.mem_singleton, List.not_mem_nil, or_false,
    forall_eq_or_imp, forall_eq] at hnz
  obtain ⟨⟨n1, _⟩, ⟨n2, _⟩, ⟨n3, _⟩, ⟨n4, _⟩, ⟨n5, _⟩⟩ := hnz
  rw [hm, ra_sta_mode_eq e r d sta hbits]
  refine ⟨?_, ?_, ?_, ?_, ?_, n5, n4, n3, n1, n2⟩ <;>
    (split_ifs <;>
      simp_all [and_or_right])

/-- Witness for C17: for the legacy sample station on the 5 GHz sample device
the mode is exactly OFDM. -/
theorem ra_sta_update_mode_witness :
    RaModeBits raStd ∧
    (rtw89_phy_ra_sta_update enumsStd raStd raDev5g staLegacy).mode_ctrl = 0x2 ∧
    (rtw89_phy_ra_sta_update enumsStd raStd raDev5g staLegacy).mode_ctrl &&&
      raStd.RTW89_RA_MODE_HE = (if staLegacy.has_he then raStd.RTW89_RA_MODE_HE else 0) :=
  ⟨by decide, by decide,
   (ra_sta_update_mode enumsStd raStd raDev5g staLegacy (by decide)).1⟩

/-- C18 (as stated) fails: for the legacy sample station (RSSI 100) on the
5 GHz sample device the mode is OFDM only, `RA_MASK_OFDM_RATES` is `0xff0`, and
the `ra_mask` written is `0xfe0`, because the RSSI mask is applied. -/
theorem ra_sta_update_legacy_rssi_cut :
    staLegacy.has_he = false ∧ staLegacy.vht_supported = false ∧
    staLegacy.ht_supported = false ∧
    (rtw89_phy_ra_sta_update enumsStd raStd raDev5g staLegacy).mode_ctrl
      = raStd.RTW89_RA_MODE_OFDM ∧
    raStd.RA_MASK_OFDM_RATES = 0xff0 ∧
    (rtw89_phy_ra_sta_update enumsStd raStd raDev5g staLegacy).ra_mask = 0xfe0 ∧
    (rtw89_phy_ra_sta_update enumsStd raStd raDev5g staLegacy).ra_mask
      ≠ raStd.RA_MASK_OFDM_RATES := by
  decide

/-- C18 (amended): for a station with none of HE, VHT or HT capability
`rtw89_phy_ra_sta_update` writes a `mode_ctrl` with CCK/OFDM bits only, and the
`ra_mask` is `RA_MASK_CCK_RATES` when the mode is CCK only, and otherwise
`RA_MASK_OFDM_RATES` (together with `RA_MASK_SUBCCK_RATES` when CCK is also
set) ANDed with the RSSI mask `rtw89_phy_ra_mask_rssi(rssi, 0)`. -/
theorem ra_sta_update_legacy (e : TxpwrEnums) (r : RaDefs) (d : RaDev) (sta : ieee80211_sta)
    (hbits : RaModeBits r)
    (hord : r.RTW89_RA_MODE_CCK ||| r.RTW89_RA_MODE_OFDM < r.RTW89_RA_MODE_HT)
    (hhe : sta.has_he = false) (hvht : sta.vht_supported = false)
    (hht : sta.ht_supported = false) :
    (d.current_band_type = e.RTW89_BAND_2G ∧ sta.supp_rates r.NL80211_BAND_2GHZ ≤ 0xf →
      (rtw89_phy_ra_sta_update e r d sta).mode_ctrl = r.RTW89_RA_MODE_CCK ∧
      (rtw89_phy_ra_sta_update e r d sta).ra_mask = r.RA_MASK_CCK_RATES) ∧
    (d.current_band_type = e.RTW89_BAND_2G ∧ ¬ sta.supp_rates r.NL80211_BAND_2GHZ ≤ 0xf →
      (rtw89_phy_ra_sta_update e r d sta).mode_ctrl
        = r.RTW89_RA_MODE_CCK ||| r.RTW89_RA_MODE_OFDM ∧
      (rtw89_phy_ra_sta_update e r d sta).ra_mask =
        (r.RA_MASK_SUBCCK_RATES ||| r.RA_MASK_OFDM_RATES) &&&
          rtw89_phy_ra_mask_rssi (u8 sta.avg_rssi) 0) ∧
    (d.current_band_type ≠ e.RTW89_BAND_2G →
      (rtw89_phy_ra_sta_update e r d sta).mode_ctrl = r.RTW89_RA_MODE_OFDM ∧
      (rtw89_phy_ra_sta_update e r d sta).ra_mask =
        r.RA_MASK_OFDM_RATES &&& rtw89_phy_ra_mask_rssi (u8 sta.avg_rssi) 0) := by
  have hm : (rtw89_phy_ra_sta_update e r d sta).mode_ctrl = ra_sta_mode e r d sta := rfl
  have hk : (rtw89_phy_ra_sta_update e r d sta).ra_mask = ra_sta_mask e r d sta := rfl
  obtain ⟨⟨a1, _⟩, ⟨b1, _⟩⟩ := ra_mode_bits_disjoint r hbits
  have hnz := hbits.2
  simp only [List.mem_cons, List.mem_singleton, List.not_mem_nil, or_false,
    forall_eq_or_imp, forall_eq] at hnz
  obtain ⟨⟨n1, _⟩, ⟨n2, _⟩, _⟩ := hnz
  have hc : r.RTW89_RA_MODE_CCK < r.RTW89_RA_MODE_HT :=
    Nat.lt_of_le_of_lt (left_le_or _ _) hord
  have ho : r.RTW89_RA_MODE_OFDM < r.RTW89_RA_MODE_HT :=
    Nat.lt_of_le_of_lt (right_le_or _ _) hord
  have hcap : (ra_sta_cap r sta).ra_mask = 0 := by
    unfold ra_sta_cap
    simp [hhe, hvht, hht]
  have hmode := ra_sta_mode_eq e r d sta hbits
  simp only [hhe, hvht, hht, Bool.false_eq_true, if_false, Nat.zero_or] at hmode
  have hne1 : r.RTW89_RA_MODE_OFDM ≠ r.RTW89_RA_MODE_CCK := by
    intro heq
    rw [heq, Nat.and_self] at a1
    exact n1 a1
  have hne2 : r.RTW89_RA_MODE_CCK ||| r.RTW89_RA_MODE_OFDM ≠ r.RTW89_RA_MODE_CCK := by
    intro heq
    have h2 : (r.RTW89_RA_MODE_CCK ||| r.RTW89_RA_MODE_OFDM) &&& r.RTW89_RA_MODE_OFDM
        = r.RTW89_RA_MODE_OFDM := by
      rw [and_or_right, a1, Nat.and_self, Nat.zero_or]
    rw [heq, a1] at h2
    exact n2 h2.symm
  rw [hm, hk]
  unfold ra_sta_mask
  simp only [hcap, hmode, Nat.zero_or]
  refine ⟨?_, ?_, ?_⟩
  · rintro ⟨hband, hs⟩
    simp [hband, hs, Nat.not_le.2 hc, a1]
  · rintro ⟨hband, hs⟩
    simp [hband, hs, Nat.not_le.2 hord, and_or_right, a1, b1, n1, n2, hne2]
  · intro hband
    simp [hband, Nat.not_le.2 ho, n2, hne1, b1]

/-- Witness for C18 (amended): for the legacy sample station on the 5 GHz
sample device the mode is OFDM and the mask is `RA_MASK_OFDM_RATES` cut by the
RSSI mask. -/
theorem ra_sta_update_legacy_witness :
    RaModeBits raStd ∧ raDev5g.current_band_type ≠ enumsStd.RTW89_BAND_2G ∧
    (rtw89_phy_ra_sta_update enumsStd raStd raDev5g staLegacy).mode_ctrl
      = raStd.RTW89_RA_MODE_OFDM ∧
    (rtw89_phy_ra_sta_update enumsStd raStd raDev5g staLegacy).ra_mask =
      raStd.RA_MASK_OFDM_RATES &&& rtw89_phy_ra_mask_rssi (u8 staLegacy.avg_rssi) 0 :=
  ⟨by decide, by decide,
   (ra_sta_update_legacy enumsStd raStd raDev5g staLegacy (by decide) (by decide) rfl rfl
      rfl).2.2 (by decide)⟩

/-! ## CFO tracking -/

/-- The function `rtw89_phy_cfo_set_crystal_cap` changes only `crystal_cap`
and the hardware. -/
theorem cfo_set_crystal_cap_frame {H : Type} (ops : RegOps H) (c : CfoDefs) (d : CfoDev H)
    (v : Nat) :
    (rtw89_phy_cfo_set_crystal_cap ops c d v).total_sta_assoc = d.total_sta_assoc ∧
    (rtw89_phy_cfo_set_crystal_cap ops c d v).cfo =
      { d.cfo with crystal_cap := (rtw89_phy_cfo_set_crystal_cap ops c d v).cfo.crystal_cap } := by
  unfold rtw89_phy_cfo_set_crystal_cap
  simp only []
  split_ifs <;> simp

/-- The function `rtw89_phy_cfo_crystal_cap_adjust` keeps the station count. -/
theorem cfo_crystal_cap_adjust_sta {H : Type} (ops : RegOps H) (c : CfoDefs) (d : CfoDev H) :
    (rtw89_phy_cfo_crystal_cap_adjust ops c d).total_sta_assoc = d.total_sta_assoc := by
  simp only [rtw89_phy_cfo_crystal_cap_adjust]
  by_cases h1 : cfo_adjust_arm c d.cfo = true
  · simp only [h1, if_true]
    rw [(cfo_set_crystal_cap_frame ops c _ _).1]
  · simp only [h1, Bool.false_eq_true, if_false]
    split_ifs <;> rfl

/-- The function `rtw89_phy_average_cfo_calc` keeps the station count. -/
theorem cfo_average_calc_sta {H : Type} (c : CfoDefs) (d : CfoDev H) :
    (rtw89_phy_average_cfo_calc c d).total_sta_assoc = d.total_sta_assoc := by
  unfold rtw89_phy_average_cfo_calc
  simp only []
  split_ifs <;> rfl

/-- With one station and no new sample, `rtw89_phy_cfo_track` returns the
device unchanged. -/
theorem cfo_track_idle {H : Type} (ops : RegOps H) (c : CfoDefs) (d : CfoDev H)
    (hsta : d.total_sta_assoc = 1) (hpc : d.cfo.packet_count = d.cfo.packet_count_pre) :
    rtw89_phy_cfo_track ops c d = d := by
  simp [rtw89_phy_cfo_track, hsta, hpc]

/-- With one station, after `rtw89_phy_cfo_track` there is still one station
and the two packet counters agree. -/
theorem cfo_track_counts {H : Type} (ops : RegOps H) (c : CfoDefs) (d : CfoDev H)
    (hsta : d.total_sta_assoc = 1) :
    (rtw89_phy_cfo_track ops c d).total_sta_assoc = 1 ∧
    (rtw89_phy_cfo_track ops c d).cfo.packet_count =
      (rtw89_phy_cfo_track ops c d).cfo.packet_count_pre := by
  by_cases hpc : d.cfo.packet_count = d.cfo.packet_count_pre
  · rw [cfo_track_idle ops c d hsta hpc]
    exact ⟨hsta, hpc⟩
  · simp only [rtw89_phy_cfo_track, hsta, hpc, ne_eq, not_true_eq_false, if_false]
    refine ⟨?_, by simp [rtw89_phy_cfo_statistics_reset]⟩
    simp only [cfo_crystal_cap_adjust_sta, cfo_average_calc_sta, hsta]

/-- **C19.** With exactly one station associated, a call of
`rtw89_phy_cfo_track` made when `packet_count = packet_count_pre` returns the
device (tracking state and register file) exactly as it was; and a second
tick that follows a tick directly, with no `rtw89_phy_cfo_parse` between them,
changes nothing, whatever the first tick did. -/
theorem cfo_track_no_new_sample {H : Type} (ops : RegOps H) (c : CfoDefs) (d : CfoDev H)
    (hsta : d.total_sta_assoc = 1) :
    (d.cfo.packet_count = d.cfo.packet_count_pre → rtw89_phy_cfo_track ops c d = d) ∧
    rtw89_phy_cfo_track ops c (rtw89_phy_cfo_track ops c d) = rtw89_phy_cfo_track ops c d :=
  ⟨cfo_track_idle ops c d hsta,
   cfo_track_idle ops c _ (cfo_track_counts ops c d hsta).1 (cfo_track_counts ops c d hsta).2⟩

/-- Witness for C19: the idle device is returned unchanged, the first tick of
the device with two fresh samples touches the crystal-cap register, and the
second tick changes nothing. -/
theorem cfo_track_no_new_sample_witness :
    cfoDevOne.total_sta_assoc = 1 ∧
    cfoDevOne.cfo.packet_count ≠ cfoDevOne.cfo.packet_count_pre ∧
    (rtw89_phy_cfo_track simOps cfoStd cfoDevOne).hw.log ≠ [] ∧
    rtw89_phy_cfo_track simOps cfoStd (rtw89_phy_cfo_track simOps cfoStd cfoDevOne) =
      rtw89_phy_cfo_track simOps cfoStd cfoDevOne :=
  ⟨rfl, by decide, by decide, (cfo_track_no_new_sample simOps cfoStd cfoDevOne rfl).2⟩

/-- With a station count other than 1, `rtw89_phy_cfo_track` is
`rtw89_phy_cfo_reset`. -/
theorem cfo_track_not_one {H : Type} (ops : RegOps H) (c : CfoDefs) (d : CfoDev H)
    (hsta : d.total_sta_assoc ≠ 1) :
    rtw89_phy_cfo_track ops c d = rtw89_phy_cfo_reset ops c d := by
  simp [rtw89_phy_cfo_track, hsta]

/-- The function `rtw89_phy_cfo_reset` changes only `def_x_cap`, `is_adjust`,
`crystal_cap` and the hardware. -/
theorem cfo_reset_frame {H : Type} (ops : RegOps H) (c : CfoDefs) (d : CfoDev H) :
    (rtw89_phy_cfo_reset ops c d).total_sta_assoc = d.total_sta_assoc ∧
    (rtw89_phy_cfo_reset ops c d).cfo =
      { d.cfo with def_x_cap := u8 (d.cfo.crystal_cap_default &&& c.B_AX_XTAL_SC_MSK),
                   is_adjust := true,
                   crystal_cap := (rtw89_phy_cfo_reset ops c d).cfo.crystal_cap } := by
  simp only [rtw89_phy_cfo_reset]
  split_ifs
  · exact ⟨rfl, rfl⟩
  · constructor
    · rw [(cfo_set_crystal_cap_frame ops c _ _).1]
    · rw [(cfo_set_crystal_cap_frame ops c _ _).2]
  · constructor
    · rw [(cfo_set_crystal_cap_frame ops c _ _).1]
    · rw [(cfo_set_crystal_cap_frame ops c _ _).2]

/-- A request for a crystal cap other than the current one stores the value
read back. -/
theorem cfo_set_crystal_cap_readback {H : Type} (ops : RegOps H) (c : CfoDefs) (bound : Nat)
    (d : CfoDev H) (v : Nat) (hb : bound < 256) (hv : v ≤ bound) (hne : d.cfo.crystal_cap ≠ v)
    (hrb : XcapReadback ops c bound) :
    (rtw89_phy_cfo_set_crystal_cap ops c d v).cfo.crystal_cap = v := by
  have hu : u8 v = v := u8_of_lt v (by omega)
  simp only [rtw89_phy_cfo_set_crystal_cap, hu, hne, if_false]
  exact hrb d.hw v hv

/-- One call of `rtw89_phy_cfo_reset` moves the crystal cap one step toward
the default. -/
theorem cfo_reset_cap {H : Type} (ops : RegOps H) (c : CfoDefs) (bound : Nat) (d : CfoDev H)
    (hb : bound < 256) (hmsk : c.B_AX_XTAL_SC_MSK ≤ bound) (hcap : d.cfo.crystal_cap ≤ bound)
    (hrb : XcapReadback ops c bound) :
    (rtw89_phy_cfo_reset ops c d).cfo.crystal_cap =
      (if d.cfo.crystal_cap = d.cfo.crystal_cap_default &&& c.B_AX_XTAL_SC_MSK then
        d.cfo.crystal_cap
      else if d.cfo.crystal_cap_default &&& c.B_AX_XTAL_SC_MSK < d.cfo.crystal_cap then
        d.cfo.crystal_cap - 1
      else d.cfo.crystal_cap + 1) ∧
    (d.cfo.crystal_cap = d.cfo.crystal_cap_default &&& c.B_AX_XTAL_SC_MSK →
      (rtw89_phy_cfo_reset ops c d).hw = d.hw) := by
  have hd : d.cfo.crystal_cap_default &&& c.B_AX_XTAL_SC_MSK ≤ bound :=
    le_trans Nat.and_le_right hmsk
  have hu : u8 (d.cfo.crystal_cap_default &&& c.B_AX_XTAL_SC_MSK) =
      d.cfo.crystal_cap_default &&& c.B_AX_XTAL_SC_MSK := u8_of_lt _ (by omega)
  simp only [rtw89_phy_cfo_reset, hu]
  generalize d.cfo.crystal_cap_default &&& c.B_AX_XTAL_SC_MSK = dflt at hd ⊢
  by_cases h1 : d.cfo.crystal_cap = dflt
  · simp [h1]
  · by_cases h2 : dflt < d.cfo.crystal_cap
    · have hv : u8_of_int ((d.cfo.crystal_cap : Int) + -1) = d.cfo.crystal_cap - 1 := by
        unfold u8_of_int
        omega
      simp only [h1, h2, if_true, if_false, gt_iff_lt, hv, false_implies, and_true]
      exact cfo_set_crystal_cap_readback ops c bound _ _ hb (by omega) (by simp; omega) hrb
    · have hv : u8_of_int ((d.cfo.crystal_cap : Int) + 1) = d.cfo.crystal_cap + 1 := by
        unfold u8_of_int
        omega
      simp only [h1, h2, if_false, gt_iff_lt, hv, false_implies, and_true]
      exact cfo_set_crystal_cap_readback ops c bound _ _ hb (by omega) (by simp) hrb

/-- Repeated ticks without a single station bring the crystal cap to the
default after as many ticks as there are steps between them. -/
theorem cfo_track_iterate {H : Type} (ops : RegOps H) (c : CfoDefs) (bound : Nat)
    (hb : bound < 256) (hmsk : c.B_AX_XTAL_SC_MSK ≤ bound) (hrb : XcapReadback ops c bound) :
    ∀ (n : Nat) (d : CfoDev H), d.total_sta_assoc ≠ 1 → d.cfo.crystal_cap ≤ bound →
      cfo_distance c d.cfo = n →
      ((rtw89_phy_cfo_track ops c)^[n] d).cfo.crystal_cap =
        d.cfo.crystal_cap_default &&& c.B_AX_XTAL_SC_MSK := by
  intro n
  induction n with
  | zero =>
    intro d _ _ hn
    simp only [cfo_distance] at hn
    simp only [Function.iterate_zero, id_eq]
    split_ifs at hn <;> omega
  | succ k ih =>
    intro d hsta hcap hn
    have hd : d.cfo.crystal_cap_default &&& c.B_AX_XTAL_SC_MSK ≤ bound :=
      le_trans Nat.and_le_right hmsk
    have hstep := (cfo_reset_cap ops c bound d hb hmsk hcap hrb).1
    have hfr := cfo_reset_frame ops c d
    have hdef : (rtw89_phy_cfo_reset ops c d).cfo.crystal_cap_default =
        d.cfo.crystal_cap_default := by rw [hfr.2]
    rw [Function.iterate_succ_apply, cfo_track_not_one ops c d hsta]
    rw [ih (rtw89_phy_cfo_reset ops c d) (by rw [hfr.1]; exact hsta) ?_ ?_, hdef]
    · rw [hstep]
      split_ifs <;> omega
    · simp only [cfo_distance, hdef, hstep]
      simp only [cfo_distance] at hn
      split_ifs at hn ⊢ <;> omega

/-- The simulated register file reads back every 7-bit crystal cap. -/
theorem sim_xcap_readback : XcapReadback simOps cfoStd 127 := by
  intro hw v hv
  have h7 : v &&& 127 = v := by
    have := Nat.and_pow_two_sub_one_eq_mod v 7
    norm_num at this
    rw [this]
    omega
  have hsh : (0x1fc00 : Nat) >>> mask_shift 32 0x1fc00 = 127 := by decide
  simp [rtw89_phy_cfo_get_xcap_reg, rtw89_phy_cfo_set_xcap_reg, simOps, HwSim.get, HwSim.set,
    cfoStd, List.lookup, hsh, h7, u8]
  omega

/-- **C20.** When the number of associated stations is not 1 and the
crystal-cap register reads back the value written (for values up to `bound`,
which covers the mask `B_AX_XTAL_SC_MSK` and the current cap),
`rtw89_phy_cfo_track` sets `def_x_cap` to
`crystal_cap_default & B_AX_XTAL_SC_MSK`, moves `crystal_cap` exactly one step
toward that default (so never past it), leaves cap and hardware unchanged when
the cap already equals the default, leaves the per-station accumulators, the
packet counters and the stored average as they were, and after
`|crystal_cap - def_x_cap|` such ticks the cap equals the default. -/
theorem cfo_track_relax {H : Type} (ops : RegOps H) (c : CfoDefs) (bound : Nat) (d : CfoDev H)
    (hsta : d.total_sta_assoc ≠ 1) (hb : bound < 256) (hmsk : c.B_AX_XTAL_SC_MSK ≤ bound)
    (hcap : d.cfo.crystal_cap ≤ bound) (hrb : XcapReadback ops c bound) :
    (rtw89_phy_cfo_track ops c d).cfo.def_x_cap =
      d.cfo.crystal_cap_default &&& c.B_AX_XTAL_SC_MSK ∧
    (rtw89_phy_cfo_track ops c d).cfo.crystal_cap =
      (if d.cfo.crystal_cap = d.cfo.crystal_cap_default &&& c.B_AX_XTAL_SC_MSK then
        d.cfo.crystal_cap
      else if d.cfo.crystal_cap_default &&& c.B_AX_XTAL_SC_MSK < d.cfo.crystal_cap then
        d.cfo.crystal_cap - 1
      else d.cfo.crystal_cap + 1) ∧
    (d.cfo.crystal_cap = d.cfo.crystal_cap_default &&& c.B_AX_XTAL_SC_MSK →
      (rtw89_phy_cfo_track ops c d).hw = d.hw) ∧
    (rtw89_phy_cfo_track ops c d).cfo.cfo_tail = d.cfo.cfo_tail ∧
    (rtw89_phy_cfo_track ops c d).cfo.cfo_cnt = d.cfo.cfo_cnt ∧
    (rtw89_phy_cfo_track ops c d).cfo.packet_count = d.cfo.packet_count ∧
    (rtw89_phy_cfo_track ops c d).cfo.packet_count_pre = d.cfo.packet_count_pre ∧
    (rtw89_phy_cfo_track ops c d).cfo.cfo_avg_pre = d.cfo.cfo_avg_pre ∧
    ((rtw89_phy_cfo_track ops c)^[cfo_distance c d.cfo] d).cfo.crystal_cap =
      d.cfo.crystal_cap_default &&& c.B_AX_XTAL_SC_MSK := by
  have hu : u8 (d.cfo.crystal_cap_default &&& c.B_AX_XTAL_SC_MSK) =
      d.cfo.crystal_cap_default &&& c.B_AX_XTAL_SC_MSK :=
    u8_of_lt _ (lt_of_le_of_lt (le_trans Nat.and_le_right hmsk) hb)
  have hfr := (cfo_reset_frame ops c d).2
  have hstep := cfo_reset_cap ops c bound d hb hmsk hcap hrb
  refine ⟨?_, ?_, ?_, ?_, ?_, ?_, ?_, ?_,
    cfo_track_iterate ops c bound hb hmsk hrb _ d hsta hcap rfl⟩
  · rw [cfo_track_not_one ops c d hsta, hfr, hu]
  · rw [cfo_track_not_one ops c d hsta]
    exact hstep.1
  · rw [cfo_track_not_one ops c d hsta]
    exact hstep.2
  all_goals rw [cfo_track_not_one ops c d hsta, hfr]

/-- Witness for C20: a device with no station and a cap three steps above the
default `0x2d`, on the simulated register file. -/
theorem cfo_track_relax_witness :
    cfoDevAway.total_sta_assoc ≠ 1 ∧ cfoDevAway.cfo.crystal_cap = 0x30 ∧
    cfo_distance cfoStd cfoDevAway.cfo = 3 ∧
    ((rtw89_phy_cfo_track simOps cfoStd)^[cfo_distance cfoStd cfoDevAway.cfo]
        cfoDevAway).cfo.crystal_cap =
      cfoDevAway.cfo.crystal_cap_default &&& cfoStd.B_AX_XTAL_SC_MSK :=
  ⟨by decide, rfl, by decide,
   (cfo_track_relax simOps cfoStd 127 cfoDevAway (by decide) (by decide) (by decide)
      (by decide) sim_xcap_readback).2.2.2.2.2.2.2.2⟩

/-- C21: the local `crystal_cap` of `rtw89_phy_cfo_crystal_cap_adjust` is an
`s8` and the range check compares it with the macro `B_AX_XTAL_SC_MSK`, so the
requested cap is not `clamp(crystal_cap + sign*step, 0, B_AX_XTAL_SC_MSK)` at
the ends of the range.  With the mask an unsigned constant (a `GENMASK`), cap 3
and average offset -200 give 3 - 7 = -4, which compares as a huge unsigned
value, and the cap requested and stored is 0x7f, not 0.  With the mask a plain
`int` constant, cap 125 and offset +200 give 132, which wraps to -124 in the
`s8`, and the cap requested is 0, not 0x7f.  In the middle of the range (cap 60,
offset +50, step 3) the value requested is 63 as claimed. -/
theorem cfo_adjust_clamp_wraps :
    cfoDevLow.cfo.is_adjust = true ∧ cfoDevLow.cfo.crystal_cap = 3 ∧
    |cfoDevLow.cfo.cfo_avg_pre| > cfoStd.CFO_TRK_STOP_TH_4 ∧
    max 0 (min (cfoStd.B_AX_XTAL_SC_MSK : Int) (3 + (-1) * 7)) = 0 ∧
    (rtw89_phy_cfo_crystal_cap_adjust simOps cfoStd cfoDevLow).cfo.crystal_cap = 0x7f ∧
    (rtw89_phy_cfo_crystal_cap_adjust simOps cfoStd cfoDevLow).hw.log =
      [RegAccess.write false 0x280 0xfe0000 0x7f, RegAccess.write false 0x280 0x1fc00 0x7f,
       RegAccess.read false 0x280 0xfe0000, RegAccess.read false 0x280 0x1fc00] ∧
    cfoDevHigh.cfo.is_adjust = true ∧ cfoDevHigh.cfo.crystal_cap = 125 ∧
    |cfoDevHigh.cfo.cfo_avg_pre| > cfoStdSigned.CFO_TRK_STOP_TH_4 ∧
    max 0 (min (cfoStdSigned.B_AX_XTAL_SC_MSK : Int) (125 + 1 * 7)) = 0x7f ∧
    (rtw89_phy_cfo_crystal_cap_adjust simOps cfoStdSigned cfoDevHigh).cfo.crystal_cap = 0 ∧
    (rtw89_phy_cfo_crystal_cap_adjust simOps cfoStdSigned cfoDevHigh).hw.log =
      [RegAccess.write false 0x280 0xfe0000 0, RegAccess.write false 0x280 0x1fc00 0,
       RegAccess.read false 0x280 0xfe0000, RegAccess.read false 0x280 0x1fc00] ∧
    (rtw89_phy_cfo_crystal_cap_adjust simOps cfoStd cfoDevMid).cfo.crystal_cap = 63 ∧
    (rtw89_phy_cfo_crystal_cap_adjust simOps cfoStdSigned cfoDevMid).cfo.crystal_cap = 63 := by
  decide

/-- The value of C `abs` on an `s32` other than `INT_MIN` is the absolute
value. -/
theorem s32_abs (x : Int) (hlo : -(2 ^ 31) < x) (hhi : x < 2 ^ 31) : s32 |x| = |x| := by
  unfold s32
  rcases abs_cases x with ⟨h, _⟩ | ⟨h, _⟩ <;> rw [h] <;> omega

/-- The latch after the test against `CFO_TRK_ENABLE_TH`. -/
theorem cfo_adjust_arm_iff (c : CfoDefs) (cfo : rtw89_cfo_tracking_info) :
    cfo_adjust_arm c cfo = true ↔
      cfo.is_adjust = true ∨ s32 |cfo.cfo_avg_pre| > c.CFO_TRK_ENABLE_TH := by
  unfold cfo_adjust_arm
  cases h : cfo.is_adjust <;> simp

/-- The latch after the threshold chain, for thresholds not below
`CFO_TRK_STOP_TH`. -/
theorem cfo_adjust_step_latch (c : CfoDefs) (cfo : rtw89_cfo_tracking_info)
    (crystal_cap sign : Int)
    (h2 : c.CFO_TRK_STOP_TH ≤ c.CFO_TRK_STOP_TH_2)
    (h3 : c.CFO_TRK_STOP_TH ≤ c.CFO_TRK_STOP_TH_3)
    (h4 : c.CFO_TRK_STOP_TH ≤ c.CFO_TRK_STOP_TH_4) :
    (cfo_adjust_step c cfo crystal_cap sign).2 = true ↔
      cfo.is_adjust = true ∧ s32 |cfo.cfo_avg_pre| > c.CFO_TRK_STOP_TH := by
  unfold cfo_adjust_step
  simp only []
  generalize s32 |cfo.cfo_avg_pre| = a
  split_ifs <;> simp <;> omega

/-- The armed branch of `rtw89_phy_cfo_crystal_cap_adjust` ends in a call of
`rtw89_phy_cfo_set_crystal_cap`, the other branch leaves `crystal_cap` and the
latch as they are. -/
theorem cfo_adjust_latch_cap {H : Type} (ops : RegOps H) (c : CfoDefs) (d : CfoDev H) :
    (rtw89_phy_cfo_crystal_cap_adjust ops c d).cfo.is_adjust =
      (if cfo_adjust_arm c d.cfo then
        (cfo_adjust_step c { d.cfo with is_adjust := cfo_adjust_arm c d.cfo }
          (s8 (d.cfo.crystal_cap : Int)) (if d.cfo.cfo_avg_pre > 0 then 1 else -1)).2
      else false) ∧
    (cfo_adjust_arm c d.cfo = false →
      (rtw89_phy_cfo_crystal_cap_adjust ops c d).cfo.crystal_cap = d.cfo.crystal_cap) := by
  simp only [rtw89_phy_cfo_crystal_cap_adjust]
  by_cases h1 : cfo_adjust_arm c d.cfo = true
  · simp only [h1, if_true]
    refine ⟨?_, by simp⟩
    rw [(cfo_set_crystal_cap_frame ops c _ _).2]
  · have h1f : cfo_adjust_arm c d.cfo = false := by simpa using h1
    simp only [h1f, Bool.false_eq_true, if_false]
    by_cases h2 : d.cfo.apply_compensation = true
    · simp [h2, rtw89_phy_digital_cfo_compensation]
    · simp [h2]

/-- C30: with the stop thresholds `CFO_TRK_STOP_TH_2`, `_3`, `_4` not below
`CFO_TRK_STOP_TH`, and `a` the value of `abs(cfo_avg_pre)` (the absolute value
for every offset other than `INT_MIN`), after
`rtw89_phy_cfo_crystal_cap_adjust` the latch `is_adjust` is set exactly when
`(is_adjust_before or a > CFO_TRK_ENABLE_TH) and a > CFO_TRK_STOP_TH`; and when
the latch is clear on entry and not armed (`a <= CFO_TRK_ENABLE_TH`) the
crystal cap is not changed. -/
theorem cfo_adjust_latch {H : Type} (ops : RegOps H) (c : CfoDefs) (d : CfoDev H)
    (h2 : c.CFO_TRK_STOP_TH ≤ c.CFO_TRK_STOP_TH_2)
    (h3 : c.CFO_TRK_STOP_TH ≤ c.CFO_TRK_STOP_TH_3)
    (h4 : c.CFO_TRK_STOP_TH ≤ c.CFO_TRK_STOP_TH_4) :
    ((rtw89_phy_cfo_crystal_cap_adjust ops c d).cfo.is_adjust = true ↔
      (d.cfo.is_adjust = true ∨ s32 |d.cfo.cfo_avg_pre| > c.CFO_TRK_ENABLE_TH) ∧
        s32 |d.cfo.cfo_avg_pre| > c.CFO_TRK_STOP_TH) ∧
    (-(2 ^ 31) < d.cfo.cfo_avg_pre → d.cfo.cfo_avg_pre < 2 ^ 31 →
      s32 |d.cfo.cfo_avg_pre| = |d.cfo.cfo_avg_pre|) ∧
    (d.cfo.is_adjust = false → s32 |d.cfo.cfo_avg_pre| ≤ c.CFO_TRK_ENABLE_TH →
      (rtw89_phy_cfo_crystal_cap_adjust ops c d).cfo.crystal_cap = d.cfo.crystal_cap ∧
      (rtw89_phy_cfo_crystal_cap_adjust ops c d).cfo.is_adjust = false) := by
  have hl := cfo_adjust_latch_cap ops c d
  have harm := cfo_adjust_arm_iff c d.cfo
  refine ⟨?_, s32_abs _, ?_⟩
  · rw [hl.1]
    by_cases h1 : cfo_adjust_arm c d.cfo = true
    · rw [if_pos h1, cfo_adjust_step_latch c _ _ _ h2 h3 h4]
      simp only [h1, true_and]
      have := harm.1 h1
      tauto
    · rw [if_neg h1]
      have hn : ¬ (d.cfo.is_adjust = true ∨ s32 |d.cfo.cfo_avg_pre| > c.CFO_TRK_ENABLE_TH) :=
        fun h => h1 (harm.2 h)
      simp [hn]
  · intro hoff hle
    have h1 : cfo_adjust_arm c d.cfo = false := by
      by_contra h
      have h' : cfo_adjust_arm c d.cfo = true := by simpa using h
      rcases harm.1 h' with h | h
      · rw [hoff] at h
        exact absurd h (by simp)
      · omega
    refine ⟨hl.2 h1, ?_⟩
    rw [hl.1, h1]
    simp

/-- Witness for C30 with the sample constants: the device at rest with offset
+50 (above `CFO_TRK_ENABLE_TH = 8` and `CFO_TRK_STOP_TH = 4`) has the latch set
after the call. -/
theorem cfo_adjust_latch_witness :
    cfoStd.CFO_TRK_STOP_TH ≤ cfoStd.CFO_TRK_STOP_TH_2 ∧
    cfoStd.CFO_TRK_STOP_TH ≤ cfoStd.CFO_TRK_STOP_TH_3 ∧
    cfoStd.CFO_TRK_STOP_TH ≤ cfoStd.CFO_TRK_STOP_TH_4 ∧
    ((rtw89_phy_cfo_crystal_cap_adjust simOps cfoStd cfoDevMid).cfo.is_adjust = true ↔
      (cfoDevMid.cfo.is_adjust = true ∨
          s32 |cfoDevMid.cfo.cfo_avg_pre| > cfoStd.CFO_TRK_ENABLE_TH) ∧
        s32 |cfoDevMid.cfo.cfo_avg_pre| > cfoStd.CFO_TRK_STOP_TH) ∧
    (rtw89_phy_cfo_crystal_cap_adjust simOps cfoStd cfoDevMid).cfo.is_adjust = true :=
  ⟨by decide, by decide, by decide,
   (cfo_adjust_latch simOps cfoStd cfoDevMid (by decide) (by decide) (by decide)).1,
   by decide⟩

/-- A call of `rtw89_phy_cfo_parse` has a defined result exactly when the
identifier is inside the arrays. -/
theorem cfo_parse_defined (c : CfoDefs) (cfo : rtw89_cfo_tracking_info) (cfo_val : Int)
    (mac_id : Nat) :
    (cfo_parse_in_range c mac_id → (rtw89_phy_cfo_parse c cfo cfo_val mac_id).isSome = true) ∧
    (¬ cfo_parse_in_range c mac_id → rtw89_phy_cfo_parse c cfo cfo_val mac_id = none) := by
  unfold cfo_parse_in_range rtw89_phy_cfo_parse
  constructor
  · intro h
    simp [h]
  · intro h
    simp [h]

/-- A defined result of `rtw89_phy_cfo_parse` has the sample added to slot
`macid` (with the wrap of the field types), inside the arrays, and every other
slot as it was. -/
theorem cfo_parse_slots (c : CfoDefs) (cfo r : rtw89_cfo_tracking_info) (cfo_val : Int)
    (mac_id : Nat) (h : rtw89_phy_cfo_parse c cfo cfo_val mac_id = some r) :
    cfo_parse_in_range c mac_id ∧
    r.cfo_tail (u8 mac_id) = s32 (cfo.cfo_tail (u8 mac_id) + cfo_val) ∧
    r.cfo_cnt (u8 mac_id) = u16 (cfo.cfo_cnt (u8 mac_id) + 1) ∧
    r.packet_count = u32 (cfo.packet_count + 1) ∧
    r.packet_count_pre = cfo.packet_count_pre ∧
    ∀ i, i ≠ u8 mac_id → r.cfo_tail i = cfo.cfo_tail i ∧ r.cfo_cnt i = cfo.cfo_cnt i := by
  unfold rtw89_phy_cfo_parse at h
  by_cases hin : u8 mac_id < c.CFO_TRACK_MAX_USER
  · simp only [hin, if_true, Option.some.injEq] at h
    subst h
    refine ⟨hin, by simp, by simp, rfl, rfl, ?_⟩
    intro i hi
    simp [Function.update_noteq hi]
  · simp [hin] at h

/-- No array length that the `u8` loop counters of the averaging code can
reach covers the identifier 255. -/
theorem cfo_parse_slot_255 (c : CfoDefs) (hmax : c.CFO_TRACK_MAX_USER ≤ 255) :
    ¬ cfo_parse_in_range c 255 := by
  unfold cfo_parse_in_range u8
  omega

/-- C22: `rtw89_phy_cfo_parse` indexes `cfo_tail` and `cfo_cnt` with the `u8`
`mac_id` without comparing it with `CFO_TRACK_MAX_USER`.  With arrays of 64
entries the identifiers 64 and 255 are not inside the arrays and the stores of
the call are out of bounds (no defined result); this holds for every state,
sample and constants whenever the identifier is not below
`CFO_TRACK_MAX_USER`.  For an identifier inside the arrays (5) the slot is
updated as claimed. -/
theorem cfo_parse_out_of_range :
    cfoStd.CFO_TRACK_MAX_USER = 64 ∧
    ¬ cfo_parse_in_range cfoStd 64 ∧ ¬ cfo_parse_in_range cfoStd 255 ∧
    rtw89_phy_cfo_parse cfoStd cfoInit 7 64 = none ∧
    rtw89_phy_cfo_parse cfoStd cfoInit 7 255 = none ∧
    (∀ (c : CfoDefs) (cfo : rtw89_cfo_tracking_info) (cfo_val : Int) (mac_id : Nat),
      ¬ u8 mac_id < c.CFO_TRACK_MAX_USER → rtw89_phy_cfo_parse c cfo cfo_val mac_id = none) ∧
    cfo_parse_in_range cfoStd 5 ∧
    (∃ r, rtw89_phy_cfo_parse cfoStd cfoInit 7 5 = some r ∧
      r.cfo_tail 5 = 7 ∧ r.cfo_cnt 5 = 1 ∧ r.packet_count = 1) := by
  refine ⟨rfl, by decide, by decide, rfl, rfl, ?_, by decide, ⟨_, rfl, ?_, ?_, ?_⟩⟩
  · intro c cfo cfo_val mac_id h
    exact (cfo_parse_defined c cfo cfo_val mac_id).2 h
  · decide
  · decide
  · decide

/-! ## The `ELSE` opcode after a match -/

/-- C27 (as stated) fails: in `tableElseAfterElif` the `ELSE` at index 7 is
reached after the `CHECK` at index 2 matched; just before the `ELSE` (after the
`CHECK` of the `ELIF` branch) the matched flag is false, and just after the
`ELSE` it is still false, not its negation.  The write after the `ELSE` (index
8) is not applied. -/
theorem else_keeps_unmatched :
    isElse phyStd ⟨0xA0000000, 0⟩ ∧
    (rtw89_phy_init_reg phyStd (table_take tableElseAfterElif 7) rtw89_phy_config_bb_reg
      devEmpty).target_found = true ∧
    (rtw89_phy_init_reg phyStd (table_take tableElseAfterElif 7) rtw89_phy_config_bb_reg
      devEmpty).returned = false ∧
    (rtw89_phy_init_reg phyStd (table_take tableElseAfterElif 7) rtw89_phy_config_bb_reg
      devEmpty).is_matched = false ∧
    (rtw89_phy_init_reg phyStd (table_take tableElseAfterElif 8) rtw89_phy_config_bb_reg
      devEmpty).is_matched = false ∧
    (rtw89_phy_init_reg phyStd (table_take tableElseAfterElif 8) rtw89_phy_config_bb_reg
      devEmpty).is_matched ≠
      !(rtw89_phy_init_reg phyStd (table_take tableElseAfterElif 7) rtw89_phy_config_bb_reg
        devEmpty).is_matched ∧
    (rtw89_phy_init_reg phyStd tableElseAfterElif rtw89_phy_config_bb_reg devEmpty).calls
      = [3, 10] := by
  decide

/-- C27 (amended): when replay by `rtw89_phy_init_reg` reaches an `ELSE` opcode
(`els`, after the program records `pre`) after some `CHECK` of the current
block has matched, the matched flag after the `ELSE` is false, whatever
sequence of `IF`/`ELIF`/`CHECK` opcodes precedes it in the block; the replay
goes on, `target_found` stays set and nothing is passed to the writer.  The
flag is the negation of its value just before the `ELSE` exactly when that
value was true. -/
theorem init_reg_else_clears {σ : Type} (m : PhyCondDefs) (table : rtw89_phy_table)
    (config : rtw89_reg2_def → Nat → σ → σ) (dev : σ)
    (pre post : List rtw89_reg2_def) (els : rtw89_reg2_def)
    (hprog : phy_program m table = pre ++ els :: post)
    (hels : isElse m els)
    (hret : (rtw89_phy_init_reg m (table_take table (phy_headline_size m table + pre.length))
      config dev).returned = false)
    (hbm : blockMatched m
      (phy_cfg_target m table (rtw89_phy_sel_headline m table 0 1 1).headline_idx) 0 pre) :
    (rtw89_phy_init_reg m (table_take table (phy_headline_size m table + pre.length))
      config dev).target_found = true ∧
    (rtw89_phy_init_reg m (table_take table (phy_headline_size m table + pre.length + 1))
      config dev).is_matched = false ∧
    (rtw89_phy_init_reg m (table_take table (phy_headline_size m table + pre.length + 1))
      config dev).returned = false ∧
    (rtw89_phy_init_reg m (table_take table (phy_headline_size m table + pre.length + 1))
      config dev).target_found = true ∧
    (rtw89_phy_init_reg m (table_take table (phy_headline_size m table + pre.length + 1))
      config dev).calls =
      (rtw89_phy_init_reg m (table_take table (phy_headline_size m table + pre.length))
        config dev).calls ∧
    (rtw89_phy_init_reg m (table_take table (phy_headline_size m table + pre.length + 1))
      config dev).dev =
      (rtw89_phy_init_reg m (table_take table (phy_headline_size m table + pre.length))
        config dev).dev ∧
    ((rtw89_phy_init_reg m (table_take table (phy_headline_size m table + pre.length + 1))
      config dev).is_matched =
      !(rtw89_phy_init_reg m (table_take table (phy_headline_size m table + pre.length))
        config dev).is_matched ↔
      (rtw89_phy_init_reg m (table_take table (phy_headline_size m table + pre.length))
        config dev).is_matched = true) := by
  have hsel : (rtw89_phy_sel_headline m table 0 1 1).ret = 0 := by
    by_contra hne
    have hne2 : (rtw89_phy_sel_headline m
        (table_take table (phy_headline_size m table + pre.length)) 0 1 1).ret ≠ 0 := by
      rw [sel_headline_take m table pre.length 0 1 1]
      exact hne
    rw [init_reg_fail m config _ dev hne2] at hret
    simp at hret
  have hcut := init_reg_take_pre m table config dev pre (els :: post) hprog hsel
  have hsucc := init_reg_take_succ m table config dev pre post els hprog
  have hst : (init_reg_start dev).returned = false := rfl
  have hfound : (rtw89_phy_init_reg m
      (table_take table (phy_headline_size m table + pre.length)) config dev).target_found
      = true := by
    rw [hcut] at hret ⊢
    exact (init_reg_loop_ctrl m config table.rf_path _ pre _ _ hst hret).2.2 (Or.inr hbm)
  have he : phy_cond_case m els = CondCase.branch_else := hels
  rw [hsucc, hret]
  simp only [Bool.false_eq_true, if_false]
  unfold init_reg_step
  simp only [he, hfound, Bool.not_true, Bool.false_eq_true, if_false, true_and]
  cases (rtw89_phy_init_reg m (table_take table (phy_headline_size m table + pre.length))
    config dev).is_matched <;> simp [hret]

/-- Witness for C27 (amended) on `tableElseAfterMatch`: the `ELSE` at index 4
follows the write of the matched branch, the flag is true before it and false
after it. -/
theorem init_reg_else_clears_witness :
    (rtw89_phy_init_reg phyStd (table_take tableElseAfterMatch 4) rtw89_phy_config_bb_reg
      devEmpty).is_matched = true ∧
    (rtw89_phy_init_reg phyStd
      (table_take tableElseAfterMatch (phy_headline_size phyStd tableElseAfterMatch + 3 + 1))
      rtw89_phy_config_bb_reg devEmpty).is_matched = false ∧
    (rtw89_phy_init_reg phyStd tableElseAfterMatch rtw89_phy_config_bb_reg devEmpty).calls
      = [3, 7] := by
  have h := init_reg_else_clears phyStd tableElseAfterMatch rtw89_phy_config_bb_reg devEmpty
    [⟨0x80010001, 0⟩, ⟨0x40000000, 0⟩, ⟨0x704, 1⟩]
    [⟨0x708, 2⟩, ⟨0xB0000000, 0⟩, ⟨0x70c, 3⟩] ⟨0xA0000000, 0⟩
    (by decide) (by decide) (by decide)
    (by
      rw [blockMatched_iff]
      decide)
  exact ⟨by decide, h.2.1, by decide⟩

/-- C29: restricted to the 2.4 GHz channels 1..14 `rtw89_channel_to_idx` is
strictly increasing, takes values below 14 and reaches each of 0..13; restricted
to the 5 GHz channels 36, 38, .., 64, 100, 102, .., 144 and 149, 151, .., 177 it
is strictly increasing, takes values below 53 and reaches each of 0..52 (index
`k` is reached at channel `chan_5g_of_idx k`). -/
theorem channel_to_idx_bijective :
    (∀ c1 c2 : Nat, 1 ≤ c1 → c1 < c2 → c2 ≤ 14 →
      rtw89_channel_to_idx c1 < rtw89_channel_to_idx c2) ∧
    (∀ c : Nat, 1 ≤ c → c ≤ 14 → rtw89_channel_to_idx c < 14) ∧
    (∀ k : Nat, k < 14 → 1 ≤ k + 1 ∧ k + 1 ≤ 14 ∧ rtw89_channel_to_idx (k + 1) = k) ∧
    (∀ c1 c2 : Nat, is_chan_5g c1 → is_chan_5g c2 → c1 < c2 →
      rtw89_channel_to_idx c1 < rtw89_channel_to_idx c2) ∧
    (∀ c : Nat, is_chan_5g c → rtw89_channel_to_idx c < 53) ∧
    (∀ k : Nat, k < 53 →
      is_chan_5g (chan_5g_of_idx k) ∧ rtw89_channel_to_idx (chan_5g_of_idx k) = k) := by
  refine ⟨?_, ?_, ?_, ?_, ?_, ?_⟩
  · intro c1 c2 h1 h2 h3
    unfold rtw89_channel_to_idx u8
    split_ifs <;> omega
  · intro c h1 h2
    unfold rtw89_channel_to_idx u8
    split_ifs <;> omega
  · intro k hk
    unfold rtw89_channel_to_idx u8
    split_ifs <;> omega
  · intro c1 c2 h1 h2 h3
    unfold is_chan_5g at h1 h2
    unfold rtw89_channel_to_idx u8
    split_ifs <;> omega
  · intro c h1
    unfold is_chan_5g at h1
    unfold rtw89_channel_to_idx u8
    split_ifs <;> omega
  · intro k hk
    unfold is_chan_5g chan_5g_of_idx rtw89_channel_to_idx u8
    split_ifs <;> omega

/-- C28: in the HT branch of `rtw89_phy_ra_sta_update` the bytes `rx_mask[3]`
and `rx_mask[2]` are cast to `u64` before the shift, `rx_mask[1]` and
`rx_mask[0]` are not: `rx_mask[1] << 24` is an `int`, negative when bit 7 of the
byte is set, and its conversion to `u64` sets bits 32..63.  For `rx_mask`
`00 80 00 00` the raw mask is `0xffffffff80000000` (claimed `0x80000000`), for
the two-stream station `ff ff 00 00` it is `0xffffffffff0ff000` (claimed
`0xff0ff000`); with bit 7 of `rx_mask[1]` clear (`ff 7f ff ff`) the layout is as
claimed. -/
theorem ht_ra_mask_sign_extends :
    staHtBit15.has_he = false ∧ staHtBit15.vht_supported = false ∧
    staHtBit15.ht_supported = true ∧
    (ra_sta_cap raStd staHtBit15).ra_mask = 0xffffffff80000000 ∧
    (0x80 : Nat) <<< (12 * (1 + 1)) = 0x80000000 ∧
    staHt2ss.has_he = false ∧ staHt2ss.vht_supported = false ∧ staHt2ss.ht_supported = true ∧
    (ra_sta_cap raStd staHt2ss).ra_mask = 0xffffffffff0ff000 ∧
    ((0xff : Nat) <<< 12 ||| (0xff : Nat) <<< 24) = 0xff0ff000 ∧
    (ra_sta_cap raStd staHt4ss).ra_mask =
      ((0xff : Nat) <<< 12 ||| (0x7f : Nat) <<< 24 ||| (0xff : Nat) <<< 36 |||
        (0xff : Nat) <<< 48) := by
  decide

/-! ## Firmware events -/

/-- The entries of the handler table. -/
theorem c2h_ra_handler_get (c : C2hDefs) (i : Nat)
    (hi : i < max c.RTW89_PHY_C2H_FUNC_STS_RPT
      (max c.RTW89_PHY_C2H_FUNC_MU_GPTBL_RPT c.RTW89_PHY_C2H_FUNC_TXSTS) + 1) :
    (rtw89_phy_c2h_ra_handler c).get? i =
      some (if i = c.RTW89_PHY_C2H_FUNC_TXSTS then none
        else if i = c.RTW89_PHY_C2H_FUNC_MU_GPTBL_RPT then none
        else if i = c.RTW89_PHY_C2H_FUNC_STS_RPT then some C2hHandler.rtw89_phy_c2h_ra_rpt
        else none) := by
  unfold rtw89_phy_c2h_ra_handler
  rw [List.get?_eq_getElem?, List.getElem?_map, List.getElem?_range hi]
  rfl

/-- C25: with the three function constants of the handler table distinct
where it matters (`STS_RPT` is neither `MU_GPTBL_RPT` nor `TXSTS`) and
`RTW89_PHY_C2H_FUNC_RA_MAX` not beyond the end of the table,
`rtw89_phy_c2h_handle` never reads outside the table; it invokes a handler
exactly when the class is `RTW89_PHY_C2H_CLASS_RA`, the function is below
`RTW89_PHY_C2H_FUNC_RA_MAX` and the table entry is not `NULL`, which is the
case only for `RTW89_PHY_C2H_FUNC_STS_RPT` (handler `rtw89_phy_c2h_ra_rpt`);
in every other case the device state is returned unchanged. -/
theorem c2h_handle_dispatch {σ : Type} (c : C2hDefs) (run : C2hHandler → σ → σ) (dev : σ)
    (cls func : Nat)
    (h1 : c.RTW89_PHY_C2H_FUNC_STS_RPT ≠ c.RTW89_PHY_C2H_FUNC_MU_GPTBL_RPT)
    (h2 : c.RTW89_PHY_C2H_FUNC_STS_RPT ≠ c.RTW89_PHY_C2H_FUNC_TXSTS)
    (hmax : c.RTW89_PHY_C2H_FUNC_RA_MAX ≤ max c.RTW89_PHY_C2H_FUNC_STS_RPT
      (max c.RTW89_PHY_C2H_FUNC_MU_GPTBL_RPT c.RTW89_PHY_C2H_FUNC_TXSTS) + 1) :
    (rtw89_phy_c2h_handle c run dev cls func).1 ≠ C2hOutcome.out_of_table ∧
    (∀ h, (rtw89_phy_c2h_handle c run dev cls func).1 = C2hOutcome.handled h ↔
      (u8 cls = c.RTW89_PHY_C2H_CLASS_RA ∧ u8 func < c.RTW89_PHY_C2H_FUNC_RA_MAX ∧
        (rtw89_phy_c2h_ra_handler c).get? (u8 func) = some (some h))) ∧
    ((rtw89_phy_c2h_handle c run dev cls func).1 =
        C2hOutcome.handled C2hHandler.rtw89_phy_c2h_ra_rpt ↔
      (u8 cls = c.RTW89_PHY_C2H_CLASS_RA ∧ u8 func < c.RTW89_PHY_C2H_FUNC_RA_MAX ∧
        u8 func = c.RTW89_PHY_C2H_FUNC_STS_RPT)) ∧
    ((∀ h, (rtw89_phy_c2h_handle c run dev cls func).1 ≠ C2hOutcome.handled h) →
      (rtw89_phy_c2h_handle c run dev cls func).2 = dev) := by
  unfold rtw89_phy_c2h_handle
  simp only []
  by_cases hc : u8 cls = c.RTW89_PHY_C2H_CLASS_RA
  · by_cases hf : u8 func < c.RTW89_PHY_C2H_FUNC_RA_MAX
    · have hlt := lt_of_lt_of_le hf hmax
      have hget := c2h_ra_handler_get c (u8 func) hlt
      by_cases e1 : u8 func = c.RTW89_PHY_C2H_FUNC_STS_RPT
      · have e3 : ¬ u8 func = c.RTW89_PHY_C2H_FUNC_TXSTS := fun e => h2 (e1.symm.trans e)
        have e2 : ¬ u8 func = c.RTW89_PHY_C2H_FUNC_MU_GPTBL_RPT :=
          fun e => h1 (e1.symm.trans e)
        rw [if_neg e3, if_neg e2, if_pos e1] at hget
        rw [if_pos hc, if_pos hf, hget]
        refine ⟨by simp, ?_, ?_, ?_⟩
        · intro h
          cases h
          simp [hc, hf]
        · exact ⟨fun _ => ⟨hc, hf, e1⟩, fun _ => rfl⟩
        · intro hall
          exact absurd rfl (hall C2hHandler.rtw89_phy_c2h_ra_rpt)
      · have hnone : (rtw89_phy_c2h_ra_handler c).get? (u8 func) = some none := by
          rw [hget]
          split_ifs <;> rfl
        rw [if_pos hc, if_pos hf, hnone]
        simp [e1]
    · simp [hc, hf]
  · simp [hc]

/-- Witness for C25 with the sample constants, the device state being a counter
of handler calls: the status report (class 0, function 0) is handled, function
1 and class 7 are dropped with the counter unchanged. -/
theorem c2h_handle_dispatch_witness :
    c2hStd.RTW89_PHY_C2H_FUNC_STS_RPT ≠ c2hStd.RTW89_PHY_C2H_FUNC_MU_GPTBL_RPT ∧
    rtw89_phy_c2h_handle c2hStd (fun _ n => n + 1) (0 : Nat) 0 0 =
      (C2hOutcome.handled C2hHandler.rtw89_phy_c2h_ra_rpt, 1) ∧
    rtw89_phy_c2h_handle c2hStd (fun _ n => n + 1) (0 : Nat) 0 1 =
      (C2hOutcome.func_not_support, 0) ∧
    rtw89_phy_c2h_handle c2hStd (fun _ n => n + 1) (0 : Nat) 7 0 =
      (C2hOutcome.class_not_support, 0) ∧
    ((rtw89_phy_c2h_handle c2hStd (fun _ n => n + 1) (0 : Nat) 0 200).1 =
        C2hOutcome.handled C2hHandler.rtw89_phy_c2h_ra_rpt ↔
      (u8 0 = c2hStd.RTW89_PHY_C2H_CLASS_RA ∧ u8 200 < c2hStd.RTW89_PHY_C2H_FUNC_RA_MAX ∧
        u8 200 = c2hStd.RTW89_PHY_C2H_FUNC_STS_RPT)) :=
  ⟨by decide, by decide, by decide, by decide,
   (c2h_handle_dispatch c2hStd (fun _ n => n + 1) (0 : Nat) 0 200 (by decide) (by decide)
      (by decide)).2.2.1⟩

/-! ## Pushing the staged RF registers -/

/-- C26: the guard of `rtw89_phy_config_rf_reg_fw` is `page > RTW89_H2C_RF_PAGE_NUM`,
so a page count equal to `RTW89_H2C_RF_PAGE_NUM` passes it.  With page size 500
and 3 pages, 1501 staged entries give three full pages and a fourth push of 4
bytes with page index 3, which is not below `RTW89_H2C_RF_PAGE_NUM`; the call
returns 0 and resets `curr_idx`.  With 1500 entries the fourth push has length
0 and page index 3.  With 1499 entries every page index is below 3 and the
lengths sum to `4 * 1499`; with 2000 entries the call returns `-EINVAL` without
a push. -/
theorem config_rf_reg_fw_page_beyond :
    (rtw89_phy_config_rf_reg_fw h2cAccept 500 3 (rfFwDevOf 1501)).1 = 0 ∧
    (rtw89_phy_config_rf_reg_fw h2cAccept 500 3 (rfFwDevOf 1501)).2.pushes =
      [(2000, 0), (2000, 1), (2000, 2), (4, 3)] ∧
    ¬ (∀ p ∈ (rtw89_phy_config_rf_reg_fw h2cAccept 500 3 (rfFwDevOf 1501)).2.pushes,
        p.2 < 3) ∧
    (rtw89_phy_config_rf_reg_fw h2cAccept 500 3 (rfFwDevOf 1501)).2.info.curr_idx = 0 ∧
    (rtw89_phy_config_rf_reg_fw h2cAccept 500 3 (rfFwDevOf 1500)).2.pushes =
      [(2000, 0), (2000, 1), (2000, 2), (0, 3)] ∧
    (rtw89_phy_config_rf_reg_fw h2cAccept 500 3 (rfFwDevOf 1499)).2.pushes =
      [(2000, 0), (2000, 1), (1996, 2)] ∧
    2000 + 2000 + 1996 = 4 * 1499 ∧
    (rtw89_phy_config_rf_reg_fw h2cAccept 500 3 (rfFwDevOf 2000)).1 = -EINVAL ∧
    (rtw89_phy_config_rf_reg_fw h2cAccept 500 3 (rfFwDevOf 2000)).2.pushes = [] := by
  decide

/-! ## Dynamic initial gain -/

/-- With no station and the flag `reset` clear, `rtw89_phy_dig` returns the
device unchanged. -/
theorem dig_zero_idle {H : Type} (ops : RegOps H) (e : TxpwrEnums) (g : DigDefs) (d : DigDev H)
    (hsta : u8 d.total_sta_assoc = 0) (hr : d.dig.reset = false) :
    rtw89_phy_dig ops e g d = d := by
  simp [rtw89_phy_dig, hsta, hr]

/-- With no station and the flag `reset` set, `rtw89_phy_dig` is
`rtw89_phy_dig_reset` followed by clearing the flag. -/
theorem dig_zero_armed {H : Type} (ops : RegOps H) (e : TxpwrEnums) (g : DigDefs)
    (d : DigDev H) (hsta : u8 d.total_sta_assoc = 0) (hr : d.dig.reset = true) :
    rtw89_phy_dig ops e g d =
      { rtw89_phy_dig_reset ops e g d with
        dig := { (rtw89_phy_dig_reset ops e g d).dig with reset := false } } := by
  simp [rtw89_phy_dig, hsta, hr]

/-- The register writes of `rtw89_phy_dig_reset`, and the fields it keeps. -/
theorem dig_reset_hw {H : Type} (ops : RegOps H) (e : TxpwrEnums) (g : DigDefs)
    (d : DigDev H) :
    (rtw89_phy_dig_reset ops e g d).hw =
      rtw89_phy_dig_sdagc_follow_pagc_config ops g
        (ops.phy_write32_mask
          (ops.phy_write32_mask
            (rtw89_phy_dig_set_igi_cr ops g d.hw
              ⟨u8 g.LNA_IDX_MAX, u8 g.TIA_IDX_MAX, u8 g.RXB_IDX_MAX⟩)
            g.R_SEG0R_PD g.B_SEG0R_PD_LOWER_BOUND_MSK 0)
          g.R_SEG0R_PD g.B_SEG0R_PD_SPATIAL_REUSE_EN_MSK 0)
        false ∧
    (rtw89_phy_dig_reset ops e g d).total_sta_assoc = d.total_sta_assoc ∧
    (rtw89_phy_dig_reset ops e g d).dig.force_gaincode =
      ⟨u8 g.LNA_IDX_MAX, u8 g.TIA_IDX_MAX, u8 g.RXB_IDX_MAX⟩ := by
  simp [rtw89_phy_dig_reset, rtw89_phy_dig_dyn_pd_th, rtw89_phy_dig_para_reset]

/-- C23: with zero stations associated, a call of `rtw89_phy_dig` made with
`dig.reset` clear returns the device unchanged (no register write, no change
of the DIG state); a call made with `dig.reset` set clears the flag and
performs the writes of `rtw89_phy_dig_reset` (the gain code
`LNA_IDX_MAX/TIA_IDX_MAX/RXB_IDX_MAX` to both paths, packet-detect lower bound
0, spatial reuse 0, the four follow-PAGC bits 0), and the call that follows it
changes nothing: over two consecutive calls the reset is performed once. -/
theorem dig_zero_sta_reset_once {H : Type} (ops : RegOps H) (e : TxpwrEnums) (g : DigDefs)
    (d : DigDev H) (hsta : d.total_sta_assoc = 0) :
    (d.dig.reset = false → rtw89_phy_dig ops e g d = d) ∧
    (d.dig.reset = true →
      (rtw89_phy_dig ops e g d).dig.reset = false ∧
      (rtw89_phy_dig ops e g d).hw =
        rtw89_phy_dig_sdagc_follow_pagc_config ops g
          (ops.phy_write32_mask
            (ops.phy_write32_mask
              (rtw89_phy_dig_set_igi_cr ops g d.hw
                ⟨u8 g.LNA_IDX_MAX, u8 g.TIA_IDX_MAX, u8 g.RXB_IDX_MAX⟩)
              g.R_SEG0R_PD g.B_SEG0R_PD_LOWER_BOUND_MSK 0)
            g.R_SEG0R_PD g.B_SEG0R_PD_SPATIAL_REUSE_EN_MSK 0)
          false ∧
      rtw89_phy_dig ops e g (rtw89_phy_dig ops e g d) = rtw89_phy_dig ops e g d) := by
  have hu : u8 d.total_sta_assoc = 0 := by
    rw [hsta]
    rfl
  refine ⟨dig_zero_idle ops e g d hu, ?_⟩
  intro hr
  have ha := dig_zero_armed ops e g d hu hr
  have hw := dig_reset_hw ops e g d
  refine ⟨by rw [ha], ?_, ?_⟩
  · rw [ha]
    exact hw.1
  · apply dig_zero_idle
    · rw [ha]
      show u8 (rtw89_phy_dig_reset ops e g d).total_sta_assoc = 0
      rw [hw.2.1]
      exact hu
    · rw [ha]

/-- Witness for C23 on the armed sample device: the first call performs the
twelve reset writes, and after the second call the log still holds exactly
these twelve writes. -/
theorem dig_zero_sta_reset_once_witness :
    digDevArmed.total_sta_assoc = 0 ∧ digDevArmed.dig.reset = true ∧
    (rtw89_phy_dig simOps enumsStd digStd digDevArmed).hw.log =
      [RegAccess.write true 0x4668 0x7000000 6, RegAccess.write true 0x4734 0x7000000 6,
       RegAccess.write true 0x4674 0x20000 1, RegAccess.write true 0x4740 0x20000 1,
       RegAccess.write true 0x4658 0x7c00 31, RegAccess.write true 0x4724 0x7c00 31,
       RegAccess.write true 0x481c 0x3e0 0, RegAccess.write true 0x481c 0x20000000 0,
       RegAccess.write true 0x46a0 0x20 0, RegAccess.write true 0x46a4 0x20 0,
       RegAccess.write true 0x4774 0x20 0, RegAccess.write true 0x4778 0x20 0] ∧
    (rtw89_phy_dig simOps enumsStd digStd digDevArmed).dig.reset = false ∧
    rtw89_phy_dig simOps enumsStd digStd (rtw89_phy_dig simOps enumsStd digStd digDevArmed) =
      rtw89_phy_dig simOps enumsStd digStd digDevArmed :=
  ⟨rfl, rfl, by decide, by decide,
   ((dig_zero_sta_reset_once simOps enumsStd digStd digDevArmed rfl).2 rfl).2.2⟩

/-- The offset left by `rtw89_phy_dig_igi_offset_by_env` is at most
`IGI_OFFSET_MAX`. -/
theorem dig_igi_offset_le (dig : rtw89_dig_info) :
    (rtw89_phy_dig_igi_offset_by_env dig).fa_rssi_ofst ≤ 25 := by
  unfold rtw89_phy_dig_igi_offset_by_env
  simp only []
  have h : u8 IGI_OFFSET_MAX = 25 := by decide
  rw [h]
  exact Nat.min_le_right _ _

/-- The function `rtw89_phy_dig_dyn_pd_th` changes only `dyn_pd_th_max` and
the hardware. -/
theorem dig_dyn_pd_th_frame {H : Type} (ops : RegOps H) (e : TxpwrEnums) (g : DigDefs)
    (d : DigDev H) (rssi : Nat) (enable : Bool) :
    (rtw89_phy_dig_dyn_pd_th ops e g d rssi enable).dig =
      { d.dig with dyn_pd_th_max := d.dig.igi_rssi } := by
  simp [rtw89_phy_dig_dyn_pd_th]

/-- The IGI fields after a tick of `rtw89_phy_dig` with at least one station
are those computed by `dig_igi_bounds`. -/
theorem dig_tick_fields {H : Type} (ops : RegOps H) (e : TxpwrEnums) (g : DigDefs)
    (d : DigDev H) (hsta : u8 d.total_sta_assoc ≠ 0) (dig0 : rtw89_dig_info)
    (hdig0 : dig0 = rtw89_phy_dig_igi_offset_by_env
      (rtw89_phy_dig_noisy_level_decision g d.env { d.dig with reset := true })) :
    (rtw89_phy_dig ops e g d).dig.igi_rssi =
      (if u8 (u8 d.rssi_min >>> 1) > 0 then u8 (u8 d.rssi_min >>> 1) else d.dig.igi_rssi) ∧
    (rtw89_phy_dig ops e g d).dig.fa_rssi_ofst = dig0.fa_rssi_ofst ∧
    (rtw89_phy_dig ops e g d).dig.dyn_igi_min =
      (dig_igi_bounds (if u8 (u8 d.rssi_min >>> 1) > 0 then
        { dig0 with igi_rssi := u8 (u8 d.rssi_min >>> 1) } else dig0)).dyn_igi_min ∧
    (rtw89_phy_dig ops e g d).dig.dyn_igi_max =
      (dig_igi_bounds (if u8 (u8 d.rssi_min >>> 1) > 0 then
        { dig0 with igi_rssi := u8 (u8 d.rssi_min >>> 1) } else dig0)).dyn_igi_max ∧
    (rtw89_phy_dig ops e g d).dig.igi_fa_rssi =
      (dig_igi_bounds (if u8 (u8 d.rssi_min >>> 1) > 0 then
        { dig0 with igi_rssi := u8 (u8 d.rssi_min >>> 1) } else dig0)).igi_fa_rssi := by
  subst hdig0
  simp only [rtw89_phy_dig, hsta, if_false]
  split_ifs <;>
    simp [dig_dyn_pd_th_frame, dig_igi_bounds, rtw89_phy_dig_igi_offset_by_env,
      rtw89_phy_dig_noisy_level_decision]

/-- The IGI bounds computed by `dig_igi_bounds` when the `u8` sums do not
wrap. -/
theorem dig_igi_bounds_spec (dig : rtw89_dig_info) (hig : dig.igi_rssi ≤ 240)
    (hofs : dig.fa_rssi_ofst ≤ 25) :
    ((dig_igi_bounds dig).dyn_igi_min : Int) = max 0 ((dig.igi_rssi : Int) - 10) ∧
    (dig_igi_bounds dig).dyn_igi_max = (dig_igi_bounds dig).dyn_igi_min + 25 ∧
    (dig_igi_bounds dig).igi_fa_rssi =
      min (max ((dig_igi_bounds dig).dyn_igi_min + dig.fa_rssi_ofst)
        (dig_igi_bounds dig).dyn_igi_min) (dig_igi_bounds dig).dyn_igi_max ∧
    (dig_igi_bounds dig).dyn_igi_min ≤ (dig_igi_bounds dig).igi_fa_rssi ∧
    (dig_igi_bounds dig).igi_fa_rssi ≤ (dig_igi_bounds dig).dyn_igi_max := by
  simp only [dig_igi_bounds, IGI_RSSI_MIN, IGI_OFFSET_MAX, u8]
  generalize dig.igi_rssi = a at hig
  generalize dig.fa_rssi_ofst = o at hofs
  refine ⟨?_, ?_, ?_, ?_, ?_⟩ <;> split_ifs <;> omega

/-- C24 (as stated) fails for `r = 0`: on the sample device with one station,
`ch_info.rssi_min = 0` and `igi_rssi = 50` left by an earlier tick, the tick
keeps `igi_rssi = 50` and sets `dyn_igi_min = 40`, not `max(0, 0 - 10) = 0`. -/
theorem dig_rssi_zero_keeps_igi :
    digDevNoRssi.total_sta_assoc = 1 ∧ u8 digDevNoRssi.rssi_min >>> 1 = 0 ∧
    (rtw89_phy_dig simOps enumsStd digStd digDevNoRssi).dig.igi_rssi = 50 ∧
    (rtw89_phy_dig simOps enumsStd digStd digDevNoRssi).dig.dyn_igi_min = 40 ∧
    (rtw89_phy_dig simOps enumsStd digStd digDevNoRssi).dig.dyn_igi_max = 65 ∧
    max (0 : Int) (0 - 10) = 0 ∧
    ((rtw89_phy_dig simOps enumsStd digStd digDevNoRssi).dig.dyn_igi_min : Int) ≠
      max (0 : Int) (((u8 digDevNoRssi.rssi_min >>> 1 : Nat) : Int) - 10) := by
  decide

/-- C24 (amended): after a tick of `rtw89_phy_dig` with at least one station
and `r = ch_info.rssi_min >> 1`, `igi_rssi` is `r` when `r > 0` and keeps its
previous value when `r = 0` (assumed at most 240 then, so that the `u8` sum
does not wrap); with that value of `igi_rssi` the DIG state satisfies
`dyn_igi_min = max(0, igi_rssi - 10)`, `dyn_igi_max = dyn_igi_min + 25` and
`igi_fa_rssi = clamp(dyn_igi_min + fa_rssi_ofst, dyn_igi_min, dyn_igi_max)`, so
`dyn_igi_min <= igi_fa_rssi <= dyn_igi_max`. -/
theorem dig_igi_window {H : Type} (ops : RegOps H) (e : TxpwrEnums) (g : DigDefs)
    (d : DigDev H) (hsta : u8 d.total_sta_assoc ≠ 0)
    (hig : u8 d.rssi_min >>> 1 = 0 → d.dig.igi_rssi ≤ 240) :
    (rtw89_phy_dig ops e g d).dig.igi_rssi =
      (if 0 < u8 d.rssi_min >>> 1 then u8 d.rssi_min >>> 1 else d.dig.igi_rssi) ∧
    ((rtw89_phy_dig ops e g d).dig.dyn_igi_min : Int) =
      max 0 (((rtw89_phy_dig ops e g d).dig.igi_rssi : Int) - 10) ∧
    (rtw89_phy_dig ops e g d).dig.dyn_igi_max =
      (rtw89_phy_dig ops e g d).dig.dyn_igi_min + 25 ∧
    (rtw89_phy_dig ops e g d).dig.igi_fa_rssi =
      min (max ((rtw89_phy_dig ops e g d).dig.dyn_igi_min +
          (rtw89_phy_dig ops e g d).dig.fa_rssi_ofst)
        (rtw89_phy_dig ops e g d).dig.dyn_igi_min)
        (rtw89_phy_dig ops e g d).dig.dyn_igi_max ∧
    (rtw89_phy_dig ops e g d).dig.dyn_igi_min ≤ (rtw89_phy_dig ops e g d).dig.igi_fa_rssi ∧
    (rtw89_phy_dig ops e g d).dig.igi_fa_rssi ≤ (rtw89_phy_dig ops e g d).dig.dyn_igi_max := by
  obtain ⟨f1, f2, f3, f4, f5⟩ := dig_tick_fields ops e g d hsta _ rfl
  have hofs := dig_igi_offset_le
    (rtw89_phy_dig_noisy_level_decision g d.env { d.dig with reset := true })
  have hr : u8 (u8 d.rssi_min >>> 1) = u8 d.rssi_min >>> 1 := by
    rw [Nat.shiftRight_eq_div_pow]
    unfold u8
    omega
  have hr127 : u8 d.rssi_min >>> 1 ≤ 127 := by
    rw [Nat.shiftRight_eq_div_pow]
    unfold u8
    omega
  rw [hr] at f1 f3 f4 f5
  rw [f1, f2, f3, f4, f5]
  by_cases h0 : 0 < u8 d.rssi_min >>> 1
  · have hgt : u8 d.rssi_min >>> 1 > 0 := h0
    simp only [hgt, h0, if_true]
    have hs := dig_igi_bounds_spec
      { rtw89_phy_dig_igi_offset_by_env
          (rtw89_phy_dig_noisy_level_decision g d.env { d.dig with reset := true }) with
        igi_rssi := u8 d.rssi_min >>> 1 } (by show u8 d.rssi_min >>> 1 ≤ 240; omega) hofs
    exact ⟨trivial, hs⟩
  · have hgt : ¬ u8 d.rssi_min >>> 1 > 0 := h0
    simp only [hgt, h0, if_false]
    have hs := dig_igi_bounds_spec
      (rtw89_phy_dig_igi_offset_by_env
        (rtw89_phy_dig_noisy_level_decision g d.env { d.dig with reset := true }))
      (hig (by omega)) hofs
    exact ⟨trivial, hs⟩

/-- Witness for C24 (amended) on the sample device with `ch_info.rssi_min = 90`
(`r = 45`) and stored offset 4: `dyn_igi_min = 35`, `dyn_igi_max = 60` and
`igi_fa_rssi` lies between them. -/
theorem dig_igi_window_witness :
    u8 digDevRssi.total_sta_assoc ≠ 0 ∧ u8 digDevRssi.rssi_min >>> 1 = 45 ∧
    (rtw89_phy_dig simOps enumsStd digStd digDevRssi).dig.igi_rssi = 45 ∧
    (rtw89_phy_dig simOps enumsStd digStd digDevRssi).dig.dyn_igi_min = 35 ∧
    (rtw89_phy_dig simOps enumsStd digStd digDevRssi).dig.dyn_igi_max =
      (rtw89_phy_dig simOps enumsStd digStd digDevRssi).dig.dyn_igi_min + 25 ∧
    (rtw89_phy_dig simOps enumsStd digStd digDevRssi).dig.dyn_igi_min ≤
      (rtw89_phy_dig simOps enumsStd digStd digDevRssi).dig.igi_fa_rssi :=
  ⟨by decide, by decide, by decide, by decide,
   (dig_igi_window simOps enumsStd digStd digDevRssi (by decide) (by decide)).2.2.1,
   (dig_igi_window simOps enumsStd digStd digDevRssi (by decide) (by decide)).2.2.2.2.1⟩

/-! ## Claims of the last group -/

/-- The value returned by `rtw89_phy_ra_mask_rssi` is one of six constants. -/
theorem ra_mask_rssi_values (rssi ratr_state : Nat) :
    rtw89_phy_ra_mask_rssi rssi ratr_state = 0xffffffffffffffff ∨
    rtw89_phy_ra_mask_rssi rssi ratr_state = 0xfffffffffffffff0 ∨
    rtw89_phy_ra_mask_rssi rssi ratr_state = 0xffffffffffffffe0 ∨
    rtw89_phy_ra_mask_rssi rssi ratr_state = 0xffffffffffffffc0 ∨
    rtw89_phy_ra_mask_rssi rssi ratr_state = 0xffffffffffffff80 ∨
    rtw89_phy_ra_mask_rssi rssi ratr_state = 0xffffffffffffff00 := by
  unfold rtw89_phy_ra_mask_rssi
  simp only []
  split_ifs <;> simp

/-- C36: with `ratr_state = 0` and `h = rssi >> 1` (`rssi` a `u8`),
`rtw89_phy_ra_mask_rssi` returns all-ones for `h < 33`, `~0xf` for
`33 <= h < 47`, `~0x1f` for `47 <= h < 51`, `~0x3f` for `51 <= h < 55`, `~0x7f`
for `55 <= h < 59`, `~0xff` for `59 <= h < 103` and all-ones for `h >= 103`;
for every `rssi` and `ratr_state` the result is one of these six 64-bit values,
so bits 8..63 are all set. -/
theorem ra_mask_rssi_table (rssi ratr_state : Nat) :
    rtw89_phy_ra_mask_rssi rssi 0 =
      (if u8 rssi >>> 1 < 33 then 0xffffffffffffffff
       else if u8 rssi >>> 1 < 47 then 0xfffffffffffffff0
       else if u8 rssi >>> 1 < 51 then 0xffffffffffffffe0
       else if u8 rssi >>> 1 < 55 then 0xffffffffffffffc0
       else if u8 rssi >>> 1 < 59 then 0xffffffffffffff80
       else if u8 rssi >>> 1 < 103 then 0xffffffffffffff00
       else 0xffffffffffffffff) ∧
    rtw89_phy_ra_mask_rssi rssi ratr_state &&& 0xffffffffffffff00 = 0xffffffffffffff00 ∧
    (rtw89_phy_ra_mask_rssi rssi ratr_state = 0xffffffffffffffff ∨
     rtw89_phy_ra_mask_rssi rssi ratr_state = 0xfffffffffffffff0 ∨
     rtw89_phy_ra_mask_rssi rssi ratr_state = 0xffffffffffffffe0 ∨
     rtw89_phy_ra_mask_rssi rssi ratr_state = 0xffffffffffffffc0 ∨
     rtw89_phy_ra_mask_rssi rssi ratr_state = 0xffffffffffffff80 ∨
     rtw89_phy_ra_mask_rssi rssi ratr_state = 0xffffffffffffff00) := by
  have hs : u8 rssi >>> 1 = rssi % 256 / 2 := by
    rw [Nat.shiftRight_eq_div_pow]
    rfl
  refine ⟨?_, ?_, ra_mask_rssi_values rssi ratr_state⟩
  · rw [hs]
    exact ra_mask_rssi_bands rssi
  · rcases ra_mask_rssi_values rssi ratr_state with h | h | h | h | h | h <;> rw [h] <;> decide

/-- C32: for a stored offset in 0..25 and a noisy level in 0..4,
`rtw89_phy_dig_igi_offset_by_env` sets `fa_rssi_ofst` to 0 when the stored
offset is below 2 and to `min(stored offset + 2*noisy_level, 25)` otherwise,
leaving the noisy level as it is; and for every input at all the offset after
the call is at most 25. -/
theorem dig_igi_offset_formula (dig : rtw89_dig_info) (hofs : dig.fa_rssi_ofst ≤ 25)
    (hlo : 0 ≤ dig.cur_noisy_lv) (hhi : dig.cur_noisy_lv ≤ 4) :
    (((rtw89_phy_dig_igi_offset_by_env dig).fa_rssi_ofst : Int) =
      (if dig.fa_rssi_ofst < 2 then 0
       else min ((dig.fa_rssi_ofst : Int) + 2 * dig.cur_noisy_lv) 25)) ∧
    (rtw89_phy_dig_igi_offset_by_env dig).cur_noisy_lv = dig.cur_noisy_lv ∧
    (∀ any : rtw89_dig_info, (rtw89_phy_dig_igi_offset_by_env any).fa_rssi_ofst ≤ 25) := by
  refine ⟨?_, rfl, dig_igi_offset_le⟩
  simp only [rtw89_phy_dig_igi_offset_by_env, IGI_OFFSET_MUL, IGI_OFFSET_MAX, u8, u8_of_int]
  generalize dig.fa_rssi_ofst = o at hofs
  generalize dig.cur_noisy_lv = lv at hlo hhi
  have ho : o % 256 = o := by omega
  rw [ho]
  by_cases h2 : o < 2
  · simp [h2]
  · simp only [h2, if_false]
    have hmod : ((o : Int) + lv * ((2 : Nat) : Int)) % 256 = (o : Int) + lv * 2 := by
      push_cast
      omega
    rw [hmod]
    have hnn : 0 ≤ (o : Int) + lv * 2 := by omega
    obtain ⟨n, hn⟩ := Int.eq_ofNat_of_zero_le hnn
    rw [hn, Int.toNat_ofNat]
    have hn2 : n % 256 = n := by omega
    rw [hn2]
    have h25 : (25 : Nat) % 256 = 25 := rfl
    rw [h25]
    rcases Nat.le_total n 25 with h | h
    · rw [Nat.min_eq_left h]
      omega
    · rw [Nat.min_eq_right h]
      omega

/-- Witness for C32: stored offset 10 at noisy level 3 gives 16, stored offset
22 at level 4 saturates at 25, and stored offset 1 gives 0. -/
theorem dig_igi_offset_formula_witness :
    (rtw89_phy_dig_igi_offset_by_env { digInit with fa_rssi_ofst := 10, cur_noisy_lv := 3 }
      ).fa_rssi_ofst = 16 ∧
    (rtw89_phy_dig_igi_offset_by_env { digInit with fa_rssi_ofst := 22, cur_noisy_lv := 4 }
      ).fa_rssi_ofst = 25 ∧
    (rtw89_phy_dig_igi_offset_by_env { digInit with fa_rssi_ofst := 1, cur_noisy_lv := 4 }
      ).fa_rssi_ofst = 0 ∧
    (((rtw89_phy_dig_igi_offset_by_env
        { digInit with fa_rssi_ofst := 10, cur_noisy_lv := 3 }).fa_rssi_ofst : Int) =
      (if (10 : Nat) < 2 then 0 else min (((10 : Nat) : Int) + 2 * 3) 25)) :=
  ⟨by decide, by decide, by decide,
   (dig_igi_offset_formula { digInit with fa_rssi_ofst := 10, cur_noisy_lv := 3 }
      (by decide) (by decide) (by decide)).1⟩

/-- The shift `x >> 1` of an `int` is the floor of `x / 2`. -/
theorem int_shr_one (x : Int) : x >>> (1 : Int) = x / 2 := by
  cases x with
  | ofNat m =>
    have h := Int.shiftRight_coe_nat m 1
    simp only [Nat.cast_one] at h
    rw [Int.ofNat_eq_coe, h, Nat.shiftRight_eq_div_pow]
    norm_num
  | negSucc m =>
    have h := Int.shiftRight_negSucc m 1
    simp only [Nat.cast_one] at h
    rw [h, Nat.shiftRight_eq_div_pow, Int.negSucc_eq, Int.negSucc_eq]
    push_cast
    omega

/-- The index computed from the distance of the primary channel to the
centre. -/
theorem txsc_offset_idx (c k : Nat) (hk : k ≤ 14) (hc : c + k ≤ 255) :
    (k ≥ 1 → u8 (c + k) > u8 c ∧
      u8_of_int ((((u8 (c + k) : Nat) : Int) - ((u8 c : Nat) : Int)) >>> 1) = k / 2) ∧
    (k ≤ c → ¬ u8 (c - k) > u8 c ∧
      u8_of_int (((((u8 c : Nat) : Int) - ((u8 (c - k) : Nat) : Int)) >>> 1) + 1) = k / 2 + 1) := by
  have h1 : u8 c = c := u8_of_lt c (by omega)
  have h2 : u8 (c + k) = c + k := u8_of_lt _ (by omega)
  have h3 : u8 (c - k) = c - k := u8_of_lt _ (by omega)
  rw [h1, h2, h3]
  simp only [u8_of_int, int_shr_one]
  constructor
  · intro hk1
    refine ⟨by omega, ?_⟩
    omega
  · intro hkc
    refine ⟨by omega, ?_⟩
    omega

/-- C40: with the constants of `enum rtw89_bandwidth` distinct (the case
labels of the `switch`), `rtw89_phy_get_txsc` returns 0 whenever the data
bandwidth equals the channel bandwidth or the channel bandwidth is 20 MHz; for
an 80 MHz channel with
20 MHz data bandwidth the primary channels `center-6`, `center-2`, `center+2`,
`center+6` give 4, 2, 1, 3; for a 160 MHz channel with 20 MHz data bandwidth the
primary channels `center+2`, `+6`, `+10`, `+14` give 1, 3, 5, 7 and `center-2`,
`-6`, `-10`, `-14` give 2, 4, 6, 8 (eight distinct values, all of 1..8).  The
channel numbers are `u8` values (`14 <= center`, `center + 14 <= 255`). -/
theorem get_txsc_indices (e : TxpwrEnums) (w : WideBwEnums) (center : Nat)
    (h28 : e.RTW89_CHANNEL_WIDTH_20 ≠ e.RTW89_CHANNEL_WIDTH_80)
    (h48 : e.RTW89_CHANNEL_WIDTH_40 ≠ e.RTW89_CHANNEL_WIDTH_80)
    (h216 : e.RTW89_CHANNEL_WIDTH_20 ≠ w.RTW89_CHANNEL_WIDTH_160)
    (h416 : e.RTW89_CHANNEL_WIDTH_40 ≠ w.RTW89_CHANNEL_WIDTH_160)
    (h816 : e.RTW89_CHANNEL_WIDTH_80 ≠ w.RTW89_CHANNEL_WIDTH_160)
    (hlo : 14 ≤ center) (hhi : center + 14 ≤ 255) :
    (∀ (param : rtw89_channel_params) (dbw : Nat),
      param.bandwidth = dbw ∨ param.bandwidth = e.RTW89_CHANNEL_WIDTH_20 →
      rtw89_phy_get_txsc e w param dbw = 0) ∧
    (rtw89_phy_get_txsc e w ⟨e.RTW89_CHANNEL_WIDTH_80, center - 6, center⟩
        e.RTW89_CHANNEL_WIDTH_20 = 4 ∧
     rtw89_phy_get_txsc e w ⟨e.RTW89_CHANNEL_WIDTH_80, center - 2, center⟩
        e.RTW89_CHANNEL_WIDTH_20 = 2 ∧
     rtw89_phy_get_txsc e w ⟨e.RTW89_CHANNEL_WIDTH_80, center + 2, center⟩
        e.RTW89_CHANNEL_WIDTH_20 = 1 ∧
     rtw89_phy_get_txsc e w ⟨e.RTW89_CHANNEL_WIDTH_80, center + 6, center⟩
        e.RTW89_CHANNEL_WIDTH_20 = 3) ∧
    (rtw89_phy_get_txsc e w ⟨w.RTW89_CHANNEL_WIDTH_160, center + 2, center⟩
        e.RTW89_CHANNEL_WIDTH_20 = 1 ∧
     rtw89_phy_get_txsc e w ⟨w.RTW89_CHANNEL_WIDTH_160, center - 2, center⟩
        e.RTW89_CHANNEL_WIDTH_20 = 2 ∧
     rtw89_phy_get_txsc e w ⟨w.RTW89_CHANNEL_WIDTH_160, center + 6, center⟩
        e.RTW89_CHANNEL_WIDTH_20 = 3 ∧
     rtw89_phy_get_txsc e w ⟨w.RTW89_CHANNEL_WIDTH_160, center - 6, center⟩
        e.RTW89_CHANNEL_WIDTH_20 = 4 ∧
     rtw89_phy_get_txsc e w ⟨w.RTW89_CHANNEL_WIDTH_160, center + 10, center⟩
        e.RTW89_CHANNEL_WIDTH_20 = 5 ∧
     rtw89_phy_get_txsc e w ⟨w.RTW89_CHANNEL_WIDTH_160, center - 10, center⟩
        e.RTW89_CHANNEL_WIDTH_20 = 6 ∧
     rtw89_phy_get_txsc e w ⟨w.RTW89_CHANNEL_WIDTH_160, center + 14, center⟩
        e.RTW89_CHANNEL_WIDTH_20 = 7 ∧
     rtw89_phy_get_txsc e w ⟨w.RTW89_CHANNEL_WIDTH_160, center - 14, center⟩
        e.RTW89_CHANNEL_WIDTH_20 = 8) := by
  have up : ∀ k, 1 ≤ k → k ≤ 14 → u8 (center + k) > u8 center ∧
      u8_of_int ((((u8 (center + k) : Nat) : Int) - ((u8 center : Nat) : Int)) >>> 1) = k / 2 :=
    fun k h1 h14 => (txsc_offset_idx center k h14 (by omega)).1 h1
  have dn : ∀ k, k ≤ 14 → ¬ u8 (center - k) > u8 center ∧
      u8_of_int (((((u8 center : Nat) : Int) - ((u8 (center - k) : Nat) : Int)) >>> 1) + 1)
        = k / 2 + 1 :=
    fun k h14 => (txsc_offset_idx center k h14 (by omega)).2 (by omega)
  refine ⟨?_, ⟨?_, ?_, ?_, ?_⟩, ⟨?_, ?_, ?_, ?_, ?_, ?_, ?_, ?_⟩⟩
  · intro param dbw h
    simp [rtw89_phy_get_txsc, h]
  · simp [rtw89_phy_get_txsc, h28.symm, h48.symm, dn 6 (by omega)]
  · simp [rtw89_phy_get_txsc, h28.symm, h48.symm, dn 2 (by omega)]
  · simp [rtw89_phy_get_txsc, h28.symm, h48.symm, up 2 (by omega) (by omega)]
  · simp [rtw89_phy_get_txsc, h28.symm, h48.symm, up 6 (by omega) (by omega)]
  · simp [rtw89_phy_get_txsc, h216.symm, h416.symm, h816.symm, up 2 (by omega) (by omega)]
  · simp [rtw89_phy_get_txsc, h216.symm, h416.symm, h816.symm, dn 2 (by omega)]
  · simp [rtw89_phy_get_txsc, h216.symm, h416.symm, h816.symm, up 6 (by omega) (by omega)]
  · simp [rtw89_phy_get_txsc, h216.symm, h416.symm, h816.symm, dn 6 (by omega)]
  · simp [rtw89_phy_get_txsc, h216.symm, h416.symm, h816.symm, up 10 (by omega) (by omega)]
  · simp [rtw89_phy_get_txsc, h216.symm, h416.symm, h816.symm, dn 10 (by omega)]
  · simp [rtw89_phy_get_txsc, h216.symm, h416.symm, h816.symm, up 14 (by omega) (by omega)]
  · simp [rtw89_phy_get_txsc, h216.symm, h416.symm, h816.symm, dn 14 (by omega)]

/-- Witness for C40 with the sample constants: the 80 MHz channel centred at 42
with primary channel 36 gives 4, and the 160 MHz channel centred at 50 with
primary channel 64 gives 7. -/
theorem get_txsc_indices_witness :
    rtw89_phy_get_txsc enumsStd wideStd ⟨2, 36, 42⟩ 0 = 4 ∧
    rtw89_phy_get_txsc enumsStd wideStd ⟨3, 64, 50⟩ 0 = 7 ∧
    rtw89_phy_get_txsc enumsStd wideStd
      ⟨enumsStd.RTW89_CHANNEL_WIDTH_80, 42 - 6, 42⟩ enumsStd.RTW89_CHANNEL_WIDTH_20 = 4 :=
  ⟨by decide, by decide,
   (get_txsc_indices enumsStd wideStd 42 (by decide) (by decide) (by decide) (by decide)
      (by decide) (by decide) (by decide)).2.1.1⟩

/-- The register value computed by `rtw89_phy_dig_dyn_pd_th` from a clamped
`final_rssi`. -/
theorem pd_th_val (f u mn : Nat) (hle : mn + u ≤ f) (hf : f < 256) :
    int_bits (((f : Int) - (u : Int) - (mn : Int)) >>> 1) = (f - u - mn) / 2 := by
  rw [int_shr_one]
  have hx : ((f : Int) - (u : Int) - (mn : Int)) / 2 = (((f - u - mn) / 2 : Nat) : Int) := by
    push_cast
    omega
  rw [hx]
  unfold int_bits
  have hm : (((f - u - mn) / 2 : Nat) : Int) % 2 ^ 32 = (((f - u - mn) / 2 : Nat) : Int) := by
    omega
  rw [hm, Int.toNat_ofNat]

/-- C33 (as stated) fails: on the sample device (`igi_rssi = 30`,
`pd_low_th_ofst = 6`, 20 MHz, so `under = 13`, bounds 21 and 83) the call with
`rssi = 60` and the threshold enabled writes 4 to the lower-bound field, the
value for `min(rssi, igi_rssi) = 30`, not `(clamp(60, 21, 83) - 21) / 2 = 19`. -/
theorem dyn_pd_th_uses_igi_rssi :
    pd_th_under enumsStd digStd digDevPd.current_band_width digDevPd.dig.pd_low_th_ofst = 13 ∧
    (clamp_nat 60 (digStd.PD_TH_MIN_RSSI + 13) (digStd.PD_TH_MAX_RSSI + 13) - 13
      - digStd.PD_TH_MIN_RSSI) / 2 = 19 ∧
    (rtw89_phy_dig_dyn_pd_th simOps enumsStd digStd digDevPd 60 true).hw.log =
      [RegAccess.write true 0x481c 0x3e0 4, RegAccess.write true 0x481c 0x20000000 1] ∧
    (rtw89_phy_dig_dyn_pd_th simOps enumsStd digStd digDevPd 60 true).hw.log ≠
      [RegAccess.write true 0x481c 0x3e0 19, RegAccess.write true 0x481c 0x20000000 1] := by
  decide

/-- C33 (amended): with `under = pd_low_th_ofst + PD_TH_SB_FLTR_CMP_VAL + the
bandwidth constant` small enough that the `u8` sums do not wrap
(`under + PD_TH_MAX_RSSI <= 255`) and `PD_TH_MIN_RSSI <= PD_TH_MAX_RSSI`,
`rtw89_phy_dig_dyn_pd_th` writes to the lower-bound field the value
`(clamp(min(rssi, igi_rssi), PD_TH_MIN_RSSI + under, PD_TH_MAX_RSSI + under)
- under - PD_TH_MIN_RSSI) / 2` when enabled and 0 when disabled, then the enable
bit; the subtraction does not underflow and the value is at most
`(PD_TH_MAX_RSSI - PD_TH_MIN_RSSI) / 2`. -/
theorem dyn_pd_th_value {H : Type} (ops : RegOps H) (e : TxpwrEnums) (g : DigDefs)
    (d : DigDev H) (rssi : Nat) (enable : Bool)
    (hnw : pd_th_under e g d.current_band_width d.dig.pd_low_th_ofst + g.PD_TH_MAX_RSSI ≤ 255)
    (hmm : g.PD_TH_MIN_RSSI ≤ g.PD_TH_MAX_RSSI) :
    (rtw89_phy_dig_dyn_pd_th ops e g d rssi enable).hw =
      ops.phy_write32_mask
        (ops.phy_write32_mask d.hw g.R_SEG0R_PD g.B_SEG0R_PD_LOWER_BOUND_MSK
          (if enable then
            (clamp_nat (min (u8 rssi) (u8 d.dig.igi_rssi))
              (g.PD_TH_MIN_RSSI + pd_th_under e g d.current_band_width d.dig.pd_low_th_ofst)
              (g.PD_TH_MAX_RSSI + pd_th_under e g d.current_band_width d.dig.pd_low_th_ofst)
              - pd_th_under e g d.current_band_width d.dig.pd_low_th_ofst
              - g.PD_TH_MIN_RSSI) / 2
           else 0))
        g.R_SEG0R_PD g.B_SEG0R_PD_SPATIAL_REUSE_EN_MSK (if enable then 1 else 0) ∧
    g.PD_TH_MIN_RSSI + pd_th_under e g d.current_band_width d.dig.pd_low_th_ofst ≤
      clamp_nat (min (u8 rssi) (u8 d.dig.igi_rssi))
        (g.PD_TH_MIN_RSSI + pd_th_under e g d.current_band_width d.dig.pd_low_th_ofst)
        (g.PD_TH_MAX_RSSI + pd_th_under e g d.current_band_width d.dig.pd_low_th_ofst) ∧
    (clamp_nat (min (u8 rssi) (u8 d.dig.igi_rssi))
        (g.PD_TH_MIN_RSSI + pd_th_under e g d.current_band_width d.dig.pd_low_th_ofst)
        (g.PD_TH_MAX_RSSI + pd_th_under e g d.current_band_width d.dig.pd_low_th_ofst)
        - pd_th_under e g d.current_band_width d.dig.pd_low_th_ofst
        - g.PD_TH_MIN_RSSI) / 2 ≤ (g.PD_TH_MAX_RSSI - g.PD_TH_MIN_RSSI) / 2 := by
  -- the `u8` value of `under_region`
  have hunder : (if d.current_band_width = e.RTW89_CHANNEL_WIDTH_40 then
        u8 (u8 (u8 d.dig.pd_low_th_ofst + g.PD_TH_SB_FLTR_CMP_VAL) + g.PD_TH_BW40_CMP_VAL)
      else if d.current_band_width = e.RTW89_CHANNEL_WIDTH_80 then
        u8 (u8 (u8 d.dig.pd_low_th_ofst + g.PD_TH_SB_FLTR_CMP_VAL) + g.PD_TH_BW80_CMP_VAL)
      else u8 (u8 (u8 d.dig.pd_low_th_ofst + g.PD_TH_SB_FLTR_CMP_VAL) + g.PD_TH_BW20_CMP_VAL))
      = pd_th_under e g d.current_band_width d.dig.pd_low_th_ofst := by
    unfold pd_th_under at hnw ⊢
    unfold u8
    split_ifs at hnw ⊢ <;> omega
  generalize pd_th_under e g d.current_band_width d.dig.pd_low_th_ofst = u at hnw hunder
  have hlo : u8 (g.PD_TH_MIN_RSSI + u) = g.PD_TH_MIN_RSSI + u := u8_of_lt _ (by omega)
  have hhi : u8 (g.PD_TH_MAX_RSSI + u) = g.PD_TH_MAX_RSSI + u := u8_of_lt _ (by omega)
  have hmin : u8 (min (u8 rssi) (u8 d.dig.igi_rssi)) = min (u8 rssi) (u8 d.dig.igi_rssi) := by
    apply u8_of_lt
    have : u8 rssi < 256 := by
      unfold u8
      omega
    exact lt_of_le_of_lt (Nat.min_le_left _ _) this
  have hcl : g.PD_TH_MIN_RSSI + u ≤
      clamp_nat (min (u8 rssi) (u8 d.dig.igi_rssi)) (g.PD_TH_MIN_RSSI + u)
        (g.PD_TH_MAX_RSSI + u) ∧
      clamp_nat (min (u8 rssi) (u8 d.dig.igi_rssi)) (g.PD_TH_MIN_RSSI + u)
        (g.PD_TH_MAX_RSSI + u) ≤ g.PD_TH_MAX_RSSI + u := by
    unfold clamp_nat
    omega
  refine ⟨?_, hcl.1, by omega⟩
  simp only [rtw89_phy_dig_dyn_pd_th, hunder, hlo, hhi, hmin]
  cases enable
  · rfl
  · have hv := pd_th_val
      (clamp_nat (min (u8 rssi) (u8 d.dig.igi_rssi)) (g.PD_TH_MIN_RSSI + u)
        (g.PD_TH_MAX_RSSI + u)) u g.PD_TH_MIN_RSSI hcl.1 (by omega)
    unfold clamp_nat at hv ⊢
    simp only [if_true, hv]

/-- Witness for C33 (amended) on the sample device: with `rssi = 60` and
`igi_rssi = 30` the value written is `(30 - 13 - 8) / 2 = 4`. -/
theorem dyn_pd_th_value_witness :
    pd_th_under enumsStd digStd digDevPd.current_band_width digDevPd.dig.pd_low_th_ofst
      + digStd.PD_TH_MAX_RSSI ≤ 255 ∧
    (clamp_nat (min (u8 60) (u8 digDevPd.dig.igi_rssi))
        (digStd.PD_TH_MIN_RSSI
          + pd_th_under enumsStd digStd digDevPd.current_band_width digDevPd.dig.pd_low_th_ofst)
        (digStd.PD_TH_MAX_RSSI
          + pd_th_under enumsStd digStd digDevPd.current_band_width digDevPd.dig.pd_low_th_ofst)
        - pd_th_under enumsStd digStd digDevPd.current_band_width digDevPd.dig.pd_low_th_ofst
        - digStd.PD_TH_MIN_RSSI) / 2 = 4 ∧
    (clamp_nat (min (u8 60) (u8 digDevPd.dig.igi_rssi))
        (digStd.PD_TH_MIN_RSSI
          + pd_th_under enumsStd digStd digDevPd.current_band_width digDevPd.dig.pd_low_th_ofst)
        (digStd.PD_TH_MAX_RSSI
          + pd_th_under enumsStd digStd digDevPd.current_band_width digDevPd.dig.pd_low_th_ofst)
        - pd_th_under enumsStd digStd digDevPd.current_band_width digDevPd.dig.pd_low_th_ofst
        - digStd.PD_TH_MIN_RSSI) / 2 ≤ (digStd.PD_TH_MAX_RSSI - digStd.PD_TH_MIN_RSSI) / 2 :=
  ⟨by decide, by decide,
   (dyn_pd_th_value simOps enumsStd digStd digDevPd 60 true (by decide) (by decide)).2.2⟩

/-- Two replays of the same records from the same control state take the same
decisions, whatever the writers and device states; a relation between the
device states that the writers preserve still holds at the end. -/
theorem init_reg_loop_rel {σ1 σ2 : Type} (m : PhyCondDefs)
    (c1 : rtw89_reg2_def → Nat → σ1 → σ1) (c2 : rtw89_reg2_def → Nat → σ2 → σ2)
    (rf_path cfg : Nat) (R : σ1 → σ2 → Prop)
    (hR : ∀ reg p a b, R a b → R (c1 reg p a) (c2 reg p b)) :
    ∀ (l : List rtw89_reg2_def) (i : Nat) (s1 : InitRegState σ1) (s2 : InitRegState σ2),
      s1.target = s2.target → s1.is_matched = s2.is_matched →
      s1.target_found = s2.target_found → s1.returned = s2.returned →
      s1.calls = s2.calls → R s1.dev s2.dev →
      (init_reg_loop m c1 rf_path cfg l i s1).target =
        (init_reg_loop m c2 rf_path cfg l i s2).target ∧
      (init_reg_loop m c1 rf_path cfg l i s1).is_matched =
        (init_reg_loop m c2 rf_path cfg l i s2).is_matched ∧
      (init_reg_loop m c1 rf_path cfg l i s1).target_found =
        (init_reg_loop m c2 rf_path cfg l i s2).target_found ∧
      (init_reg_loop m c1 rf_path cfg l i s1).returned =
        (init_reg_loop m c2 rf_path cfg l i s2).returned ∧
      (init_reg_loop m c1 rf_path cfg l i s1).calls =
        (init_reg_loop m c2 rf_path cfg l i s2).calls ∧
      R (init_reg_loop m c1 rf_path cfg l i s1).dev
        (init_reg_loop m c2 rf_path cfg l i s2).dev := by
  intro l
  induction l with
  | nil =>
    intro i s1 s2 h1 h2 h3 h4 h5 h6
    exact ⟨h1, h2, h3, h4, h5, h6⟩
  | cons r rest ih =>
    intro i s1 s2 h1 h2 h3 h4 h5 h6
    unfold init_reg_loop
    cases hc : phy_cond_case m r with
    | branch =>
      simp only []
      exact ih _ _ _ rfl h2 h3 h4 h5 h6
    | branch_else =>
      simp only []
      by_cases hf : s2.target_found = true
      · have hf1 : s1.target_found = true := h3.trans hf
        rw [hf, hf1]
        simp only [Bool.not_true, Bool.false_eq_true, if_false]
        exact ih _ _ _ h1 rfl rfl h4 h5 h6
      · have hf2 : s2.target_found = false := by simpa using hf
        have hf1 : s1.target_found = false := h3.trans hf2
        rw [hf2, hf1]
        simp only [Bool.not_false, if_true]
        exact ⟨h1, trivial, trivial, trivial, h5, h6⟩
    | branch_end =>
      simp only []
      exact ih _ _ _ h1 rfl rfl h4 h5 h6
    | check =>
      simp only []
      by_cases hf : s2.target_found = true
      · have hf1 : s1.target_found = true := h3.trans hf
        rw [if_pos hf, if_pos hf1]
        exact ih _ _ _ h1 rfl h3 h4 h5 h6
      · have hf1 : ¬ s1.target_found = true := fun h => hf (h3.symm.trans h)
        rw [if_neg hf, if_neg hf1]
        by_cases ht : s2.target = cfg
        · have ht1 : s1.target = cfg := h1.trans ht
          rw [if_pos ht, if_pos ht1]
          exact ih _ _ _ h1 rfl rfl h4 h5 h6
        · have ht1 : ¬ s1.target = cfg := fun h => ht (h1.symm.trans h)
          rw [if_neg ht, if_neg ht1]
          exact ih _ _ _ h1 rfl rfl h4 h5 h6
    | other =>
      simp only []
      by_cases hm : s2.is_matched = true
      · have hm1 : s1.is_matched = true := h2.trans hm
        rw [if_pos hm, if_pos hm1]
        exact ih _ _ _ h1 h2 h3 h4 (by simp [h5]) (hR _ _ _ _ h6)
      · have hm1 : ¬ s1.is_matched = true := fun h => hm (h2.symm.trans h)
        rw [if_neg hm, if_neg hm1]
        exact ih _ _ _ h1 h2 h3 h4 h5 h6

/-- C35: `rtw89_phy_init_reg` replays the program with the headline that
`rtw89_phy_sel_headline` selects for `rfe = 1`, `cut = 1` (and does nothing
when that selection fails); for two devices with the same state `s` and any
RFE types and cut versions, the records passed to the writer, the control state
and the resulting device state are the same, and the RFE type and cut version
are left as they were. -/
theorem init_reg_ignores_variant {σ : Type} (m : PhyCondDefs) (table : rtw89_phy_table)
    (config : rtw89_reg2_def → Nat → σ → σ) (s : σ) (rfe1 cut1 rfe2 cut2 : Nat) :
    (∀ dev : σ, rtw89_phy_init_reg m table config dev =
      (if (rtw89_phy_sel_headline m table 0 1 1).ret ≠ 0 then
        { init_reg_start dev with returned := true }
       else init_reg_loop m config table.rf_path
        (phy_cfg_target m table (rtw89_phy_sel_headline m table 0 1 1).headline_idx)
        (phy_program m table) (phy_headline_size m table) (init_reg_start dev))) ∧
    (rtw89_phy_init_reg m table (config_variant config) ⟨rfe1, cut1, s⟩).calls =
      (rtw89_phy_init_reg m table (config_variant config) ⟨rfe2, cut2, s⟩).calls ∧
    (rtw89_phy_init_reg m table (config_variant config) ⟨rfe1, cut1, s⟩).returned =
      (rtw89_phy_init_reg m table (config_variant config) ⟨rfe2, cut2, s⟩).returned ∧
    (rtw89_phy_init_reg m table (config_variant config) ⟨rfe1, cut1, s⟩).dev.st =
      (rtw89_phy_init_reg m table (config_variant config) ⟨rfe2, cut2, s⟩).dev.st ∧
    (rtw89_phy_init_reg m table (config_variant config) ⟨rfe1, cut1, s⟩).calls =
      (rtw89_phy_init_reg m table config s).calls ∧
    (rtw89_phy_init_reg m table (config_variant config) ⟨rfe1, cut1, s⟩).dev.st =
      (rtw89_phy_init_reg m table config s).dev ∧
    (rtw89_phy_init_reg m table (config_variant config) ⟨rfe1, cut1, s⟩).dev.rfe_type = rfe1 ∧
    (rtw89_phy_init_reg m table (config_variant config) ⟨rfe1, cut1, s⟩).dev.cv = cut1 := by
  have hhead : ∀ {τ : Type} (cf : rtw89_reg2_def → Nat → τ → τ) (dev : τ),
      rtw89_phy_init_reg m table cf dev =
        (if (rtw89_phy_sel_headline m table 0 1 1).ret ≠ 0 then
          { init_reg_start dev with returned := true }
         else init_reg_loop m cf table.rf_path
          (phy_cfg_target m table (rtw89_phy_sel_headline m table 0 1 1).headline_idx)
          (phy_program m table) (phy_headline_size m table) (init_reg_start dev)) := by
    intro τ cf dev
    by_cases hsel : (rtw89_phy_sel_headline m table 0 1 1).ret = 0
    · rw [init_reg_eq_loop m cf table dev hsel]
      simp [hsel]
    · rw [init_reg_fail m cf table dev hsel]
      simp [hsel]
  refine ⟨fun dev => hhead config dev, ?_⟩
  rw [hhead (config_variant config) ⟨rfe1, cut1, s⟩, hhead (config_variant config) ⟨rfe2, cut2, s⟩,
    hhead config s]
  by_cases hsel : (rtw89_phy_sel_headline m table 0 1 1).ret = 0
  · simp only [hsel, ne_eq, not_true_eq_false, if_false]
    have h12 := init_reg_loop_rel m (config_variant config) (config_variant config) table.rf_path
      (phy_cfg_target m table (rtw89_phy_sel_headline m table 0 1 1).headline_idx)
      (fun a b => a.st = b.st)
      (fun reg p a b hab => by simp [config_variant, hab])
      (phy_program m table) (phy_headline_size m table)
      (init_reg_start ⟨rfe1, cut1, s⟩) (init_reg_start ⟨rfe2, cut2, s⟩) rfl rfl rfl rfl rfl rfl
    have h1s := init_reg_loop_rel m (config_variant config) config table.rf_path
      (phy_cfg_target m table (rtw89_phy_sel_headline m table 0 1 1).headline_idx)
      (fun a b => a.st = b)
      (fun reg p a b hab => by simp [config_variant, hab])
      (phy_program m table) (phy_headline_size m table)
      (init_reg_start ⟨rfe1, cut1, s⟩) (init_reg_start s) rfl rfl rfl rfl rfl rfl
    have hkeep := init_reg_loop_rel m (config_variant config) config table.rf_path
      (phy_cfg_target m table (rtw89_phy_sel_headline m table 0 1 1).headline_idx)
      (fun a _ => a.rfe_type = rfe1 ∧ a.cv = cut1)
      (fun reg p a b hab => by simpa [config_variant] using hab)
      (phy_program m table) (phy_headline_size m table)
      (init_reg_start ⟨rfe1, cut1, s⟩) (init_reg_start s) rfl rfl rfl rfl rfl ⟨rfl, rfl⟩
    exact ⟨h12.2.2.2.2.1, h12.2.2.2.1, h12.2.2.2.2.2, h1s.2.2.2.2.1, h1s.2.2.2.2.2,
      hkeep.2.2.2.2.2.1, hkeep.2.2.2.2.2.2⟩
  · simp [hsel, init_reg_start]

/-- After an `ELSE` that did not abort (`target_found` set, `is_matched` clear)
the replay of records without `END` applies nothing and keeps both flags. -/
theorem init_reg_loop_after_else {σ : Type} (m : PhyCondDefs)
    (config : rtw89_reg2_def → Nat → σ → σ) (rf_path cfg : Nat) :
    ∀ (l : List rtw89_reg2_def) (i : Nat) (st : InitRegState σ),
      st.returned = false → st.target_found = true → st.is_matched = false →
      (∀ x ∈ l, ¬ isEnd m x) →
      (init_reg_loop m config rf_path cfg l i st).returned = false ∧
      (init_reg_loop m config rf_path cfg l i st).target_found = true ∧
      (init_reg_loop m config rf_path cfg l i st).is_matched = false ∧
      (init_reg_loop m config rf_path cfg l i st).calls = st.calls ∧
      (init_reg_loop m config rf_path cfg l i st).dev = st.dev := by
  intro l
  induction l with
  | nil =>
    intro i st h1 h2 h3 _
    exact ⟨h1, h2, h3, rfl, rfl⟩
  | cons r rest ih =>
    intro i st h1 h2 h3 hl
    have hrest : ∀ x ∈ rest, ¬ isEnd m x := fun x hx => hl x (List.mem_cons_of_mem _ hx)
    have hr : ¬ phy_cond_case m r = CondCase.branch_end := hl r (List.mem_cons_self _ _)
    unfold init_reg_loop
    cases hc : phy_cond_case m r with
    | branch =>
      simp only []
      exact ih _ _ h1 h2 h3 hrest
    | branch_else =>
      simp only [h2, Bool.not_true, Bool.false_eq_true, if_false]
      exact ih _ _ h1 rfl rfl hrest
    | branch_end => exact absurd hc hr
    | check =>
      simp only [h2, if_true]
      exact ih _ _ h1 rfl rfl hrest
    | other =>
      simp only [h3, Bool.false_eq_true, if_false]
      exact ih _ _ h1 h2 h3 hrest

/-- A replay that passes an `ELSE` and then records without `END` ends with
`is_matched` clear, unless it has returned. -/
theorem init_reg_loop_else_prefix {σ : Type} (m : PhyCondDefs)
    (config : rtw89_reg2_def → Nat → σ → σ) (rf_path cfg : Nat)
    (pre mid : List rtw89_reg2_def) (els : rtw89_reg2_def) (i : Nat) (st : InitRegState σ)
    (hst : st.returned = false) (hels : isElse m els) (hmid : ∀ x ∈ mid, ¬ isEnd m x)
    (hret : (init_reg_loop m config rf_path cfg (pre ++ els :: mid) i st).returned = false) :
    (init_reg_loop m config rf_path cfg (pre ++ els :: mid) i st).is_matched = false := by
  rw [init_reg_loop_append m config rf_path cfg pre (els :: mid) i st hst] at hret ⊢
  by_cases h1 : (init_reg_loop m config rf_path cfg pre i st).returned = true
  · rw [if_pos h1] at hret
    rw [h1] at hret
    exact absurd hret (by simp)
  · have h1f : (init_reg_loop m config rf_path cfg pre i st).returned = false := by
      simpa using h1
    rw [if_neg h1] at hret ⊢
    have he : phy_cond_case m els = CondCase.branch_else := hels
    unfold init_reg_loop at hret ⊢
    simp only [he] at hret ⊢
    by_cases hf : (init_reg_loop m config rf_path cfg pre i st).target_found = true
    · have hcond : ¬ ((!(init_reg_loop m config rf_path cfg pre i st).target_found) = true) := by
        simp [hf]
      rw [if_neg hcond]
      exact (init_reg_loop_after_else m config rf_path cfg mid _
        { init_reg_loop m config rf_path cfg pre i st with is_matched := false }
        h1f hf rfl hmid).2.2.1
    · have hff : (init_reg_loop m config rf_path cfg pre i st).target_found = false := by
        simpa using hf
      simp only [hff, Bool.not_false, if_true] at hret
      exact absurd hret (by simp)

/-- C34: for every table whose program holds an `ELSE` opcode `els` followed by
records `mid` without `END` and then a record `r`, the index of `r` is not
among the records that `rtw89_phy_init_reg` passes to the writer: no record
between an `ELSE` and the next `END` is applied, whether or not a branch of the
block matched before the `ELSE`. -/
theorem init_reg_else_branch_skipped {σ : Type} (m : PhyCondDefs) (table : rtw89_phy_table)
    (config : rtw89_reg2_def → Nat → σ → σ) (dev : σ)
    (pre mid post : List rtw89_reg2_def) (els r : rtw89_reg2_def)
    (hprog : phy_program m table = pre ++ els :: (mid ++ r :: post))
    (hels : isElse m els) (hmid : ∀ x ∈ mid, ¬ isEnd m x) :
    phy_headline_size m table + pre.length + 1 + mid.length ∉
      (rtw89_phy_init_reg m table config dev).calls := by
  by_cases hsel : (rtw89_phy_sel_headline m table 0 1 1).ret = 0
  · rw [init_reg_eq_loop m config table dev hsel, hprog]
    intro hj
    have hst : (init_reg_start dev).returned = false := rfl
    have hsplit : pre ++ els :: (mid ++ r :: post) = (pre ++ els :: mid) ++ r :: post := by
      simp
    have hlen : phy_headline_size m table + pre.length + 1 + mid.length =
        phy_headline_size m table + (pre ++ els :: mid).length := by
      simp only [List.length_append, List.length_cons]
      omega
    rw [hsplit, hlen] at hj
    have hc := loop_call_at m config table.rf_path _ (pre ++ els :: mid) r post
      (phy_headline_size m table) (init_reg_start dev) hst
      (by intro j hj2; simp [init_reg_start] at hj2) hj
    have hm := init_reg_loop_else_prefix m config table.rf_path _ pre mid els
      (phy_headline_size m table) (init_reg_start dev) hst hels hmid hc.1
    rw [hm] at hc
    exact absurd hc.2.1 (by simp)
  · rw [init_reg_fail m config table dev hsel]
    simp [init_reg_start]

/-- Witness for C34 on `tableElseAfterMatch` and `tableElseAbort`: the write
after the `ELSE` (index 5 and index 6) is not applied, after a matched branch
as well as when no branch matched. -/
theorem init_reg_else_branch_skipped_witness :
    5 ∉ (rtw89_phy_init_reg phyStd tableElseAfterMatch rtw89_phy_config_bb_reg devEmpty).calls ∧
    (rtw89_phy_init_reg phyStd tableElseAfterMatch rtw89_phy_config_bb_reg devEmpty).calls
      = [3, 7] ∧
    6 ∉ (rtw89_phy_init_reg phyStd tableElseAbort rtw89_phy_config_bb_reg devEmpty).calls ∧
    phy_headline_size phyStd tableElseAfterMatch + 3 + 1 + 0 ∉
      (rtw89_phy_init_reg phyStd tableElseAfterMatch rtw89_phy_config_bb_reg devEmpty).calls :=
  ⟨by decide, by decide, by decide,
   init_reg_else_branch_skipped phyStd tableElseAfterMatch rtw89_phy_config_bb_reg devEmpty
     [⟨0x80010001, 0⟩, ⟨0x40000000, 0⟩, ⟨0x704, 1⟩] [] [⟨0xB0000000, 0⟩, ⟨0x70c, 3⟩]
     ⟨0xA0000000, 0⟩ ⟨0x708, 2⟩ (by decide) (by decide) (by simp)⟩

/-- A fold whose step keeps a projection keeps it over the whole list. -/
theorem foldl_keeps {α β γ : Type} (proj : α → γ) (f : α → β → α)
    (hf : ∀ a b, proj (f a b) = proj a) (l : List β) (a : α) :
    proj (l.foldl f a) = proj a := by
  induction l generalizing a with
  | nil => rfl
  | cons x rest ih => rw [List.foldl_cons, ih, hf]

/-- The function `rtw89_phy_ifs_clm_get_utility` keeps the report stamp. -/
theorem ifs_clm_get_utility_stamp (c : CcxDefs) (env : rtw89_env_monitor_info) :
    (rtw89_phy_ifs_clm_get_utility c env).ccx_rpt_stamp = env.ccx_rpt_stamp := by
  unfold rtw89_phy_ifs_clm_get_utility
  simp only []
  refine (foldl_keeps (fun e : rtw89_env_monitor_info => e.ccx_rpt_stamp) _ ?_ _ _).trans ?_
  · intro a b
    rfl
  · rfl

/-- One counter read keeps the report stamp when its store does. -/
theorem ifs_clm_read_stamp {H : Type} (ops : RegOps H) (d : MonDev H) (addr mask : Nat)
    (put : rtw89_env_monitor_info → Nat → rtw89_env_monitor_info)
    (hput : ∀ e v, (put e v).ccx_rpt_stamp = e.ccx_rpt_stamp) :
    (ifs_clm_read ops d addr mask put).env.ccx_rpt_stamp = d.env.ccx_rpt_stamp :=
  hput _ _

/-- The function `rtw89_phy_ifs_clm_get_result` keeps the report stamp. -/
theorem ifs_clm_get_result_stamp {H : Type} (ops : RegOps H) (c : CcxDefs) (g : CcxRegs)
    (d : MonDev H) :
    (rtw89_phy_ifs_clm_get_result ops c g d).2.env.ccx_rpt_stamp = d.env.ccx_rpt_stamp := by
  unfold rtw89_phy_ifs_clm_get_result
  simp only []
  split_ifs
  · rfl
  · refine (ifs_clm_get_utility_stamp c _).trans ?_
    iterate 19
      refine (ifs_clm_read_stamp ops _ _ _ _ ?_).trans ?_
      · intro e v
        rfl
    rfl

/-- The threshold check changes neither the report stamp nor the stored
application, and reports an update exactly when the application differs. -/
theorem th_update_check_frame (c : CcxDefs) (env : rtw89_env_monitor_info)
    (para : rtw89_ccx_para_info) :
    (rtw89_phy_ifs_clm_th_update_check c env para).2.ccx_rpt_stamp = env.ccx_rpt_stamp ∧
    (rtw89_phy_ifs_clm_th_update_check c env para).2.ifs_clm_app = env.ifs_clm_app ∧
    ((rtw89_phy_ifs_clm_th_update_check c env para).1 = false →
      env.ifs_clm_app = para.ifs_clm_app) := by
  unfold rtw89_phy_ifs_clm_th_update_check
  simp only
  split_ifs <;> exact ⟨rfl, rfl, fun hf => by simpa using hf⟩

/-- A successful `rtw89_phy_ifs_clm_set` keeps the report stamp and leaves the
requested application stored. -/
theorem ifs_clm_set_stamp_app {H : Type} (ops : RegOps H) (c : CcxDefs) (g : CcxRegs)
    (d : MonDev H) (para : rtw89_ccx_para_info)
    (ht : para.mntr_time ≠ 0) (hlv : para.rac_lv < c.RTW89_RAC_MAX_NUM)
    (hfree : ¬ (d.env.ccx_ongoing = true ∧ para.rac_lv ≤ d.env.ccx_rac_lv)) :
    (rtw89_phy_ifs_clm_set ops c g d para).2.env.ccx_rpt_stamp = d.env.ccx_rpt_stamp ∧
    (rtw89_phy_ifs_clm_set ops c g d para).2.env.ifs_clm_app = para.ifs_clm_app := by
  unfold rtw89_phy_ifs_clm_set
  simp only [if_neg ht, racing_ctrl_ok c d.env para.rac_lv hlv hfree, ne_eq, not_true_eq_false,
    if_false]
  refine ⟨?_, ?_⟩
  · split_ifs <;>
      simp only [set_th_reg_env, (th_update_check_frame c _ para).1]
  · split_ifs with h1 h2 h2
    · rfl
    · have hf := (th_update_check_frame c _ para).2.2 (by simpa using h2)
      rw [(th_update_check_frame c _ para).2.1]
      exact hf
    · rfl
    · have hf := (th_update_check_frame c _ para).2.2 (by simpa using h2)
      rw [(th_update_check_frame c _ para).2.1]
      exact hf

/-- C39: assuming `RTW89_RAC_LV_1 < RTW89_RAC_MAX_NUM <= 256` and that
`RTW89_PHY_ENV_MON_CCX_FAIL | RTW89_PHY_ENV_MON_IFS_CLM` is non-zero as a `u8`:
with `ccx_manual_ctrl` clear, the window request made right after
`rtw89_phy_ccx_racing_release` returns 0 whatever the state before the release,
and `rtw89_phy_env_monitor_track` ends with `ccx_ongoing = true`,
`ccx_rac_lv = RTW89_RAC_LV_1`, `ifs_clm_app = RTW89_IFS_CLM_BACKGROUND` and
`ccx_rpt_stamp` incremented once (as a `u8`: exactly `+ 1` below 255); with
`ccx_manual_ctrl` set the call changes only `ccx_watchdog_result`. -/
theorem env_monitor_track_fresh_window {H : Type} (ops : RegOps H) (c : CcxDefs) (g : CcxRegs)
    (d : MonDev H)
    (hlv : c.RTW89_RAC_LV_1 < c.RTW89_RAC_MAX_NUM) (hmax : c.RTW89_RAC_MAX_NUM ≤ 256)
    (hchk : u8 (u8 c.RTW89_PHY_ENV_MON_CCX_FAIL ||| c.RTW89_PHY_ENV_MON_IFS_CLM) ≠ 0) :
    (d.env.ccx_manual_ctrl = false →
      (∀ d1 : MonDev H,
        (rtw89_phy_ifs_clm_set ops c g { d1 with env := rtw89_phy_ccx_racing_release c d1.env }
          ⟨c.RTW89_RAC_LV_1, 1900, 0, 0, c.RTW89_IFS_CLM_BACKGROUND⟩).1 = 0) ∧
      (rtw89_phy_env_monitor_track ops c g d).env.ccx_ongoing = true ∧
      (rtw89_phy_env_monitor_track ops c g d).env.ccx_rac_lv = c.RTW89_RAC_LV_1 ∧
      (rtw89_phy_env_monitor_track ops c g d).env.ifs_clm_app = c.RTW89_IFS_CLM_BACKGROUND ∧
      (rtw89_phy_env_monitor_track ops c g d).env.ccx_rpt_stamp = u8 (d.env.ccx_rpt_stamp + 1) ∧
      (d.env.ccx_rpt_stamp < 255 →
        (rtw89_phy_env_monitor_track ops c g d).env.ccx_rpt_stamp = d.env.ccx_rpt_stamp + 1)) ∧
    (d.env.ccx_manual_ctrl = true →
      rtw89_phy_env_monitor_track ops c g d =
        { d with env := { d.env with
            ccx_watchdog_result := u8 c.RTW89_PHY_ENV_MON_CCX_FAIL } }) := by
  have hu8 : u8 c.RTW89_RAC_LV_1 = c.RTW89_RAC_LV_1 := by
    unfold u8
    omega
  have hset : ∀ d2 : MonDev H, d2.env.ccx_ongoing = false →
      (rtw89_phy_ifs_clm_set ops c g d2
        ⟨c.RTW89_RAC_LV_1, 1900, 0, 0, c.RTW89_IFS_CLM_BACKGROUND⟩).1 = 0 ∧
      (rtw89_phy_ifs_clm_set ops c g d2
        ⟨c.RTW89_RAC_LV_1, 1900, 0, 0, c.RTW89_IFS_CLM_BACKGROUND⟩).2.env.ccx_rac_lv
          = c.RTW89_RAC_LV_1 ∧
      (rtw89_phy_ifs_clm_set ops c g d2
        ⟨c.RTW89_RAC_LV_1, 1900, 0, 0, c.RTW89_IFS_CLM_BACKGROUND⟩).2.env.ifs_clm_app
          = c.RTW89_IFS_CLM_BACKGROUND ∧
      (rtw89_phy_ccx_trigger ops g (rtw89_phy_ifs_clm_set ops c g d2
        ⟨c.RTW89_RAC_LV_1, 1900, 0, 0, c.RTW89_IFS_CLM_BACKGROUND⟩).2).env.ccx_rpt_stamp
          = u8 (d2.env.ccx_rpt_stamp + 1) := by
    intro d2 hoff
    obtain ⟨h1, h2, _⟩ := ifs_clm_set_ok ops c g d2
      ⟨c.RTW89_RAC_LV_1, 1900, 0, 0, c.RTW89_IFS_CLM_BACKGROUND⟩
      (by simp) hlv (by simp [hoff])
    obtain ⟨h3, h4⟩ := ifs_clm_set_stamp_app ops c g d2
      ⟨c.RTW89_RAC_LV_1, 1900, 0, 0, c.RTW89_IFS_CLM_BACKGROUND⟩
      (by simp) hlv (by simp [hoff])
    refine ⟨h1, by rw [h2, hu8], h4, ?_⟩
    rw [ccx_trigger_env]
    exact congrArg (fun s => u8 (s + 1)) h3
  have hgr := fun d0 : MonDev H => ifs_clm_get_result_stamp ops c g d0
  have hmain : d.env.ccx_manual_ctrl = false →
      (rtw89_phy_env_monitor_track ops c g d).env.ccx_ongoing = true ∧
      (rtw89_phy_env_monitor_track ops c g d).env.ccx_rac_lv = c.RTW89_RAC_LV_1 ∧
      (rtw89_phy_env_monitor_track ops c g d).env.ifs_clm_app = c.RTW89_IFS_CLM_BACKGROUND ∧
      (rtw89_phy_env_monitor_track ops c g d).env.ccx_rpt_stamp
        = u8 (d.env.ccx_rpt_stamp + 1) := by
    intro hman
    unfold rtw89_phy_env_monitor_track
    simp only [hman, Bool.false_eq_true, if_false]
    split_ifs with hg hsr hc hsr hc
    all_goals first
      | exact ⟨rfl, (hset _ rfl).2.1, (hset _ rfl).2.2.1,
          ((hset _ rfl).2.2.2).trans (congrArg (fun s => u8 (s + 1)) (hgr _))⟩
      | exact absurd (hset _ rfl).1 hsr
  refine ⟨fun hman => ⟨fun d1 => (hset _ rfl).1, (hmain hman).1, (hmain hman).2.1,
    (hmain hman).2.2.1, (hmain hman).2.2.2, fun hlt => ?_⟩,
    fun hman => env_monitor_track_manual ops c g d hman⟩
  rw [(hmain hman).2.2.2]
  unfold u8
  omega

/-- Witness for C39 on the busy sample device (window in flight at level 3,
manual control off, stamp 0): after the track the window is in flight at level
1 for the background application with stamp 1. -/
theorem env_monitor_track_fresh_window_witness :
    ccxStd.RTW89_RAC_LV_1 < ccxStd.RTW89_RAC_MAX_NUM ∧ ccxStd.RTW89_RAC_MAX_NUM ≤ 256 ∧
    u8 (u8 ccxStd.RTW89_PHY_ENV_MON_CCX_FAIL ||| ccxStd.RTW89_PHY_ENV_MON_IFS_CLM) ≠ 0 ∧
    monDevBusy.env.ccx_manual_ctrl = false ∧
    (rtw89_phy_env_monitor_track simOps ccxStd ccxRegsStd monDevBusy).env.ccx_ongoing = true ∧
    (rtw89_phy_env_monitor_track simOps ccxStd ccxRegsStd monDevBusy).env.ccx_rac_lv = 1 ∧
    (rtw89_phy_env_monitor_track simOps ccxStd ccxRegsStd monDevBusy).env.ifs_clm_app = 1 ∧
    (rtw89_phy_env_monitor_track simOps ccxStd ccxRegsStd monDevBusy).env.ccx_rpt_stamp = 1 :=
  have h := (env_monitor_track_fresh_window simOps ccxStd ccxRegsStd monDevBusy
    (by decide) (by decide) (by decide)).1 (by decide)
  ⟨by decide, by decide, by decide, by decide, h.2.1, h.2.2.1, h.2.2.2.1,
    h.2.2.2.2.2 (by decide)⟩

/-! ## The DIG offset over a run -/

theorem dig_tick_steps {H : Type} (ops : RegOps H) (e : TxpwrEnums) (g : DigDefs)
    (d : DigDev H) (hs : u8 d.total_sta_assoc ≠ 0) (dig0 dig1 : rtw89_dig_info)
    (hdig0 : dig0 = rtw89_phy_dig_igi_offset_by_env
      (rtw89_phy_dig_noisy_level_decision g d.env { d.dig with reset := true }))
    (hdig1 : dig1 = dig_igi_bounds
      (if u8 (u8 d.rssi_min >>> 1) > 0 then { dig0 with igi_rssi := u8 (u8 d.rssi_min >>> 1) }
       else dig0))
    (d0 : DigDev H) (hd0 : d0 = { d with dig := dig1 }) :
    rtw89_phy_dig ops e g d =
      dig_sdagc_step ops g
        (rtw89_phy_dig_dyn_pd_th ops e g (dig_gaincode_step ops g d0)
          (dig_gaincode_step ops g d0).dig.igi_fa_rssi
          (dig_gaincode_step ops g d0).dig.dyn_pd_th_en) := by
  subst hd0
  subst hdig1
  subst hdig0
  unfold rtw89_phy_dig
  simp only []
  rw [if_neg hs]
  rfl

theorem dig_gaincode_step_noisy {H : Type} (ops : RegOps H) (g : DigDefs) (d : DigDev H)
    (env : rtw89_env_monitor_info) (x : Int) :
    dig_gaincode_step ops g (dig_with_noisy d env x) =
      dig_with_noisy (dig_gaincode_step ops g d) env x := by
  unfold dig_gaincode_step
  by_cases h : d.dig.force_gaincode_idx_en = true
  · have h2 : (dig_with_noisy d env x).dig.force_gaincode_idx_en = true := h
    rw [if_pos h, if_pos h2]
    rfl
  · have h2 : ¬ (dig_with_noisy d env x).dig.force_gaincode_idx_en = true := h
    rw [if_neg h, if_neg h2]
    rfl

theorem dig_sdagc_step_noisy {H : Type} (ops : RegOps H) (g : DigDefs) (d : DigDev H)
    (env : rtw89_env_monitor_info) (x : Int) :
    dig_sdagc_step ops g (dig_with_noisy d env x) =
      dig_with_noisy (dig_sdagc_step ops g d) env x := by
  unfold dig_sdagc_step
  by_cases h : d.dig.dyn_pd_th_en = true ∧ d.dig.igi_fa_rssi > d.dig.dyn_pd_th_max
  · have h2 : (dig_with_noisy d env x).dig.dyn_pd_th_en = true ∧
        (dig_with_noisy d env x).dig.igi_fa_rssi > (dig_with_noisy d env x).dig.dyn_pd_th_max := h
    rw [if_pos h, if_pos h2]
    rfl
  · have h2 : ¬ ((dig_with_noisy d env x).dig.dyn_pd_th_en = true ∧
        (dig_with_noisy d env x).dig.igi_fa_rssi > (dig_with_noisy d env x).dig.dyn_pd_th_max) := h
    rw [if_neg h, if_neg h2]
    rfl

theorem dig_dyn_pd_th_noisy {H : Type} (ops : RegOps H) (e : TxpwrEnums) (g : DigDefs)
    (d : DigDev H) (rssi : Nat) (enable : Bool) (env : rtw89_env_monitor_info) (x : Int) :
    rtw89_phy_dig_dyn_pd_th ops e g (dig_with_noisy d env x) rssi enable =
      dig_with_noisy (rtw89_phy_dig_dyn_pd_th ops e g d rssi enable) env x := rfl

theorem dig_offset_absorbed (dig : rtw89_dig_info) (h0 : dig.fa_rssi_ofst < 2) :
    rtw89_phy_dig_igi_offset_by_env dig = { dig with fa_rssi_ofst := 0 } := by
  have hu : u8 dig.fa_rssi_ofst < 2 := by
    unfold u8
    omega
  unfold rtw89_phy_dig_igi_offset_by_env
  simp only [hu, if_true]
  rfl

theorem dig_tick_rest_noisy {H : Type} (ops : RegOps H) (e : TxpwrEnums) (g : DigDefs)
    (d : DigDev H) (env : rtw89_env_monitor_info) (x : Int) :
    dig_sdagc_step ops g
        (rtw89_phy_dig_dyn_pd_th ops e g (dig_gaincode_step ops g (dig_with_noisy d env x))
          (dig_gaincode_step ops g (dig_with_noisy d env x)).dig.igi_fa_rssi
          (dig_gaincode_step ops g (dig_with_noisy d env x)).dig.dyn_pd_th_en) =
      dig_with_noisy (dig_sdagc_step ops g
        (rtw89_phy_dig_dyn_pd_th ops e g (dig_gaincode_step ops g d)
          (dig_gaincode_step ops g d).dig.igi_fa_rssi
          (dig_gaincode_step ops g d).dig.dyn_pd_th_en)) env x := by
  rw [dig_gaincode_step_noisy, dig_dyn_pd_th_noisy, dig_sdagc_step_noisy]
  rfl

/-- One tick from a state with `fa_rssi_ofst < 2` on two devices that differ
only in the environment-monitor results and the noisy level ends in two
devices that differ only there. -/
theorem dig_tick_noisy {H : Type} (ops : RegOps H) (e : TxpwrEnums) (g : DigDefs)
    (d : DigDev H) (h0 : d.dig.fa_rssi_ofst < 2) (env : rtw89_env_monitor_info) (x : Int) :
    ∃ y, rtw89_phy_dig ops e g (dig_with_noisy d env x) =
      dig_with_noisy (rtw89_phy_dig ops e g d) env y := by
  by_cases hs : u8 d.total_sta_assoc = 0
  · by_cases hr : d.dig.reset = true
    · refine ⟨g.RTW89_DIG_NOISY_LEVEL0, ?_⟩
      rw [dig_zero_armed ops e g d hs hr, dig_zero_armed ops e g (dig_with_noisy d env x) hs hr]
      rfl
    · have hr2 : d.dig.reset = false := by simpa using hr
      refine ⟨x, ?_⟩
      rw [dig_zero_idle ops e g d hs hr2, dig_zero_idle ops e g (dig_with_noisy d env x) hs hr2]
  · have hs2 : u8 (dig_with_noisy d env x).total_sta_assoc ≠ 0 := hs
    refine ⟨(rtw89_phy_dig_noisy_level_decision g env
      { (dig_with_noisy d env x).dig with reset := true }).cur_noisy_lv, ?_⟩
    have hA := dig_offset_absorbed
      (rtw89_phy_dig_noisy_level_decision g d.env { d.dig with reset := true }) h0
    have hB := dig_offset_absorbed
      (rtw89_phy_dig_noisy_level_decision g env
        { (dig_with_noisy d env x).dig with reset := true }) h0
    have hX : ∀ dig1 : rtw89_dig_info,
        dig1 = dig_igi_bounds
          (if u8 (u8 d.rssi_min >>> 1) > 0 then
            { ({ rtw89_phy_dig_noisy_level_decision g d.env { d.dig with reset := true } with
                  fa_rssi_ofst := 0 } : rtw89_dig_info) with
              igi_rssi := u8 (u8 d.rssi_min >>> 1) }
           else { rtw89_phy_dig_noisy_level_decision g d.env { d.dig with reset := true } with
                  fa_rssi_ofst := 0 }) →
        rtw89_phy_dig ops e g (dig_with_noisy d env x) =
          dig_with_noisy (rtw89_phy_dig ops e g d) env
            (rtw89_phy_dig_noisy_level_decision g env
              { (dig_with_noisy d env x).dig with reset := true }).cur_noisy_lv := by
      intro dig1 hdig1
      rw [dig_tick_steps ops e g d hs _ dig1 hA.symm hdig1 { d with dig := dig1 } rfl,
        dig_tick_steps ops e g (dig_with_noisy d env x) hs2 _ _ hB.symm rfl
          (dig_with_noisy { d with dig := dig1 } env
            (rtw89_phy_dig_noisy_level_decision g env
              { (dig_with_noisy d env x).dig with reset := true }).cur_noisy_lv) ?_]
      · exact dig_tick_rest_noisy ops e g _ env _
      · subst hdig1
        by_cases hr : u8 (u8 d.rssi_min >>> 1) > 0
        · have hr2 : u8 (u8 (dig_with_noisy d env x).rssi_min >>> 1) > 0 := hr
          rw [if_pos hr2, if_pos hr]
          rfl
        · have hr2 : ¬ u8 (u8 (dig_with_noisy d env x).rssi_min >>> 1) > 0 := hr
          rw [if_neg hr2, if_neg hr]
          rfl
    exact hX _ rfl

/-- With a zero offset and no `u8` wrap, `dig_igi_bounds` leaves
`igi_fa_rssi = dyn_igi_min`. -/
theorem dig_igi_bounds_zero (dig : rtw89_dig_info) (hig : dig.igi_rssi ≤ 240)
    (hofs : dig.fa_rssi_ofst = 0) :
    (dig_igi_bounds dig).igi_fa_rssi = (dig_igi_bounds dig).dyn_igi_min := by
  simp only [dig_igi_bounds, IGI_RSSI_MIN, IGI_OFFSET_MAX, u8, hofs]
  generalize dig.igi_rssi = a at hig
  split_ifs <;> omega

/-- One tick keeps `fa_rssi_ofst < 2` and `igi_rssi <= 240`; with at least one
station it leaves `fa_rssi_ofst = 0` and `igi_fa_rssi = dyn_igi_min`. -/
theorem dig_tick_absorb {H : Type} (ops : RegOps H) (e : TxpwrEnums) (g : DigDefs)
    (d : DigDev H) (h0 : d.dig.fa_rssi_ofst < 2) :
    (rtw89_phy_dig ops e g d).dig.fa_rssi_ofst < 2 ∧
    (d.dig.igi_rssi ≤ 240 → (rtw89_phy_dig ops e g d).dig.igi_rssi ≤ 240) ∧
    (u8 d.total_sta_assoc ≠ 0 → (rtw89_phy_dig ops e g d).dig.fa_rssi_ofst = 0) ∧
    (u8 d.total_sta_assoc ≠ 0 → d.dig.igi_rssi ≤ 240 →
      (rtw89_phy_dig ops e g d).dig.igi_fa_rssi = (rtw89_phy_dig ops e g d).dig.dyn_igi_min) := by
  by_cases hs : u8 d.total_sta_assoc = 0
  · by_cases hr : d.dig.reset = true
    · rw [dig_zero_armed ops e g d hs hr]
      refine ⟨?_, ?_, fun h => absurd hs h, fun h => absurd hs h⟩
      · simpa [rtw89_phy_dig_reset, dig_dyn_pd_th_frame, rtw89_phy_dig_para_reset] using h0
      · intro hig
        simpa [rtw89_phy_dig_reset, dig_dyn_pd_th_frame, rtw89_phy_dig_para_reset] using hig
    · have hr2 : d.dig.reset = false := by simpa using hr
      rw [dig_zero_idle ops e g d hs hr2]
      exact ⟨h0, fun h => h, fun h => absurd hs h, fun h => absurd hs h⟩
  · obtain ⟨f1, f2, f3, -, f5⟩ := dig_tick_fields ops e g d hs _ rfl
    have hA := dig_offset_absorbed
      (rtw89_phy_dig_noisy_level_decision g d.env { d.dig with reset := true }) h0
    have hr127 : u8 (u8 d.rssi_min >>> 1) ≤ 127 := by
      rw [Nat.shiftRight_eq_div_pow]
      unfold u8
      omega
    have hofs : (rtw89_phy_dig ops e g d).dig.fa_rssi_ofst = 0 := by
      rw [f2, hA]
    have higi : d.dig.igi_rssi ≤ 240 → (rtw89_phy_dig ops e g d).dig.igi_rssi ≤ 240 := by
      intro hig
      rw [f1]
      split_ifs
      · omega
      · exact hig
    refine ⟨by rw [hofs]; exact Nat.zero_lt_two, higi, fun _ => hofs, fun _ hig => ?_⟩
    rw [f3, f5, hA]
    by_cases hr : u8 (u8 d.rssi_min >>> 1) > 0
    · rw [if_pos hr]
      exact dig_igi_bounds_zero _ (by show u8 (u8 d.rssi_min >>> 1) ≤ 240; omega) rfl
    · rw [if_neg hr]
      exact dig_igi_bounds_zero _ (by exact hig) rfl

theorem dig_ticks_append {H : Type} (ops : RegOps H) (e : TxpwrEnums) (g : DigDefs)
    (ins : List DigTick) (i : DigTick) (d : DigDev H) :
    dig_ticks ops e g d (ins ++ [i]) =
      rtw89_phy_dig ops e g
        { dig_ticks ops e g d ins with
          env := i.env, total_sta_assoc := i.total_sta_assoc, rssi_min := i.rssi_min } := by
  induction ins generalizing d with
  | nil => rfl
  | cons j rest ih =>
    show dig_ticks ops e g _ (rest ++ [i]) = _
    rw [ih]
    rfl

theorem dig_ticks_inv {H : Type} (ops : RegOps H) (e : TxpwrEnums) (g : DigDefs)
    (ins : List DigTick) (d : DigDev H) (h0 : d.dig.fa_rssi_ofst < 2) :
    (dig_ticks ops e g d ins).dig.fa_rssi_ofst < 2 ∧
    (d.dig.igi_rssi ≤ 240 → (dig_ticks ops e g d ins).dig.igi_rssi ≤ 240) := by
  induction ins generalizing d with
  | nil => exact ⟨h0, fun h => h⟩
  | cons j rest ih =>
    have hstep := dig_tick_absorb ops e g
      { d with env := j.env, total_sta_assoc := j.total_sta_assoc, rssi_min := j.rssi_min } h0
    have hrest := ih _ hstep.1
    exact ⟨hrest.1, fun hig => hrest.2 (hstep.2.1 hig)⟩

theorem dig_ticks_noisy {H : Type} (ops : RegOps H) (e : TxpwrEnums) (g : DigDefs)
    (ins1 ins2 : List DigTick) (d : DigDev H) (h0 : d.dig.fa_rssi_ofst < 2)
    (env : rtw89_env_monitor_info) (x : Int)
    (hin : ins1.map (fun i => (i.total_sta_assoc, i.rssi_min)) =
      ins2.map (fun i => (i.total_sta_assoc, i.rssi_min))) :
    ∃ env2 y, dig_ticks ops e g (dig_with_noisy d env x) ins1 =
      dig_with_noisy (dig_ticks ops e g d ins2) env2 y := by
  induction ins1 generalizing ins2 d env x with
  | nil =>
    cases ins2 with
    | nil => exact ⟨env, x, rfl⟩
    | cons j rest => simp at hin
  | cons i1 r1 ih =>
    cases ins2 with
    | nil => simp at hin
    | cons i2 r2 =>
      simp only [List.map_cons, List.cons.injEq, Prod.mk.injEq] at hin
      obtain ⟨⟨hsta, hrssi⟩, hrest⟩ := hin
      have hstep := dig_tick_absorb ops e g
        { d with env := i2.env, total_sta_assoc := i2.total_sta_assoc, rssi_min := i2.rssi_min }
        h0
      obtain ⟨y, hy⟩ := dig_tick_noisy ops e g
        { d with env := i2.env, total_sta_assoc := i2.total_sta_assoc, rssi_min := i2.rssi_min }
        h0 i1.env x
      obtain ⟨env2, z, hz⟩ := ih r2 _ hstep.1 i1.env y hrest
      refine ⟨env2, z, ?_⟩
      show dig_ticks ops e g (rtw89_phy_dig ops e g _) r1 =
        dig_with_noisy (dig_ticks ops e g _ r2) env2 z
      rw [← hz, ← hy, hsta, hrssi]
      rfl

/-- C37 (as stated) fails. On the zero-initialised device with the flag
`reset` set and no station, the tick leaves `igi_fa_rssi = 0` but
`dyn_igi_min = 0x20`. On a device with no station, `reset` clear and a stored
offset of 1 the tick returns early and the offset stays 1. On a device with one
station, `ch_info.rssi_min = 0` and a stored `igi_rssi = 250` the `u8` sum
`dyn_igi_min + 25` wraps to 9 and the clamp leaves `igi_fa_rssi = 9`, not
`dyn_igi_min = 240`. -/
theorem dig_offset_not_always_zero :
    digDevArmed.dig.fa_rssi_ofst < 2 ∧
    (rtw89_phy_dig simOps enumsStd digStd digDevArmed).dig.igi_fa_rssi = 0 ∧
    (rtw89_phy_dig simOps enumsStd digStd digDevArmed).dig.dyn_igi_min = 32 ∧
    digDevIdleOfs.dig.fa_rssi_ofst < 2 ∧
    (rtw89_phy_dig simOps enumsStd digStd digDevIdleOfs).dig.fa_rssi_ofst = 1 ∧
    digDevWrap.dig.fa_rssi_ofst < 2 ∧
    (rtw89_phy_dig simOps enumsStd digStd digDevWrap).dig.fa_rssi_ofst = 0 ∧
    (rtw89_phy_dig simOps enumsStd digStd digDevWrap).dig.dyn_igi_min = 240 ∧
    (rtw89_phy_dig simOps enumsStd digStd digDevWrap).dig.igi_fa_rssi = 9 := by
  decide

/-- C37 (amended): from any DIG state with `fa_rssi_ofst < 2` and
`igi_rssi <= 240`, over every run of `rtw89_phy_dig` ticks (any false-alarm
readings, station counts and RSSI values): `fa_rssi_ofst < 2` holds after every
tick; after every tick made with at least one station `fa_rssi_ofst = 0` and
`igi_fa_rssi = dyn_igi_min`; and two runs whose ticks have the same station
counts and RSSI values but any false-alarm readings end with the same register
accesses and the same DIG state apart from `cur_noisy_lv` (so with the same
gain code and packet-detect threshold). -/
theorem dig_offset_absorbing {H : Type} (ops : RegOps H) (e : TxpwrEnums) (g : DigDefs)
    (d : DigDev H) (h0 : d.dig.fa_rssi_ofst < 2) (hig : d.dig.igi_rssi ≤ 240) :
    (∀ ins : List DigTick, (dig_ticks ops e g d ins).dig.fa_rssi_ofst < 2) ∧
    (∀ (ins : List DigTick) (i : DigTick), u8 i.total_sta_assoc ≠ 0 →
      (dig_ticks ops e g d (ins ++ [i])).dig.fa_rssi_ofst = 0 ∧
      (dig_ticks ops e g d (ins ++ [i])).dig.igi_fa_rssi =
        (dig_ticks ops e g d (ins ++ [i])).dig.dyn_igi_min) ∧
    (∀ ins1 ins2 : List DigTick,
      ins1.map (fun i => (i.total_sta_assoc, i.rssi_min)) =
        ins2.map (fun i => (i.total_sta_assoc, i.rssi_min)) →
      (dig_ticks ops e g d ins1).hw = (dig_ticks ops e g d ins2).hw ∧
      { (dig_ticks ops e g d ins1).dig with cur_noisy_lv := 0 } =
        { (dig_ticks ops e g d ins2).dig with cur_noisy_lv := 0 }) := by
  refine ⟨fun ins => (dig_ticks_inv ops e g ins d h0).1, fun ins i hs => ?_,
    fun ins1 ins2 hin => ?_⟩
  · have hinv := dig_ticks_inv ops e g ins d h0
    have hstep := dig_tick_absorb ops e g
      { dig_ticks ops e g d ins with
        env := i.env, total_sta_assoc := i.total_sta_assoc, rssi_min := i.rssi_min } hinv.1
    rw [dig_ticks_append]
    exact ⟨hstep.2.2.1 hs, hstep.2.2.2 hs (hinv.2 hig)⟩
  · obtain ⟨env2, y, hy⟩ := dig_ticks_noisy ops e g ins1 ins2 d h0 d.env d.dig.cur_noisy_lv hin
    have hd : dig_with_noisy d d.env d.dig.cur_noisy_lv = d := rfl
    rw [hd] at hy
    rw [hy]
    exact ⟨rfl, rfl⟩

/-- Witness for C37 (amended) on the zero-initialised device: after a tick
without station and a tick with one station the offset is 0 and
`igi_fa_rssi = dyn_igi_min`, and the run ends with the same register accesses
whether the station tick sees no false alarm or 900 per mil, although the noisy
levels differ. -/
theorem dig_offset_absorbing_witness :
    digDevArmed.dig.fa_rssi_ofst < 2 ∧ digDevArmed.dig.igi_rssi ≤ 240 ∧
    (dig_ticks simOps enumsStd digStd digDevArmed
      ([digTickIdle] ++ [digTickQuiet])).dig.fa_rssi_ofst = 0 ∧
    (dig_ticks simOps enumsStd digStd digDevArmed
      ([digTickIdle] ++ [digTickQuiet])).dig.igi_fa_rssi =
      (dig_ticks simOps enumsStd digStd digDevArmed
        ([digTickIdle] ++ [digTickQuiet])).dig.dyn_igi_min ∧
    (dig_ticks simOps enumsStd digStd digDevArmed [digTickIdle, digTickQuiet]).hw =
      (dig_ticks simOps enumsStd digStd digDevArmed [digTickIdle, digTickNoisy]).hw ∧
    (dig_ticks simOps enumsStd digStd digDevArmed
      [digTickIdle, digTickQuiet]).dig.cur_noisy_lv ≠
      (dig_ticks simOps enumsStd digStd digDevArmed
        [digTickIdle, digTickNoisy]).dig.cur_noisy_lv :=
  have h := dig_offset_absorbing simOps enumsStd digStd digDevArmed (by decide) (by decide)
  ⟨by decide, by decide, (h.2.1 [digTickIdle] digTickQuiet (by decide)).1,
    (h.2.1 [digTickIdle] digTickQuiet (by decide)).2,
    (h.2.2 [digTickIdle, digTickQuiet] [digTickIdle, digTickNoisy] rfl).1, by decide⟩

/-! ## The CFO packet count -/

theorem s32_add_left (a b : Int) : s32 (s32 a + b) = s32 (a + b) := by
  unfold s32
  omega

theorem s32_of_range (a : Int) (hlo : -(2 ^ 31) ≤ a) (hhi : a < 2 ^ 31) : s32 a = a := by
  unfold s32
  omega

/-- The sum of a function over the first `n` slots after one slot below `n`
was replaced. -/
theorem sum_range_update (f : Nat → Nat) (n m v : Nat) (hm : m < n) :
    Finset.sum (Finset.range n) (Function.update f m v) + f m =
      Finset.sum (Finset.range n) f + v := by
  have hmem : m ∈ Finset.range n := Finset.mem_range.mpr hm
  have h1 : f m + Finset.sum ((Finset.range n).erase m) f = Finset.sum (Finset.range n) f :=
    Finset.add_sum_erase _ _ hmem
  have h2 : Function.update f m v m +
      Finset.sum ((Finset.range n).erase m) (Function.update f m v) =
      Finset.sum (Finset.range n) (Function.update f m v) :=
    Finset.add_sum_erase _ _ hmem
  have hrest : Finset.sum ((Finset.range n).erase m) (Function.update f m v) =
      Finset.sum ((Finset.range n).erase m) f := by
    apply Finset.sum_congr rfl
    intro x hx
    exact Function.update_noteq (Finset.ne_of_mem_erase hx) _ _
  rw [hrest, Function.update_same] at h2
  omega

/-- The single-station loop of `rtw89_phy_average_cfo_calc` over the first `k`
slots, when empty slots have a zero tail and the counts sum to less than
`2 ^ 31`. -/
theorem average_cfo_one_range (c : CfoDefs) (cfo : rtw89_cfo_tracking_info)
    (htail : ∀ i, cfo.cfo_cnt i = 0 → cfo.cfo_tail i = 0) (k : Nat)
    (hk : Finset.sum (Finset.range k) cfo.cfo_cnt < 2 ^ 31) :
    average_cfo_one { c with CFO_TRACK_MAX_USER := k } cfo =
      (s32 (Finset.sum (Finset.range k) cfo.cfo_tail),
       ((Finset.sum (Finset.range k) cfo.cfo_cnt : Nat) : Int),
       if Finset.sum (Finset.range k) cfo.cfo_cnt = 0 then cfo.cfo_avg_pre
       else Int.tdiv (s32 (Finset.sum (Finset.range k) cfo.cfo_tail))
         ((Finset.sum (Finset.range k) cfo.cfo_cnt : Nat) : Int)) := by
  induction k with
  | zero =>
    simp [average_cfo_one, s32]
  | succ k ih =>
    have hc : Finset.sum (Finset.range (k + 1)) cfo.cfo_cnt =
        Finset.sum (Finset.range k) cfo.cfo_cnt + cfo.cfo_cnt k := Finset.sum_range_succ _ _
    have ht : Finset.sum (Finset.range (k + 1)) cfo.cfo_tail =
        Finset.sum (Finset.range k) cfo.cfo_tail + cfo.cfo_tail k := Finset.sum_range_succ _ _
    rw [hc] at hk
    have hk2 : Finset.sum (Finset.range k) cfo.cfo_cnt < 2 ^ 31 := by omega
    have ih2 := ih hk2
    unfold average_cfo_one at ih2 ⊢
    simp only [List.range_succ, List.foldl_append, List.foldl_cons, List.foldl_nil]
    rw [ih2, hc, ht]
    generalize Finset.sum (Finset.range k) cfo.cfo_cnt = C at *
    generalize Finset.sum (Finset.range k) cfo.cfo_tail = T at *
    by_cases h0 : cfo.cfo_cnt k = 0
    · simp only [h0, if_true, htail k h0, add_zero]
    · have hcnt : s32 ((C : Int) + (cfo.cfo_cnt k : Int)) = ((C + cfo.cfo_cnt k : Nat) : Int) := by
        rw [s32_of_range _ (by omega) (by omega)]
        push_cast
        rfl
      have hne : C + cfo.cfo_cnt k ≠ 0 := by omega
      have hne2 : ((C + cfo.cfo_cnt k : Nat) : Int) ≠ 0 := by omega
      simp only [h0, if_false, hcnt, s32_add_left, hne, hne2]

theorem cfo_track_proceed {H : Type} (ops : RegOps H) (c : CfoDefs) (d : CfoDev H)
    (hsta : d.total_sta_assoc = 1) (hpc : d.cfo.packet_count ≠ d.cfo.packet_count_pre) :
    (rtw89_phy_cfo_track ops c d).cfo.cfo_cnt = (fun _ => 0) ∧
    (rtw89_phy_cfo_track ops c d).cfo.cfo_tail = (fun _ => 0) ∧
    (rtw89_phy_cfo_track ops c d).cfo.packet_count = 0 ∧
    (rtw89_phy_cfo_track ops c d).cfo.packet_count_pre = 0 := by
  simp [rtw89_phy_cfo_track, hsta, hpc, rtw89_phy_cfo_statistics_reset]

/-- The invariants of the reachable CFO states: `packet_count` is the sum of
the slot counts, `packet_count_pre` is 0, and an empty slot has a zero tail. -/
theorem cfo_reach_inv {H : Type} (ops : RegOps H) (c : CfoDefs) (d : CfoDev H)
    (hr : CfoReach ops c d) :
    d.cfo.packet_count = Finset.sum (Finset.range c.CFO_TRACK_MAX_USER) d.cfo.cfo_cnt ∧
    d.cfo.packet_count_pre = 0 ∧
    (∀ i, d.cfo.cfo_cnt i = 0 → d.cfo.cfo_tail i = 0) := by
  induction hr with
  | start d0 =>
    refine ⟨?_, rfl, fun _ _ => rfl⟩
    show 0 = Finset.sum (Finset.range c.CFO_TRACK_MAX_USER) (fun _ => 0)
    simp
  | parse d0 cfo_val mac_id cfo2 _ hin hcnt hpc hsome ih =>
    obtain ⟨i1, i2, i3⟩ := ih
    obtain ⟨-, p1, p2, p3, ppre, p4⟩ := cfo_parse_slots c d0.cfo cfo2 cfo_val mac_id hsome
    have hu16 : u16 (d0.cfo.cfo_cnt (u8 mac_id) + 1) = d0.cfo.cfo_cnt (u8 mac_id) + 1 := by
      unfold u16
      omega
    have hu32 : u32 (d0.cfo.packet_count + 1) = d0.cfo.packet_count + 1 := by
      unfold u32
      omega
    have hcnt2 : cfo2.cfo_cnt =
        Function.update d0.cfo.cfo_cnt (u8 mac_id) (d0.cfo.cfo_cnt (u8 mac_id) + 1) := by
      funext i
      by_cases him : i = u8 mac_id
      · subst him
        rw [p2, hu16, Function.update_same]
      · rw [(p4 i him).2, Function.update_noteq him]
    refine ⟨?_, ?_, fun i hi => ?_⟩
    · have hsum := sum_range_update d0.cfo.cfo_cnt c.CFO_TRACK_MAX_USER (u8 mac_id)
        (d0.cfo.cfo_cnt (u8 mac_id) + 1) hin
      show cfo2.packet_count = Finset.sum (Finset.range c.CFO_TRACK_MAX_USER) cfo2.cfo_cnt
      rw [p3, hu32, hcnt2]
      omega
    · show cfo2.packet_count_pre = 0
      rw [ppre]
      exact i2
    · by_cases him : i = u8 mac_id
      · subst him
        have : cfo2.cfo_cnt (u8 mac_id) = 0 := hi
        rw [p2, hu16] at this
        omega
      · have hi2 : cfo2.cfo_cnt i = 0 := hi
        rw [(p4 i him).2] at hi2
        show cfo2.cfo_tail i = 0
        rw [(p4 i him).1]
        exact i3 i hi2
  | track d0 _ ih =>
    obtain ⟨i1, i2, i3⟩ := ih
    by_cases hsta : d0.total_sta_assoc = 1
    · by_cases hpc : d0.cfo.packet_count = d0.cfo.packet_count_pre
      · rw [cfo_track_idle ops c d0 hsta hpc]
        exact ⟨i1, i2, i3⟩
      · obtain ⟨t1, t2, t3, t4⟩ := cfo_track_proceed ops c d0 hsta hpc
        rw [t1, t2, t3, t4]
        refine ⟨?_, rfl, fun _ _ => rfl⟩
        simp
    · rw [cfo_track_not_one ops c d0 hsta, (cfo_reset_frame ops c d0).2]
      exact ⟨i1, i2, i3⟩
  | stations d0 n _ ih => exact ih

/-- C38: in every CFO state reachable from `rtw89_phy_cfo_statistics_reset` by
calls of `rtw89_phy_cfo_parse` (in-range `mac_id`, no overflow of
`cfo_cnt[macid]` or `packet_count`) and of `rtw89_phy_cfo_track`,
`packet_count` is the sum of `cfo_cnt[i]` over the `CFO_TRACK_MAX_USER` slots.
Whenever `rtw89_phy_cfo_track` proceeds to averaging (one station,
`packet_count != packet_count_pre`) some slot has a non-zero count, the sum of
the counts is non-zero, and, the two sums fitting the `s32` accumulators, the
single-station average left in `cfo_avg_pre` is the truncated quotient of the
sum of `cfo_tail` by the sum of `cfo_cnt`. -/
theorem cfo_packet_count_sum {H : Type} (ops : RegOps H) (c : CfoDefs) (d : CfoDev H)
    (hr : CfoReach ops c d) :
    d.cfo.packet_count = Finset.sum (Finset.range c.CFO_TRACK_MAX_USER) d.cfo.cfo_cnt ∧
    (d.total_sta_assoc = 1 → d.cfo.packet_count ≠ d.cfo.packet_count_pre →
      (∃ i, i < c.CFO_TRACK_MAX_USER ∧ d.cfo.cfo_cnt i ≠ 0) ∧
      Finset.sum (Finset.range c.CFO_TRACK_MAX_USER) d.cfo.cfo_cnt ≠ 0 ∧
      (Finset.sum (Finset.range c.CFO_TRACK_MAX_USER) d.cfo.cfo_cnt < 2 ^ 31 →
        -(2 ^ 31) ≤ Finset.sum (Finset.range c.CFO_TRACK_MAX_USER) d.cfo.cfo_tail →
        Finset.sum (Finset.range c.CFO_TRACK_MAX_USER) d.cfo.cfo_tail < 2 ^ 31 →
        (rtw89_phy_average_cfo_calc c
          { d with cfo := { d.cfo with packet_count_pre := d.cfo.packet_count } }).cfo.cfo_avg_pre
          = Int.tdiv (Finset.sum (Finset.range c.CFO_TRACK_MAX_USER) d.cfo.cfo_tail)
              ((Finset.sum (Finset.range c.CFO_TRACK_MAX_USER) d.cfo.cfo_cnt : Nat) : Int))) := by
  obtain ⟨i1, i2, i3⟩ := cfo_reach_inv ops c d hr
  refine ⟨i1, fun hsta hpc => ?_⟩
  have hne : Finset.sum (Finset.range c.CFO_TRACK_MAX_USER) d.cfo.cfo_cnt ≠ 0 := by
    rw [← i1]
    rw [i2] at hpc
    exact hpc
  refine ⟨?_, hne, fun hc hlo hhi => ?_⟩
  · by_contra hall
    apply hne
    apply Finset.sum_eq_zero
    intro i hi
    by_contra hi0
    exact hall ⟨i, Finset.mem_range.mp hi, hi0⟩
  · have hfold := average_cfo_one_range c
      { d.cfo with packet_count_pre := d.cfo.packet_count } i3 c.CFO_TRACK_MAX_USER hc
    have hfold2 : average_cfo_one c { d.cfo with packet_count_pre := d.cfo.packet_count } = _ :=
      hfold
    unfold rtw89_phy_average_cfo_calc
    rw [if_pos (by exact hsta)]
    show (average_cfo_one c { d.cfo with packet_count_pre := d.cfo.packet_count }).2.2 = _
    rw [hfold2]
    show (if Finset.sum (Finset.range c.CFO_TRACK_MAX_USER) d.cfo.cfo_cnt = 0 then _ else _) = _
    rw [if_neg hne, s32_of_range _ hlo hhi]

/-- Witness for C38: the sample device with two packets of station 0 parsed
after the reset (values 100 and 51) is reachable, its `packet_count` is 2, and
the average left by the averaging step is `151 / 2 = 75`. -/
theorem cfo_packet_count_sum_witness :
    CfoReach simOps cfoStd cfoDevParsed ∧ cfoDevParsed.cfo.packet_count = 2 ∧
    cfoDevParsed.cfo.packet_count =
      Finset.sum (Finset.range cfoStd.CFO_TRACK_MAX_USER) cfoDevParsed.cfo.cfo_cnt ∧
    Finset.sum (Finset.range cfoStd.CFO_TRACK_MAX_USER) cfoDevParsed.cfo.cfo_cnt ≠ 0 ∧
    (rtw89_phy_average_cfo_calc cfoStd
      { cfoDevParsed with cfo := { cfoDevParsed.cfo with
          packet_count_pre := cfoDevParsed.cfo.packet_count } }).cfo.cfo_avg_pre =
      Int.tdiv (Finset.sum (Finset.range cfoStd.CFO_TRACK_MAX_USER) cfoDevParsed.cfo.cfo_tail)
        ((Finset.sum (Finset.range cfoStd.CFO_TRACK_MAX_USER) cfoDevParsed.cfo.cfo_cnt : Nat) :
          Int) ∧
    (rtw89_phy_average_cfo_calc cfoStd
      { cfoDevParsed with cfo := { cfoDevParsed.cfo with
          packet_count_pre := cfoDevParsed.cfo.packet_count } }).cfo.cfo_avg_pre = 75 := by
  have h1 : rtw89_phy_cfo_parse cfoStd (rtw89_phy_cfo_statistics_reset cfoDevIdle.cfo) 100 0 =
      some cfoParsedOnce := rfl
  have h2 : rtw89_phy_cfo_parse cfoStd cfoParsedOnce 51 0 = some cfoDevParsed.cfo := rfl
  have r1 : CfoReach simOps cfoStd { cfoDevIdle with cfo := cfoParsedOnce } :=
    CfoReach.parse _ 100 0 cfoParsedOnce (CfoReach.start cfoDevIdle)
      (by decide) (by decide) (by decide) h1
  have hreach : CfoReach simOps cfoStd cfoDevParsed :=
    CfoReach.parse { cfoDevIdle with cfo := cfoParsedOnce } 51 0 cfoDevParsed.cfo r1
      (by decide) (by decide) (by decide) h2
  have h := cfo_packet_count_sum simOps cfoStd cfoDevParsed hreach
  exact ⟨hreach, by decide, h.1, (h.2 (by decide) (by decide)).2.1,
    (h.2 (by decide) (by decide)).2.2 (by decide) (by decide) (by decide), by decide⟩

/-! ## The report ratio: range of the result -/


/-- C11 (as stated) fails: with the period 59375 that the code configures for
its 1900 ms window, report 65535 and score 65535 the rounded ratio is 72334;
the code keeps its low 16 bits, 6798, which is below the score, and returns
6798, while the claimed value is `min(72334, 65534) = 65534`.  With a period of
250, report 16384 and score 1000 (a product that fits an `int`) the ratio is
65536, the code returns 0 and the claimed value is 999. -/
theorem ccx_get_report_wide_ratio :
    (rtw89_phy_ccx_ms_to_period_unit ccxStd 1900).1 = 59375 ∧
    (65535 * 65535 + 59375 / 2) / 59375 = 72334 ∧
    min ((65535 * 65535 + 59375 / 2) / 59375) (65535 - 1) = 65534 ∧
    rtw89_phy_ccx_get_report { envZero with ccx_period := 59375 } 65535 65535 = 6798 ∧
    (16384 * 1000 + 250 / 2) / 250 = 65536 ∧
    min ((16384 * 1000 + 250 / 2) / 250) (1000 - 1) = 999 ∧
    rtw89_phy_ccx_get_report { envZero with ccx_period := 250 } 16384 1000 = 0 := by
  decide

/-- C11 (amended): for every 16-bit report, every score from 1 to 65535 and
every 16-bit period, `rtw89_phy_ccx_get_report` returns 0 when the period is 0;
otherwise it returns `score - 1` when the low 16 bits of the rounded ratio
`(report*score + period/2) / period` reach the score and those 16 bits when
they do not, which is `min(ratio, score - 1)` whenever the ratio fits in 16
bits; the ratio fits whenever `score <= period`. -/
theorem ccx_get_report_saturates (env : rtw89_env_monitor_info) (report score : Nat)
    (hr : report < 2 ^ 16) (hs1 : 1 ≤ score) (hs : score < 2 ^ 16)
    (hp : env.ccx_period < 2 ^ 16) :
    (env.ccx_period = 0 → rtw89_phy_ccx_get_report env report score = 0) ∧
    (env.ccx_period ≠ 0 →
      rtw89_phy_ccx_get_report env report score =
        (if (report * score + env.ccx_period / 2) / env.ccx_period % 2 ^ 16 ≥ score
         then score - 1
         else (report * score + env.ccx_period / 2) / env.ccx_period % 2 ^ 16)) ∧
    (env.ccx_period ≠ 0 →
      (report * score + env.ccx_period / 2) / env.ccx_period < 2 ^ 16 →
      rtw89_phy_ccx_get_report env report score =
        min ((report * score + env.ccx_period / 2) / env.ccx_period) (score - 1)) ∧
    (env.ccx_period ≠ 0 → score ≤ env.ccx_period →
      (report * score + env.ccx_period / 2) / env.ccx_period < 2 ^ 16) := by
  have hur : u16 report = report := by unfold u16; omega
  have hus : u16 score = score := by unfold u16; omega
  have hsm : Int.toNat (((score : Int) - 1) % 2 ^ 16) = score - 1 := by omega
  have hP : report * score ≤ 65535 * 65535 := Nat.mul_le_mul (by omega) (by omega)
  have hshr : env.ccx_period >>> 1 = env.ccx_period / 2 := by
    rw [Nat.shiftRight_eq_div_pow]
  have hnum : u32 (report * score + env.ccx_period / 2) = report * score + env.ccx_period / 2 := by
    unfold u32
    omega
  have hgen : env.ccx_period ≠ 0 →
      rtw89_phy_ccx_get_report env report score =
        (if (report * score + env.ccx_period / 2) / env.ccx_period % 2 ^ 16 ≥ score
         then score - 1
         else (report * score + env.ccx_period / 2) / env.ccx_period % 2 ^ 16) := by
    intro hne
    unfold rtw89_phy_ccx_get_report
    simp only [hur, hus, hshr, hnum, hsm, ne_eq, hne, not_false_eq_true, if_true]
    rfl
  refine ⟨?_, hgen, ?_, ?_⟩
  · intro h0
    unfold rtw89_phy_ccx_get_report
    simp only [hur, hus, h0, ne_eq, not_true_eq_false, if_false]
    have : ¬ 0 ≥ score := by omega
    rw [if_neg this]
  · intro hne hq
    rw [hgen hne, Nat.mod_eq_of_lt hq]
    generalize (report * score + env.ccx_period / 2) / env.ccx_period = q
    split_ifs <;> omega
  · intro hne hsp
    rw [Nat.div_lt_iff_lt_mul (Nat.pos_of_ne_zero hne)]
    have h1 : report * score ≤ 65535 * env.ccx_period :=
      Nat.mul_le_mul (by omega) hsp
    omega

/-- Witness for C11 (amended): the two examples of the claim, and the scores
100 and 1000 with the period 59375. -/
theorem ccx_get_report_saturates_witness :
    rtw89_phy_ccx_get_report { envZero with ccx_period := 1000 } 500 100 =
      min ((500 * 100 + 1000 / 2) / 1000) (100 - 1) ∧
    (500 * 100 + 1000 / 2) / 1000 = 50 ∧
    rtw89_phy_ccx_get_report { envZero with ccx_period := 0 } 0 1000 = 0 ∧
    rtw89_phy_ccx_get_report { envZero with ccx_period := 59375 } 65535 1000 =
      min ((65535 * 1000 + 59375 / 2) / 59375) (1000 - 1) ∧
    min ((65535 * 1000 + 59375 / 2) / 59375) (1000 - 1) = 999 :=
  ⟨(ccx_get_report_saturates { envZero with ccx_period := 1000 } 500 100
      (by decide) (by decide) (by decide) (by decide)).2.2.1 (by decide) (by decide),
   by decide,
   (ccx_get_report_saturates { envZero with ccx_period := 0 } 0 1000
      (by decide) (by decide) (by decide) (by decide)).1 rfl,
   (ccx_get_report_saturates { envZero with ccx_period := 59375 } 65535 1000
      (by decide) (by decide) (by decide) (by decide)).2.2.1 (by decide) (by decide),
   by decide⟩

/-! ## The multi-station average -/


end Rtw89
